import Mathlib

/-! # OpenChange EMSMDB provider: FastTransfer and ICS routines

A shallow embedding of `mapiproxy/servers/default/emsmdb/oxcfxics.c`.

Conventions of the embedding:

* a byte buffer is a `List Nat`; `ndr->offset` is the length of the bytes pushed so far
  (the push contexts are created with `LIBNDR_FLAG_NOALIGN`, so nothing is padded);
* a C pointer that may be `NULL` is an `Option`;
* unsigned machine integers are `Nat`; where the source stores into a `uint32_t`, `uint64_t`
  or `uint16_t` local the value is reduced modulo the width explicitly;
* a function that can run into undefined behaviour (reading past the end of an array,
  dividing by zero, `abort()`) returns `none` there.
-/

namespace OpenChange

/-! ## Status codes -/

/-- The `enum MAPISTATUS` values that the handlers of `oxcfxics.c` write into a reply. -/
inductive MAPISTATUS where
  | MAPI_E_SUCCESS
  | MAPI_E_NOT_INITIALIZED
  | MAPI_E_INVALID_PARAMETER
  | MAPI_E_INVALID_OBJECT
  | MAPI_E_NOT_FOUND
  | MAPI_E_NO_SUPPORT
  | MAPI_E_NO_ACCESS
  | MAPI_E_NOT_ENOUGH_MEMORY
  | MAPI_E_CALL_FAILED
deriving DecidableEq, Repr

/-- The `enum TransferStatus` values written by `FastTransferSourceGetBuffer`. -/
inductive TransferStatus where
  | TransferStatus_Error
  | TransferStatus_Partial
  | TransferStatus_NoRoom
  | TransferStatus_Done
deriving DecidableEq, Repr

open MAPISTATUS TransferStatus

/-! ## Streams -/

/-- A `DATA_BLOB`: the `data` pointer (`none` is `NULL`) together with the bytes it points to;
`length` is the number of those bytes. -/
structure DATA_BLOB where
  data : Option (List Nat)
deriving DecidableEq, Repr

/-- The bytes held by a blob (none for a `NULL` blob). -/
def DATA_BLOB.bytes (b : DATA_BLOB) : List Nat :=
  match b.data with
  | none => []
  | some d => d

/-- The field `length` of a `DATA_BLOB`. -/
def DATA_BLOB.length (b : DATA_BLOB) : Nat := b.bytes.length

/-- The `struct emsmdbp_stream`: a buffer and a read/write position. -/
structure emsmdbp_stream where
  position : Nat
  buffer : DATA_BLOB
deriving DecidableEq, Repr

/-- Modelled from the spec: `emsmdbp_stream_read_buffer` is defined outside the files at hand.
The chunked reader "returns the slice `[pos, end)`" and "updates pos": the blob returned is the
slice of at most `length` bytes that starts at the current position (it stops at the end of the
stream), and the position advances by the number of bytes returned. -/
def emsmdbp_stream_read_buffer (read_stream : emsmdbp_stream) (length : Nat) :
    List Nat × emsmdbp_stream :=
  let buffer := (read_stream.buffer.bytes.drop read_stream.position).take length
  (buffer, { read_stream with position := read_stream.position + buffer.length })

/-- Modelled from the spec: `emsmdbp_stream_write_buffer` is defined outside the files at hand.
"`Continue(bytes)` appends": the new bytes are added at the end of the buffer and the position
advances by their number. -/
def emsmdbp_stream_write_buffer (stream : emsmdbp_stream) (new_buffer : List Nat) :
    emsmdbp_stream :=
  { position := stream.position + new_buffer.length,
    buffer := { data := some (stream.buffer.bytes ++ new_buffer) } }

/-! ## Cutmark scans of `EcDoRpc_RopFastTransferSourceGetBuffer` -/

/-- The loop `while (cutmarks[mark_ptr] < stream.position) mark_ptr++;` (lines 1294-1296 and
1336-1338).  The first argument is the part of the cutmark array that starts at `mark_ptr`;
running off the end of the array is undefined and gives `none`. -/
def skip_stale_cutmarks : List Nat → Nat → Nat → Option Nat
  | [], _, _ => none
  | c :: rest, position, mark_ptr =>
    if c < position then skip_stale_cutmarks rest position (mark_ptr + 1)
    else some mark_ptr

/-- The loop
`while (cutmarks[mark_ptr] != 0xffffffff && cutmarks[mark_ptr] < max_cutmark)
   { buffer_size = cutmarks[mark_ptr] - stream.position; mark_ptr++; }`
(lines 1299-1302 and 1341-1344).  `buffer_size` is a `uint32_t`, so the difference is taken
modulo `2^32`.  The result is the final `(buffer_size, mark_ptr)`. -/
def scan_cutmarks_window : List Nat → Nat → Nat → Nat → Nat → Option (Nat × Nat)
  | [], _, _, _, _ => none
  | c :: rest, position, max_cutmark, buffer_size, mark_ptr =>
    if c ≠ 0xffffffff ∧ c < max_cutmark then
      scan_cutmarks_window rest position max_cutmark
        ((c + 2 ^ 32 - position % 2 ^ 32) % 2 ^ 32) (mark_ptr + 1)
    else some (buffer_size, mark_ptr)

/-- The block guarded by `if (stream.position + buffer_size < stream.buffer.length)`
(lines 1291-1305 for an ftcontext, 1333-1347 for a synccontext; the two are the same text).
`max_cutmark` is a `uint32_t`.  The result is the final `(buffer_size, next_cutmark_ptr)`. -/
def cutmark_scan (cutmarks : List Nat) (position length buffer_size next_cutmark_ptr : Nat) :
    Option (Nat × Nat) :=
  if position + buffer_size < length then
    let max_cutmark := (position + buffer_size) % 2 ^ 32
    match skip_stale_cutmarks (cutmarks.drop next_cutmark_ptr) position next_cutmark_ptr with
    | none => none
    | some mark_ptr =>
      scan_cutmarks_window (cutmarks.drop mark_ptr) position max_cutmark buffer_size mark_ptr
  else some (buffer_size, next_cutmark_ptr)

/-! ## Identifiers and identifier sets -/

/-- A `struct GUID`, held as the 16 octets of its little-endian wire image (on a little-endian
host this is also its image in memory, which is what the cast of line 259 reads). -/
structure GUID where
  octets : Fin 16 → Fin 256
deriving DecidableEq

/-- One node of the linked list behind a `struct idset *`: the fields that `oxcfxics.c` reads or
writes (`idbased`, `repl.id`, `repl.guid`, `single`) and the ranges (`range_count` is their
number). -/
structure idset_node where
  idbased : Bool
  repl_id : Nat
  repl_guid : GUID
  single : Bool
  ranges : List (Nat × Nat)
deriving DecidableEq

/-- A non-`NULL` `struct idset *`: the node pointed to, followed by the nodes reached through
`next`. -/
structure idset where
  head : idset_node
  next : List idset_node
deriving DecidableEq

/-- The field `range_count` of the node pointed to. -/
def idset.range_count (s : idset) : Nat := s.head.ranges.length

/-- The assignment `idset->single = true`. -/
def idset.set_single (s : idset) : idset :=
  { s with head := { s.head with single := true } }

/-! ## Property tags used as state properties -/

/-- Modelled from the spec: the pseudo-property `IdsetGiven`; the tag value is that of the
protocol, the header that defines it is not among the files at hand. -/
def PidTagIdsetGiven : Nat := 0x40170003
/-- Modelled from the spec: the pseudo-property `CnsetSeen`, with its protocol value. -/
def PidTagCnsetSeen : Nat := 0x67960102
/-- Modelled from the spec: the pseudo-property `CnsetSeenFAI`, with its protocol value. -/
def PidTagCnsetSeenFAI : Nat := 0x67da0102
/-- Modelled from the spec: the pseudo-property `CnsetRead`, with its protocol value. -/
def PidTagCnsetRead : Nat := 0x67d20102

/-! ## Context objects -/

/-- The option bits `synccontext->request.*` filled by `SyncConfigure`. -/
structure synccontext_request where
  contents_mode : Bool
  unicode : Bool
  use_cpid : Bool
  recover_mode : Bool
  force_unicode : Bool
  partial_item : Bool
  no_deletions : Bool
  no_soft_deletions : Bool
  ignore_no_longer_in_scope : Bool
  read_state : Bool
  fai : Bool
  normal : Bool
  no_foreign_identifiers : Bool
  best_body : Bool
  ignored_specified_on_fai : Bool
  progress : Bool
  request_eid : Bool
  request_message_size : Bool
  request_cn : Bool
  order_by_delivery_time : Bool
deriving DecidableEq

/-- The `struct emsmdbp_object_synccontext`. -/
structure emsmdbp_object_synccontext where
  request : synccontext_request
  is_collector : Bool
  properties : List Nat
  fai_properties : List Nat
  idset_given : Option idset
  cnset_seen : Option idset
  cnset_seen_fai : Option idset
  cnset_read : Option idset
  state_property : Nat
  state_stream : emsmdbp_stream
  stream : emsmdbp_stream
  cutmarks : List Nat
  next_cutmark_ptr : Nat
  steps : Nat
  total_steps : Nat
deriving DecidableEq

/-- The `struct emsmdbp_object_ftcontext`. -/
structure emsmdbp_object_ftcontext where
  stream : emsmdbp_stream
  cutmarks : List Nat
  next_cutmark_ptr : Nat
  steps : Nat
  total_steps : Nat
deriving DecidableEq

/-- A `struct emsmdbp_object`, by its `type`: the two context objects carry their data, any
other type (mailbox, folder, message, table, ...) is kept as its type code only. -/
inductive emsmdbp_object where
  | EMSMDBP_OBJECT_FTCONTEXT (ftcontext : emsmdbp_object_ftcontext)
  | EMSMDBP_OBJECT_SYNCCONTEXT (synccontext : emsmdbp_object_synccontext)
  | EMSMDBP_OBJECT_OTHER (type : Nat)
deriving DecidableEq

open emsmdbp_object

/-- What the first two steps of a handler find for `handles[mapi_req->handle_idx]`:
`none` when `mapi_handles_search` fails, `some none` when the handle carries no private data,
`some (some object)` otherwise. -/
abbrev handle_lookup := Option (Option emsmdbp_object)

/-- The fields of an `EcDoRpc_MAPI_REPL` that a handler fills: the error code and, when the
handler reaches the point where it writes it, the operation-specific part `u`. -/
structure EcDoRpc_MAPI_REPL (α : Type) where
  error_code : MAPISTATUS
  u : Option α
deriving DecidableEq

/-! ## `EcDoRpc_RopFastTransferSourceGetBuffer` (0x4e) -/

/-- The request: `BufferSize` and `MaximumBufferSize.MaximumBufferSize`. -/
structure FastTransferSourceGetBuffer_req where
  BufferSize : Nat
  MaximumBufferSize : Nat

/-- The response.  The widths of its fields are declared outside the files at hand; the
fields are unbounded here. -/
structure FastTransferSourceGetBuffer_repl where
  TransferStatus : TransferStatus
  InProgressCount : Nat
  TotalStepCount : Nat
  Reserved : Nat
  TransferBufferSize : Nat
  TransferBuffer : List Nat
deriving DecidableEq

/-- Lines 1276-1279: the buffer size that the read works with. -/
def effective_buffer_size (request : FastTransferSourceGetBuffer_req) : Nat :=
  if request.BufferSize = 0xBABE then request.MaximumBufferSize else request.BufferSize

/-- The `case EMSMDBP_OBJECT_FTCONTEXT` of the read (lines 1283-1317), followed by lines
1366-1367.  The division at line 1286 is undefined for a zero buffer size. -/
def ftcontext_get_buffer (ftcontext : emsmdbp_object_ftcontext) (buffer_size : Nat) :
    Option (FastTransferSourceGetBuffer_repl × emsmdbp_object_ftcontext) :=
  if ftcontext.stream.position = 0 ∧ buffer_size = 0 then none
  else
    let ft1 : emsmdbp_object_ftcontext :=
      if ftcontext.stream.position = 0 then
        { ftcontext with
          steps := 0
          total_steps := ftcontext.stream.buffer.length / buffer_size + 1 }
      else ftcontext
    let ft2 : emsmdbp_object_ftcontext := { ft1 with steps := ft1.steps + 1 }
    match cutmark_scan ft2.cutmarks ft2.stream.position ft2.stream.buffer.length buffer_size
        ft2.next_cutmark_ptr with
    | none => none
    | some (buffer_size, mark_ptr) =>
      let read := emsmdbp_stream_read_buffer ft2.stream buffer_size
      let ft3 : emsmdbp_object_ftcontext :=
        { ft2 with next_cutmark_ptr := mark_ptr, stream := read.2 }
      let done : Bool := ft3.stream.position = ft3.stream.buffer.length
      some ({ TransferBuffer := read.1
              TotalStepCount := ft3.total_steps
              TransferStatus := if done then TransferStatus_Done else TransferStatus_Partial
              InProgressCount := if done then ft3.total_steps else ft3.steps
              TransferBufferSize := read.1.length
              Reserved := 0 }, ft3)

/-- The `case EMSMDBP_OBJECT_SYNCCONTEXT` of the read (lines 1318-1359), followed by lines
1366-1367.  The two functions that materialize the stream on the first read,
`oxcfxics_prepare_synccontext_with_messageChange` and
`oxcfxics_prepare_synccontext_with_folderChange`, walk the store backend; they are taken as
parameters that map the context before materialization to the context after it. -/
def synccontext_get_buffer
    (prepare_with_messageChange prepare_with_folderChange :
      emsmdbp_object_synccontext → emsmdbp_object_synccontext)
    (synccontext : emsmdbp_object_synccontext) (buffer_size : Nat) :
    Option (FastTransferSourceGetBuffer_repl × emsmdbp_object_synccontext) :=
  if synccontext.stream.buffer.data = none ∧ buffer_size = 0 then none
  else
    let sc1 : emsmdbp_object_synccontext :=
      if synccontext.stream.buffer.data = none then
        let prepared :=
          if synccontext.request.contents_mode then prepare_with_messageChange synccontext
          else prepare_with_folderChange synccontext
        { prepared with
          steps := 0
          total_steps := prepared.stream.buffer.length / buffer_size + 1 }
      else synccontext
    let sc2 : emsmdbp_object_synccontext := { sc1 with steps := sc1.steps + 1 }
    match cutmark_scan sc2.cutmarks sc2.stream.position sc2.stream.buffer.length buffer_size
        sc2.next_cutmark_ptr with
    | none => none
    | some (buffer_size, mark_ptr) =>
      let read := emsmdbp_stream_read_buffer sc2.stream buffer_size
      let sc3 : emsmdbp_object_synccontext :=
        { sc2 with next_cutmark_ptr := mark_ptr, stream := read.2 }
      let done : Bool := sc3.stream.position = sc3.stream.buffer.length
      some ({ TransferBuffer := read.1
              TotalStepCount := sc3.total_steps
              TransferStatus := if done then TransferStatus_Done else TransferStatus_Partial
              InProgressCount := if done then sc3.total_steps else sc3.steps
              TransferBufferSize := read.1.length
              Reserved := 0 }, sc3)

/-- The handler `EcDoRpc_RopFastTransferSourceGetBuffer`.  The result is the value returned to
the RPC layer, the reply, and the object behind the handle after the call. -/
def EcDoRpc_RopFastTransferSourceGetBuffer
    (prepare_with_messageChange prepare_with_folderChange :
      emsmdbp_object_synccontext → emsmdbp_object_synccontext)
    (handle : handle_lookup) (request : FastTransferSourceGetBuffer_req) :
    Option (MAPISTATUS × EcDoRpc_MAPI_REPL FastTransferSourceGetBuffer_repl × handle_lookup) :=
  match handle with
  | none => some (MAPI_E_SUCCESS, { error_code := MAPI_E_INVALID_OBJECT, u := none }, handle)
  | some none =>
    some (MAPI_E_SUCCESS, { error_code := MAPI_E_INVALID_OBJECT, u := none }, handle)
  | some (some object) =>
    let buffer_size := effective_buffer_size request
    match object with
    | EMSMDBP_OBJECT_FTCONTEXT ftcontext =>
      match ftcontext_get_buffer ftcontext buffer_size with
      | none => none
      | some (response, ftcontext) =>
        some (MAPI_E_SUCCESS, { error_code := MAPI_E_SUCCESS, u := some response },
          some (some (EMSMDBP_OBJECT_FTCONTEXT ftcontext)))
    | EMSMDBP_OBJECT_SYNCCONTEXT synccontext =>
      match synccontext_get_buffer prepare_with_messageChange prepare_with_folderChange
          synccontext buffer_size with
      | none => none
      | some (response, synccontext) =>
        some (MAPI_E_SUCCESS, { error_code := MAPI_E_SUCCESS, u := some response },
          some (some (EMSMDBP_OBJECT_SYNCCONTEXT synccontext)))
    | EMSMDBP_OBJECT_OTHER _ =>
      some (MAPI_E_SUCCESS, { error_code := MAPI_E_INVALID_OBJECT, u := none }, handle)

/-! ### The transfer state of a context object

The fields that both context objects have, read off an `emsmdbp_object`.  For an object of
another type they take the value of zeroed memory. -/

/-- The field `stream` of a context object. -/
def emsmdbp_object.stream : emsmdbp_object → emsmdbp_stream
  | EMSMDBP_OBJECT_FTCONTEXT ftcontext => ftcontext.stream
  | EMSMDBP_OBJECT_SYNCCONTEXT synccontext => synccontext.stream
  | EMSMDBP_OBJECT_OTHER _ => { position := 0, buffer := { data := none } }

/-- The field `cutmarks` of a context object. -/
def emsmdbp_object.cutmarks : emsmdbp_object → List Nat
  | EMSMDBP_OBJECT_FTCONTEXT ftcontext => ftcontext.cutmarks
  | EMSMDBP_OBJECT_SYNCCONTEXT synccontext => synccontext.cutmarks
  | EMSMDBP_OBJECT_OTHER _ => []

/-- The field `next_cutmark_ptr` of a context object. -/
def emsmdbp_object.next_cutmark_ptr : emsmdbp_object → Nat
  | EMSMDBP_OBJECT_FTCONTEXT ftcontext => ftcontext.next_cutmark_ptr
  | EMSMDBP_OBJECT_SYNCCONTEXT synccontext => synccontext.next_cutmark_ptr
  | EMSMDBP_OBJECT_OTHER _ => 0

/-- The field `total_steps` of a context object. -/
def emsmdbp_object.total_steps : emsmdbp_object → Nat
  | EMSMDBP_OBJECT_FTCONTEXT ftcontext => ftcontext.total_steps
  | EMSMDBP_OBJECT_SYNCCONTEXT synccontext => synccontext.total_steps
  | EMSMDBP_OBJECT_OTHER _ => 0

/-- Whether the next read is a first read: the test of line 1284 for an ftcontext
(`stream.position == 0`) and of line 1319 for a synccontext (`!stream.buffer.data`). -/
def emsmdbp_object.first_read : emsmdbp_object → Bool
  | EMSMDBP_OBJECT_FTCONTEXT ftcontext => ftcontext.stream.position = 0
  | EMSMDBP_OBJECT_SYNCCONTEXT synccontext => synccontext.stream.buffer.data = none
  | EMSMDBP_OBJECT_OTHER _ => false

/-- The object once its stream is there: a synccontext whose stream is still `NULL` is
materialized as in lines 1320-1326; any other object is itself. -/
def emsmdbp_object.materialize
    (prepare_with_messageChange prepare_with_folderChange :
      emsmdbp_object_synccontext → emsmdbp_object_synccontext) :
    emsmdbp_object → emsmdbp_object
  | EMSMDBP_OBJECT_SYNCCONTEXT synccontext =>
    if synccontext.stream.buffer.data = none then
      EMSMDBP_OBJECT_SYNCCONTEXT
        (if synccontext.request.contents_mode then prepare_with_messageChange synccontext
         else prepare_with_folderChange synccontext)
    else EMSMDBP_OBJECT_SYNCCONTEXT synccontext
  | object => object

/-- A client that calls `FastTransferSourceGetBuffer` on the same handle with the same request
until a reply carries `TransferStatus_Done`, for at most `calls` calls, and collects the
`TransferBuffer` of every reply in order.  It gives `none` when a call fails, when a reply
carries an error code, or when `calls` calls did not reach `TransferStatus_Done`. -/
def download_stream
    (prepare_with_messageChange prepare_with_folderChange :
      emsmdbp_object_synccontext → emsmdbp_object_synccontext)
    (request : FastTransferSourceGetBuffer_req) :
    Nat → handle_lookup → Option (List (List Nat))
  | 0, _ => none
  | calls + 1, handle =>
    match EcDoRpc_RopFastTransferSourceGetBuffer prepare_with_messageChange
        prepare_with_folderChange handle request with
    | some (_, { error_code := MAPI_E_SUCCESS, u := some response }, handle) =>
      if response.TransferStatus = TransferStatus_Done then some [response.TransferBuffer]
      else
        (download_stream prepare_with_messageChange prepare_with_folderChange request calls
          handle).map (fun chunks => response.TransferBuffer :: chunks)
    | _ => none

/-! ## The state-upload handlers (0x75, 0x76, 0x77) -/

/-- The request of `SyncUploadStateStreamBegin`. -/
structure SyncUploadStateStreamBegin_req where
  StateProperty : Nat

/-- The request of `SyncUploadStateStreamContinue`. -/
structure SyncUploadStateStreamContinue_req where
  StreamDataSize : Nat
  StreamData : List Nat

/-- The handler `EcDoRpc_RopSyncUploadStateStreamBegin`.  The result is the value returned to
the RPC layer, the reply (this operation has no operation-specific part), and the object
behind the handle after the call.  `memset` of the state stream followed by
`talloc_zero(..., uint8_t)` leaves position 0 and a non-`NULL` buffer of length 0. -/
def EcDoRpc_RopSyncUploadStateStreamBegin
    (handle : handle_lookup) (request : SyncUploadStateStreamBegin_req) :
    MAPISTATUS × EcDoRpc_MAPI_REPL Unit × handle_lookup :=
  match handle with
  | some (some (EMSMDBP_OBJECT_SYNCCONTEXT synccontext)) =>
    if synccontext.state_property ≠ 0 then
      (MAPI_E_SUCCESS, { error_code := MAPI_E_NOT_INITIALIZED, u := none }, handle)
    else
      let property := request.StateProperty
      if ¬ (property = PidTagIdsetGiven ∨ property = PidTagCnsetSeen ∨
          property = PidTagCnsetSeenFAI ∨ property = PidTagCnsetRead) then
        (MAPI_E_SUCCESS, { error_code := MAPI_E_INVALID_PARAMETER, u := none }, handle)
      else
        (MAPI_E_SUCCESS, { error_code := MAPI_E_SUCCESS, u := none },
          some (some (EMSMDBP_OBJECT_SYNCCONTEXT
            { synccontext with
              state_property := property
              state_stream := { position := 0, buffer := { data := some [] } } })))
  | _ => (MAPI_E_SUCCESS, { error_code := MAPI_E_INVALID_OBJECT, u := none }, handle)

/-- The handler `EcDoRpc_RopSyncUploadStateStreamContinue`.  The blob written is made of the
`StreamDataSize` bytes at `StreamData`. -/
def EcDoRpc_RopSyncUploadStateStreamContinue
    (handle : handle_lookup) (request : SyncUploadStateStreamContinue_req) :
    MAPISTATUS × EcDoRpc_MAPI_REPL Unit × handle_lookup :=
  match handle with
  | some (some (EMSMDBP_OBJECT_SYNCCONTEXT synccontext)) =>
    if synccontext.state_property = 0 then
      (MAPI_E_SUCCESS, { error_code := MAPI_E_NOT_INITIALIZED, u := none }, handle)
    else
      let new_data := request.StreamData.take request.StreamDataSize
      (MAPI_E_SUCCESS, { error_code := MAPI_E_SUCCESS, u := none },
        some (some (EMSMDBP_OBJECT_SYNCCONTEXT
          { synccontext with
            state_stream := emsmdbp_stream_write_buffer synccontext.state_stream new_data })))
  | _ => (MAPI_E_SUCCESS, { error_code := MAPI_E_INVALID_OBJECT, u := none }, handle)

/-- The `switch (synccontext->state_property)` of `EcDoRpc_RopSyncUploadStateStreamEnd`
(lines 2219-2248): the parsed set (`none` is `NULL`) replaces the stored set of the staged
property; for the three change-number sets `single` is set first when the parsed set is not
`NULL`.  `talloc_free` of the old set has no counterpart here. -/
def upload_state_store (synccontext : emsmdbp_object_synccontext)
    (parsed_idset : Option idset) : emsmdbp_object_synccontext :=
  if synccontext.state_property = PidTagIdsetGiven then
    { synccontext with idset_given := parsed_idset }
  else if synccontext.state_property = PidTagCnsetSeen then
    { synccontext with cnset_seen := parsed_idset.map idset.set_single }
  else if synccontext.state_property = PidTagCnsetSeenFAI then
    { synccontext with cnset_seen_fai := parsed_idset.map idset.set_single }
  else if synccontext.state_property = PidTagCnsetRead then
    { synccontext with cnset_read := parsed_idset.map idset.set_single }
  else synccontext

/-- The block "reset synccontext state" of `EcDoRpc_RopSyncUploadStateStreamEnd`
(lines 2253-2260). -/
def upload_state_reset (synccontext : emsmdbp_object_synccontext) :
    emsmdbp_object_synccontext :=
  let sc1 : emsmdbp_object_synccontext :=
    if synccontext.state_stream.buffer.length > 0 then
      { synccontext with
        state_stream := { synccontext.state_stream with buffer := { data := some [] } } }
    else synccontext
  { sc1 with state_property := 0 }

/-- The handler `EcDoRpc_RopSyncUploadStateStreamEnd`.  `IDSET_parse` is defined outside the
files at hand and is a parameter: it maps the staged buffer and the `idbased` flag to the
parsed set, or to `none` (`NULL`) when the bytes do not parse. -/
def EcDoRpc_RopSyncUploadStateStreamEnd
    (IDSET_parse : DATA_BLOB → Bool → Option idset) (handle : handle_lookup) :
    MAPISTATUS × EcDoRpc_MAPI_REPL Unit × handle_lookup :=
  match handle with
  | some (some (EMSMDBP_OBJECT_SYNCCONTEXT synccontext)) =>
    if synccontext.state_property = 0 then
      (MAPI_E_SUCCESS, { error_code := MAPI_E_NOT_INITIALIZED, u := none }, handle)
    else
      let parsed_idset := IDSET_parse synccontext.state_stream.buffer false
      (MAPI_E_SUCCESS, { error_code := MAPI_E_SUCCESS, u := none },
        some (some (EMSMDBP_OBJECT_SYNCCONTEXT
          (upload_state_reset (upload_state_store synccontext parsed_idset)))))
  | _ => (MAPI_E_SUCCESS, { error_code := MAPI_E_INVALID_OBJECT, u := none }, handle)

/-! ## The NDR push context

`struct ndr_push` and the `ndr_push_*` primitives belong to the NDR library, which is not part
of the files at hand.  They are modelled here as the property codec describes them: an
unaligned byte stream (every push context of `oxcfxics.c` is created with
`LIBNDR_FLAG_NOALIGN`), little-endian scalars, and the string flags that
`oxcfxics_ndr_push_simple_data` sets on the context before it pushes a string. -/

/-- Modelled from the spec: the flag bits of a push context that `oxcfxics.c` sets. -/
structure ndr_flags where
  LIBNDR_FLAG_NOALIGN : Bool
  LIBNDR_FLAG_STR_NULLTERM : Bool
  LIBNDR_FLAG_STR_ASCII : Bool
deriving DecidableEq

/-- Modelled from the spec: a `struct ndr_push`, the "unaligned byte stream" of the codec:
the bytes pushed so far (`data[0 .. offset)`) and the flags. -/
structure ndr_push where
  data : List Nat
  flags : ndr_flags
deriving DecidableEq

/-- The field `offset` of a push context. -/
def ndr_push.offset (ndr : ndr_push) : Nat := ndr.data.length

/-- The context made by `ndr_push_init_ctx`, `ndr_set_flags(&ndr->flags, LIBNDR_FLAG_NOALIGN)`
and `ndr->offset = 0`. -/
def ndr_push_init_ctx : ndr_push :=
  { data := []
    flags := { LIBNDR_FLAG_NOALIGN := true, LIBNDR_FLAG_STR_NULLTERM := false,
               LIBNDR_FLAG_STR_ASCII := false } }

/-- Modelled from the spec: the call `ndr_set_flags(&ndr->flags, new_flags)` sets the new bits
in the flags of the context, where they stay. -/
def ndr_set_flags (ndr : ndr_push) (new_flags : ndr_flags) : ndr_push :=
  { ndr with
    flags :=
      { LIBNDR_FLAG_NOALIGN := ndr.flags.LIBNDR_FLAG_NOALIGN || new_flags.LIBNDR_FLAG_NOALIGN
        LIBNDR_FLAG_STR_NULLTERM :=
          ndr.flags.LIBNDR_FLAG_STR_NULLTERM || new_flags.LIBNDR_FLAG_STR_NULLTERM
        LIBNDR_FLAG_STR_ASCII :=
          ndr.flags.LIBNDR_FLAG_STR_ASCII || new_flags.LIBNDR_FLAG_STR_ASCII } }

/-- The flag word `LIBNDR_FLAG_STR_NULLTERM`. -/
def LIBNDR_FLAG_STR_NULLTERM : ndr_flags :=
  { LIBNDR_FLAG_NOALIGN := false, LIBNDR_FLAG_STR_NULLTERM := true,
    LIBNDR_FLAG_STR_ASCII := false }

/-- The flag word `LIBNDR_FLAG_STR_NULLTERM|LIBNDR_FLAG_STR_ASCII`. -/
def LIBNDR_FLAG_STR_NULLTERM_ASCII : ndr_flags :=
  { LIBNDR_FLAG_NOALIGN := false, LIBNDR_FLAG_STR_NULLTERM := true,
    LIBNDR_FLAG_STR_ASCII := true }

/-- Modelled from the spec: appending bytes to the stream of a push context. -/
def ndr_push_bytes (ndr : ndr_push) (bytes : List Nat) : ndr_push :=
  { ndr with data := ndr.data ++ bytes }

/-- The `n` low bytes of `v`, least significant first. -/
def le_bytes : Nat → Nat → List Nat
  | 0, _ => []
  | n + 1, v => (v % 256) :: le_bytes n (v / 256)

/-- Modelled from the spec: `ndr_push_uint8` pushes one byte. -/
def ndr_push_uint8 (ndr : ndr_push) (v : Nat) : ndr_push := ndr_push_bytes ndr (le_bytes 1 v)
/-- Modelled from the spec: `ndr_push_uint16` pushes a `uint16`, little-endian. -/
def ndr_push_uint16 (ndr : ndr_push) (v : Nat) : ndr_push := ndr_push_bytes ndr (le_bytes 2 v)
/-- Modelled from the spec: `ndr_push_uint32` pushes a `uint32`, little-endian. -/
def ndr_push_uint32 (ndr : ndr_push) (v : Nat) : ndr_push := ndr_push_bytes ndr (le_bytes 4 v)
/-- Modelled from the spec: `ndr_push_dlong` pushes a 64-bit value, little-endian
("`I8/SysTime` → uint64 LE"). -/
def ndr_push_dlong (ndr : ndr_push) (v : Nat) : ndr_push := ndr_push_bytes ndr (le_bytes 8 v)
/-- Modelled from the spec: `ndr_push_double` pushes "IEEE 754 LE"; the value is given by its
64-bit pattern. -/
def ndr_push_double (ndr : ndr_push) (bits : Nat) : ndr_push :=
  ndr_push_bytes ndr (le_bytes 8 bits)

/-- The 16 octets of a GUID on the wire. -/
def GUID.wire (guid : GUID) : List Nat := List.ofFn (fun i => (guid.octets i).val)

/-- Modelled from the spec: `ndr_push_GUID` pushes "16 bytes GUID". -/
def ndr_push_GUID (ndr : ndr_push) (guid : GUID) : ndr_push := ndr_push_bytes ndr guid.wire

/-- A `struct FILETIME`. -/
structure FILETIME where
  dwLowDateTime : Nat
  dwHighDateTime : Nat
deriving DecidableEq

/-- Modelled from the spec: `ndr_push_FILETIME` pushes the 64-bit time little-endian, the low
then the high 32 bits. -/
def ndr_push_FILETIME (ndr : ndr_push) (t : FILETIME) : ndr_push :=
  ndr_push_uint32 (ndr_push_uint32 ndr t.dwLowDateTime) t.dwHighDateTime

/-- A `struct Binary_r` (also used for `struct SBinary_short`): a byte count and the bytes. -/
structure Binary_r where
  cb : Nat
  lpb : List Nat
deriving DecidableEq

/-- Modelled from the spec: `ndr_push_Binary_r` pushes "uint32 length then bytes". -/
def ndr_push_Binary_r (ndr : ndr_push) (bin : Binary_r) : ndr_push :=
  ndr_push_bytes (ndr_push_uint32 ndr bin.cb) (bin.lpb.take bin.cb)

/-- Modelled from the spec: the UTF-16LE bytes of one character. -/
def utf16le (c : Char) : List Nat :=
  if c.toNat < 0x10000 then le_bytes 2 c.toNat
  else
    le_bytes 2 (0xd800 + (c.toNat - 0x10000) / 0x400) ++
      le_bytes 2 (0xdc00 + (c.toNat - 0x10000) % 0x400)

/-- Modelled from the spec: `strlen_m_ext(s, CH_UTF8, CH_UTF16LE)` is the number of UTF-16
code units of a string. -/
def strlen_m_ext (s : String) : Nat :=
  (s.toList.map (fun c => if c.toNat < 0x10000 then 1 else 2)).sum

/-- `strlen`: the number of bytes of the (UTF-8) C string. -/
def strlen (s : String) : Nat := s.utf8ByteSize

/-- Modelled from the spec: `ndr_push_string` on a context whose flags carry `LIBNDR_FLAG_STR_NULLTERM` (every call
in `oxcfxics.c` sets it just before): the converted string followed by its terminator.  With
`LIBNDR_FLAG_STR_ASCII` in the flags the target is the one-byte character set and the
terminator one byte; the image of a character outside ASCII depends on the code page of the
installation and is not modelled (`none`).  Otherwise the target is UTF-16LE and the
terminator two bytes. -/
def ndr_push_string (ndr : ndr_push) (s : String) : Option ndr_push :=
  if ndr.flags.LIBNDR_FLAG_STR_ASCII then
    if s.toList.all (fun c => c.toNat < 0x80) then
      some (ndr_push_bytes ndr (s.toList.map Char.toNat ++ [0]))
    else none
  else some (ndr_push_bytes ndr ((s.toList.map utf16le).flatten ++ [0, 0]))

/-! ## Property types and values -/

/-- Modelled from the spec: the type code `PT_NULL`, with its protocol value. -/
def PT_NULL : Nat := 0x0001
/-- Modelled from the spec: the type code `PT_I2` (also `PT_SHORT`), with its protocol value. -/
def PT_I2 : Nat := 0x0002
/-- Modelled from the spec: the type code `PT_SHORT`, with its protocol value. -/
def PT_SHORT : Nat := 0x0002
/-- Modelled from the spec: the type code `PT_LONG`, with its protocol value. -/
def PT_LONG : Nat := 0x0003
/-- Modelled from the spec: the type code `PT_DOUBLE`, with its protocol value. -/
def PT_DOUBLE : Nat := 0x0005
/-- Modelled from the spec: the type code `PT_ERROR`, with its protocol value. -/
def PT_ERROR : Nat := 0x000a
/-- Modelled from the spec: the type code `PT_BOOLEAN`, with its protocol value. -/
def PT_BOOLEAN : Nat := 0x000b
/-- Modelled from the spec: the type code `PT_OBJECT`, with its protocol value. -/
def PT_OBJECT : Nat := 0x000d
/-- Modelled from the spec: the type code `PT_I8`, with its protocol value. -/
def PT_I8 : Nat := 0x0014
/-- Modelled from the spec: the type code `PT_STRING8`, with its protocol value. -/
def PT_STRING8 : Nat := 0x001e
/-- Modelled from the spec: the type code `PT_UNICODE`, with its protocol value. -/
def PT_UNICODE : Nat := 0x001f
/-- Modelled from the spec: the type code `PT_SYSTIME`, with its protocol value. -/
def PT_SYSTIME : Nat := 0x0040
/-- Modelled from the spec: the type code `PT_CLSID`, with its protocol value. -/
def PT_CLSID : Nat := 0x0048
/-- Modelled from the spec: the type code `PT_SVREID`, with its protocol value. -/
def PT_SVREID : Nat := 0x00fb
/-- Modelled from the spec: the type code `PT_BINARY`, with its protocol value. -/
def PT_BINARY : Nat := 0x0102
/-- Modelled from the spec: the multi-value bit ("MV bit"), with its protocol value. -/
def MV_FLAG : Nat := 0x1000

/-- What a `void *` of `data_pointers` points to, by the C type the encoder reads it as. -/
inductive prop_data where
  | uint16 (v : Nat)
  | uint32 (v : Nat)
  | double (bits : Nat)
  | uint64 (v : Nat)
  | uint8 (v : Nat)
  | string (s : String)
  | Binary_r (bin : Binary_r)
  | GUID (guid : GUID)
  | FILETIME (t : FILETIME)
  | ShortArray_r (lpi : List Nat)
  | LongArray_r (lpl : List Nat)
  | I8Array_r (lpi8 : List Nat)
  | BinaryArray_r (lpbin : List Binary_r)
  | StringArrayW_r (lppszW : List String)
  | unread
deriving DecidableEq

/-- The function `oxcfxics_ndr_push_simple_data`.  A value that is not of the C type the type
code makes the function read is undefined behaviour (`none`), and so is the `abort()` of the
default case.  For `PT_NULL` the value is not read. -/
def oxcfxics_ndr_push_simple_data (ndr : ndr_push) (data_type : Nat) (value : prop_data) :
    Option ndr_push :=
  if data_type = PT_I2 then
    match value with
    | .uint16 v => some (ndr_push_uint16 ndr v)
    | _ => none
  else if data_type = PT_LONG ∨ data_type = PT_ERROR ∨ data_type = PT_OBJECT then
    match value with
    | .uint32 v => some (ndr_push_uint32 ndr v)
    | _ => none
  else if data_type = PT_DOUBLE then
    match value with
    | .double bits => some (ndr_push_double ndr bits)
    | _ => none
  else if data_type = PT_I8 then
    match value with
    | .uint64 v => some (ndr_push_dlong ndr v)
    | _ => none
  else if data_type = PT_BOOLEAN then
    match value with
    | .uint8 v => some (if v % 256 ≠ 0 then ndr_push_uint16 ndr 1 else ndr_push_uint16 ndr 0)
    | _ => none
  else if data_type = PT_STRING8 then
    match value with
    | .string s =>
      let string_len := (strlen s + 1) % 2 ^ 32
      ndr_push_string
        (ndr_set_flags (ndr_push_uint32 ndr string_len) LIBNDR_FLAG_STR_NULLTERM_ASCII) s
    | _ => none
  else if data_type = PT_UNICODE then
    match value with
    | .string s =>
      let string_len := (strlen_m_ext s * 2 + 2) % 2 ^ 32
      ndr_push_string
        (ndr_set_flags (ndr_push_uint32 ndr string_len) LIBNDR_FLAG_STR_NULLTERM) s
    | _ => none
  else if data_type = PT_SVREID ∨ data_type = PT_BINARY then
    match value with
    | .Binary_r bin => some (ndr_push_Binary_r ndr bin)
    | _ => none
  else if data_type = PT_CLSID then
    match value with
    | .GUID guid => some (ndr_push_GUID ndr guid)
    | _ => none
  else if data_type = PT_SYSTIME then
    match value with
    | .FILETIME t => some (ndr_push_FILETIME ndr t)
    | _ => none
  else if data_type = PT_NULL then some ndr
  else none

/-- The inner loops of `oxcfxics_ndr_push_properties` (lines 206-208, 213-215, ...): the
elements of a multi-value array are pushed one after the other. -/
def push_array_elements (data_type : Nat) : ndr_push → List prop_data → Option ndr_push
  | ndr, [] => some ndr
  | ndr, value :: rest =>
    match oxcfxics_ndr_push_simple_data ndr data_type value with
    | none => none
    | some ndr => push_array_elements data_type ndr rest

/-- A `struct MAPINAMEID`: `ulKind`, `lpguid`, and of `kind` the member that `ulKind`
selects. -/
structure MAPINAMEID where
  ulKind : Nat
  lpguid : GUID
  lid : Nat
  Name : String
deriving DecidableEq

/-- Modelled from the spec: the kind `MNID_ID` ("0=ById"). -/
def MNID_ID : Nat := 0
/-- Modelled from the spec: the kind `MNID_STRING` ("1=ByString"). -/
def MNID_STRING : Nat := 1

/-- Lines 174-195 of `oxcfxics_ndr_push_properties`: the tag, with the name of a named
property.  `none` stands for the `continue` taken when the name is not found.  The registry
lookup `mapistore_namedprops_get_nameid` is a parameter. -/
def push_property_tag (get_nameid : Nat → Option MAPINAMEID) (ndr : ndr_push)
    (property : Nat) : Option (Option ndr_push) :=
  if property > 0x80000000 then
    let propID := (property % 2 ^ 32) / 2 ^ 16
    match get_nameid propID with
    | none => none
    | some nameid =>
      let ndr := ndr_push_GUID (ndr_push_uint32 ndr property) nameid.lpguid
      if nameid.ulKind = MNID_ID then
        some (some (ndr_push_uint32 (ndr_push_uint8 ndr 0) nameid.lid))
      else if nameid.ulKind = MNID_STRING then
        some (ndr_push_string (ndr_set_flags (ndr_push_uint8 ndr 1) LIBNDR_FLAG_STR_NULLTERM)
          nameid.Name)
      else some (some ndr)
  else some (some (ndr_push_uint32 ndr property))

/-- Lines 198-245 of `oxcfxics_ndr_push_properties`: the value of one property. -/
def push_property_value (ndr : ndr_push) (property : Nat) (value : prop_data) :
    Option ndr_push :=
  let prop_type := property % 2 ^ 16
  if (prop_type / MV_FLAG) % 2 = 1 then
    let prop_type := prop_type % 0x1000
    if prop_type = PT_SHORT then
      match value with
      | .ShortArray_r lpi =>
        push_array_elements prop_type (ndr_push_uint32 ndr lpi.length)
          (lpi.map prop_data.uint16)
      | _ => none
    else if prop_type = PT_LONG then
      match value with
      | .LongArray_r lpl =>
        push_array_elements prop_type (ndr_push_uint32 ndr lpl.length)
          (lpl.map prop_data.uint32)
      | _ => none
    else if prop_type = PT_I8 then
      match value with
      | .I8Array_r lpi8 =>
        push_array_elements prop_type (ndr_push_uint32 ndr lpi8.length)
          (lpi8.map prop_data.uint64)
      | _ => none
    else if prop_type = PT_BINARY then
      match value with
      | .BinaryArray_r lpbin =>
        push_array_elements prop_type (ndr_push_uint32 ndr lpbin.length)
          (lpbin.map prop_data.Binary_r)
      | _ => none
    else if prop_type = PT_UNICODE then
      match value with
      | .StringArrayW_r lppszW =>
        push_array_elements prop_type (ndr_push_uint32 ndr lppszW.length)
          (lppszW.map prop_data.string)
      | _ => none
    else none
  else oxcfxics_ndr_push_simple_data ndr prop_type value

/-- The function `oxcfxics_ndr_push_properties`, as a walk over the three arrays
`properties->aulPropTag`, `data_pointers` and `retvals` from index `i` on.  The cutmarks
context is the list of the `uint32_t` values pushed on it.  Reading `retvals[i]` or
`data_pointers[i]` past the end of its array is undefined (`none`); the data pointer of an
entry whose status is not `MAPI_E_SUCCESS` is not read. -/
def oxcfxics_ndr_push_properties (get_nameid : Nat → Option MAPINAMEID) :
    ndr_push → List Nat → List Nat → List prop_data → List MAPISTATUS →
      Option (ndr_push × List Nat)
  | ndr, cutmarks, [], _, _ => some (ndr, cutmarks)
  | _, _, _ :: _, _, [] => none
  | ndr, cutmarks, property :: properties, data_pointers, retval :: retvals =>
    if retval = MAPI_E_SUCCESS then
      match push_property_tag get_nameid ndr property with
      | none =>
        oxcfxics_ndr_push_properties get_nameid ndr cutmarks properties data_pointers.tail
          retvals
      | some none => none
      | some (some ndr) =>
        let cutmarks := cutmarks ++ [ndr.offset]
        match data_pointers with
        | [] => none
        | value :: data_pointers =>
          match push_property_value ndr property value with
          | none => none
          | some ndr =>
            oxcfxics_ndr_push_properties get_nameid ndr (cutmarks ++ [ndr.offset]) properties
              data_pointers retvals
    else
      oxcfxics_ndr_push_properties get_nameid ndr cutmarks properties data_pointers.tail
        retvals

/-- Lines 391-416 of `EcDoRpc_RopFastTransferSourceCopyTo`: the stream and the cutmark array
that the new ftcontext receives. -/
def FastTransferSourceCopyTo_stream (get_nameid : Nat → Option MAPINAMEID)
    (needed_properties : List Nat) (data_pointers : List prop_data)
    (retvals : List MAPISTATUS) : Option (List Nat × List Nat) :=
  match oxcfxics_ndr_push_properties get_nameid ndr_push_init_ctx [] needed_properties
      data_pointers retvals with
  | none => none
  | some (ndr, cutmarks) => some (ndr.data, cutmarks ++ [0xffffffff])

/-! ## Source keys -/

/-- The return codes of the mapistore layer that `oxcfxics.c` returns. -/
inductive mapistore_errors where
  | MAPISTORE_SUCCESS
  | MAPISTORE_ERROR
  | MAPISTORE_ERR_NOT_FOUND
  | MAPISTORE_ERR_DENIED
deriving DecidableEq, Repr

open mapistore_errors

/-- The cast `(const struct GUID *) lpb`: the GUID read from the first 16 bytes.  Fewer than
16 bytes make the read run past the buffer (`none`). -/
def GUID.of_bytes (lpb : List Nat) : Option GUID :=
  if 16 ≤ lpb.length then
    some { octets := fun i => ⟨lpb.getD i.val 0 % 256, Nat.mod_lt _ (by decide)⟩ }
  else none

/-- The loop of `oxcfxics_fmid_from_source_key` (lines 266-269) over the bytes it reads:
`fmid |= (uint64_t) bytes[i] * base; base <<= 8;`, in 64-bit arithmetic. -/
def source_key_accumulate : List Nat → Nat → Nat → Nat
  | [], fmid, _ => fmid
  | byte :: bytes, fmid, base =>
    source_key_accumulate bytes (fmid ||| ((byte % 256) * base % 2 ^ 64)) (base * 2 ^ 8 % 2 ^ 64)

/-- The function `oxcfxics_fmid_from_source_key`.  The lookup `emsmdbp_guid_to_replid` of the
owner's replicas is a parameter (`none` is its failure).  The result is the return code and
the value written to `*fmidp`, if one is written; a source key of fewer than 22 bytes makes
the function read past the key (`none`). -/
def oxcfxics_fmid_from_source_key (emsmdbp_guid_to_replid : GUID → Option Nat)
    (source_key : Binary_r) : Option (mapistore_errors × Option Nat) :=
  match GUID.of_bytes source_key.lpb with
  | none => none
  | some guid =>
    match emsmdbp_guid_to_replid guid with
    | none => some (MAPISTORE_ERROR, none)
    | some replid =>
      if source_key.lpb.length < 22 then none
      else
        let bytes := (source_key.lpb.drop 16).take 6
        let fmid := source_key_accumulate bytes 0 1
        let fmid := (fmid <<< 16) % 2 ^ 64
        let fmid := fmid ||| (replid % 2 ^ 16)
        some (MAPISTORE_SUCCESS, some fmid)

/-- The loop of `oxcfxics_make_xid` (lines 296-299):
`ndr_push_uint8(ndr, NDR_SCALARS, current_id & 0xff); current_id >>= 8;`, `idlength` times. -/
def make_xid_push_id : Nat → ndr_push → Nat → ndr_push
  | 0, ndr, _ => ndr
  | idlength + 1, ndr, current_id =>
    make_xid_push_id idlength (ndr_push_uint8 ndr (current_id % 256)) (current_id / 2 ^ 8)

/-- The function `oxcfxics_make_xid` for non-`NULL` arguments; `none` is the `NULL` it returns
for `idlength > 8`.  `id` is a `uint64_t`. -/
def oxcfxics_make_xid (replica_guid : GUID) (id : Nat) (idlength : Nat) : Option Binary_r :=
  if idlength > 8 then none
  else
    let ndr := ndr_push_GUID ndr_push_init_ctx replica_guid
    let ndr := make_xid_push_id idlength ndr (id % 2 ^ 64)
    some { cb := ndr.offset, lpb := ndr.data }

/-- The function `oxcfxics_make_gid`. -/
def oxcfxics_make_gid (replica_guid : GUID) (id : Nat) : Option Binary_r :=
  oxcfxics_make_xid replica_guid id 6

/-- The value of a sequence of bytes read least significant first. -/
def le_value : List Nat → Nat
  | [] => 0
  | byte :: bytes => byte % 256 + 256 * le_value bytes

/-! ## The handlers `SyncImportMessageChange` (0x72) and `SyncImportHierarchyChange` (0x73)

The store behind the handlers (`emsmdbp_object.c`, mapistore, the openchange database) is not
part of the files at hand.  What its functions return is gathered in a record of which the
handlers are functions; the handlers call each function at most once with given arguments, so
a function of the arguments stands for the call. -/

/-- A `struct SPropValue`, and the `struct mapi_SPropValue` of a request that
`cast_SPropValue` turns into one: a tag and the value it carries. -/
structure SPropValue where
  ulPropTag : Nat
  value : prop_data
deriving DecidableEq

/-- Modelled from the spec: the tag `PidTagChangeNumber`, with its protocol value. -/
def PidTagChangeNumber : Nat := 0x67a40014

/-- Modelled from the spec: the bit `ImportFlag_Associated`, with its protocol value. -/
def ImportFlag_Associated : Nat := 0x10

/-- What the store answers to the calls of the two handlers.  `parent_folderID` is
`synccontext_object->parent_object->object.folder->folderID`. -/
structure sync_store where
  emsmdbp_is_mapistore : Bool
  parent_folderID : Nat
  emsmdbp_guid_to_replid : GUID → Option Nat
  emsmdbp_object_message_open : Nat → Nat → mapistore_errors
  mapistore_folder_create_message : Nat → Nat → mapistore_errors
  emsmdbp_object_open_folder : Nat → Nat → mapistore_errors
  openchangedb_get_new_changeNumber : Option Nat
  emsmdbp_object_create_folder : Nat → Nat → List SPropValue → MAPISTATUS
  emsmdbp_object_set_properties : Nat → List SPropValue → MAPISTATUS

/-- What a call of one of the two handlers has done besides writing its reply: whether the
handle it added for the record is in the handle table when it returns, and what
`emsmdbp_object_set_properties` returned, if the handler called it. -/
structure sync_effects where
  record_handle : Bool
  set_properties : Option MAPISTATUS
deriving DecidableEq

/-- The request of `SyncImportMessageChange`. -/
structure SyncImportMessageChange_req where
  ImportFlag : Nat
  PropertyValues : List SPropValue

/-- The response of `SyncImportMessageChange`. -/
structure SyncImportMessageChange_repl where
  MessageId : Nat
deriving DecidableEq

/-- Lines 1720-1730 of `EcDoRpc_RopSyncImportMessageChange`: the message is there; the reply is
filled and the properties of the request are set on the message.  The value that
`emsmdbp_object_set_properties` returns is not looked at. -/
def message_change_apply (store : sync_store) (request : SyncImportMessageChange_req)
    (messageID : Nat) :
    MAPISTATUS × EcDoRpc_MAPI_REPL SyncImportMessageChange_repl × sync_effects :=
  let aRow := request.PropertyValues
  (MAPI_E_SUCCESS, { error_code := MAPI_E_SUCCESS, u := some { MessageId := 0 } },
    { record_handle := true
      set_properties := some (store.emsmdbp_object_set_properties messageID aRow) })

/-- The handler `EcDoRpc_RopSyncImportMessageChange`.  The result is the value returned to the
RPC layer, the reply, and what the call has done.  Reading `lpProps[0].value.bin` of a request
without a first property, or with a first property that is not binary, is undefined (`none`). -/
def EcDoRpc_RopSyncImportMessageChange (store : sync_store) (handle : handle_lookup)
    (request : SyncImportMessageChange_req) :
    Option (MAPISTATUS × EcDoRpc_MAPI_REPL SyncImportMessageChange_repl × sync_effects) :=
  match handle with
  | some (some (EMSMDBP_OBJECT_SYNCCONTEXT _)) =>
    if !store.emsmdbp_is_mapistore then
      some (MAPI_E_SUCCESS, { error_code := MAPI_E_NO_SUPPORT, u := none },
        { record_handle := false, set_properties := none })
    else
      let folderID := store.parent_folderID
      match request.PropertyValues with
      | { ulPropTag := _, value := .Binary_r source_key } :: _ =>
        match oxcfxics_fmid_from_source_key store.emsmdbp_guid_to_replid source_key with
        | none => none
        | some (MAPISTORE_SUCCESS, some messageID) =>
          let ret := store.emsmdbp_object_message_open folderID messageID
          if ret = MAPISTORE_ERR_NOT_FOUND then
            if store.mapistore_folder_create_message messageID
                (request.ImportFlag &&& ImportFlag_Associated) ≠ MAPISTORE_SUCCESS then
              some (MAPI_E_SUCCESS, { error_code := MAPI_E_NOT_FOUND, u := none },
                { record_handle := false, set_properties := none })
            else some (message_change_apply store request messageID)
          else if ret ≠ MAPISTORE_SUCCESS then
            if ret = MAPISTORE_ERR_DENIED then
              some (MAPI_E_SUCCESS, { error_code := MAPI_E_NO_ACCESS, u := none },
                { record_handle := false, set_properties := none })
            else
              some (MAPI_E_SUCCESS, { error_code := MAPI_E_INVALID_OBJECT, u := none },
                { record_handle := false, set_properties := none })
          else some (message_change_apply store request messageID)
        | some _ =>
          some (MAPI_E_SUCCESS, { error_code := MAPI_E_NOT_FOUND, u := none },
            { record_handle := false, set_properties := none })
      | _ => none
  | _ =>
    some (MAPI_E_SUCCESS, { error_code := MAPI_E_INVALID_OBJECT, u := none },
      { record_handle := false, set_properties := none })

/-- The request of `SyncImportHierarchyChange`. -/
structure SyncImportHierarchyChange_req where
  HierarchyValues : List SPropValue
  PropertyValues : List SPropValue

/-- The response of `SyncImportHierarchyChange`. -/
structure SyncImportHierarchyChange_repl where
  FolderId : Nat
deriving DecidableEq

/-- Lines 1860-1866 of `EcDoRpc_RopSyncImportHierarchyChange`: the properties are set on the
folder, and a value other than `MAPI_E_SUCCESS` (zero) makes the reply an error. -/
def hierarchy_change_apply (store : sync_store) (folderID : Nat) (aRow : List SPropValue) :
    MAPISTATUS × EcDoRpc_MAPI_REPL SyncImportHierarchyChange_repl × sync_effects :=
  let retval := store.emsmdbp_object_set_properties folderID aRow
  if retval ≠ MAPI_E_SUCCESS then
    (MAPI_E_SUCCESS, { error_code := MAPI_E_NO_SUPPORT, u := none },
      { record_handle := false, set_properties := some retval })
  else
    (MAPI_E_SUCCESS, { error_code := MAPI_E_SUCCESS, u := some { FolderId := 0 } },
      { record_handle := false, set_properties := some retval })

/-- Lines 1820-1866 of `EcDoRpc_RopSyncImportHierarchyChange`, once both identifiers are
known.  The parent folder is the folder of the synccontext or the folder opened for
`parentFolderID` (the status of that call is not looked at); either way the store is asked
for the folder `folderID` under `parentFolderID`.  The handler adds no handle for the
folder. -/
def hierarchy_change_import (store : sync_store) (request : SyncImportHierarchyChange_req)
    (parentFolderID folderID : Nat) :
    MAPISTATUS × EcDoRpc_MAPI_REPL SyncImportHierarchyChange_repl × sync_effects :=
  let aRow := request.HierarchyValues ++ request.PropertyValues
  if store.emsmdbp_object_open_folder parentFolderID folderID ≠ MAPISTORE_SUCCESS then
    match store.openchangedb_get_new_changeNumber with
    | none =>
      (MAPI_E_SUCCESS, { error_code := MAPI_E_NO_SUPPORT, u := none },
        { record_handle := false, set_properties := none })
    | some cn =>
      let aRow := aRow ++ [{ ulPropTag := PidTagChangeNumber, value := .uint64 cn }]
      let retval := store.emsmdbp_object_create_folder parentFolderID folderID aRow
      if retval ≠ MAPI_E_SUCCESS then
        (MAPI_E_SUCCESS, { error_code := retval, u := none },
          { record_handle := false, set_properties := none })
      else hierarchy_change_apply store folderID aRow
  else hierarchy_change_apply store folderID aRow

/-- The handler `EcDoRpc_RopSyncImportHierarchyChange`.  Reading `lpProps[0].value.bin` or
`lpProps[1].value.bin` of hierarchy values that lack the entry, or whose entry is not binary,
is undefined (`none`). -/
def EcDoRpc_RopSyncImportHierarchyChange (store : sync_store) (handle : handle_lookup)
    (request : SyncImportHierarchyChange_req) :
    Option (MAPISTATUS × EcDoRpc_MAPI_REPL SyncImportHierarchyChange_repl × sync_effects) :=
  match handle with
  | some (some (EMSMDBP_OBJECT_SYNCCONTEXT _)) =>
    match request.HierarchyValues with
    | { ulPropTag := _, value := .Binary_r parent_key } :: rest =>
      match oxcfxics_fmid_from_source_key store.emsmdbp_guid_to_replid parent_key with
      | none => none
      | some (MAPISTORE_SUCCESS, some parentFolderID) =>
        match rest with
        | { ulPropTag := _, value := .Binary_r folder_key } :: _ =>
          match oxcfxics_fmid_from_source_key store.emsmdbp_guid_to_replid folder_key with
          | none => none
          | some (MAPISTORE_SUCCESS, some folderID) =>
            some (hierarchy_change_import store request parentFolderID folderID)
          | some _ =>
            some (MAPI_E_SUCCESS, { error_code := MAPI_E_NOT_FOUND, u := none },
              { record_handle := false, set_properties := none })
        | _ => none
      | some _ =>
        some (MAPI_E_SUCCESS, { error_code := MAPI_E_NOT_FOUND, u := none },
          { record_handle := false, set_properties := none })
    | _ => none
  | _ =>
    some (MAPI_E_SUCCESS, { error_code := MAPI_E_INVALID_OBJECT, u := none },
      { record_handle := false, set_properties := none })

/-! ## The decoder `pull_emsmdb_property` (`libmapi/emsmdb.c`)

`struct ndr_pull` and the `ndr_pull_*` primitives belong to the NDR library, like their push
counterparts.  The pull context of `pull_emsmdb_property` is created with
`LIBNDR_FLAG_NOALIGN`, so nothing is skipped for alignment. -/

/-- Modelled from the spec: a `struct ndr_pull`: the bytes of the blob and the read offset. -/
structure ndr_pull where
  data : List Nat
  offset : Nat
deriving DecidableEq

/-- Modelled from the spec: a little-endian scalar of `n` bytes is pulled at the offset, which
advances by `n`.  When fewer than `n` bytes are left the pull fails: nothing is written to the
destination, which keeps the zero of `talloc_zero`, and the offset stays. -/
def ndr_pull_scalar (n : Nat) (ndr : ndr_pull) : Nat × ndr_pull :=
  if ndr.offset + n ≤ ndr.data.length then
    (le_value ((ndr.data.drop ndr.offset).take n), { ndr with offset := ndr.offset + n })
  else (0, ndr)

/-- Modelled from the spec: `ndr_pull_uint16`. -/
def ndr_pull_uint16 (ndr : ndr_pull) : Nat × ndr_pull := ndr_pull_scalar 2 ndr
/-- Modelled from the spec: `ndr_pull_uint32`. -/
def ndr_pull_uint32 (ndr : ndr_pull) : Nat × ndr_pull := ndr_pull_scalar 4 ndr
/-- Modelled from the spec: `ndr_pull_hyper`, a 64-bit value. -/
def ndr_pull_hyper (ndr : ndr_pull) : Nat × ndr_pull := ndr_pull_scalar 8 ndr

/-- Modelled from the spec: `ndr_pull_string` on a context whose flags are
`LIBNDR_FLAG_STR_ASCII|LIBNDR_FLAG_STR_NULLTERM`: the bytes from the offset up to the first
zero byte are the characters of the string, one byte each, and the offset moves past them and
past the zero byte if there is one.  The character of a byte outside ASCII depends on the code
page of the installation and is not modelled (`none`). -/
def ndr_pull_string (ndr : ndr_pull) : Option (String × ndr_pull) :=
  let rest := ndr.data.drop ndr.offset
  let chars := rest.takeWhile (fun b => b % 256 ≠ 0)
  let len1 := if chars.length < rest.length then chars.length + 1 else chars.length
  if chars.all (fun b => b < 0x80) then
    some (String.mk (chars.map Char.ofNat), { ndr with offset := ndr.offset + len1 })
  else none

/-- Modelled from the spec: `ndr_pull_SBinary_short`: a `uint16` count `cb` and then `cb`
bytes.  The destination of `pull_emsmdb_property` is an uninitialised local, so a pull that
fails leaves it undefined (`none`). -/
def ndr_pull_SBinary_short (ndr : ndr_pull) : Option (Binary_r × ndr_pull) :=
  if ndr.offset + 2 ≤ ndr.data.length then
    let cb := le_value ((ndr.data.drop ndr.offset).take 2)
    if ndr.offset + 2 + cb ≤ ndr.data.length then
      some ({ cb := cb, lpb := (ndr.data.drop (ndr.offset + 2)).take cb },
        { ndr with offset := ndr.offset + 2 + cb })
    else none
  else none

/-- The function `pull_emsmdb_property`.  The result is the value behind the pointer returned
(`none` is `NULL`) and the new `*offset`.  A `struct FILETIME` filled through a `uint64_t`
pointer receives the low 32 bits in `dwLowDateTime` (the layout of a little-endian host). -/
def pull_emsmdb_property (offset : Nat) (tag : Nat) (data : DATA_BLOB) :
    Option (Option prop_data × Nat) :=
  let ndr : ndr_pull := { data := data.bytes, offset := offset }
  let type := tag % 2 ^ 16
  if type = PT_BOOLEAN then
    let r := ndr_pull_uint16 ndr
    some (some (.uint16 r.1), r.2.offset)
  else if type = PT_I2 then
    let r := ndr_pull_uint16 ndr
    some (some (.uint16 r.1), r.2.offset)
  else if type = PT_NULL ∨ type = PT_ERROR ∨ type = PT_LONG then
    let r := ndr_pull_uint32 ndr
    some (some (.uint32 r.1), r.2.offset)
  else if type = PT_I8 then
    let r := ndr_pull_hyper ndr
    some (some (.uint64 r.1), r.2.offset)
  else if type = PT_SYSTIME then
    let r := ndr_pull_hyper ndr
    some (some (.FILETIME { dwLowDateTime := r.1 % 2 ^ 32, dwHighDateTime := r.1 / 2 ^ 32 }),
      r.2.offset)
  else if type = PT_UNICODE ∨ type = PT_STRING8 then
    match ndr_pull_string ndr with
    | none => none
    | some (s, ndr) => some (some (.string s), ndr.offset)
  else if type = PT_OBJECT ∨ type = PT_BINARY then
    match ndr_pull_SBinary_short ndr with
    | none => none
    | some (bin, ndr) => some (some (.Binary_r bin), ndr.offset)
  else some (none, offset)

/-! ## `EcDoRpc_RopSyncConfigure` (0x70)

The property tags, the flag bits and the object type codes are declared in headers outside
the files at hand; they have their protocol values here. -/

/-- Modelled from the spec: the tag `PR_MID`. -/
def PR_MID : Nat := 0x674a0014
/-- Modelled from the spec: the tag `PR_ASSOCIATED`. -/
def PR_ASSOCIATED : Nat := 0x67aa000b
/-- Modelled from the spec: the tag `PR_MESSAGE_SIZE`. -/
def PR_MESSAGE_SIZE : Nat := 0x0e080003
/-- Modelled from the spec: the tag `PR_PARENT_FID`. -/
def PR_PARENT_FID : Nat := 0x67490014
/-- Modelled from the spec: the tag `PR_FID`. -/
def PR_FID : Nat := 0x67480014
/-- Modelled from the spec: the tag `PR_CHANGE_KEY`. -/
def PR_CHANGE_KEY : Nat := 0x65e20102
/-- Modelled from the spec: the tag `PR_PREDECESSOR_CHANGE_LIST`. -/
def PR_PREDECESSOR_CHANGE_LIST : Nat := 0x65e30102
/-- Modelled from the spec: the tag `PR_LAST_MODIFICATION_TIME`. -/
def PR_LAST_MODIFICATION_TIME : Nat := 0x30080040
/-- Modelled from the spec: the tag `PR_DISPLAY_NAME_UNICODE`. -/
def PR_DISPLAY_NAME_UNICODE : Nat := 0x3001001f
/-- Modelled from the spec: the tag `PR_ROW_TYPE`. -/
def PR_ROW_TYPE : Nat := 0x0ff50003
/-- Modelled from the spec: the tag `PR_INSTANCE_KEY`. -/
def PR_INSTANCE_KEY : Nat := 0x0ff60102
/-- Modelled from the spec: the tag `PR_INSTANCE_NUM`. -/
def PR_INSTANCE_NUM : Nat := 0x674e0003
/-- Modelled from the spec: the tag `PR_INST_ID`. -/
def PR_INST_ID : Nat := 0x674d0014
/-- Modelled from the spec: the tag `PR_SOURCE_KEY`. -/
def PR_SOURCE_KEY : Nat := 0x65e00102
/-- Modelled from the spec: the tag `PR_PARENT_SOURCE_KEY`. -/
def PR_PARENT_SOURCE_KEY : Nat := 0x65e10102
/-- Modelled from the spec: the tag `PR_BODY_HTML`. -/
def PR_BODY_HTML : Nat := 0x1013001e
/-- Modelled from the spec: the tag `PR_BODY_UNICODE`. -/
def PR_BODY_UNICODE : Nat := 0x1000001f

/-- Modelled from the spec: the value `Contents` of `SynchronizationType`. -/
def Contents : Nat := 0x1
/-- Modelled from the spec: the bit `FastTransfer_Unicode` of `SendOptions`. -/
def FastTransfer_Unicode : Nat := 0x1
/-- Modelled from the spec: the bit `FastTransfer_UseCpid` of `SendOptions`. -/
def FastTransfer_UseCpid : Nat := 0x2
/-- Modelled from the spec: the bit `FastTransfer_RecoverMode` of `SendOptions`. -/
def FastTransfer_RecoverMode : Nat := 0x4
/-- Modelled from the spec: the bit `FastTransfer_ForceUnicode` of `SendOptions`. -/
def FastTransfer_ForceUnicode : Nat := 0x8
/-- Modelled from the spec: the bit `FastTransfer_PartialItem` of `SendOptions`. -/
def FastTransfer_PartialItem : Nat := 0x10
/-- Modelled from the spec: the bit `SynchronizationFlag_Unicode`. -/
def SynchronizationFlag_Unicode : Nat := 0x1
/-- Modelled from the spec: the bit `SynchronizationFlag_NoDeletions`. -/
def SynchronizationFlag_NoDeletions : Nat := 0x2
/-- Modelled from the spec: the bit `SynchronizationFlag_NoSoftDeletions`. -/
def SynchronizationFlag_NoSoftDeletions : Nat := 0x4
/-- Modelled from the spec: the bit `SynchronizationFlag_ReadState`. -/
def SynchronizationFlag_ReadState : Nat := 0x8
/-- Modelled from the spec: the bit `SynchronizationFlag_FAI`. -/
def SynchronizationFlag_FAI : Nat := 0x10
/-- Modelled from the spec: the bit `SynchronizationFlag_Normal`. -/
def SynchronizationFlag_Normal : Nat := 0x20
/-- Modelled from the spec: the bit `SynchronizationFlag_OnlySpecifiedProperties`. -/
def SynchronizationFlag_OnlySpecifiedProperties : Nat := 0x80
/-- Modelled from the spec: the bit `SynchronizationFlag_NoForeignIdentifiers`. -/
def SynchronizationFlag_NoForeignIdentifiers : Nat := 0x100
/-- Modelled from the spec: the bit `SynchronizationFlag_BestBody`. -/
def SynchronizationFlag_BestBody : Nat := 0x2000
/-- Modelled from the spec: the bit `SynchronizationFlag_IgnoreSpecifiedOnFAI`. -/
def SynchronizationFlag_IgnoreSpecifiedOnFAI : Nat := 0x4000
/-- Modelled from the spec: the bit `SynchronizationFlag_Progress`. -/
def SynchronizationFlag_Progress : Nat := 0x8000
/-- Modelled from the spec: the bit `Eid` of `SynchronizationExtraFlags`. -/
def Eid : Nat := 0x1
/-- Modelled from the spec: the bit `MessageSize` of `SynchronizationExtraFlags`. -/
def MessageSize : Nat := 0x2
/-- Modelled from the spec: the bit `Cn` of `SynchronizationExtraFlags`. -/
def Cn : Nat := 0x4
/-- Modelled from the spec: the bit `OrderByDeliveryTime` of `SynchronizationExtraFlags`. -/
def OrderByDeliveryTime : Nat := 0x8

/-- Modelled from the spec: the type code `EMSMDBP_OBJECT_MAILBOX` of an object. -/
def EMSMDBP_OBJECT_MAILBOX : Nat := 0x1
/-- Modelled from the spec: the type code `EMSMDBP_OBJECT_FOLDER` of an object. -/
def EMSMDBP_OBJECT_FOLDER : Nat := 0x2

/-- The request of `SyncConfigure`.  `PropertyTags` holds the `cValues` tags of the request;
`cValues` is a 16-bit count. -/
structure SyncConfigure_req where
  SynchronizationType : Nat
  SendOptions : Nat
  SynchronizationFlag : Nat
  SynchronizationExtraFlags : Nat
  PropertyTags : List Nat

/-- The C test `(flags & mask)` read as a truth value. -/
def flag_set (flags mask : Nat) : Bool := flags &&& mask ≠ 0

/-- The id of a tag: `(tag & 0xffff0000) >> 16`, which for a 32-bit tag is also
`(uint16_t) (tag >> 16)`. -/
def prop_id (tag : Nat) : Nat := (tag % 2 ^ 32) / 2 ^ 16

/-- The assignment `properties_exclusion[i] = value` on the array of 65536 flags, which is a
function from the index to the flag here. -/
def exclusion_set (properties_exclusion : Nat → Bool) (i : Nat) (value : Bool) : Nat → Bool :=
  fun k => if k = i then value else properties_exclusion k

/-- Lines 1496-1499 and 1502-1510: the ids of the given tags are marked in the array. -/
def exclude_tags : (Nat → Bool) → List Nat → Nat → Bool
  | properties_exclusion, [] => properties_exclusion
  | properties_exclusion, tag :: tags =>
    exclude_tags (exclusion_set properties_exclusion (prop_id tag) true) tags

/-- Lines 1482-1495: the tags that the handler adds first. -/
def mandatory_properties (contents_mode : Bool) : List Nat :=
  (if contents_mode then [PR_MID, PR_ASSOCIATED, PR_MESSAGE_SIZE] else [PR_PARENT_FID, PR_FID]) ++
    [PidTagChangeNumber, PR_CHANGE_KEY, PR_PREDECESSOR_CHANGE_LIST, PR_LAST_MODIFICATION_TIME,
      PR_DISPLAY_NAME_UNICODE]

/-- Lines 1502-1510: the tags of the explicit exclusions. -/
def explicit_exclusions : List Nat :=
  [PR_ROW_TYPE, PR_INSTANCE_KEY, PR_INSTANCE_NUM, PR_INST_ID, PR_FID, PR_MID, PR_SOURCE_KEY,
    PR_PARENT_SOURCE_KEY, PR_PARENT_FID]

/-- Lines 1514-1522: the loop over the tags of the request.  A tag whose id is not marked
marks it, and is added to the properties when `include_props` is set. -/
def specified_properties (include_props : Bool) :
    (Nat → Bool) → List Nat → List Nat → (Nat → Bool) × List Nat
  | properties_exclusion, properties, [] => (properties_exclusion, properties)
  | properties_exclusion, properties, tag :: tags =>
    if !properties_exclusion (prop_id tag) then
      specified_properties include_props (exclusion_set properties_exclusion (prop_id tag) true)
        (if include_props then properties ++ [tag] else properties) tags
    else specified_properties include_props properties_exclusion properties tags

/-- The loop over the available properties of a table (lines 1540-1546, 1563-1569 and
1583-1589): a tag whose id is not marked marks it and is added to the array. -/
def add_available_properties :
    (Nat → Bool) → List Nat → List Nat → (Nat → Bool) × List Nat
  | properties_exclusion, properties, [] => (properties_exclusion, properties)
  | properties_exclusion, properties, tag :: tags =>
    if !properties_exclusion (prop_id tag) then
      add_available_properties (exclusion_set properties_exclusion (prop_id tag) true)
        (properties ++ [tag]) tags
    else add_available_properties properties_exclusion properties tags

/-- What the folder answers when `SyncConfigure` asks for one of its tables: `none` when
`emsmdbp_folder_open_table` returns `NULL`, `some none` when
`emsmdbp_object_table_get_available_properties` fails, and the available tags otherwise. -/
structure folder_tables where
  MAPISTORE_MESSAGE_TABLE : Option (Option (List Nat))
  MAPISTORE_FAI_TABLE : Option (Option (List Nat))
  MAPISTORE_FOLDER_TABLE : Option (Option (List Nat))

/-- One of the three blocks that open a table and add its available properties (lines
1534-1550, 1557-1573, 1577-1593).  A table that cannot be opened is the `abort()` of the
block; the loop counter `j` is a `uint16_t` compared with a 32-bit count, so the loop does not
end for 65536 available tags or more (both `none`). -/
def add_table_properties (table : Option (Option (List Nat)))
    (properties_exclusion : Nat → Bool) (properties : List Nat) :
    Option ((Nat → Bool) × List Nat) :=
  match table with
  | none => none
  | some none => some (properties_exclusion, properties)
  | some (some available_properties) =>
    if available_properties.length < 65536 then
      some (add_available_properties properties_exclusion properties available_properties)
    else none

/-- Lines 1476-1528 of `EcDoRpc_RopSyncConfigure`: the array `properties_exclusion` and the
array `properties` once the tags of the request are dealt with. -/
def SyncConfigure_specified (request : SyncConfigure_req) (contents_mode : Bool) :
    (Nat → Bool) × List Nat :=
  let properties := mandatory_properties contents_mode
  let properties_exclusion := exclude_tags (fun _ => false) properties
  let properties_exclusion := exclude_tags properties_exclusion explicit_exclusions
  let include_props :=
    flag_set request.SynchronizationFlag SynchronizationFlag_OnlySpecifiedProperties
  let specified :=
    specified_properties include_props properties_exclusion properties request.PropertyTags
  let properties_exclusion :=
    if !include_props && flag_set request.SynchronizationFlag SynchronizationFlag_BestBody then
      exclusion_set (exclusion_set specified.1 (prop_id PR_BODY_HTML) false)
        (prop_id PR_BODY_UNICODE) false
    else specified.1
  (properties_exclusion, specified.2)

/-- Lines 1476-1596 of `EcDoRpc_RopSyncConfigure`: the arrays `properties` and
`fai_properties` of the new synccontext, whose `request` bits are set already. -/
def SyncConfigure_properties (tables : folder_tables) (request : SyncConfigure_req)
    (synccontext : emsmdbp_object_synccontext) : Option emsmdbp_object_synccontext :=
  let include_props :=
    flag_set request.SynchronizationFlag SynchronizationFlag_OnlySpecifiedProperties
  let specified := SyncConfigure_specified request synccontext.request.contents_mode
  let properties_exclusion := specified.1
  let properties := specified.2
  if !include_props then
    if synccontext.request.contents_mode then
      let normal :=
        if synccontext.request.normal then
          add_table_properties tables.MAPISTORE_MESSAGE_TABLE properties_exclusion properties
        else some (properties_exclusion, properties)
      match normal with
      | none => none
      | some (properties_exclusion, properties) =>
        if synccontext.request.fai then
          match add_table_properties tables.MAPISTORE_FAI_TABLE properties_exclusion
              properties with
          | none => none
          | some (_, fai_properties) =>
            some { synccontext with properties := properties, fai_properties := fai_properties }
        else some { synccontext with properties := properties }
    else
      match add_table_properties tables.MAPISTORE_FOLDER_TABLE properties_exclusion
          properties with
      | none => none
      | some (_, properties) => some { synccontext with properties := properties }
  else some { synccontext with properties := properties }

/-- Lines 1442-1474 of `EcDoRpc_RopSyncConfigure`: the option bits of the new synccontext. -/
def SyncConfigure_request (request : SyncConfigure_req) : synccontext_request :=
  { contents_mode := request.SynchronizationType = Contents
    unicode := flag_set request.SendOptions FastTransfer_Unicode
    use_cpid := flag_set request.SendOptions FastTransfer_UseCpid
    recover_mode := flag_set request.SendOptions FastTransfer_RecoverMode
    force_unicode := flag_set request.SendOptions FastTransfer_ForceUnicode
    partial_item := flag_set request.SendOptions FastTransfer_PartialItem
    no_deletions := flag_set request.SynchronizationFlag SynchronizationFlag_NoDeletions
    no_soft_deletions := flag_set request.SynchronizationFlag SynchronizationFlag_NoSoftDeletions
    ignore_no_longer_in_scope :=
      flag_set request.SynchronizationFlag SynchronizationFlag_NoSoftDeletions
    read_state := flag_set request.SynchronizationFlag SynchronizationFlag_ReadState
    fai := flag_set request.SynchronizationFlag SynchronizationFlag_FAI
    normal := flag_set request.SynchronizationFlag SynchronizationFlag_Normal
    no_foreign_identifiers :=
      flag_set request.SynchronizationFlag SynchronizationFlag_NoForeignIdentifiers
    best_body := flag_set request.SynchronizationFlag SynchronizationFlag_BestBody
    ignored_specified_on_fai :=
      flag_set request.SynchronizationFlag SynchronizationFlag_IgnoreSpecifiedOnFAI
    progress := flag_set request.SynchronizationFlag SynchronizationFlag_Progress
    request_eid := flag_set request.SynchronizationExtraFlags Eid
    request_message_size := flag_set request.SynchronizationExtraFlags MessageSize
    request_cn := flag_set request.SynchronizationExtraFlags Cn
    order_by_delivery_time := flag_set request.SynchronizationExtraFlags OrderByDeliveryTime }

/-- The handler `EcDoRpc_RopSyncConfigure`.  `synccontext_init` is the object that
`emsmdbp_object_synccontext_init` makes, a function outside the files at hand.  The result is
the value returned to the RPC layer, the reply, and the synccontext behind the new handle when
one is added. -/
def EcDoRpc_RopSyncConfigure (synccontext_init : emsmdbp_object_synccontext)
    (tables : folder_tables) (handle : handle_lookup) (request : SyncConfigure_req) :
    Option (MAPISTATUS × EcDoRpc_MAPI_REPL Unit × Option emsmdbp_object_synccontext) :=
  match handle with
  | some (some (EMSMDBP_OBJECT_OTHER type)) =>
    if type ≠ EMSMDBP_OBJECT_FOLDER then
      some (MAPI_E_SUCCESS, { error_code := MAPI_E_INVALID_OBJECT, u := none }, none)
    else
      let synccontext : emsmdbp_object_synccontext :=
        { synccontext_init with request := SyncConfigure_request request }
      if synccontext.request.unicode ∧
          ¬ flag_set request.SynchronizationFlag SynchronizationFlag_Unicode then
        some (MAPI_E_SUCCESS, { error_code := MAPI_E_INVALID_PARAMETER, u := none }, none)
      else
        match SyncConfigure_properties tables request synccontext with
        | none => none
        | some synccontext =>
          some (MAPI_E_SUCCESS, { error_code := MAPI_E_SUCCESS, u := none }, some synccontext)
  | _ => some (MAPI_E_SUCCESS, { error_code := MAPI_E_INVALID_OBJECT, u := none }, none)

/-- The computed list as the specification words it for a request with
`only_specified_properties`: of a list of tags, the first occurrence of every id, given the
ids seen before. -/
def first_occurrence_per_id : List Nat → List Nat → List Nat
  | _, [] => []
  | seen, tag :: tags =>
    if prop_id tag ∈ seen then first_occurrence_per_id seen tags
    else tag :: first_occurrence_per_id (prop_id tag :: seen) tags

/-- The mandatory properties in the documented order: for the contents mode "Mid, Associated,
MessageSize, ChangeNumber, ChangeKey, PredecessorChangeList, LastModificationTime,
DisplayNameUnicode", for the hierarchy mode "ParentFid, Fid, ChangeNumber, ChangeKey,
PredecessorChangeList, LastModificationTime, DisplayNameUnicode". -/
def documented_mandatory (contents_mode : Bool) : List Nat :=
  if contents_mode then
    [PR_MID, PR_ASSOCIATED, PR_MESSAGE_SIZE, PidTagChangeNumber, PR_CHANGE_KEY,
      PR_PREDECESSOR_CHANGE_LIST, PR_LAST_MODIFICATION_TIME, PR_DISPLAY_NAME_UNICODE]
  else
    [PR_PARENT_FID, PR_FID, PidTagChangeNumber, PR_CHANGE_KEY, PR_PREDECESSOR_CHANGE_LIST,
      PR_LAST_MODIFICATION_TIME, PR_DISPLAY_NAME_UNICODE]

/-- The ids "always excluded from auto-discovery: RowType, InstanceKey, InstanceNum, InstId,
Fid, Mid, SourceKey, ParentSourceKey, ParentFid". -/
def always_excluded_ids : List Nat :=
  [0x0ff5, 0x0ff6, 0x674e, 0x674d, 0x6748, 0x674a, 0x65e0, 0x65e1, 0x6749]

/-- The inclusion list as the specification words it: "the mandatory properties followed by
the supplied tags that are not always-excluded, first occurrence per id". -/
def documented_inclusion_list (contents_mode : Bool) (supplied : List Nat) : List Nat :=
  first_occurrence_per_id []
    (documented_mandatory contents_mode ++
      supplied.filter (fun tag => prop_id tag ∉ always_excluded_ids))

/-- Whether a table of the folder lets `SyncConfigure` go on: it can be opened, and its
available properties, if it gives any, are fewer than 65536. -/
def table_answers : Option (Option (List Nat)) → Bool
  | none => false
  | some none => true
  | some (some available_properties) => available_properties.length < 65536

/-! ## The other handlers of `oxcfxics.c`

Each handler is given with the store calls it makes as parameters; the result is the value
returned to the RPC layer, the reply, and what the call leaves behind. -/

/-- Modelled from the spec: `SPropTagArray_delete` removes a tag from an array of tags. -/
def SPropTagArray_delete (tags : List Nat) (tag : Nat) : List Nat :=
  tags.filter (fun t => t ≠ tag)

/-- The request of `FastTransferSourceCopyTo`. -/
structure FastTransferSourceCopyTo_req where
  Level : Nat
  PropertyTags : List Nat

/-- What the store answers to the calls of `FastTransferSourceCopyTo` for the object behind
the handle (`none` is the `NULL` private data of a handle): the available properties (`none`
when the call does not return `MAPISTORE_SUCCESS`), the values and statuses of the properties
asked for (`none` is `NULL`), the registry of named properties, and the new ftcontext object
(`none` is `NULL`). -/
structure copy_store where
  emsmdbp_object_get_available_properties : Option emsmdbp_object → Option (List Nat)
  emsmdbp_object_get_properties :
    Option emsmdbp_object → List Nat → Option (List prop_data × List MAPISTATUS)
  mapistore_namedprops_get_nameid : Nat → Option MAPINAMEID
  emsmdbp_object_ftcontext_init : Option emsmdbp_object → Option emsmdbp_object_ftcontext

/-- The handler `EcDoRpc_RopFastTransferSourceCopyTo`.  The third component is the ftcontext
behind the new handle, when one is made.  The private data of the handle is passed on to the
store as it is. -/
def EcDoRpc_RopFastTransferSourceCopyTo (store : copy_store) (handle : handle_lookup)
    (request : FastTransferSourceCopyTo_req) :
    Option (MAPISTATUS × EcDoRpc_MAPI_REPL Unit × Option emsmdbp_object_ftcontext) :=
  match handle with
  | none => some (MAPI_E_SUCCESS, { error_code := MAPI_E_INVALID_OBJECT, u := none }, none)
  | some parent_object =>
    if request.Level > 0 then
      some (MAPI_E_SUCCESS, { error_code := MAPI_E_INVALID_OBJECT, u := none }, none)
    else
      match store.emsmdbp_object_get_available_properties parent_object with
      | none => some (MAPI_E_SUCCESS, { error_code := MAPI_E_SUCCESS, u := none }, none)
      | some needed_properties =>
        if needed_properties.length > 0 then
          let needed_properties :=
            request.PropertyTags.foldl SPropTagArray_delete needed_properties
          match store.emsmdbp_object_get_properties parent_object needed_properties with
          | none =>
            some (MAPI_E_SUCCESS, { error_code := MAPI_E_INVALID_OBJECT, u := none }, none)
          | some (data_pointers, retvals) =>
            match FastTransferSourceCopyTo_stream store.mapistore_namedprops_get_nameid
                needed_properties data_pointers retvals with
            | none => none
            | some (data, cutmarks) =>
              match store.emsmdbp_object_ftcontext_init parent_object with
              | none =>
                some (MAPI_E_SUCCESS, { error_code := MAPI_E_INVALID_OBJECT, u := none }, none)
              | some ftcontext =>
                some (MAPI_E_SUCCESS, { error_code := MAPI_E_SUCCESS, u := none },
                  some { ftcontext with
                    cutmarks := cutmarks
                    stream := { ftcontext.stream with buffer := { data := some data } } })
        else some (MAPI_E_SUCCESS, { error_code := MAPI_E_SUCCESS, u := none }, none)

/-- Modelled from the spec: the bit `SyncImportDeletes_Hierarchy`, with its protocol value. -/
def SyncImportDeletes_Hierarchy : Nat := 0x01
/-- Modelled from the spec: the bit `SyncImportDeletes_HardDelete`, with its protocol value. -/
def SyncImportDeletes_HardDelete : Nat := 0x02

/-- The request of `SyncImportDeletes`. -/
structure SyncImportDeletes_req where
  Flags : Nat
  PropertyValues : List SPropValue

/-- The loops of `EcDoRpc_RopSyncImportDeletes` (lines 1959-1964 and 1976-1988): the ids of
the objects for which the store is asked to delete, in order.  A source key that does not
decode is passed over. -/
def import_deletes_ids (emsmdbp_guid_to_replid : GUID → Option Nat) :
    List Binary_r → Option (List Nat)
  | [] => some []
  | source_key :: source_keys =>
    match oxcfxics_fmid_from_source_key emsmdbp_guid_to_replid source_key with
    | none => none
    | some (MAPISTORE_SUCCESS, some objectID) =>
      (import_deletes_ids emsmdbp_guid_to_replid source_keys).map (fun ids => objectID :: ids)
    | some _ => import_deletes_ids emsmdbp_guid_to_replid source_keys

/-- What `SyncImportDeletes` asks the store to delete: folders or messages, softly or for
good, by id. -/
structure import_deletes where
  hierarchy : Bool
  hard_delete : Bool
  objectIDs : List Nat
deriving DecidableEq

/-- The handler `EcDoRpc_RopSyncImportDeletes`.  `synccontext_is_mapistore` is
`emsmdbp_is_mapistore(synccontext_object)`.  Reading `lpProps[0].value.MVbin` of a request
without a first property, or with a first property that is not an array of binaries, is
undefined (`none`).  What the store returns for a deletion is not looked at. -/
def EcDoRpc_RopSyncImportDeletes (synccontext_is_mapistore : Bool)
    (emsmdbp_guid_to_replid : GUID → Option Nat) (handle : handle_lookup)
    (request : SyncImportDeletes_req) :
    Option (MAPISTATUS × EcDoRpc_MAPI_REPL Unit × Option import_deletes) :=
  match handle with
  | some (some (EMSMDBP_OBJECT_SYNCCONTEXT _)) =>
    let hard_delete := flag_set request.Flags SyncImportDeletes_HardDelete
    if flag_set request.Flags SyncImportDeletes_Hierarchy then
      match request.PropertyValues with
      | { ulPropTag := _, value := .BinaryArray_r object_array } :: _ =>
        match import_deletes_ids emsmdbp_guid_to_replid object_array with
        | none => none
        | some objectIDs =>
          some (MAPI_E_SUCCESS, { error_code := MAPI_E_SUCCESS, u := none },
            some { hierarchy := true, hard_delete := hard_delete, objectIDs := objectIDs })
      | _ => none
    else if !synccontext_is_mapistore then
      some (MAPI_E_SUCCESS, { error_code := MAPI_E_INVALID_OBJECT, u := none }, none)
    else
      match request.PropertyValues with
      | { ulPropTag := _, value := .BinaryArray_r object_array } :: _ =>
        match import_deletes_ids emsmdbp_guid_to_replid object_array with
        | none => none
        | some objectIDs =>
          some (MAPI_E_SUCCESS, { error_code := MAPI_E_SUCCESS, u := none },
            some { hierarchy := false, hard_delete := hard_delete, objectIDs := objectIDs })
      | _ => none
  | _ => some (MAPI_E_SUCCESS, { error_code := MAPI_E_INVALID_OBJECT, u := none }, none)

/-- The function `convertIdToFMID`; the outer `none` is undefined behaviour, `some none` the
result `false`.  `GUID_from_string` belongs to another library and is a parameter; its status
is not looked at, so when it fails (`none`) the comparison reads a GUID that was never
written.  `data` holds the `size` bytes of the blob. -/
def convertIdToFMID (GUID_from_string : List Nat → Option GUID) (replica_guid : GUID)
    (data : List Nat) (size : Nat) : Option (Option Nat) :=
  if size < 17 then some none
  else
    match GUID_from_string data with
    | none => none
    | some guid =>
      if replica_guid ≠ guid then some none
      else
        let fmid := source_key_accumulate ((data.take size).drop 16) 0 1
        let fmid := (fmid <<< 16) % 2 ^ 64
        some (some (fmid ||| 1))

/-- The request of `SyncImportMessageMove`. -/
structure SyncImportMessageMove_req where
  SourceFolderIdSize : Nat
  SourceFolderId : List Nat
  SourceMessageIdSize : Nat
  SourceMessageId : List Nat
  DestinationMessageIdSize : Nat
  DestinationMessageId : List Nat
  ChangeNumberSize : Nat
  ChangeNumber : List Nat

/-- What the store answers to the calls of `SyncImportMessageMove`: the GUID of the replica
1, the result of opening the source folder, and whether both the synccontext and the source
folder are mapistore objects. -/
structure move_store where
  GUID_from_string : List Nat → Option GUID
  emsmdbp_replid_to_guid : GUID
  emsmdbp_object_open_folder_by_fid : Nat → mapistore_errors
  mapistore : Nat → Bool

/-- The response of `SyncImportMessageMove`. -/
structure SyncImportMessageMove_repl where
  MessageId : Nat
deriving DecidableEq

/-- What `SyncImportMessageMove` asks the store to move. -/
structure message_move where
  sourceFID : Nat
  sourceMID : Nat
  destMID : Nat
  change_key : Binary_r
deriving DecidableEq

/-- The handler `EcDoRpc_RopSyncImportMessageMove`.  What the store returns for the move is
not looked at. -/
def EcDoRpc_RopSyncImportMessageMove (store : move_store) (handle : handle_lookup)
    (request : SyncImportMessageMove_req) :
    Option (MAPISTATUS × EcDoRpc_MAPI_REPL SyncImportMessageMove_repl ×
      Option message_move) :=
  match handle with
  | some (some (EMSMDBP_OBJECT_SYNCCONTEXT _)) =>
    let replica_guid := store.emsmdbp_replid_to_guid
    let not_found : Option (MAPISTATUS × EcDoRpc_MAPI_REPL SyncImportMessageMove_repl ×
        Option message_move) :=
      some (MAPI_E_SUCCESS, { error_code := MAPI_E_NOT_FOUND, u := none }, none)
    match convertIdToFMID store.GUID_from_string replica_guid request.SourceFolderId
        request.SourceFolderIdSize with
    | none => none
    | some none => not_found
    | some (some sourceFID) =>
      match convertIdToFMID store.GUID_from_string replica_guid request.SourceMessageId
          request.SourceMessageIdSize with
      | none => none
      | some none => not_found
      | some (some sourceMID) =>
        match convertIdToFMID store.GUID_from_string replica_guid request.DestinationMessageId
            request.DestinationMessageIdSize with
        | none => none
        | some none => not_found
        | some (some destMID) =>
          if store.emsmdbp_object_open_folder_by_fid sourceFID ≠ MAPISTORE_SUCCESS then
            not_found
          else if store.mapistore sourceFID then
            some (MAPI_E_SUCCESS, { error_code := MAPI_E_SUCCESS, u := some { MessageId := 0 } },
              some { sourceFID := sourceFID, sourceMID := sourceMID, destMID := destMID
                     change_key :=
                       { cb := request.ChangeNumberSize, lpb := request.ChangeNumber } })
          else
            some (MAPI_E_SUCCESS,
              { error_code := MAPI_E_NO_SUPPORT, u := some { MessageId := 0 } }, none)
  | _ => some (MAPI_E_SUCCESS, { error_code := MAPI_E_INVALID_OBJECT, u := none }, none)

/-- The handler `EcDoRpc_RopSyncOpenCollector`.  `synccontext_init` is the object that
`emsmdbp_object_synccontext_init` makes; the third component is the synccontext behind the
new handle. -/
def EcDoRpc_RopSyncOpenCollector (synccontext_init : emsmdbp_object_synccontext)
    (handle : handle_lookup) (IsContentsCollector : Nat) :
    MAPISTATUS × EcDoRpc_MAPI_REPL Unit × Option emsmdbp_object_synccontext :=
  match handle with
  | some (some (EMSMDBP_OBJECT_OTHER type)) =>
    if type ≠ EMSMDBP_OBJECT_FOLDER then
      (MAPI_E_SUCCESS, { error_code := MAPI_E_INVALID_OBJECT, u := none }, none)
    else
      (MAPI_E_SUCCESS, { error_code := MAPI_E_SUCCESS, u := none },
        some { synccontext_init with
          is_collector := true
          request :=
            { synccontext_init.request with contents_mode := IsContentsCollector ≠ 0 } })
  | _ => (MAPI_E_SUCCESS, { error_code := MAPI_E_INVALID_OBJECT, u := none }, none)

/-- The response of `GetLocalReplicaIds`. -/
structure GetLocalReplicaIds_repl where
  ReplGuid : GUID
  GlobalCount : List Nat
deriving DecidableEq

/-- The handler `EcDoRpc_RopGetLocalReplicaIds`.  `emsmdbp_replid_to_guid` is the GUID that
the store gives for the replica 1 and `openchangedb_reserve_fmid_range` the first id of the
range it reserves for a count; the status of neither call is looked at. -/
def EcDoRpc_RopGetLocalReplicaIds (emsmdbp_replid_to_guid : GUID)
    (openchangedb_reserve_fmid_range : Nat → Nat) (handle : handle_lookup) (IdCount : Nat) :
    MAPISTATUS × EcDoRpc_MAPI_REPL GetLocalReplicaIds_repl :=
  match handle with
  | some (some (EMSMDBP_OBJECT_OTHER type)) =>
    if type ≠ EMSMDBP_OBJECT_MAILBOX then
      (MAPI_E_SUCCESS, { error_code := MAPI_E_INVALID_OBJECT, u := none })
    else
      let new_id := (openchangedb_reserve_fmid_range IdCount % 2 ^ 64) >>> 16
      (MAPI_E_SUCCESS,
        { error_code := MAPI_E_SUCCESS
          u := some { ReplGuid := emsmdbp_replid_to_guid, GlobalCount := le_bytes 6 new_id } })
  | _ => (MAPI_E_SUCCESS, { error_code := MAPI_E_INVALID_OBJECT, u := none })

/-- A `struct MessageReadState`. -/
structure MessageReadState where
  MessageIdSize : Nat
  MessageId : List Nat
  MarkAsRead : Nat
deriving DecidableEq

/-- The function `get_MessageReadState`; `none` is `NULL`.  Modelled from the spec: the pull
`ndr_pull_MessageReadState` reads "(mid_blob_size:u16, mid_blob, flag:u8)" and fails when the
bytes run out. -/
def get_MessageReadState (bin : List Nat) : Option MessageReadState :=
  if bin.length = 0 then none
  else if 2 ≤ bin.length ∧ 2 + le_value (bin.take 2) + 1 ≤ bin.length then
    some { MessageIdSize := le_value (bin.take 2)
           MessageId := (bin.drop 2).take (le_value (bin.take 2))
           MarkAsRead := bin.getD (2 + le_value (bin.take 2)) 0 }
  else none

/-- The loop of `EcDoRpc_RopSyncImportReadStateChanges` (lines 2667-2704) over the bytes that
are left of the request: the messages whose read flag the store is asked to set, each with
whether it is marked as read.  The result of `get_MessageReadState` is used without a test, so
bytes that do not parse are undefined behaviour (`none`), and so is a message id of fewer than
16 bytes, from which a GUID of 16 bytes is read. -/
def import_read_states (store : sync_store) (bin_data : List Nat) : Option (List (Nat × Bool)) :=
  if _hcb : bin_data.length = 0 then some []
  else
    match get_MessageReadState bin_data with
    | none => none
    | some read_states =>
      let rest := bin_data.drop (read_states.MessageIdSize + 3)
      match GUID.of_bytes read_states.MessageId with
      | none => none
      | some guid =>
        match store.emsmdbp_guid_to_replid guid with
        | none => import_read_states store rest
        | some replid =>
          let mid := source_key_accumulate (read_states.MessageId.drop 16) 0 1
          let mid := (mid <<< 16) % 2 ^ 64
          let mid := mid ||| (replid % 2 ^ 16)
          if store.emsmdbp_object_message_open store.parent_folderID mid = MAPISTORE_SUCCESS then
            (import_read_states store rest).map
              (fun states => (mid, decide (read_states.MarkAsRead % 256 ≠ 0)) :: states)
          else import_read_states store rest
termination_by bin_data.length
decreasing_by
  all_goals
    simp_wf
    omega

/-- The handler `EcDoRpc_RopSyncImportReadStateChanges`.  `store.emsmdbp_is_mapistore` is
`emsmdbp_is_mapistore(folder_object)` for the folder of the synccontext; the third component
is what the store is asked to do. -/
def EcDoRpc_RopSyncImportReadStateChanges (store : sync_store) (handle : handle_lookup)
    (MessageReadStates : List Nat) :
    Option (MAPISTATUS × EcDoRpc_MAPI_REPL Unit × List (Nat × Bool)) :=
  match handle with
  | some (some (EMSMDBP_OBJECT_SYNCCONTEXT _)) =>
    if store.emsmdbp_is_mapistore then
      match import_read_states store MessageReadStates with
      | none => none
      | some states =>
        some (MAPI_E_SUCCESS, { error_code := MAPI_E_SUCCESS, u := none }, states)
    else some (MAPI_E_SUCCESS, { error_code := MAPI_E_SUCCESS, u := none }, [])
  | _ => some (MAPI_E_SUCCESS, { error_code := MAPI_E_INVALID_OBJECT, u := none }, [])

/-- The handler `EcDoRpc_RopSyncGetTransferState`.  `oxcfxics_ndr_push_transfer_state` walks
the store; it is a parameter that gives the bytes it pushes and the synccontext it leaves.
`ftcontext_init` is the object that `emsmdbp_object_ftcontext_init` makes.  The result holds
the object behind the handle after the call and the ftcontext behind the new handle. -/
def EcDoRpc_RopSyncGetTransferState
    (oxcfxics_ndr_push_transfer_state :
      emsmdbp_object_synccontext → List Nat × emsmdbp_object_synccontext)
    (ftcontext_init : emsmdbp_object_ftcontext) (handle : handle_lookup) :
    MAPISTATUS × EcDoRpc_MAPI_REPL Unit × handle_lookup × Option emsmdbp_object_ftcontext :=
  match handle with
  | some (some (EMSMDBP_OBJECT_SYNCCONTEXT synccontext)) =>
    let pushed := oxcfxics_ndr_push_transfer_state synccontext
    (MAPI_E_SUCCESS, { error_code := MAPI_E_SUCCESS, u := none },
      some (some (EMSMDBP_OBJECT_SYNCCONTEXT pushed.2)),
      some { ftcontext_init with
        stream := { ftcontext_init.stream with buffer := { data := some pushed.1 } }
        cutmarks := [0xffffffff] })
  | _ => (MAPI_E_SUCCESS, { error_code := MAPI_E_INVALID_OBJECT, u := none }, handle, none)

/-- The handler `EcDoRpc_RopSetLocalReplicaMidsetDeleted`, a stub: it does not look at the
handle, nor at the request. -/
def EcDoRpc_RopSetLocalReplicaMidsetDeleted (_handle : handle_lookup) :
    MAPISTATUS × EcDoRpc_MAPI_REPL Unit :=
  (MAPI_E_SUCCESS, { error_code := MAPI_E_SUCCESS, u := none })

/-- A complete property block of the stream, "`(tag[, named-prefix], value)`", by three
offsets: where the block begins, where its tag (with the name of a named property) ends and
its value begins, and where the block ends. -/
structure property_block where
  start : Nat
  tag_end : Nat
  block_end : Nat
deriving DecidableEq

/-- The complete property blocks that `oxcfxics_ndr_push_properties` pushes: one for every
entry whose status is `MAPI_E_SUCCESS` and whose tag is pushed (lines 172-195), from the tag to
the end of the value (lines 198-245).  The walk is the one of
`oxcfxics_ndr_push_properties`. -/
def property_blocks (get_nameid : Nat → Option MAPINAMEID) :
    ndr_push → List Nat → List prop_data → List MAPISTATUS → Option (List property_block)
  | _, [], _, _ => some []
  | _, _ :: _, _, [] => none
  | ndr, property :: properties, data_pointers, retval :: retvals =>
    if retval = MAPI_E_SUCCESS then
      match push_property_tag get_nameid ndr property with
      | none => property_blocks get_nameid ndr properties data_pointers.tail retvals
      | some none => none
      | some (some ndr1) =>
        match data_pointers with
        | [] => none
        | value :: data_pointers =>
          match push_property_value ndr1 property value with
          | none => none
          | some ndr2 =>
            match property_blocks get_nameid ndr2 properties data_pointers retvals with
            | none => none
            | some blocks =>
              some ({ start := ndr.offset, tag_end := ndr1.offset, block_end := ndr2.offset }
                :: blocks)
    else property_blocks get_nameid ndr properties data_pointers.tail retvals

/-! ## The stream of a synccontext (lines 435-1212)

The functions that materialize the stream of a synccontext on its first read.  They walk the
store backend and use the idset library, neither of which is part of the files at hand: what
the backend answers is gathered in records of which the functions below are functions, and a
folder is given by the rows that the walk reads from its tables.  `none` stands for an
`abort()` or for undefined behaviour (a read past an array, a read through a pointer that was
never set, a value that is not of the C type it is read as). -/

/-- The constant `oc_version_time` (line 33). -/
def oc_version_time : Nat := 0x4dbb2dbe

/-- Modelled from the spec: the marker `IncrSyncChg`, with its protocol value. -/
def PR_INCR_SYNC_CHG : Nat := 0x40120003
/-- Modelled from the spec: the marker `IncrSyncMsg`, with its protocol value. -/
def PR_INCR_SYNC_MSG : Nat := 0x40150003
/-- Modelled from the spec: the marker `IncrSyncDel`, with its protocol value. -/
def PR_INCR_SYNC_DEL : Nat := 0x40130003
/-- Modelled from the spec: the marker `IncrSyncEnd`, with its protocol value. -/
def PR_INCR_SYNC_END : Nat := 0x40140003
/-- Modelled from the spec: the marker `IncrSyncStateBegin`, with its protocol value. -/
def PR_INCR_SYNC_STATE_BEGIN : Nat := 0x403a0003
/-- Modelled from the spec: the marker `IncrSyncStateEnd`, with its protocol value. -/
def PR_INCR_SYNC_STATE_END : Nat := 0x403b0003
/-- Modelled from the spec: the marker `FXDelProp` (`PidTagFXDelProp`, `PR_FX_DEL_PROP`), with
its protocol value. -/
def PidTagFXDelProp : Nat := 0x40160003
/-- Modelled from the spec: the marker `StartRecip`, with its protocol value. -/
def PidTagStartRecip : Nat := 0x40030003
/-- Modelled from the spec: the marker `EndToRecip`, with its protocol value. -/
def PidTagEndToRecip : Nat := 0x40040003
/-- Modelled from the spec: the marker `NewAttach`, with its protocol value. -/
def PidTagNewAttach : Nat := 0x40000003
/-- Modelled from the spec: the marker `EndAttach`, with its protocol value. -/
def PR_END_ATTACH : Nat := 0x400e0003
/-- Modelled from the spec: the pseudo-property `IdsetDeleted`, with its protocol value. -/
def PidTagIdsetDeleted : Nat := 0x67e50102
/-- Modelled from the spec: the tag `PidTagAssociated`, another name of `PR_ASSOCIATED`. -/
def PidTagAssociated : Nat := 0x67aa000b
/-- Modelled from the spec: the tag `PR_MESSAGE_RECIPIENTS` ("MessageRecipients"). -/
def PR_MESSAGE_RECIPIENTS : Nat := 0x0e12000d
/-- Modelled from the spec: the tag `PR_MESSAGE_ATTACHMENTS`. -/
def PR_MESSAGE_ATTACHMENTS : Nat := 0x0e13000d
/-- Modelled from the spec: the tag `PR_ROWID` ("RowId"). -/
def PR_ROWID : Nat := 0x30000003
/-- Modelled from the spec: the tag `PR_ATTACH_NUM` ("AttachNum"). -/
def PR_ATTACH_NUM : Nat := 0x0e210003
/-- Modelled from the spec: the tag `PR_RECIPIENT_TYPE` ("RecipientType"). -/
def PR_RECIPIENT_TYPE : Nat := 0x0c150003
/-- Modelled from the spec: the tag `PR_ADDRTYPE_UNICODE` ("AddrTypeUnicode"). -/
def PR_ADDRTYPE_UNICODE : Nat := 0x3002001f
/-- Modelled from the spec: the tag `PR_EMAIL_ADDRESS_UNICODE` ("EmailAddressUnicode"). -/
def PR_EMAIL_ADDRESS_UNICODE : Nat := 0x3003001f
/-- Modelled from the spec: the tag `PR_SMTP_ADDRESS_UNICODE`. -/
def PR_SMTP_ADDRESS_UNICODE : Nat := 0x39fe001f
/-- Modelled from the spec: the tag `PR_7BIT_DISPLAY_NAME_UNICODE`. -/
def PR_7BIT_DISPLAY_NAME_UNICODE : Nat := 0x39ff001f
/-- Modelled from the spec: the tag `PR_RECIPIENT_DISPLAY_NAME_UNICODE`. -/
def PR_RECIPIENT_DISPLAY_NAME_UNICODE : Nat := 0x5ff6001f

/-- The `enum mapistore_table_type` values that `oxcfxics.c` passes to
`emsmdbp_folder_open_table`. -/
inductive mapistore_table_type where
  | MAPISTORE_FOLDER_TABLE
  | MAPISTORE_MESSAGE_TABLE
  | MAPISTORE_FAI_TABLE
deriving DecidableEq

/-- The `struct oxcfxics_prop_index` (lines 56-66). -/
structure oxcfxics_prop_index where
  parent_fid : Nat
  eid : Nat
  change_number : Nat
  change_key : Nat
  predecessor_change_list : Nat
  last_modification_time : Nat
  display_name : Nat
  associated : Nat
  message_size : Nat
deriving DecidableEq

/-- Modelled from the spec: a `struct rawidset`, the "unordered append-only buffer" of pairs
of a replica GUID and a globcnt. -/
abbrev rawidset := List (GUID × Nat)

/-- Modelled from the spec: `RAWIDSET_push_guid_glob`, "append to raw representation". -/
def RAWIDSET_push_guid_glob (set : rawidset) (guid : GUID) (globcnt : Nat) : rawidset :=
  set ++ [(guid, globcnt)]

/-- The `struct oxcfxics_sync_data` (lines 68-81).  `cutmarks_ndr` is the list of the
`uint32_t` values pushed on the cutmarks context; `table_type` is `none` as long as the zeroed
field has not been assigned. -/
structure oxcfxics_sync_data where
  replica_guid : GUID
  table_type : Option mapistore_table_type
  prop_index : oxcfxics_prop_index
  ndr : ndr_push
  cutmarks_ndr : List Nat
  eid_set : rawidset
  cnset_seen : rawidset
  cnset_read : rawidset
  deleted_eid_set : rawidset
deriving DecidableEq

/-- What the libraries and the database answer to the calls of the materialization:
the GUID that `openchangedb_get_MailboxReplica` writes, the registry of named properties, the
lookups `emsmdbp_replid_to_guid` and `emsmdbp_source_key_from_fmid` (`none` when they fail:
their status is not looked at, and what they should have written is read all the same),
`unix_to_nt_time`, the functions of the idset library, the bytes that `ndr_push_idset` pushes
for an idset, and the twenty tags of the static array `prop_tags` of line 510, whose values
come from a header that is not among the files at hand. -/
structure sync_backend where
  openchangedb_get_MailboxReplica : GUID
  mapistore_namedprops_get_nameid : Nat → Option MAPINAMEID
  emsmdbp_replid_to_guid : Nat → Option GUID
  emsmdbp_source_key_from_fmid : Nat → Option Binary_r
  unix_to_nt_time : Nat → Nat
  IDSET_includes_guid_glob : Option idset → GUID → Nat → Bool
  RAWIDSET_convert_to_idset : rawidset → Option idset
  IDSET_merge_idsets : Option idset → Option idset → Option idset
  IDSET_remove_rawidset : Option idset → rawidset → Option idset
  ndr_push_idset : Option idset → List Nat
  prop_tags : List Nat

/-- A row as `emsmdbp_object_table_get_row_props` returns it: the array of data pointers and
the array of statuses. -/
structure table_row where
  data_pointers : List prop_data
  retvals : List MAPISTATUS
deriving DecidableEq

/-- A `struct mapistore_message_recipient`: the type and the array `data`, an entry of which
is `NULL` (`none`) or points to a value. -/
structure mapistore_message_recipient where
  type : Nat
  data : List (Option prop_data)
deriving DecidableEq

/-- A `struct mapistore_message`: the columns and the recipients. -/
structure mapistore_message where
  columns : List Nat
  recipients : List mapistore_message_recipient
deriving DecidableEq

/-- What `emsmdbp_object_message_open` gives for a message: the `msg` it writes (`none` is
`NULL`), and the rows of the attachment table that
`emsmdbp_object_message_open_attachment_table` then opens on the message object (`none` is a
`NULL` table; a row that is `none` is a row for which
`emsmdbp_object_table_get_row_props` returns `NULL`). -/
structure opened_message where
  msg : Option mapistore_message
  attachment_table : Option (List (Option table_row))
deriving DecidableEq

/-- A table of messages as `emsmdbp_folder_open_table` and the loop of
`oxcfxics_push_messageChange` see it: whether it is a mapistore table, and the rows that the
backend counts and returns once the columns and the restriction are set (a row that is `none`
is one for which `emsmdbp_object_table_get_row_props` returns `NULL`). -/
structure contents_table where
  emsmdbp_is_mapistore : Bool
  rows : List (Option table_row)
deriving DecidableEq

/-- The folder of a contents synccontext (`synccontext_object->parent_object`), by what it
answers: the table of a type (`none` is `NULL`), the message of an id (`none` when
`emsmdbp_object_message_open` does not return `MAPISTORE_SUCCESS`), whether it is a mapistore
folder, and `mapistore_folder_get_deleted_fmids` for a table type and a change number (`none`
when it does not return 0, else the deleted ids and the change number it writes). -/
structure contents_folder where
  emsmdbp_folder_open_table : mapistore_table_type → Option contents_table
  emsmdbp_object_message_open : Nat → Option opened_message
  emsmdbp_is_mapistore : Bool
  mapistore_folder_get_deleted_fmids : mapistore_table_type → Nat → Option (List Nat × Nat)

/-- The folder of a hierarchy synccontext, by what the walk of `oxcfxics_push_folderChange`
reads of it: the rows of its hierarchy table, each with the folder that
`emsmdbp_object_open_folder` gives for it.  `rows_end` is a folder whose table is `NULL` or has
no further row; `row data subfolder rest` is a first row (`data` is `none` when
`emsmdbp_object_table_get_row_props` returns `NULL`), the subfolder opened for it, and the
rows that follow; `unset` is what the pointer `subfolder_object` holds when
`emsmdbp_object_open_folder` fails, its status not being checked (line 1121). -/
inductive hierarchy_folder where
  | unset : hierarchy_folder
  | rows_end : hierarchy_folder
  | row (data : Option table_row) (subfolder : hierarchy_folder) (rest : hierarchy_folder) :
      hierarchy_folder
deriving DecidableEq

/-- Modelled from the spec: `SPropTagArray_find` gives the index of the first entry of an
array of tags that is equal to a tag, and `MAPI_E_NOT_FOUND` (`none`), leaving the index as it
is, when there is none. -/
def SPropTagArray_find (properties : List Nat) (tag : Nat) : Option Nat :=
  if properties.indexOf tag < properties.length then some (properties.indexOf tag) else none

/-- The read `*(uint64_t *) data_pointers[i]`. -/
def read_uint64 (data_pointers : List prop_data) (i : Nat) : Option Nat :=
  match data_pointers[i]? with
  | some (.uint64 v) => some (v % 2 ^ 64)
  | _ => none

/-- The read of `data_pointers[i]` as a `struct Binary_r *` that is then dereferenced. -/
def read_Binary_r (data_pointers : List prop_data) (i : Nat) : Option Binary_r :=
  match data_pointers[i]? with
  | some (.Binary_r bin) => some bin
  | _ => none

/-- The test `if (retvals[i])`: whether the status at index `i` is not `MAPI_E_SUCCESS`. -/
def retval_set (retvals : List MAPISTATUS) (i : Nat) : Option Bool :=
  match retvals[i]? with
  | some retval => some (decide (retval ≠ MAPI_E_SUCCESS))
  | none => none

/-- The call `ndr_push_uint32(sync_data->ndr, NDR_SCALARS, v)`. -/
def sync_push_uint32 (sync_data : oxcfxics_sync_data) (v : Nat) : oxcfxics_sync_data :=
  { sync_data with ndr := ndr_push_uint32 sync_data.ndr v }

/-- The call `ndr_push_uint32(sync_data->cutmarks_ndr, NDR_SCALARS, sync_data->ndr->offset)`. -/
def sync_push_cutmark (sync_data : oxcfxics_sync_data) : oxcfxics_sync_data :=
  { sync_data with cutmarks_ndr := sync_data.cutmarks_ndr ++ [sync_data.ndr.offset] }

/-- A 32-bit value pushed on the stream, followed by a cutmark. -/
def sync_push_marker (sync_data : oxcfxics_sync_data) (v : Nat) : oxcfxics_sync_data :=
  sync_push_cutmark (sync_push_uint32 sync_data v)

/-- The call `oxcfxics_ndr_push_simple_data(sync_data->ndr, data_type, value)`. -/
def sync_push_simple_data (sync_data : oxcfxics_sync_data) (data_type : Nat)
    (value : prop_data) : Option oxcfxics_sync_data :=
  match oxcfxics_ndr_push_simple_data sync_data.ndr data_type value with
  | none => none
  | some ndr => some { sync_data with ndr := ndr }

/-- The call `oxcfxics_ndr_push_properties(sync_data->ndr, sync_data->cutmarks_ndr, ...)`. -/
def sync_push_properties (get_nameid : Nat → Option MAPINAMEID)
    (sync_data : oxcfxics_sync_data) (properties : List Nat) (data_pointers : List prop_data)
    (retvals : List MAPISTATUS) : Option oxcfxics_sync_data :=
  match oxcfxics_ndr_push_properties get_nameid sync_data.ndr sync_data.cutmarks_ndr
      properties data_pointers retvals with
  | none => none
  | some (ndr, cutmarks) => some { sync_data with ndr := ndr, cutmarks_ndr := cutmarks }

/-- The call `ndr_push_idset(sync_data->ndr, idset)`. -/
def sync_push_idset (backend : sync_backend) (sync_data : oxcfxics_sync_data)
    (set : Option idset) : oxcfxics_sync_data :=
  { sync_data with ndr := ndr_push_bytes sync_data.ndr (backend.ndr_push_idset set) }

/-! ### Recipients and attachments of a message -/

/-- Lines 450-454: the index of the display name among the columns of the recipients;
`none` is `(uint32_t) -1`. -/
def recipients_cn_idx (columns : List Nat) : Option Nat :=
  match SPropTagArray_find columns PR_DISPLAY_NAME_UNICODE with
  | some i => some i
  | none =>
    match SPropTagArray_find columns PR_7BIT_DISPLAY_NAME_UNICODE with
    | some i => some i
    | none => SPropTagArray_find columns PR_RECIPIENT_DISPLAY_NAME_UNICODE

/-- Lines 455-458: the index of the e-mail address among the columns of the recipients. -/
def recipients_email_idx (columns : List Nat) : Option Nat :=
  match SPropTagArray_find columns PR_EMAIL_ADDRESS_UNICODE with
  | some i => some i
  | none => SPropTagArray_find columns PR_SMTP_ADDRESS_UNICODE

/-- Lines 470-477: the address type and the e-mail address of a recipient. -/
def push_recipient_email (email_idx : Option Nat) (recipient : mapistore_message_recipient)
    (sync_data : oxcfxics_sync_data) : Option oxcfxics_sync_data :=
  match email_idx with
  | none => some sync_data
  | some idx =>
    match recipient.data[idx]? with
    | none => none
    | some none => some sync_data
    | some (some value) =>
      match sync_push_simple_data (sync_push_uint32 sync_data PR_ADDRTYPE_UNICODE) 0x1f
          (.string "SMTP") with
      | none => none
      | some sync_data =>
        match sync_push_simple_data
            (sync_push_uint32 (sync_push_cutmark sync_data) PR_EMAIL_ADDRESS_UNICODE) 0x1f
            value with
        | none => none
        | some sync_data => some (sync_push_cutmark sync_data)

/-- Lines 478-482: the display name of a recipient. -/
def push_recipient_display_name (cn_idx : Option Nat)
    (recipient : mapistore_message_recipient) (sync_data : oxcfxics_sync_data) :
    Option oxcfxics_sync_data :=
  match cn_idx with
  | none => some sync_data
  | some idx =>
    match recipient.data[idx]? with
    | none => none
    | some none => some sync_data
    | some (some value) =>
      match sync_push_simple_data (sync_push_uint32 sync_data PR_DISPLAY_NAME_UNICODE) 0x1f
          value with
      | none => none
      | some sync_data => some (sync_push_cutmark sync_data)

/-- Lines 488-495: the statuses of the columns of a recipient.  The value stored for a `NULL`
entry is the mapistore code `MAPISTORE_ERR_NOT_FOUND`, which is not zero; the encoder only
tests a status against `MAPI_E_SUCCESS`, and `MAPI_E_NOT_FOUND` stands for it here. -/
def recipient_retvals (data : List (Option prop_data)) : List MAPISTATUS :=
  data.map (fun d => if d.isSome then MAPI_E_SUCCESS else MAPI_E_NOT_FOUND)

/-- The array `recipient->data` as the array of data pointers that the encoder receives. -/
def recipient_data_pointers (data : List (Option prop_data)) : List prop_data :=
  data.map (fun d => d.getD prop_data.unread)

/-- The body of the loop over the recipients (lines 462-499) for the recipient of index `i`.
The loop of lines 488-495 reads one entry of `recipient->data` for every column. -/
def push_recipient (backend : sync_backend) (columns : List Nat)
    (email_idx cn_idx : Option Nat) (i : Nat) (recipient : mapistore_message_recipient)
    (sync_data : oxcfxics_sync_data) : Option oxcfxics_sync_data :=
  let sync_data := sync_push_marker sync_data PidTagStartRecip
  let sync_data := sync_push_cutmark (sync_push_uint32 (sync_push_uint32 sync_data PR_ROWID) i)
  match push_recipient_email email_idx recipient sync_data with
  | none => none
  | some sync_data =>
    match push_recipient_display_name cn_idx recipient sync_data with
    | none => none
    | some sync_data =>
      let sync_data := sync_push_cutmark
        (sync_push_uint32 (sync_push_uint32 sync_data PR_RECIPIENT_TYPE) recipient.type)
      if recipient.data.length < columns.length then none
      else
        match sync_push_properties backend.mapistore_namedprops_get_nameid sync_data columns
            (recipient_data_pointers (recipient.data.take columns.length))
            (recipient_retvals (recipient.data.take columns.length)) with
        | none => none
        | some sync_data => some (sync_push_marker sync_data PidTagEndToRecip)

/-- The loop over the recipients (lines 461-500), from the recipient of index `i` on. -/
def push_recipients (backend : sync_backend) (columns : List Nat)
    (email_idx cn_idx : Option Nat) :
    Nat → List mapistore_message_recipient → oxcfxics_sync_data → Option oxcfxics_sync_data
  | _, [], sync_data => some sync_data
  | i, recipient :: recipients, sync_data =>
    match push_recipient backend columns email_idx cn_idx i recipient sync_data with
    | none => none
    | some sync_data => push_recipients backend columns email_idx cn_idx (i + 1) recipients
        sync_data

/-- The function `oxcfxics_push_messageChange_recipients`. -/
def oxcfxics_push_messageChange_recipients (backend : sync_backend)
    (msg : Option mapistore_message) (sync_data : oxcfxics_sync_data) :
    Option oxcfxics_sync_data :=
  let sync_data := sync_push_cutmark
    (sync_push_uint32 (sync_push_uint32 sync_data PidTagFXDelProp) PR_MESSAGE_RECIPIENTS)
  match msg with
  | none => some sync_data
  | some msg =>
    push_recipients backend msg.columns (recipients_email_idx msg.columns)
      (recipients_cn_idx msg.columns) 0 msg.recipients sync_data

/-- The loop over the rows of the attachment table (lines 527-547), from the row of index `i`
on.  A row without data is the `abort()` of line 544. -/
def push_attachment_rows (backend : sync_backend) :
    Nat → List (Option table_row) → oxcfxics_sync_data → Option oxcfxics_sync_data
  | _, [], sync_data => some sync_data
  | _, none :: _, _ => none
  | i, some row :: rows, sync_data =>
    let sync_data := sync_push_marker sync_data PidTagNewAttach
    let sync_data :=
      sync_push_cutmark (sync_push_uint32 (sync_push_uint32 sync_data PR_ATTACH_NUM) i)
    match sync_push_properties backend.mapistore_namedprops_get_nameid sync_data
        backend.prop_tags row.data_pointers row.retvals with
    | none => none
    | some sync_data =>
      push_attachment_rows backend (i + 1) rows (sync_push_marker sync_data PR_END_ATTACH)

/-- The function `oxcfxics_push_messageChange_attachments`. -/
def oxcfxics_push_messageChange_attachments (backend : sync_backend)
    (attachment_table : Option (List (Option table_row))) (sync_data : oxcfxics_sync_data) :
    Option oxcfxics_sync_data :=
  let sync_data :=
    sync_push_uint32 (sync_push_uint32 sync_data PidTagFXDelProp) PR_MESSAGE_ATTACHMENTS
  match attachment_table with
  | none => some sync_data
  | some rows => push_attachment_rows backend 0 rows sync_data

/-! ### The rows of a contents table -/

/-- Lines 678-689 and 1029-1040: the last modification time of the header, the fixed time
`oc_version_time` when the row has none. -/
def header_last_modification_time (backend : sync_backend) (row : table_row) (index : Nat) :
    Option FILETIME :=
  match retval_set row.retvals index with
  | none => none
  | some true =>
    let nt_time := backend.unix_to_nt_time oc_version_time % 2 ^ 64
    some { dwLowDateTime := nt_time % 2 ^ 32, dwHighDateTime := nt_time / 2 ^ 32 }
  | some false =>
    match row.data_pointers[index]? with
    | some (.FILETIME t) => some t
    | _ => none

/-- Lines 723-726 and 1065-1068: the predecessor change list made of one change key. -/
def predecessors_of_change_key (bin_data : Binary_r) : Binary_r :=
  { cb := (bin_data.cb + 1) % 2 ^ 32
    lpb := (bin_data.cb % 256) :: bin_data.lpb.take bin_data.cb }

/-- Lines 706-772: the header entries of a message from the change key on, as pairs of a tag
and a data pointer.  `eid` and `cn` are the values read before. -/
def messageChange_header_rest (request : synccontext_request)
    (prop_index : oxcfxics_prop_index) (row : table_row) (eid cn : Nat) :
    Option (List (Nat × prop_data)) :=
  match retval_set row.retvals prop_index.change_key with
  | none => none
  | some true => none
  | some false =>
    match read_Binary_r row.data_pointers prop_index.change_key with
    | none => none
    | some change_key =>
      match retval_set row.retvals prop_index.predecessor_change_list with
      | none => none
      | some pcl_missing =>
        match (if pcl_missing then some (prop_data.Binary_r (predecessors_of_change_key change_key))
            else row.data_pointers[prop_index.predecessor_change_list]?) with
        | none => none
        | some predecessors =>
          match retval_set row.retvals prop_index.associated with
          | none => none
          | some associated_missing =>
            match (if associated_missing then some (prop_data.uint8 0)
                else row.data_pointers[prop_index.associated]?) with
            | none => none
            | some associated =>
              match (if request.request_message_size then
                  match row.data_pointers[prop_index.message_size]?,
                      retval_set row.retvals prop_index.parent_fid with
                  | some size, some missing =>
                    some [(PR_MESSAGE_SIZE, if missing then prop_data.uint32 0 else size)]
                  | _, _ => none
                else some []) with
              | none => none
              | some message_size =>
                some ([(PR_CHANGE_KEY, prop_data.Binary_r change_key),
                    (PR_PREDECESSOR_CHANGE_LIST, predecessors),
                    (PidTagAssociated, associated)] ++
                  (if request.request_eid then [(PR_MID, prop_data.uint64 eid)] else []) ++
                  message_size ++
                  (if request.request_cn then
                    [(PidTagChangeNumber,
                      prop_data.uint64 (((cn <<< 16) % 2 ^ 64) ||| (eid % 2 ^ 16)))]
                   else []))

/-- What lines 647-772 of `oxcfxics_push_messageChange` make of a row before anything is
pushed on the stream: the sync data with the ids recorded so far, and, when the row is to be
emitted, the message and the header entries. -/
def messageChange_header (backend : sync_backend) (folder : contents_folder)
    (request : synccontext_request) (original_cnset_seen : Option idset) (row : table_row)
    (sync_data : oxcfxics_sync_data) :
    Option (oxcfxics_sync_data × Option (opened_message × List (Nat × prop_data))) :=
  match read_uint64 row.data_pointers sync_data.prop_index.eid with
  | none => none
  | some eid =>
    if eid = 0x7fffffffffffffff then some (sync_data, none)
    else
      match folder.emsmdbp_object_message_open eid with
      | none => some (sync_data, none)
      | some message =>
        match backend.emsmdbp_replid_to_guid (eid % 2 ^ 16) with
        | none => none
        | some replica_guid =>
          let sync_data : oxcfxics_sync_data :=
            { sync_data with
              eid_set := RAWIDSET_push_guid_glob sync_data.eid_set replica_guid (eid / 2 ^ 16) }
          match backend.emsmdbp_source_key_from_fmid eid with
          | none => none
          | some source_key =>
            match header_last_modification_time backend row
                sync_data.prop_index.last_modification_time with
            | none => none
            | some lm_time =>
              match retval_set row.retvals sync_data.prop_index.change_number with
              | none => none
              | some true => none
              | some false =>
                match read_uint64 row.data_pointers sync_data.prop_index.change_number with
                | none => none
                | some change_number =>
                  let cn := change_number / 2 ^ 16
                  if backend.IDSET_includes_guid_glob original_cnset_seen
                      sync_data.replica_guid cn then some (sync_data, none)
                  else
                    let sync_data : oxcfxics_sync_data :=
                      { sync_data with
                        cnset_seen :=
                          RAWIDSET_push_guid_glob sync_data.cnset_seen sync_data.replica_guid
                            cn }
                    match messageChange_header_rest request sync_data.prop_index row eid
                        cn with
                    | none => none
                    | some rest =>
                      some (sync_data,
                        some (message,
                          [(PR_SOURCE_KEY, prop_data.Binary_r source_key),
                            (PR_LAST_MODIFICATION_TIME, prop_data.FILETIME lm_time)] ++ rest))

/-- Lines 783-787: the properties of a message that follow the marker `IncrSyncMsg`. -/
def messageChange_remaining (backend : sync_backend) (properties : List Nat) (row : table_row)
    (sync_data : oxcfxics_sync_data) : Option oxcfxics_sync_data :=
  if properties.length > 9 then
    sync_push_properties backend.mapistore_namedprops_get_nameid sync_data (properties.drop 9)
      (row.data_pointers.drop 9) (row.retvals.drop 9)
  else some sync_data

/-- Lines 776-795: what is pushed for a message that is emitted.  The statuses of the header
are the nine zeroes of line 650. -/
def messageChange_push (backend : sync_backend) (properties : List Nat) (row : table_row)
    (message : opened_message) (header : List (Nat × prop_data))
    (sync_data : oxcfxics_sync_data) : Option oxcfxics_sync_data :=
  match sync_push_properties backend.mapistore_namedprops_get_nameid
      (sync_push_marker sync_data PR_INCR_SYNC_CHG) (header.map (fun e => e.1))
      (header.map (fun e => e.2)) (List.replicate 9 MAPI_E_SUCCESS) with
  | none => none
  | some sync_data =>
    match messageChange_remaining backend properties row
        (sync_push_marker sync_data PR_INCR_SYNC_MSG) with
    | none => none
    | some sync_data =>
      match oxcfxics_push_messageChange_recipients backend message.msg sync_data with
      | none => none
      | some sync_data =>
        oxcfxics_push_messageChange_attachments backend message.attachment_table sync_data

/-- The body of the loop of `oxcfxics_push_messageChange` (lines 642-799) for a row that has
data. -/
def messageChange_row (backend : sync_backend) (folder : contents_folder)
    (request : synccontext_request) (original_cnset_seen : Option idset)
    (properties : List Nat) (row : table_row) (sync_data : oxcfxics_sync_data) :
    Option oxcfxics_sync_data :=
  match messageChange_header backend folder request original_cnset_seen row sync_data with
  | none => none
  | some (sync_data, none) => some sync_data
  | some (sync_data, some (message, header)) =>
    messageChange_push backend properties row message header sync_data

/-- The loop of `oxcfxics_push_messageChange` (lines 641-804). -/
def messageChange_rows (backend : sync_backend) (folder : contents_folder)
    (request : synccontext_request) (original_cnset_seen : Option idset)
    (properties : List Nat) :
    List (Option table_row) → oxcfxics_sync_data → Option oxcfxics_sync_data
  | [], sync_data => some sync_data
  | none :: rows, sync_data =>
    messageChange_rows backend folder request original_cnset_seen properties rows sync_data
  | some row :: rows, sync_data =>
    match messageChange_row backend folder request original_cnset_seen properties row
        sync_data with
    | none => none
    | some sync_data =>
      messageChange_rows backend folder request original_cnset_seen properties rows sync_data

/-- Lines 807-812: the change number from which the deleted messages are asked for. -/
def deleted_since_cn (original_cnset_seen : Option idset) : Nat :=
  match original_cnset_seen with
  | some set =>
    match set.head.ranges with
    | range :: _ => ((range.2 <<< 16) % 2 ^ 64) ||| 0x0001
    | [] => 0
  | none => 0

/-- Lines 806-821: the deleted messages of a mapistore folder. -/
def messageChange_deleted (folder : contents_folder) (table_type : mapistore_table_type)
    (original_cnset_seen : Option idset) (sync_data : oxcfxics_sync_data) :
    oxcfxics_sync_data :=
  if folder.emsmdbp_is_mapistore then
    match folder.mapistore_folder_get_deleted_fmids table_type
        (deleted_since_cn original_cnset_seen) with
    | none => sync_data
    | some (deleted_eids, cn) =>
      let sync_data : oxcfxics_sync_data :=
        { sync_data with
          deleted_eid_set :=
            deleted_eids.foldl
              (fun set eid =>
                RAWIDSET_push_guid_glob set sync_data.replica_guid ((eid % 2 ^ 64) / 2 ^ 16))
              sync_data.deleted_eid_set }
      if deleted_eids.length > 0 then
        { sync_data with
          cnset_seen :=
            RAWIDSET_push_guid_glob sync_data.cnset_seen sync_data.replica_guid
              ((cn % 2 ^ 64) / 2 ^ 16) }
      else sync_data
  else sync_data

/-- The function `oxcfxics_push_messageChange`.  A table that cannot be opened is the
`abort()` of line 616; a table that is not a mapistore table has its row count set to 0
(line 638). -/
def oxcfxics_push_messageChange (backend : sync_backend) (folder : contents_folder)
    (synccontext : emsmdbp_object_synccontext) (sync_data : oxcfxics_sync_data) :
    Option oxcfxics_sync_data :=
  match sync_data.table_type with
  | none => none
  | some table_type =>
    match folder.emsmdbp_folder_open_table table_type with
    | none => none
    | some table_object =>
      let original_cnset_seen :=
        if table_type = .MAPISTORE_FAI_TABLE then synccontext.cnset_seen_fai
        else synccontext.cnset_seen
      let properties :=
        if table_type = .MAPISTORE_FAI_TABLE then synccontext.fai_properties
        else synccontext.properties
      match messageChange_rows backend folder synccontext.request original_cnset_seen
          properties (if table_object.emsmdbp_is_mapistore then table_object.rows else [])
          sync_data with
      | none => none
      | some sync_data =>
        some (messageChange_deleted folder table_type original_cnset_seen sync_data)

/-- Lines 857-885 of `oxcfxics_prepare_synccontext_with_messageChange`: the messages of one
table type are pushed and the change numbers collected are merged into the set of the
synccontext. -/
def prepare_messageChange_table (backend : sync_backend) (folder : contents_folder)
    (table_type : mapistore_table_type) (synccontext : emsmdbp_object_synccontext)
    (sync_data : oxcfxics_sync_data) :
    Option (emsmdbp_object_synccontext × oxcfxics_sync_data) :=
  match oxcfxics_push_messageChange backend folder synccontext
      { sync_data with cnset_seen := [], table_type := some table_type } with
  | none => none
  | some sync_data =>
    let new_idset := backend.RAWIDSET_convert_to_idset sync_data.cnset_seen
    if table_type = .MAPISTORE_FAI_TABLE then
      some ({ synccontext with
              cnset_seen_fai :=
                backend.IDSET_merge_idsets synccontext.cnset_seen_fai new_idset },
        sync_data)
    else
      some ({ synccontext with
              cnset_seen := backend.IDSET_merge_idsets synccontext.cnset_seen new_idset },
        sync_data)

/-- Lines 887-902: the deletions.  `RAWIDSET_convert_to_idset` returning `NULL` makes line 892
write through a null pointer. -/
def prepare_messageChange_deletions (backend : sync_backend)
    (synccontext : emsmdbp_object_synccontext) (sync_data : oxcfxics_sync_data) :
    Option (emsmdbp_object_synccontext × oxcfxics_sync_data) :=
  if sync_data.deleted_eid_set.length > 0 ∧ ¬ synccontext.request.no_deletions then
    match backend.RAWIDSET_convert_to_idset sync_data.deleted_eid_set with
    | none => none
    | some new_idset =>
      let new_idset : idset :=
        { new_idset with head := { new_idset.head with idbased := true, repl_id := 1 } }
      some ({ synccontext with
              idset_given :=
                backend.IDSET_remove_rawidset synccontext.idset_given
                  sync_data.deleted_eid_set },
        sync_push_cutmark
          (sync_push_idset backend
            (sync_push_marker (sync_push_marker sync_data PR_INCR_SYNC_DEL) PidTagIdsetDeleted)
            (some new_idset)))
  else some (synccontext, sync_data)

/-- Lines 904-949: the state, the end of the stream, and the stream and the cutmarks given to
the synccontext. -/
def prepare_messageChange_state (backend : sync_backend)
    (synccontext : emsmdbp_object_synccontext) (sync_data : oxcfxics_sync_data) :
    emsmdbp_object_synccontext :=
  let sync_data := sync_push_marker sync_data PR_INCR_SYNC_STATE_BEGIN
  let synccontext : emsmdbp_object_synccontext :=
    { synccontext with
      idset_given :=
        backend.IDSET_merge_idsets synccontext.idset_given
          (backend.RAWIDSET_convert_to_idset sync_data.eid_set) }
  let sync_data := sync_push_cutmark
    (sync_push_idset backend (sync_push_marker sync_data PidTagCnsetSeen)
      synccontext.cnset_seen)
  let sync_data :=
    if synccontext.request.fai then
      sync_push_cutmark
        (sync_push_idset backend (sync_push_marker sync_data PidTagCnsetSeenFAI)
          synccontext.cnset_seen_fai)
    else sync_data
  let sync_data :=
    sync_push_idset backend (sync_push_uint32 sync_data PidTagIdsetGiven)
      synccontext.idset_given
  let sync_data :=
    if synccontext.request.read_state then
      sync_push_idset backend (sync_push_uint32 sync_data PidTagCnsetRead)
        synccontext.cnset_read
    else sync_data
  let sync_data := sync_push_marker sync_data PR_INCR_SYNC_STATE_END
  let sync_data := sync_push_marker sync_data PR_INCR_SYNC_END
  { synccontext with
    cutmarks := sync_data.cutmarks_ndr ++ [0xffffffff]
    stream := { synccontext.stream with buffer := { data := some sync_data.ndr.data } } }

/-- The index that `SPropTagArray_find` leaves in a field of the zeroed `prop_index`. -/
def prop_index_of (properties : List Nat) (tag : Nat) : Nat :=
  (SPropTagArray_find properties tag).getD 0

/-- Lines 838-855: the sync data at the start of
`oxcfxics_prepare_synccontext_with_messageChange`. -/
def messageChange_sync_data (backend : sync_backend)
    (synccontext : emsmdbp_object_synccontext) : oxcfxics_sync_data :=
  { replica_guid := backend.openchangedb_get_MailboxReplica
    table_type := none
    prop_index :=
      { parent_fid := 0
        eid := prop_index_of synccontext.properties PR_MID
        change_number := prop_index_of synccontext.properties PidTagChangeNumber
        change_key := prop_index_of synccontext.properties PR_CHANGE_KEY
        predecessor_change_list :=
          prop_index_of synccontext.properties PR_PREDECESSOR_CHANGE_LIST
        last_modification_time := prop_index_of synccontext.properties PR_LAST_MODIFICATION_TIME
        display_name := 0
        associated := prop_index_of synccontext.properties PR_ASSOCIATED
        message_size := prop_index_of synccontext.properties PR_MESSAGE_SIZE }
    ndr := ndr_push_init_ctx
    cutmarks_ndr := []
    eid_set := []
    cnset_seen := []
    cnset_read := []
    deleted_eid_set := [] }

/-- The function `oxcfxics_prepare_synccontext_with_messageChange`: the synccontext with its
stream, its cutmarks and its new sets. -/
def oxcfxics_prepare_synccontext_with_messageChange (backend : sync_backend)
    (folder : contents_folder) (synccontext : emsmdbp_object_synccontext) :
    Option emsmdbp_object_synccontext :=
  match (if synccontext.request.normal then
      prepare_messageChange_table backend folder .MAPISTORE_MESSAGE_TABLE synccontext
        (messageChange_sync_data backend synccontext)
    else some (synccontext, messageChange_sync_data backend synccontext)) with
  | none => none
  | some (synccontext, sync_data) =>
    match (if synccontext.request.fai then
        prepare_messageChange_table backend folder .MAPISTORE_FAI_TABLE synccontext sync_data
      else some (synccontext, sync_data)) with
    | none => none
    | some (synccontext, sync_data) =>
      match prepare_messageChange_deletions backend synccontext sync_data with
      | none => none
      | some (synccontext, sync_data) =>
        some (prepare_messageChange_state backend synccontext sync_data)

/-! ### The rows of a hierarchy table -/

/-- Lines 1058-1101: the header entries of a folder from the change key on. -/
def folderChange_header_rest (request : synccontext_request)
    (prop_index : oxcfxics_prop_index) (replica_guid : GUID) (row : table_row) (cn : Nat) :
    Option (List (Nat × prop_data)) :=
  match oxcfxics_make_gid replica_guid cn with
  | none => none
  | some change_key =>
    match retval_set row.retvals prop_index.display_name with
    | none => none
    | some name_missing =>
      match (if name_missing then some (prop_data.string "")
          else row.data_pointers[prop_index.display_name]?) with
      | none => none
      | some display_name =>
        match (if request.request_eid then
            (row.data_pointers[prop_index.eid]?).map (fun fid => [(PR_FID, fid)])
          else some []) with
        | none => none
        | some fid =>
          match (if request.no_foreign_identifiers then
              match row.data_pointers[prop_index.parent_fid]?,
                  retval_set row.retvals prop_index.parent_fid with
              | some parent_fid, some missing =>
                some [(PR_PARENT_FID, if missing then prop_data.uint64 0 else parent_fid)]
              | _, _ => none
            else some []) with
          | none => none
          | some parent_fid =>
            some ([(PR_CHANGE_KEY, prop_data.Binary_r change_key),
                (PR_PREDECESSOR_CHANGE_LIST,
                  prop_data.Binary_r (predecessors_of_change_key change_key)),
                (PR_DISPLAY_NAME_UNICODE, display_name)] ++ fid ++ parent_fid)

/-- What lines 991-1101 of `oxcfxics_push_folderChange` make of a row before anything is
pushed on the stream.  The outer `none` is an `abort()` or undefined behaviour; `some none` is
the `continue` of line 1017; otherwise the sync data with the ids recorded, and the header
entries when the row is to be emitted (none after the `goto end_row` of line 1054). -/
def folderChange_header (backend : sync_backend) (synccontext : emsmdbp_object_synccontext)
    (topmost : Bool) (row : table_row) (sync_data : oxcfxics_sync_data) :
    Option (Option (oxcfxics_sync_data × Option (List (Nat × prop_data)))) :=
  match (if topmost then some ({ cb := 0, lpb := [] } : Binary_r)
      else
        match read_uint64 row.data_pointers sync_data.prop_index.parent_fid with
        | none => none
        | some parent_fid => backend.emsmdbp_source_key_from_fmid parent_fid) with
  | none => none
  | some parent_source_key =>
    match read_uint64 row.data_pointers sync_data.prop_index.eid with
    | none => none
    | some eid =>
      if eid = 0x7fffffffffffffff then some none
      else
        match backend.emsmdbp_replid_to_guid (eid % 2 ^ 16) with
        | none => none
        | some replica_guid =>
          let sync_data : oxcfxics_sync_data :=
            { sync_data with
              eid_set := RAWIDSET_push_guid_glob sync_data.eid_set replica_guid (eid / 2 ^ 16) }
          match backend.emsmdbp_source_key_from_fmid eid with
          | none => none
          | some source_key =>
            match header_last_modification_time backend row
                sync_data.prop_index.last_modification_time with
            | none => none
            | some lm_time =>
              match retval_set row.retvals sync_data.prop_index.change_number with
              | none => none
              | some true => none
              | some false =>
                match read_uint64 row.data_pointers sync_data.prop_index.change_number with
                | none => none
                | some change_number =>
                  let cn := change_number / 2 ^ 16
                  if backend.IDSET_includes_guid_glob synccontext.cnset_seen
                      sync_data.replica_guid cn then some (some (sync_data, none))
                  else
                    let sync_data : oxcfxics_sync_data :=
                      { sync_data with
                        cnset_seen :=
                          RAWIDSET_push_guid_glob sync_data.cnset_seen sync_data.replica_guid
                            cn }
                    match folderChange_header_rest synccontext.request sync_data.prop_index
                        sync_data.replica_guid row cn with
                    | none => none
                    | some rest =>
                      some (some (sync_data,
                        some ([(PR_PARENT_SOURCE_KEY, prop_data.Binary_r parent_source_key),
                            (PR_SOURCE_KEY, prop_data.Binary_r source_key),
                            (PR_LAST_MODIFICATION_TIME, prop_data.FILETIME lm_time)] ++ rest)))

/-- Lines 1110-1114: the properties of a folder that follow the header. -/
def folderChange_remaining (backend : sync_backend) (properties : List Nat) (row : table_row)
    (sync_data : oxcfxics_sync_data) : Option oxcfxics_sync_data :=
  if properties.length > 5 then
    sync_push_properties backend.mapistore_namedprops_get_nameid sync_data (properties.drop 5)
      (row.data_pointers.drop 5) (row.retvals.drop 5)
  else some sync_data

/-- Lines 1105-1114: what is pushed for a folder that is emitted.  The statuses of the header
are the eight zeroes of line 994. -/
def folderChange_push (backend : sync_backend) (properties : List Nat) (row : table_row)
    (header : List (Nat × prop_data)) (sync_data : oxcfxics_sync_data) :
    Option oxcfxics_sync_data :=
  match sync_push_properties backend.mapistore_namedprops_get_nameid
      (sync_push_marker sync_data PR_INCR_SYNC_CHG) (header.map (fun e => e.1))
      (header.map (fun e => e.2)) (List.replicate 8 MAPI_E_SUCCESS) with
  | none => none
  | some sync_data => folderChange_remaining backend properties row sync_data

/-- The body of the loop of `oxcfxics_push_folderChange` (lines 989-1119) for a row that has
data, up to the label `end_row`: the sync data, and whether the subfolder of the row is then
walked (it is not after the `continue` of line 1017). -/
def folderChange_row (backend : sync_backend) (synccontext : emsmdbp_object_synccontext)
    (topmost : Bool) (row : table_row) (sync_data : oxcfxics_sync_data) :
    Option (oxcfxics_sync_data × Bool) :=
  match folderChange_header backend synccontext topmost row sync_data with
  | none => none
  | some none => some (sync_data, false)
  | some (some (sync_data, none)) => some (sync_data, true)
  | some (some (sync_data, some header)) =>
    match folderChange_push backend synccontext.properties row header sync_data with
    | none => none
    | some sync_data => some (sync_data, true)

/-- The function `oxcfxics_push_folderChange`.  `topmost` is the test
`folder_object == topmost_folder_object`: it holds of the first call and of no call on a
subfolder. -/
def oxcfxics_push_folderChange (backend : sync_backend)
    (synccontext : emsmdbp_object_synccontext) :
    Bool → hierarchy_folder → oxcfxics_sync_data → Option oxcfxics_sync_data
  | _, .unset, _ => none
  | _, .rows_end, sync_data => some sync_data
  | topmost, .row none _ rest, sync_data =>
    oxcfxics_push_folderChange backend synccontext topmost rest sync_data
  | topmost, .row (some row) subfolder rest, sync_data =>
    match folderChange_row backend synccontext topmost row sync_data with
    | none => none
    | some (sync_data, false) =>
      oxcfxics_push_folderChange backend synccontext topmost rest sync_data
    | some (sync_data, true) =>
      match oxcfxics_push_folderChange backend synccontext false subfolder sync_data with
      | none => none
      | some sync_data =>
        oxcfxics_push_folderChange backend synccontext topmost rest sync_data

/-- Lines 1146-1161: the sync data at the start of
`oxcfxics_prepare_synccontext_with_folderChange`. -/
def folderChange_sync_data (backend : sync_backend)
    (synccontext : emsmdbp_object_synccontext) : oxcfxics_sync_data :=
  { replica_guid := backend.openchangedb_get_MailboxReplica
    table_type := none
    prop_index :=
      { parent_fid := prop_index_of synccontext.properties PR_PARENT_FID
        eid := prop_index_of synccontext.properties PR_FID
        change_number := prop_index_of synccontext.properties PidTagChangeNumber
        change_key := 0
        predecessor_change_list :=
          prop_index_of synccontext.properties PR_PREDECESSOR_CHANGE_LIST
        last_modification_time := prop_index_of synccontext.properties PR_LAST_MODIFICATION_TIME
        display_name := prop_index_of synccontext.properties PR_DISPLAY_NAME_UNICODE
        associated := 0
        message_size := 0 }
    ndr := ndr_push_init_ctx
    cutmarks_ndr := []
    eid_set := []
    cnset_seen := []
    cnset_read := []
    deleted_eid_set := [] }

/-- Lines 1167-1209: the state, the end of the stream, and the stream and the cutmarks given
to the synccontext. -/
def prepare_folderChange_state (backend : sync_backend)
    (synccontext : emsmdbp_object_synccontext) (sync_data : oxcfxics_sync_data) :
    emsmdbp_object_synccontext :=
  let sync_data := sync_push_uint32 sync_data PR_INCR_SYNC_STATE_BEGIN
  let synccontext : emsmdbp_object_synccontext :=
    { synccontext with
      cnset_seen :=
        backend.IDSET_merge_idsets synccontext.cnset_seen
          (backend.RAWIDSET_convert_to_idset sync_data.cnset_seen) }
  let sync_data := sync_push_cutmark
    (sync_push_idset backend (sync_push_marker sync_data PidTagCnsetSeen)
      synccontext.cnset_seen)
  let synccontext : emsmdbp_object_synccontext :=
    { synccontext with
      idset_given :=
        backend.IDSET_merge_idsets synccontext.idset_given
          (backend.RAWIDSET_convert_to_idset sync_data.eid_set) }
  let sync_data := sync_push_cutmark
    (sync_push_idset backend (sync_push_marker sync_data PidTagIdsetGiven)
      synccontext.idset_given)
  let sync_data := sync_push_marker sync_data PR_INCR_SYNC_STATE_END
  let sync_data := sync_push_marker sync_data PR_INCR_SYNC_END
  { synccontext with
    cutmarks := sync_data.cutmarks_ndr ++ [0xffffffff]
    stream := { synccontext.stream with buffer := { data := some sync_data.ndr.data } } }

/-- The function `oxcfxics_prepare_synccontext_with_folderChange`; the folder is
`synccontext_object->parent_object`. -/
def oxcfxics_prepare_synccontext_with_folderChange (backend : sync_backend)
    (folder : hierarchy_folder) (synccontext : emsmdbp_object_synccontext) :
    Option emsmdbp_object_synccontext :=
  match oxcfxics_push_folderChange backend synccontext true folder
      (folderChange_sync_data backend synccontext) with
  | none => none
  | some sync_data => some (prepare_folderChange_state backend synccontext sync_data)

/-- The cutmarks recorded so far do not decrease and none lies beyond the offset of the
stream. -/
def cutmarks_in_order (sync_data : oxcfxics_sync_data) : Prop :=
  sync_data.cutmarks_ndr.Pairwise (fun a b => a ≤ b) ∧
  ∀ m ∈ sync_data.cutmarks_ndr, m ≤ sync_data.ndr.offset

/-! ## Sample data -/

/-- A stream of 20 bytes: the tag `0x65e20102` (a `PT_BINARY` property), the length 12 and
twelve bytes of value. -/
def sample_stream : List Nat :=
  [0x02, 0x01, 0xe2, 0x65, 12, 0, 0, 0, 1, 2, 3, 4, 5, 6, 7, 8, 9, 10, 11, 12]

/-- The cutmarks of `sample_stream`: after the tag, after the value, and the terminator. -/
def sample_cutmarks : List Nat := [4, 20, 0xffffffff]

/-- An ftcontext on `sample_stream` at the given position and cutmark pointer. -/
def sample_ftcontext (position next_cutmark_ptr : Nat) : emsmdbp_object_ftcontext :=
  { stream := { position := position, buffer := { data := some sample_stream } }
    cutmarks := sample_cutmarks
    next_cutmark_ptr := next_cutmark_ptr
    steps := 0
    total_steps := 0 }

/-- A request for at most `n` bytes. -/
def sample_request (n : Nat) : FastTransferSourceGetBuffer_req :=
  { BufferSize := n, MaximumBufferSize := 0 }

/-- The GUID whose octets are all zero. -/
def sample_guid : GUID := { octets := fun _ => 0 }

/-- An id set with the one range `[1, 5]` for `sample_guid`. -/
def sample_idset : idset :=
  { head := { idbased := false, repl_id := 0, repl_guid := sample_guid, single := false,
              ranges := [(1, 5)] }
    next := [] }

/-- An id set with the one range `[7, 9]` for `sample_guid`. -/
def sample_idset2 : idset :=
  { head := { idbased := false, repl_id := 0, repl_guid := sample_guid, single := false,
              ranges := [(7, 9)] }
    next := [] }

/-- A contents synccontext (normal messages only) that holds `sample_idset` as each of its
four stored sets, with the given upload state. -/
def sample_synccontext (state_property : Nat) (staged : List Nat) : emsmdbp_object_synccontext :=
  { request :=
      { contents_mode := true, unicode := true, use_cpid := false, recover_mode := false,
        force_unicode := false, partial_item := false, no_deletions := false,
        no_soft_deletions := false, ignore_no_longer_in_scope := false, read_state := false,
        fai := false, normal := true, no_foreign_identifiers := false, best_body := false,
        ignored_specified_on_fai := false, progress := false, request_eid := false,
        request_message_size := false, request_cn := false, order_by_delivery_time := false }
    is_collector := false
    properties := []
    fai_properties := []
    idset_given := some sample_idset
    cnset_seen := some sample_idset
    cnset_seen_fai := some sample_idset
    cnset_read := some sample_idset
    state_property := state_property
    state_stream := { position := staged.length, buffer := { data := some staged } }
    stream := { position := 0, buffer := { data := none } }
    cutmarks := []
    next_cutmark_ptr := 0
    steps := 0
    total_steps := 0 }

/-- A source key of 22 bytes: the all-zero GUID and the bytes of the global counter
`0x010203040506`, least significant first. -/
def sample_source_key : Binary_r :=
  { cb := 22, lpb := [0, 0, 0, 0, 0, 0, 0, 0, 0, 0, 0, 0, 0, 0, 0, 0, 6, 5, 4, 3, 2, 1] }

/-- A store that maps every GUID to the replica id 1, opens every message and every folder,
and sets properties without error. -/
def sample_store : sync_store :=
  { emsmdbp_is_mapistore := true
    parent_folderID := 0x10001
    emsmdbp_guid_to_replid := fun _ => some 1
    emsmdbp_object_message_open := fun _ _ => MAPISTORE_SUCCESS
    mapistore_folder_create_message := fun _ _ => MAPISTORE_SUCCESS
    emsmdbp_object_open_folder := fun _ _ => MAPISTORE_SUCCESS
    openchangedb_get_new_changeNumber := some 1
    emsmdbp_object_create_folder := fun _ _ _ => MAPI_E_SUCCESS
    emsmdbp_object_set_properties := fun _ _ => MAPI_E_SUCCESS }

/-- The tag `PR_SUBJECT` as a `PT_STRING8` property (`0x0037001e`). -/
def sample_string8_tag : Nat := 0x0037001e

/-- The tag `PR_BODY_UNICODE`, a `PT_UNICODE` property (`0x1000001f`). -/
def sample_unicode_tag : Nat := 0x1000001f

/-- A named property of type `PT_LONG` with the id `0x8001`. -/
def sample_named_tag : Nat := 0x80010003

/-- A registry of named properties that knows the id `0x8001` by the name "ab" and the id
`0x8002` by the number `0x8501`, both in the property set `sample_guid`. -/
def sample_get_nameid (propID : Nat) : Option MAPINAMEID :=
  if propID = 0x8001 then
    some { ulKind := MNID_STRING, lpguid := sample_guid, lid := 0, Name := "ab" }
  else if propID = 0x8002 then
    some { ulKind := MNID_ID, lpguid := sample_guid, lid := 0x8501, Name := "" }
  else none

/-- The tag `PR_SUBJECT_UNICODE` (`0x0037001f`). -/
def sample_subject_tag : Nat := 0x0037001f

/-- A folder whose message table lists the subject, the two body tags of "best body" and the
subject once more as a `PT_STRING8` property, whose FAI table lists the subject and the tag
`0x7c070102`, and whose folder table lists the tag `0x36010003`. -/
def sample_tables : folder_tables :=
  { MAPISTORE_MESSAGE_TABLE :=
      some (some [sample_subject_tag, PR_BODY_UNICODE, PR_BODY_HTML, sample_string8_tag])
    MAPISTORE_FAI_TABLE := some (some [sample_subject_tag, 0x7c070102])
    MAPISTORE_FOLDER_TABLE := some (some [0x36010003]) }

/-- A folder whose message table lists the subject only. -/
def sample_tables_no_body : folder_tables :=
  { MAPISTORE_MESSAGE_TABLE := some (some [sample_subject_tag])
    MAPISTORE_FAI_TABLE := some (some [])
    MAPISTORE_FOLDER_TABLE := some (some []) }

/-- A contents request with the send option `Unicode`, the given synchronization flags and the
given tags. -/
def sample_configure_request (SynchronizationFlag : Nat) (PropertyTags : List Nat) :
    SyncConfigure_req :=
  { SynchronizationType := Contents
    SendOptions := FastTransfer_Unicode
    SynchronizationFlag := SynchronizationFlag
    SynchronizationExtraFlags := 0
    PropertyTags := PropertyTags }

/-- A handle that resolves to a folder. -/
def sample_folder_handle : handle_lookup :=
  some (some (EMSMDBP_OBJECT_OTHER EMSMDBP_OBJECT_FOLDER))

/-- The sample store, except that setting properties fails. -/
def sample_store_failing : sync_store :=
  { sample_store with emsmdbp_object_set_properties := fun _ _ => MAPI_E_NO_SUPPORT }

/-- A handle that resolves to the sample synccontext. -/
def sample_synccontext_handle : handle_lookup :=
  some (some (EMSMDBP_OBJECT_SYNCCONTEXT (sample_synccontext 0 [])))

/-- A message change: the source key of the message and its subject. -/
def sample_message_change : SyncImportMessageChange_req :=
  { ImportFlag := 0
    PropertyValues :=
      [{ ulPropTag := PR_SOURCE_KEY, value := .Binary_r sample_source_key },
       { ulPropTag := sample_subject_tag, value := .string "subject" }] }

/-- A folder change: the source keys of the parent folder and of the folder, and a display
name. -/
def sample_hierarchy_change : SyncImportHierarchyChange_req :=
  { HierarchyValues :=
      [{ ulPropTag := PR_PARENT_SOURCE_KEY, value := .Binary_r sample_source_key },
       { ulPropTag := PR_SOURCE_KEY, value := .Binary_r sample_source_key }]
    PropertyValues := [{ ulPropTag := PR_DISPLAY_NAME_UNICODE, value := .string "folder" }] }

/-- A store for `FastTransferSourceCopyTo` that gives available properties for a folder or a
mailbox only. -/
def sample_copy_store : copy_store :=
  { emsmdbp_object_get_available_properties := fun object =>
      match object with
      | some (EMSMDBP_OBJECT_OTHER type) =>
        if type = EMSMDBP_OBJECT_FOLDER ∨ type = EMSMDBP_OBJECT_MAILBOX then
          some [sample_subject_tag]
        else none
      | _ => none
    emsmdbp_object_get_properties := fun _ tags =>
      some (tags.map (fun _ => .string "subject"), tags.map (fun _ => MAPI_E_SUCCESS))
    mapistore_namedprops_get_nameid := sample_get_nameid
    emsmdbp_object_ftcontext_init := fun _ => some (sample_ftcontext 0 0) }

/-- A backend for the examples: one replica, whose GUID is `sample_guid`; source keys made by
`oxcfxics_make_gid`; an idset library that keeps one list of ranges per set; and an
`ndr_push_idset` that pushes the number of ranges and both ends of every range. -/
def sample_backend : sync_backend :=
  { openchangedb_get_MailboxReplica := sample_guid
    mapistore_namedprops_get_nameid := sample_get_nameid
    emsmdbp_replid_to_guid := fun _ => some sample_guid
    emsmdbp_source_key_from_fmid := fun fmid => oxcfxics_make_gid sample_guid (fmid / 2 ^ 16)
    unix_to_nt_time := fun t => (t + 11644473600) * 10000000
    IDSET_includes_guid_glob := fun set _ globcnt =>
      match set with
      | none => false
      | some s => s.head.ranges.any (fun r => decide (r.1 ≤ globcnt ∧ globcnt ≤ r.2))
    RAWIDSET_convert_to_idset := fun raw =>
      match raw with
      | [] => none
      | (guid, _) :: _ =>
        some { head := { idbased := false, repl_id := 0, repl_guid := guid, single := false,
                         ranges := raw.map (fun e => (e.2, e.2)) },
               next := [] }
    IDSET_merge_idsets := fun a b =>
      match a, b with
      | a, none => a
      | none, some b => some b
      | some a, some b =>
        some { a with head := { a.head with ranges := a.head.ranges ++ b.head.ranges } }
    IDSET_remove_rawidset := fun a _ => a
    ndr_push_idset := fun set =>
      match set with
      | none => [0]
      | some s =>
        (s.head.ranges.length % 256) ::
          (s.head.ranges.map (fun r => [r.1 % 256, r.2 % 256])).flatten
    prop_tags :=
      [0x37050003, 0x370a0102, 0x0e200003, 0x37020102, 0x37140003, 0x7ffd0003, 0x7ffe000b,
        0x7ffa0003, 0x3703001f, 0x3704001f, 0x3707001f, 0x3712001f, 0x370e001f, 0x3001001f,
        0x30070040, 0x30080040, 0x37010102, 0x7fff000b, 0x370b0003, 0x0ff90102] }

/-- The tag of a property of type `PT_LONG` that is not among the mandatory ones. -/
def sample_importance_tag : Nat := 0x00170003

/-- The property list of a contents synccontext: the eight mandatory properties followed by
two more. -/
def sample_contents_properties : List Nat :=
  mandatory_properties true ++ [sample_subject_tag, sample_importance_tag]

/-- A row of a contents table for `sample_contents_properties`: the message of id `0x10001`
with the given change number, every property with the status `MAPI_E_SUCCESS`. -/
def sample_message_row (change_number : Nat) : table_row :=
  { data_pointers :=
      [.uint64 0x10001, .uint8 0, .uint32 100, .uint64 change_number,
        .Binary_r { cb := 2, lpb := [0xaa, 0xbb] }, .Binary_r { cb := 3, lpb := [2, 0xaa, 0xbb] },
        .FILETIME { dwLowDateTime := 1, dwHighDateTime := 2 }, .string "m", .string "s",
        .uint32 1]
    retvals := List.replicate 10 MAPI_E_SUCCESS }

/-- A message with one recipient, of whom the display name is known and the address is not,
and one attachment, of which only the first property has a value. -/
def sample_opened_message : opened_message :=
  { msg :=
      some { columns := [PR_DISPLAY_NAME_UNICODE, PR_EMAIL_ADDRESS_UNICODE]
             recipients := [{ type := 1, data := [some (.string "r"), none] }] }
    attachment_table :=
      some [some { data_pointers := .uint32 1 :: List.replicate 19 prop_data.unread
                   retvals := MAPI_E_SUCCESS :: List.replicate 19 MAPI_E_NOT_FOUND }] }

/-- A mapistore folder whose table of normal messages has the given rows, whose messages all
open as `sample_opened_message`, and which reports no deleted message. -/
def sample_contents_folder (rows : List (Option table_row)) : contents_folder :=
  { emsmdbp_folder_open_table := fun table_type =>
      match table_type with
      | .MAPISTORE_MESSAGE_TABLE => some { emsmdbp_is_mapistore := true, rows := rows }
      | .MAPISTORE_FAI_TABLE => some { emsmdbp_is_mapistore := true, rows := [] }
      | .MAPISTORE_FOLDER_TABLE => none
    emsmdbp_object_message_open := fun _ => some sample_opened_message
    emsmdbp_is_mapistore := true
    mapistore_folder_get_deleted_fmids := fun _ _ => some ([], 0) }

/-- A contents synccontext before its first read: normal messages only, the property list
`sample_contents_properties`, and `sample_idset` (the range `[1, 5]`) as each stored set. -/
def sample_contents_synccontext : emsmdbp_object_synccontext :=
  { sample_synccontext 0 [] with properties := sample_contents_properties }

/-- The sync data of `sample_contents_synccontext` when the table of normal messages is
walked. -/
def sample_sync_data : oxcfxics_sync_data :=
  { messageChange_sync_data sample_backend sample_contents_synccontext with
    table_type := some .MAPISTORE_MESSAGE_TABLE }

/-- The tag of a property of type `PT_LONG` of a folder that is not among the mandatory
ones. -/
def sample_folder_type_tag : Nat := 0x36010003

/-- The property list of a hierarchy synccontext: the seven mandatory properties followed by
one more. -/
def sample_hierarchy_properties : List Nat :=
  mandatory_properties false ++ [sample_folder_type_tag]

/-- A row of a hierarchy table for `sample_hierarchy_properties`: the folder of the given id
with the change number `0x70001`, every property with the status `MAPI_E_SUCCESS`. -/
def sample_folder_row (fid : Nat) : table_row :=
  { data_pointers :=
      [.uint64 0x10001, .uint64 fid, .uint64 0x70001,
        .Binary_r { cb := 2, lpb := [0xaa, 0xbb] }, .Binary_r { cb := 3, lpb := [2, 0xaa, 0xbb] },
        .FILETIME { dwLowDateTime := 1, dwHighDateTime := 2 }, .string "f", .uint32 1]
    retvals := List.replicate 8 MAPI_E_SUCCESS }

/-- A folder with one subfolder, which has one subfolder of its own. -/
def sample_hierarchy : hierarchy_folder :=
  .row (some (sample_folder_row 0x20001))
    (.row (some (sample_folder_row 0x30001)) .rows_end .rows_end) .rows_end

/-- A hierarchy synccontext before its first read, with the property list
`sample_hierarchy_properties`. -/
def sample_hierarchy_synccontext : emsmdbp_object_synccontext :=
  { sample_synccontext 0 [] with
    request := { (sample_synccontext 0 []).request with contents_mode := false }
    properties := sample_hierarchy_properties }

/-- The stream that `sample_contents_synccontext` receives on a folder with two rows: the
message `0x10001` with the change number `0x70001`, which is emitted, and the same message
with the change number `0x20001`, which the client has seen. -/
def sample_contents_stream : List Nat :=
  [3, 0, 18, 64, 2, 1, 224, 101, 22, 0, 0, 0, 0, 0, 0, 0, 0, 0, 0, 0, 0, 0, 0, 0, 0, 0, 0, 0,
    1, 0, 0, 0, 0, 0, 64, 0, 8, 48, 1, 0, 0, 0, 2, 0, 0, 0, 2, 1, 226, 101, 2, 0, 0, 0, 170,
    187, 2, 1, 227, 101, 3, 0, 0, 0, 2, 170, 187, 11, 0, 170, 103, 0, 0, 3, 0, 21, 64, 3, 0,
    23, 0, 1, 0, 0, 0, 3, 0, 22, 64, 13, 0, 18, 14, 3, 0, 3, 64, 3, 0, 0, 48, 0, 0, 0, 0, 31,
    0, 1, 48, 4, 0, 0, 0, 114, 0, 0, 0, 3, 0, 21, 12, 1, 0, 0, 0, 31, 0, 1, 48, 4, 0, 0, 0,
    114, 0, 0, 0, 3, 0, 4, 64, 3, 0, 22, 64, 13, 0, 19, 14, 3, 0, 0, 64, 3, 0, 33, 14, 0, 0,
    0, 0, 3, 0, 5, 55, 1, 0, 0, 0, 3, 0, 14, 64, 3, 0, 58, 64, 2, 1, 150, 103, 2, 1, 5, 7, 7,
    3, 0, 23, 64, 3, 1, 5, 1, 1, 1, 1, 3, 0, 59, 64, 3, 0, 20, 64]

/-- The cutmarks of `sample_contents_stream`. -/
def sample_contents_cutmarks : List Nat :=
  [4, 8, 34, 38, 46, 50, 56, 60, 67, 71, 73, 77, 81, 85, 93, 97, 105, 117, 125, 129, 137, 141,
    153, 161, 165, 169, 173, 177, 181, 186, 201, 205, 0xffffffff]

/-- The sample contents synccontext after its materialization on the folder with the two
rows. -/
def sample_contents_materialized : emsmdbp_object_synccontext :=
  { sample_contents_synccontext with
    cnset_seen :=
      some { sample_idset with head := { sample_idset.head with ranges := [(1, 5), (7, 7)] } }
    idset_given :=
      some { sample_idset with
             head := { sample_idset.head with ranges := [(1, 5), (1, 1), (1, 1)] } }
    cutmarks := sample_contents_cutmarks
    stream := { position := 0, buffer := { data := some sample_contents_stream } } }

/-- The GUID whose octets are all one. -/
def sample_replica_guid : GUID := { octets := fun _ => 1 }

/-- A `GUID_from_string` for the examples.  The C string at `data` is the bytes before the
first zero byte; when it has exactly 16 bytes they are taken for the octets of the GUID, and
any other string is refused. -/
def sample_GUID_from_string (data : List Nat) : Option GUID :=
  if (data.takeWhile (fun b => b % 256 ≠ 0)).length = 16 then GUID.of_bytes data else none

/-- A source key of 22 bytes: the 16 octets of `sample_replica_guid` and the counter bytes
1, 2, 3, 4, 5, 6.  No byte is zero, so the C string at its start does not end after the
GUID. -/
def sample_source_key_blob : List Nat := List.replicate 16 1 ++ [1, 2, 3, 4, 5, 6]

/-- A blob of 26 bytes: the 16 octets of `sample_replica_guid`, then the bytes
0, 2, 3, 4, 5, 6 at the offsets 16 to 21, then 7, 8, 9, 10. -/
def sample_id_blob : List Nat := List.replicate 16 1 ++ [0, 2, 3, 4, 5, 6, 7, 8, 9, 10]

/-! ## The cutmark scans: what they return -/

theorem skip_stale_cutmarks_some :
    ∀ (l : List Nat) (position p q : Nat), skip_stale_cutmarks l position p = some q →
      ∃ k, q = p + k ∧ (∀ x ∈ l.take k, x < position) ∧
        ∃ c rest, l.drop k = c :: rest ∧ position ≤ c := by
  intro l
  induction l with
  | nil => intro position p q h; simp [skip_stale_cutmarks] at h
  | cons c rest ih =>
    intro position p q h
    unfold skip_stale_cutmarks at h
    split at h
    · obtain ⟨k, hq, hlt, c1, rest1, hdrop, hle⟩ := ih position (p + 1) q h
      refine ⟨k + 1, by omega, ?_, c1, rest1, by simpa using hdrop, hle⟩
      intro x hx
      simp only [List.take_succ_cons, List.mem_cons] at hx
      rcases hx with rfl | hx
      · assumption
      · exact hlt x hx
    · refine ⟨0, by simp at h; omega, by simp, c, rest, by simp, by omega⟩

theorem skip_stale_cutmarks_total :
    ∀ (l : List Nat) (position p : Nat), (∃ x ∈ l, position ≤ x) →
      ∃ q, skip_stale_cutmarks l position p = some q := by
  intro l
  induction l with
  | nil => intro position p h; simp at h
  | cons c rest ih =>
    intro position p h
    unfold skip_stale_cutmarks
    split
    · apply ih
      obtain ⟨x, hx, hle⟩ := h
      simp only [List.mem_cons] at hx
      rcases hx with rfl | hx
      · omega
      · exact ⟨x, hx, hle⟩
    · exact ⟨p, rfl⟩

theorem scan_cutmarks_window_some :
    ∀ (l : List Nat) (position max_cutmark bs p bs1 q : Nat),
      scan_cutmarks_window l position max_cutmark bs p = some (bs1, q) →
      ∃ k, q = p + k ∧ (∀ x ∈ l.take k, x ≠ 0xffffffff ∧ x < max_cutmark) ∧
        (∃ c rest, l.drop k = c :: rest ∧ ¬ (c ≠ 0xffffffff ∧ c < max_cutmark)) ∧
        ((k = 0 ∧ bs1 = bs) ∨
          (0 < k ∧ ∃ x ∈ l.take k, bs1 = (x + 2 ^ 32 - position % 2 ^ 32) % 2 ^ 32)) := by
  intro l
  induction l with
  | nil => intro position max_cutmark bs p bs1 q h; simp [scan_cutmarks_window] at h
  | cons c rest ih =>
    intro position max_cutmark bs p bs1 q h
    unfold scan_cutmarks_window at h
    split at h
    · rename_i hc
      obtain ⟨k, hq, hall, hstop, hbs⟩ := ih position max_cutmark _ (p + 1) bs1 q h
      refine ⟨k + 1, by omega, ?_, by simpa using hstop, Or.inr ⟨by omega, ?_⟩⟩
      · intro x hx
        simp only [List.take_succ_cons, List.mem_cons] at hx
        rcases hx with rfl | hx
        · exact hc
        · exact hall x hx
      · rcases hbs with ⟨hk, hb⟩ | ⟨_, x, hx, hb⟩
        · exact ⟨c, by simp, hb⟩
        · exact ⟨x, by simp [hx], hb⟩
    · rename_i hc
      simp only [Option.some.injEq, Prod.mk.injEq] at h
      exact ⟨0, by omega, by simp, ⟨c, rest, by simp, hc⟩, Or.inl ⟨rfl, by omega⟩⟩

theorem scan_cutmarks_window_total :
    ∀ (l : List Nat) (position max_cutmark bs p : Nat), 0xffffffff ∈ l →
      ∃ r, scan_cutmarks_window l position max_cutmark bs p = some r := by
  intro l
  induction l with
  | nil => intro position max_cutmark bs p h; simp at h
  | cons c rest ih =>
    intro position max_cutmark bs p h
    unfold scan_cutmarks_window
    split
    · rename_i hc
      apply ih
      simp only [List.mem_cons] at h
      rcases h with h | h
      · exact absurd h.symm hc.1
      · exact h
    · exact ⟨_, rfl⟩

theorem mem_drop_of_not_mem_take {α : Type} (l : List α) (k : Nat) (a : α)
    (h : a ∈ l) (hk : a ∉ l.take k) : a ∈ l.drop k := by
  have := List.take_append_drop k l
  rw [← this] at h
  rcases List.mem_append.mp h with h | h
  · exact absurd h hk
  · exact h

theorem le_of_mem_of_pairwise_cons {c y : Nat} {rest : List Nat}
    (hs : (c :: rest).Pairwise (fun a b => a ≤ b)) (hy : y ∈ c :: rest) : c ≤ y := by
  rcases List.mem_cons.mp hy with rfl | hy
  · exact Nat.le_refl _
  · exact List.rel_of_pairwise_cons hs hy

/-- What `cutmark_scan` returns: the pointer never moves back, the terminator stays ahead of
it, and the size is either the one asked for or the distance to a cutmark of the window. -/
theorem cutmark_scan_some (cm : List Nat) (pos len max ptr bs1 q : Nat)
    (h : cutmark_scan cm pos len max ptr = some (bs1, q)) :
    ptr ≤ q ∧
    (0xffffffff ∈ cm.drop ptr → pos ≤ 0xffffffff → 0xffffffff ∈ cm.drop q) ∧
    ((bs1 = max ∧
        (pos + max < len → (cm.drop ptr).Pairwise (fun a b => a ≤ b) →
          ∀ y ∈ cm.drop ptr, pos ≤ y → (pos + max) % 2 ^ 32 ≤ y)) ∨
     (ptr < q ∧ pos + max < len ∧
        ∃ x ∈ cm.drop ptr, x ≠ 0xffffffff ∧ x < (pos + max) % 2 ^ 32 ∧
          bs1 = (x + 2 ^ 32 - pos % 2 ^ 32) % 2 ^ 32 ∧
          ((cm.drop ptr).Pairwise (fun a b => a ≤ b) → pos ≤ x))) := by
  unfold cutmark_scan at h
  split at h
  · rename_i hlt
    simp only at h
    split at h
    · simp at h
    · rename_i q1 hskip
      obtain ⟨k1, hq1, hstale, c, rest, hdrop1, hc⟩ := skip_stale_cutmarks_some _ _ _ _ hskip
      obtain ⟨k2, hq, hwin, ⟨c2, rest2, hdrop2, hstop⟩, hbs⟩ :=
        scan_cutmarks_window_some _ _ _ _ _ _ _ h
      have hd1 : cm.drop q1 = (cm.drop ptr).drop k1 := by
        rw [List.drop_drop, hq1]
      have hd2 : cm.drop q = ((cm.drop ptr).drop k1).drop k2 := by
        rw [← hd1, List.drop_drop, hq]
      rw [hd1] at hwin hdrop2
      refine ⟨by omega, ?_, ?_⟩
      · intro hT hpos
        rw [hd2]
        apply mem_drop_of_not_mem_take
        · apply mem_drop_of_not_mem_take _ _ _ hT
          intro hmem
          have := hstale _ hmem
          omega
        · intro hmem
          exact (hwin _ hmem).1 rfl
      · rcases hbs with ⟨hk, hb⟩ | ⟨hk, x, hx, hb⟩
        · left
          refine ⟨hb, ?_⟩
          intro _ hsorted y hy hposy
          subst hk
          simp only [List.drop_zero] at hdrop2
          have hy1 : y ∈ (cm.drop ptr).drop k1 := by
            apply mem_drop_of_not_mem_take _ _ _ hy
            intro hmem
            have := hstale _ hmem
            omega
          have hs1 : ((cm.drop ptr).drop k1).Pairwise (fun a b => a ≤ b) :=
            hsorted.sublist (List.drop_sublist _ _)
          rw [hdrop2] at hy1 hs1
          have hcy := le_of_mem_of_pairwise_cons hs1 hy1
          have hmc : (pos + max) % 2 ^ 32 < 2 ^ 32 := Nat.mod_lt _ (by norm_num)
          by_cases hT : c2 = 0xffffffff
          · omega
          · have : ¬ c2 < (pos + max) % 2 ^ 32 := fun hh => hstop ⟨hT, hh⟩
            omega
        · right
          rw [hd1] at hx
          have hxw := hwin x hx
          have hx1 : x ∈ (cm.drop ptr).drop k1 := List.mem_of_mem_take hx
          refine ⟨by omega, hlt, x, List.mem_of_mem_drop hx1, hxw.1, hxw.2, hb, ?_⟩
          intro hsorted
          have hs1 : ((cm.drop ptr).drop k1).Pairwise (fun a b => a ≤ b) :=
            hsorted.sublist (List.drop_sublist _ _)
          rw [hdrop1] at hx1 hs1
          have := le_of_mem_of_pairwise_cons hs1 hx1
          omega
  · simp only [Option.some.injEq, Prod.mk.injEq] at h
    obtain ⟨rfl, rfl⟩ := h
    refine ⟨Nat.le_refl _, fun hT _ => hT, Or.inl ⟨rfl, ?_⟩⟩
    intro hlt
    omega

/-- When the terminator lies at or after the pointer and the position fits in 32 bits, both
scans stay inside the array. -/
theorem cutmark_scan_total (cm : List Nat) (pos len max ptr : Nat)
    (hT : 0xffffffff ∈ cm.drop ptr) (hpos : pos ≤ 0xffffffff) :
    ∃ r, cutmark_scan cm pos len max ptr = some r := by
  unfold cutmark_scan
  split
  · simp only
    obtain ⟨q1, hskip⟩ := skip_stale_cutmarks_total (cm.drop ptr) pos ptr ⟨_, hT, hpos⟩
    rw [hskip]
    simp only
    apply scan_cutmarks_window_total
    obtain ⟨k1, hq1, hstale, c, rest, hdrop1, hc⟩ := skip_stale_cutmarks_some _ _ _ _ hskip
    have hd1 : cm.drop q1 = (cm.drop ptr).drop k1 := by
      rw [List.drop_drop, hq1]
    rw [hd1]
    apply mem_drop_of_not_mem_take _ _ _ hT
    intro hmem
    have := hstale _ hmem
    omega
  · exact ⟨_, rfl⟩

/-! ## One read, in terms of the cutmark scan -/

/-- A read that returns is a successful reply whose chunk, position, pointer, status and step
count are those computed from the materialized object by `cutmark_scan` and
`emsmdbp_stream_read_buffer`. -/
theorem get_buffer_some
    (pm pf : emsmdbp_object_synccontext → emsmdbp_object_synccontext)
    (object : emsmdbp_object) (request : FastTransferSourceGetBuffer_req)
    (hctx : ∀ t, object ≠ EMSMDBP_OBJECT_OTHER t)
    (res : MAPISTATUS × EcDoRpc_MAPI_REPL FastTransferSourceGetBuffer_repl × handle_lookup)
    (h : EcDoRpc_RopFastTransferSourceGetBuffer pm pf (some (some object)) request = some res) :
    ∃ r object1 bs1 q,
      res = (MAPI_E_SUCCESS, { error_code := MAPI_E_SUCCESS, u := some r },
        some (some object1)) ∧
      cutmark_scan (object.materialize pm pf).cutmarks (object.materialize pm pf).stream.position
        (object.materialize pm pf).stream.buffer.length (effective_buffer_size request)
        (object.materialize pm pf).next_cutmark_ptr = some (bs1, q) ∧
      r.TransferBuffer =
        ((object.materialize pm pf).stream.buffer.bytes.drop
          (object.materialize pm pf).stream.position).take bs1 ∧
      object1.stream.buffer = (object.materialize pm pf).stream.buffer ∧
      object1.stream.position =
        (object.materialize pm pf).stream.position + r.TransferBuffer.length ∧
      object1.cutmarks = (object.materialize pm pf).cutmarks ∧
      object1.next_cutmark_ptr = q ∧
      r.TransferStatus =
        (if object1.stream.position = object1.stream.buffer.length then TransferStatus_Done
         else TransferStatus_Partial) ∧
      r.TotalStepCount = object1.total_steps ∧
      object1.total_steps =
        (if object.first_read then
          (object.materialize pm pf).stream.buffer.length / effective_buffer_size request + 1
         else object.total_steps) ∧
      (object1.stream.buffer.data ≠ none → object1.materialize pm pf = object1) ∧
      (∀ t, object1 ≠ EMSMDBP_OBJECT_OTHER t) := by
  cases object with
  | EMSMDBP_OBJECT_OTHER t => exact absurd rfl (hctx t)
  | EMSMDBP_OBJECT_FTCONTEXT ft =>
    simp only [EcDoRpc_RopFastTransferSourceGetBuffer] at h
    split at h
    · simp at h
    · rename_i r ft1 hft
      simp only [Option.some.injEq] at h
      subst h
      unfold ftcontext_get_buffer at hft
      split at hft
      · simp at hft
      · simp only at hft
        split at hft
        · simp at hft
        · rename_i bs1 q hscan
          simp only [Option.some.injEq, Prod.mk.injEq] at hft
          obtain ⟨hr, hft1⟩ := hft
          subst hr hft1
          refine ⟨_, _, bs1, q, rfl, ?_, ?_, ?_, ?_, ?_, ?_, ?_, ?_, ?_, ?_, ?_⟩
          · simp only [emsmdbp_object.materialize, emsmdbp_object.cutmarks,
              emsmdbp_object.stream, emsmdbp_object.next_cutmark_ptr]
            rw [← hscan]
            split <;> rfl
          · simp only [emsmdbp_object.materialize, emsmdbp_object.stream,
              emsmdbp_stream_read_buffer]
            split <;> rfl
          · simp only [emsmdbp_object.materialize, emsmdbp_object.stream,
              emsmdbp_stream_read_buffer]
            split <;> rfl
          · simp only [emsmdbp_object.materialize, emsmdbp_object.stream,
              emsmdbp_stream_read_buffer]
            split <;> rfl
          · simp only [emsmdbp_object.materialize, emsmdbp_object.cutmarks]
            split <;> rfl
          · simp only [emsmdbp_object.next_cutmark_ptr]
          · simp only [emsmdbp_object.stream, decide_eq_true_eq]
          · simp only [emsmdbp_object.total_steps]
          · simp only [emsmdbp_object.materialize, emsmdbp_object.stream,
              emsmdbp_object.total_steps, emsmdbp_object.first_read, decide_eq_true_eq]
            split <;> rfl
          · intro _; rfl
          · intro t; simp
  | EMSMDBP_OBJECT_SYNCCONTEXT sc =>
    simp only [EcDoRpc_RopFastTransferSourceGetBuffer] at h
    split at h
    · simp at h
    · rename_i r sc1 hsc
      simp only [Option.some.injEq] at h
      subst h
      unfold synccontext_get_buffer at hsc
      by_cases hd : sc.stream.buffer.data = none
      · cases hc : sc.request.contents_mode
        all_goals
          simp only [hd, hc, true_and, if_true, if_false, Bool.false_eq_true] at hsc
          split at hsc
          · simp at hsc
          · split at hsc
            · simp at hsc
            · rename_i bs1 q hscan
              simp only [Option.some.injEq, Prod.mk.injEq] at hsc
              obtain ⟨hr, hsc1⟩ := hsc
              subst hr hsc1
              refine ⟨_, _, bs1, q, rfl, ?_, ?_, ?_, ?_, ?_, ?_, ?_, ?_, ?_, ?_, ?_⟩
              · simp only [emsmdbp_object.materialize, hd, hc, if_true, if_false,
                  Bool.false_eq_true]
                exact hscan
              · simp [emsmdbp_object.materialize, hd, hc, emsmdbp_stream_read_buffer,
                  emsmdbp_object.stream]
              · simp [emsmdbp_object.materialize, hd, hc, emsmdbp_stream_read_buffer,
                  emsmdbp_object.stream]
              · simp [emsmdbp_object.materialize, hd, hc, emsmdbp_stream_read_buffer,
                  emsmdbp_object.stream]
              · simp [emsmdbp_object.materialize, hd, hc, emsmdbp_object.cutmarks]
              · simp only [emsmdbp_object.next_cutmark_ptr]
              · simp only [emsmdbp_object.stream, decide_eq_true_eq]
              · simp only [emsmdbp_object.total_steps]
              · simp [emsmdbp_object.materialize, hd, hc, emsmdbp_object.stream,
                  emsmdbp_object.total_steps, emsmdbp_object.first_read]
              · intro hdata
                simp only [emsmdbp_object.stream, emsmdbp_stream_read_buffer] at hdata
                simp only [emsmdbp_object.materialize, emsmdbp_stream_read_buffer]
                rw [if_neg hdata]
              · intro t; simp
      · simp only [hd, false_and, if_false] at hsc
        split at hsc
        · simp at hsc
        · rename_i bs1 q hscan
          simp only [Option.some.injEq, Prod.mk.injEq] at hsc
          obtain ⟨hr, hsc1⟩ := hsc
          subst hr hsc1
          refine ⟨_, _, bs1, q, rfl, ?_, ?_, ?_, ?_, ?_, ?_, ?_, ?_, ?_, ?_, ?_⟩
          · simp only [emsmdbp_object.materialize, hd, if_false]
            exact hscan
          · simp [emsmdbp_object.materialize, hd, emsmdbp_stream_read_buffer,
              emsmdbp_object.stream]
          · simp [emsmdbp_object.materialize, hd, emsmdbp_stream_read_buffer,
              emsmdbp_object.stream]
          · simp [emsmdbp_object.materialize, hd, emsmdbp_stream_read_buffer,
              emsmdbp_object.stream]
          · simp [emsmdbp_object.materialize, hd, emsmdbp_object.cutmarks]
          · simp only [emsmdbp_object.next_cutmark_ptr]
          · simp only [emsmdbp_object.stream, decide_eq_true_eq]
          · simp only [emsmdbp_object.total_steps]
          · simp [emsmdbp_object.materialize, hd, emsmdbp_object.stream,
              emsmdbp_object.total_steps, emsmdbp_object.first_read]
          · intro hdata
            simp only [emsmdbp_object.stream, emsmdbp_stream_read_buffer] at hdata
            simp only [emsmdbp_object.materialize, emsmdbp_stream_read_buffer]
            rw [if_neg hdata]
          · intro t; simp

/-- A read returns as soon as its buffer size is not zero on a first read and the cutmark scan
stays inside the array. -/
theorem get_buffer_total
    (pm pf : emsmdbp_object_synccontext → emsmdbp_object_synccontext)
    (object : emsmdbp_object) (request : FastTransferSourceGetBuffer_req)
    (hmax : effective_buffer_size request ≠ 0)
    (hscan : ∃ r, cutmark_scan (object.materialize pm pf).cutmarks
        (object.materialize pm pf).stream.position
        (object.materialize pm pf).stream.buffer.length (effective_buffer_size request)
        (object.materialize pm pf).next_cutmark_ptr = some r) :
    ∃ res, EcDoRpc_RopFastTransferSourceGetBuffer pm pf (some (some object)) request
      = some res := by
  obtain ⟨⟨bs1, q⟩, hscan⟩ := hscan
  cases object with
  | EMSMDBP_OBJECT_OTHER t => exact ⟨_, rfl⟩
  | EMSMDBP_OBJECT_FTCONTEXT ft =>
    simp only [emsmdbp_object.materialize, emsmdbp_object.cutmarks, emsmdbp_object.stream,
      emsmdbp_object.next_cutmark_ptr] at hscan
    simp only [EcDoRpc_RopFastTransferSourceGetBuffer, ftcontext_get_buffer]
    by_cases hp : ft.stream.position = 0
    · simp [hp, hmax]
      rw [hp] at hscan
      rw [hscan]
      simp
    · simp [hp, hscan]
  | EMSMDBP_OBJECT_SYNCCONTEXT sc =>
    simp only [EcDoRpc_RopFastTransferSourceGetBuffer, synccontext_get_buffer]
    by_cases hd : sc.stream.buffer.data = none
    · cases hc : sc.request.contents_mode
      all_goals
        simp only [emsmdbp_object.materialize, hd, hc, if_true, if_false,
          Bool.false_eq_true, emsmdbp_object.cutmarks, emsmdbp_object.stream,
          emsmdbp_object.next_cutmark_ptr] at hscan
        simp [hd, hc, hmax, hscan]
    · simp only [emsmdbp_object.materialize, hd, if_false, emsmdbp_object.cutmarks,
        emsmdbp_object.stream, emsmdbp_object.next_cutmark_ptr] at hscan
      simp [hd, hscan]

theorem DATA_BLOB.bytes_of_data {b : DATA_BLOB} {buf : List Nat} (h : b.data = some buf) :
    b.bytes = buf := by
  simp [DATA_BLOB.bytes, h]

theorem DATA_BLOB.length_of_data {b : DATA_BLOB} {buf : List Nat} (h : b.data = some buf) :
    b.length = buf.length := by
  simp [DATA_BLOB.length, DATA_BLOB.bytes_of_data h]

theorem not_other_of_data
    (pm pf : emsmdbp_object_synccontext → emsmdbp_object_synccontext)
    (object : emsmdbp_object) (buf : List Nat)
    (h : (object.materialize pm pf).stream.buffer.data = some buf) :
    ∀ t, object ≠ EMSMDBP_OBJECT_OTHER t := by
  intro t ht
  subst ht
  simp [emsmdbp_object.materialize, emsmdbp_object.stream] at h

/-- Repeated reads hand out the rest of the stream: from any position, with the terminator
ahead of the cutmark pointer, the client loop ends with `TransferStatus_Done` within the given
number of calls and its chunks concatenate to the bytes from the position on. -/
theorem download_stream_rest
    (pm pf : emsmdbp_object_synccontext → emsmdbp_object_synccontext)
    (request : FastTransferSourceGetBuffer_req) (hmax : effective_buffer_size request ≠ 0)
    (buf : List Nat) (hlen : buf.length < 2 ^ 32) :
    ∀ (n : Nat) (object : emsmdbp_object),
      (object.materialize pm pf).stream.buffer.data = some buf →
      (object.materialize pm pf).stream.position ≤ buf.length →
      0xffffffff ∈ (object.materialize pm pf).cutmarks.drop
        (object.materialize pm pf).next_cutmark_ptr →
      (buf.length - (object.materialize pm pf).stream.position) +
        ((object.materialize pm pf).cutmarks.length -
          (object.materialize pm pf).next_cutmark_ptr) < n →
      ∃ chunks, download_stream pm pf request n (some (some object)) = some chunks ∧
        chunks.flatten = buf.drop (object.materialize pm pf).stream.position := by
  intro n
  induction n with
  | zero => intro object _ _ _ h; omega
  | succ n ih =>
    intro object hdata hpos hT hmeasure
    have hctx := not_other_of_data pm pf object buf hdata
    have hpos32 : (object.materialize pm pf).stream.position ≤ 0xffffffff := by
      norm_num at hlen ⊢; omega
    obtain ⟨res, hres⟩ := get_buffer_total pm pf object request hmax
      (cutmark_scan_total _ _ _ _ _ hT hpos32)
    obtain ⟨r, object1, bs1, q, rfl, hscan, hchunk, hbuf1, hpos1, hcm1, hptr1, hstatus, _, _,
      hmat1, _⟩ := get_buffer_some pm pf object request hctx res hres
    obtain ⟨hle, hTq, hcases⟩ := cutmark_scan_some _ _ _ _ _ _ _ hscan
    have hprogress : 0 < bs1 ∨ (object.materialize pm pf).next_cutmark_ptr < q := by
      rcases hcases with ⟨hb, _⟩ | ⟨hq, _⟩
      · left; omega
      · right; exact hq
    clear hcases
    have hbytes := DATA_BLOB.bytes_of_data hdata
    have hblen := DATA_BLOB.length_of_data hdata
    rw [hbytes] at hchunk
    have hclen : r.TransferBuffer.length =
        min bs1 (buf.length - (object.materialize pm pf).stream.position) := by
      rw [hchunk, List.length_take, List.length_drop]
    have hc1 : r.TransferBuffer.length ≤ bs1 := by rw [hclen]; exact Nat.min_le_left _ _
    have hc2 : r.TransferBuffer.length ≤
        buf.length - (object.materialize pm pf).stream.position := by
      rw [hclen]; exact Nat.min_le_right _ _
    have hc3 : r.TransferBuffer.length = bs1 ∨ r.TransferBuffer.length =
        buf.length - (object.materialize pm pf).stream.position := by
      rw [hclen]
      rcases Nat.le_total bs1 (buf.length - (object.materialize pm pf).stream.position)
        with hh | hh
      · left; exact Nat.min_eq_left hh
      · right; exact Nat.min_eq_right hh
    clear hclen
    have hdata1 : object1.stream.buffer.data = some buf := by rw [hbuf1]; exact hdata
    have hmat : object1.materialize pm pf = object1 := hmat1 (by rw [hdata1]; simp)
    have hblen1 : object1.stream.buffer.length = buf.length := DATA_BLOB.length_of_data hdata1
    rw [hblen1] at hstatus
    unfold download_stream
    rw [hres]
    simp only
    by_cases hdone : object1.stream.position = buf.length
    · rw [if_pos hdone] at hstatus
      rw [if_pos hstatus]
      refine ⟨_, rfl, ?_⟩
      simp only [List.flatten_cons, List.flatten_nil, List.append_nil]
      rw [hchunk]
      apply List.take_of_length_le
      rw [List.length_drop]
      omega
    · rw [if_neg hdone] at hstatus
      have hnd : ¬ r.TransferStatus = TransferStatus_Done := by rw [hstatus]; simp
      rw [if_neg hnd]
      have hTq1 := hTq hT hpos32
      have hqlt : q < (object.materialize pm pf).cutmarks.length := by
        by_contra hge
        rw [List.drop_of_length_le (by omega)] at hTq1
        simp at hTq1
      have hfull : r.TransferBuffer.length = bs1 := by omega
      obtain ⟨chunks, hdl, hjoin⟩ := ih object1
        (by rw [hmat]; exact hdata1)
        (by rw [hmat]; omega)
        (by rw [hmat, hcm1, hptr1]; exact hTq1)
        (by rw [hmat, hcm1, hptr1, hpos1]; omega)
      rw [hdl]
      refine ⟨_, rfl, ?_⟩
      rw [List.flatten_cons, hjoin, hmat, hpos1, hfull, hchunk, ← List.drop_drop,
        List.take_append_drop]

/-- From a reply that carries a response: the call succeeded, the handle still holds a
context object, and the facts of `get_buffer_some` hold of the response and that object. -/
theorem get_buffer_reply
    (pm pf : emsmdbp_object_synccontext → emsmdbp_object_synccontext)
    (object : emsmdbp_object) (request : FastTransferSourceGetBuffer_req)
    (rv ec : MAPISTATUS) (r : FastTransferSourceGetBuffer_repl) (handle1 : handle_lookup)
    (h : EcDoRpc_RopFastTransferSourceGetBuffer pm pf (some (some object)) request =
      some (rv, { error_code := ec, u := some r }, handle1)) :
    ∃ object1 bs1 q,
      handle1 = some (some object1) ∧ rv = MAPI_E_SUCCESS ∧ ec = MAPI_E_SUCCESS ∧
      cutmark_scan (object.materialize pm pf).cutmarks (object.materialize pm pf).stream.position
        (object.materialize pm pf).stream.buffer.length (effective_buffer_size request)
        (object.materialize pm pf).next_cutmark_ptr = some (bs1, q) ∧
      r.TransferBuffer =
        ((object.materialize pm pf).stream.buffer.bytes.drop
          (object.materialize pm pf).stream.position).take bs1 ∧
      object1.stream.buffer = (object.materialize pm pf).stream.buffer ∧
      object1.stream.position =
        (object.materialize pm pf).stream.position + r.TransferBuffer.length ∧
      object1.cutmarks = (object.materialize pm pf).cutmarks ∧
      object1.next_cutmark_ptr = q ∧
      r.TransferStatus =
        (if object1.stream.position = object1.stream.buffer.length then TransferStatus_Done
         else TransferStatus_Partial) ∧
      r.TotalStepCount = object1.total_steps ∧
      object1.total_steps =
        (if object.first_read then
          (object.materialize pm pf).stream.buffer.length / effective_buffer_size request + 1
         else object.total_steps) := by
  have hctx : ∀ t, object ≠ EMSMDBP_OBJECT_OTHER t := by
    intro t ht
    subst ht
    simp [EcDoRpc_RopFastTransferSourceGetBuffer] at h
  obtain ⟨r2, object2, bs1, q, hres, hscan, hchunk, hbuf1, hpos1, hcm1, hptr1, hstatus, htsc,
    hts, _, _⟩ := get_buffer_some pm pf object request hctx _ h
  simp only [Prod.mk.injEq, EcDoRpc_MAPI_REPL.mk.injEq, Option.some.injEq] at hres
  obtain ⟨hrv, ⟨hec, hr⟩, hh⟩ := hres
  subst hr
  exact ⟨object2, bs1, q, hh, hrv, hec, hscan, hchunk, hbuf1, hpos1, hcm1, hptr1, hstatus,
    htsc, hts⟩

/-- A read of a context object returns a reply that carries a response as soon as the buffer
size is not zero, the terminator is at or after the cutmark pointer, and the position fits in
32 bits. -/
theorem get_buffer_returns
    (pm pf : emsmdbp_object_synccontext → emsmdbp_object_synccontext)
    (object : emsmdbp_object) (request : FastTransferSourceGetBuffer_req)
    (hctx : ∀ t, object ≠ EMSMDBP_OBJECT_OTHER t)
    (hmax : effective_buffer_size request ≠ 0)
    (hterm : 0xffffffff ∈ (object.materialize pm pf).cutmarks.drop
      (object.materialize pm pf).next_cutmark_ptr)
    (hpos : (object.materialize pm pf).stream.position ≤ 0xffffffff) :
    ∃ r object1, EcDoRpc_RopFastTransferSourceGetBuffer pm pf (some (some object)) request =
      some (MAPI_E_SUCCESS, { error_code := MAPI_E_SUCCESS, u := some r },
        some (some object1)) := by
  obtain ⟨res, hres⟩ := get_buffer_total pm pf object request hmax
    (cutmark_scan_total _ _ _ _ _ hterm hpos)
  obtain ⟨r, object1, _, _, rfl, _⟩ := get_buffer_some pm pf object request hctx res hres
  exact ⟨r, object1, hres⟩

theorem length_take_drop_le (l : List Nat) (p n : Nat) :
    ((l.drop p).take n).length ≤ n ∧ ((l.drop p).take n).length ≤ l.length - p ∧
    (((l.drop p).take n).length = n ∨ ((l.drop p).take n).length = l.length - p) := by
  rw [List.length_take, List.length_drop]
  refine ⟨Nat.min_le_left _ _, Nat.min_le_right _ _, ?_⟩
  rcases Nat.le_total n (l.length - p) with hh | hh
  · left; exact Nat.min_eq_left hh
  · right; exact Nat.min_eq_right hh

/-- C1. Chunking preserves the stream.  For a context object (an ftcontext, or a synccontext
whose stream is materialized on the first read) whose stream `buf` is shorter than `2^32`
bytes and stands at position 0, whose cutmark array has the terminator `0xffffffff` at or
after the cutmark pointer, and for a non-zero buffer size: a client that repeats the read
until `TransferStatus_Done` gets there within `buf.length + cutmarks.length + 1` calls, and
the chunks it received, concatenated in order, are exactly `buf`. -/
theorem C1_chunks_concatenate_to_stream
    (pm pf : emsmdbp_object_synccontext → emsmdbp_object_synccontext)
    (object : emsmdbp_object) (request : FastTransferSourceGetBuffer_req) (buf : List Nat)
    (hmax : 0 < effective_buffer_size request)
    (hdata : (object.materialize pm pf).stream.buffer.data = some buf)
    (hpos : (object.materialize pm pf).stream.position = 0)
    (hlen : buf.length < 2 ^ 32)
    (hterm : 0xffffffff ∈ (object.materialize pm pf).cutmarks.drop
      (object.materialize pm pf).next_cutmark_ptr)
    (calls : Nat) (hcalls : buf.length + (object.materialize pm pf).cutmarks.length < calls) :
    ∃ chunks, download_stream pm pf request calls (some (some object)) = some chunks ∧
      chunks.flatten = buf := by
  obtain ⟨chunks, hdl, hflat⟩ := download_stream_rest pm pf request (by omega) buf hlen calls
    object hdata (by omega) hterm (by omega)
  refine ⟨chunks, hdl, ?_⟩
  rw [hflat, hpos, List.drop_zero]

/-- C1, at a concrete input: the 20-byte sample stream is downloaded whole in chunks of at
most 8 bytes. -/
theorem C1_witness :
    ∃ chunks, download_stream id id (sample_request 8) 24
        (some (some (EMSMDBP_OBJECT_FTCONTEXT (sample_ftcontext 0 0)))) = some chunks ∧
      chunks.flatten = sample_stream :=
  C1_chunks_concatenate_to_stream id id (EMSMDBP_OBJECT_FTCONTEXT (sample_ftcontext 0 0))
    (sample_request 8) sample_stream (by decide) rfl rfl (by decide) (by decide) 24 (by decide)

/-- C2, refuted as stated.  On the 20-byte sample stream with cutmarks `4, 20` read with a
buffer size of 8, the first read returns `[0, 4)` and the second read returns `[4, 12)`:
offset 12 is neither a cutmark nor the end of the stream, it lies inside the 12-byte value. -/
theorem C2_counterexample :
    ∃ r0 object0 r1 object1,
      EcDoRpc_RopFastTransferSourceGetBuffer id id
          (some (some (EMSMDBP_OBJECT_FTCONTEXT (sample_ftcontext 0 0)))) (sample_request 8) =
        some (MAPI_E_SUCCESS, { error_code := MAPI_E_SUCCESS, u := some r0 },
          some (some object0)) ∧
      EcDoRpc_RopFastTransferSourceGetBuffer id id (some (some object0)) (sample_request 8) =
        some (MAPI_E_SUCCESS, { error_code := MAPI_E_SUCCESS, u := some r1 },
          some (some object1)) ∧
      object1.stream.position = 12 ∧
      object1.stream.position ∉ object1.cutmarks ∧
      object1.stream.position ≠ object1.stream.buffer.length := by
  refine ⟨_, _, _, _, rfl, rfl, ?_, ?_, ?_⟩ <;> decide

/-- C2, amended.  For a stream shorter than `2^32` bytes and a position inside it, the end
offset of the chunk returned by a read is an element of the cutmark array, or the end of the
stream, or position + max; and when the cutmarks from the pointer on are non-decreasing and one
of them lies in `[position, position + max)`, the end offset is a cutmark or the end of the
stream. -/
theorem C2_chunk_end_offset
    (pm pf : emsmdbp_object_synccontext → emsmdbp_object_synccontext)
    (object object1 : emsmdbp_object) (request : FastTransferSourceGetBuffer_req)
    (rv ec : MAPISTATUS) (r : FastTransferSourceGetBuffer_repl)
    (h : EcDoRpc_RopFastTransferSourceGetBuffer pm pf (some (some object)) request =
      some (rv, { error_code := ec, u := some r }, some (some object1)))
    (hlen : (object.materialize pm pf).stream.buffer.length < 2 ^ 32)
    (hpos : (object.materialize pm pf).stream.position ≤
      (object.materialize pm pf).stream.buffer.length) :
    (object1.stream.position ∈ object1.cutmarks ∨
      object1.stream.position = object1.stream.buffer.length ∨
      object1.stream.position =
        (object.materialize pm pf).stream.position + effective_buffer_size request) ∧
    (((object.materialize pm pf).cutmarks.drop
        (object.materialize pm pf).next_cutmark_ptr).Pairwise (fun a b => a ≤ b) →
      (∃ c ∈ (object.materialize pm pf).cutmarks.drop
          (object.materialize pm pf).next_cutmark_ptr,
        (object.materialize pm pf).stream.position ≤ c ∧
        c < (object.materialize pm pf).stream.position + effective_buffer_size request) →
      object1.stream.position ∈ object1.cutmarks ∨
      object1.stream.position = object1.stream.buffer.length) := by
  obtain ⟨object2, bs1, q, hh, _, _, hscan, hchunk, hbuf1, hpos1, hcm1, _, _, _, _⟩ :=
    get_buffer_reply pm pf object request rv ec r _ h
  simp only [Option.some.injEq] at hh
  subst hh
  obtain ⟨_, _, hcases⟩ := cutmark_scan_some _ _ _ _ _ _ _ hscan
  obtain ⟨hc1, hc2, hc3⟩ := length_take_drop_le (object.materialize pm pf).stream.buffer.bytes
    (object.materialize pm pf).stream.position bs1
  rw [← hchunk] at hc1 hc2 hc3
  have hl1 : object1.stream.buffer.length = (object.materialize pm pf).stream.buffer.length := by
    rw [hbuf1]
  have hbl : (object.materialize pm pf).stream.buffer.bytes.length =
      (object.materialize pm pf).stream.buffer.length := rfl
  rw [hbl] at hc2 hc3
  rw [hl1, hcm1, hpos1]
  norm_num at hlen
  rcases hcases with ⟨hb, hnone⟩ | ⟨_, hlt, x, hx, hxT, hxlt, hb, hsx⟩
  · constructor
    · right
      rcases hc3 with hc3 | hc3
      · right; omega
      · left; omega
    · intro hsorted ⟨c, hc, hpc, hclt⟩
      right
      by_cases hbr : (object.materialize pm pf).stream.position + effective_buffer_size request
          < (object.materialize pm pf).stream.buffer.length
      · have := hnone hbr hsorted c hc hpc
        omega
      · omega
  · have hxmem : x ∈ (object.materialize pm pf).cutmarks := List.mem_of_mem_drop hx
    constructor
    · by_cases hpx : (object.materialize pm pf).stream.position ≤ x
      · left
        have : (object.materialize pm pf).stream.position + r.TransferBuffer.length = x := by
          omega
        rw [this]; exact hxmem
      · right; left
        omega
    · intro hsorted _
      left
      have hpx := hsx hsorted
      have : (object.materialize pm pf).stream.position + r.TransferBuffer.length = x := by
        omega
      rw [this]; exact hxmem

/-- C2 amended, at a concrete input: the second read of the sample stream ends at
position + max. -/
theorem C2_witness :
    ∃ r object1,
      EcDoRpc_RopFastTransferSourceGetBuffer id id
          (some (some (EMSMDBP_OBJECT_FTCONTEXT (sample_ftcontext 4 1)))) (sample_request 8) =
        some (MAPI_E_SUCCESS, { error_code := MAPI_E_SUCCESS, u := some r },
          some (some object1)) ∧
      (object1.stream.position ∈ object1.cutmarks ∨
        object1.stream.position = object1.stream.buffer.length ∨
        object1.stream.position = 4 + 8) :=
  ⟨_, _, rfl,
    (C2_chunk_end_offset id id (EMSMDBP_OBJECT_FTCONTEXT (sample_ftcontext 4 1)) _
      (sample_request 8) _ _ _ rfl (by decide) (by decide)).1⟩

/-- C3. For every stream, non-decreasing cutmark array, position and requested size `max`
(the buffer size of the request), the chunk returned by one read has at most `max` bytes; and
such a read does return a chunk when `max` is not zero, the cutmark array has its terminator
at or after the cutmark pointer and the position fits in 32 bits. -/
theorem C3_chunk_length_le_max
    (pm pf : emsmdbp_object_synccontext → emsmdbp_object_synccontext)
    (object : emsmdbp_object) (request : FastTransferSourceGetBuffer_req)
    (hsorted : (object.materialize pm pf).cutmarks.Pairwise (fun a b => a ≤ b)) :
    (∀ rv ec r handle1,
      EcDoRpc_RopFastTransferSourceGetBuffer pm pf (some (some object)) request =
        some (rv, { error_code := ec, u := some r }, handle1) →
      r.TransferBuffer.length ≤ effective_buffer_size request) ∧
    ((∀ t, object ≠ EMSMDBP_OBJECT_OTHER t) → effective_buffer_size request ≠ 0 →
      0xffffffff ∈ (object.materialize pm pf).cutmarks.drop
        (object.materialize pm pf).next_cutmark_ptr →
      (object.materialize pm pf).stream.position ≤ 0xffffffff →
      ∃ r object1,
        EcDoRpc_RopFastTransferSourceGetBuffer pm pf (some (some object)) request =
          some (MAPI_E_SUCCESS, { error_code := MAPI_E_SUCCESS, u := some r },
            some (some object1))) := by
  constructor
  · intro rv ec r handle1 h
    obtain ⟨object1, bs1, q, _, _, _, hscan, hchunk, _⟩ :=
      get_buffer_reply pm pf object request rv ec r handle1 h
    obtain ⟨_, _, hcases⟩ := cutmark_scan_some _ _ _ _ _ _ _ hscan
    obtain ⟨hc1, _, _⟩ := length_take_drop_le (object.materialize pm pf).stream.buffer.bytes
      (object.materialize pm pf).stream.position bs1
    rw [← hchunk] at hc1
    have hs : ((object.materialize pm pf).cutmarks.drop
        (object.materialize pm pf).next_cutmark_ptr).Pairwise (fun a b => a ≤ b) :=
      hsorted.sublist (List.drop_sublist _ _)
    rcases hcases with ⟨hb, _⟩ | ⟨_, hlt, x, _, _, hxlt, hb, hsx⟩
    · omega
    · have hpx := hsx hs
      have hmod : ((object.materialize pm pf).stream.position + effective_buffer_size request)
          % 2 ^ 32 ≤ (object.materialize pm pf).stream.position +
            effective_buffer_size request := Nat.mod_le _ _
      omega
  · intro hctx hmax hterm hpos
    exact get_buffer_returns pm pf object request hctx hmax hterm hpos

/-- C3, at a concrete input: the first read of the sample stream with a buffer size of 8
returns a chunk of at most 8 bytes. -/
theorem C3_witness :
    ∃ r object1,
      EcDoRpc_RopFastTransferSourceGetBuffer id id
          (some (some (EMSMDBP_OBJECT_FTCONTEXT (sample_ftcontext 0 0)))) (sample_request 8) =
        some (MAPI_E_SUCCESS, { error_code := MAPI_E_SUCCESS, u := some r },
          some (some object1)) ∧
      r.TransferBuffer.length ≤ effective_buffer_size (sample_request 8) :=
  ⟨_, _, rfl,
    (C3_chunk_length_le_max id id (EMSMDBP_OBJECT_FTCONTEXT (sample_ftcontext 0 0))
      (sample_request 8) (by decide)).1 _ _ _ _ rfl⟩

/-- C4. After a read, the reply's `TransferStatus` is `TransferStatus_Done` exactly when the
stream position equals the stream length after the call, and it is `TransferStatus_Partial`
otherwise; and a read of a context object does return when the buffer size is not zero, the
terminator is at or after the cutmark pointer and the position fits in 32 bits. -/
theorem C4_status_done_iff_at_end
    (pm pf : emsmdbp_object_synccontext → emsmdbp_object_synccontext)
    (object : emsmdbp_object) (request : FastTransferSourceGetBuffer_req) :
    (∀ rv ec r object1,
      EcDoRpc_RopFastTransferSourceGetBuffer pm pf (some (some object)) request =
        some (rv, { error_code := ec, u := some r }, some (some object1)) →
      (r.TransferStatus = TransferStatus_Done ↔
        object1.stream.position = object1.stream.buffer.length) ∧
      (r.TransferStatus ≠ TransferStatus_Done → r.TransferStatus = TransferStatus_Partial)) ∧
    ((∀ t, object ≠ EMSMDBP_OBJECT_OTHER t) → effective_buffer_size request ≠ 0 →
      0xffffffff ∈ (object.materialize pm pf).cutmarks.drop
        (object.materialize pm pf).next_cutmark_ptr →
      (object.materialize pm pf).stream.position ≤ 0xffffffff →
      ∃ r object1,
        EcDoRpc_RopFastTransferSourceGetBuffer pm pf (some (some object)) request =
          some (MAPI_E_SUCCESS, { error_code := MAPI_E_SUCCESS, u := some r },
            some (some object1))) := by
  constructor
  · intro rv ec r object1 h
    obtain ⟨object2, bs1, q, hh, _, _, _, _, _, _, _, _, hstatus, _⟩ :=
      get_buffer_reply pm pf object request rv ec r _ h
    simp only [Option.some.injEq] at hh
    subst hh
    by_cases hend : object1.stream.position = object1.stream.buffer.length
    · rw [if_pos hend] at hstatus
      simp [hstatus, hend]
    · rw [if_neg hend] at hstatus
      simp [hstatus, hend]
  · intro hctx hmax hterm hpos
    exact get_buffer_returns pm pf object request hctx hmax hterm hpos

/-- C4, at a concrete input: the last read of the sample stream (from position 12) reports
`TransferStatus_Done` and leaves the position at the end of the stream. -/
theorem C4_witness :
    ∃ r object1,
      EcDoRpc_RopFastTransferSourceGetBuffer id id
          (some (some (EMSMDBP_OBJECT_FTCONTEXT (sample_ftcontext 12 1)))) (sample_request 8) =
        some (MAPI_E_SUCCESS, { error_code := MAPI_E_SUCCESS, u := some r },
          some (some object1)) ∧
      r.TransferStatus = TransferStatus_Done ∧
      (r.TransferStatus = TransferStatus_Done ↔
        object1.stream.position = object1.stream.buffer.length) :=
  ⟨_, _, rfl, rfl,
    ((C4_status_done_iff_at_end id id (EMSMDBP_OBJECT_FTCONTEXT (sample_ftcontext 12 1))
      (sample_request 8)).1 _ _ _ _ rfl).1⟩

/-- C5, refuted as stated.  The first read of the 20-byte sample stream with a buffer size of
10 sets and reports 3 steps, while `ceil(20 / 10)` is 2. -/
theorem C5_counterexample :
    ∃ r object1,
      EcDoRpc_RopFastTransferSourceGetBuffer id id
          (some (some (EMSMDBP_OBJECT_FTCONTEXT (sample_ftcontext 0 0)))) (sample_request 10) =
        some (MAPI_E_SUCCESS, { error_code := MAPI_E_SUCCESS, u := some r },
          some (some object1)) ∧
      object1.stream.buffer.length = 20 ∧
      object1.total_steps = 3 ∧ r.TotalStepCount = 3 ∧
      object1.total_steps ≠ (20 + 10 - 1) / 10 := by
  refine ⟨_, _, rfl, ?_, ?_, ?_, ?_⟩ <;> decide

theorem ceil_div_of_not_dvd (len max : Nat) (hmax : 0 < max) (h : ¬ max ∣ len) :
    (len + max - 1) / max = len / max + 1 := by
  have hmod : len % max ≠ 0 := fun hz => h (Nat.dvd_of_mod_eq_zero hz)
  have hlt : len % max < max := Nat.mod_lt _ hmax
  have hdm := Nat.div_add_mod len max
  apply Nat.div_eq_of_lt_le
  · rw [Nat.add_mul, Nat.one_mul, Nat.mul_comm]; omega
  · rw [Nat.add_mul, Nat.add_mul, Nat.one_mul, Nat.mul_comm]; omega

theorem ceil_div_of_dvd (len max : Nat) (hmax : 0 < max) (h : max ∣ len) :
    (len + max - 1) / max = len / max := by
  have hmod : len % max = 0 := Nat.mod_eq_zero_of_dvd h
  have hdm := Nat.div_add_mod len max
  apply Nat.div_eq_of_lt_le
  · rw [Nat.mul_comm]; omega
  · rw [Nat.add_mul, Nat.one_mul, Nat.mul_comm]; omega

/-- C5, amended.  A first read (position 0 of an ftcontext, materialization of a synccontext)
of a stream of length `len` with buffer size `max > 0` sets `total_steps = len / max + 1`
(integer division); this is `ceil(len / max)` when `max` does not divide `len` and
`ceil(len / max) + 1` when it does.  Every reply reports the `total_steps` of the context as
`TotalStepCount`, and a read that is not a first read leaves `total_steps` as it was. -/
theorem C5_total_steps
    (pm pf : emsmdbp_object_synccontext → emsmdbp_object_synccontext)
    (object object1 : emsmdbp_object) (request : FastTransferSourceGetBuffer_req)
    (rv ec : MAPISTATUS) (r : FastTransferSourceGetBuffer_repl)
    (hmax : 0 < effective_buffer_size request)
    (h : EcDoRpc_RopFastTransferSourceGetBuffer pm pf (some (some object)) request =
      some (rv, { error_code := ec, u := some r }, some (some object1))) :
    r.TotalStepCount = object1.total_steps ∧
    (object.first_read = true →
      object1.total_steps =
        object1.stream.buffer.length / effective_buffer_size request + 1 ∧
      (¬ effective_buffer_size request ∣ object1.stream.buffer.length →
        object1.total_steps =
          (object1.stream.buffer.length + effective_buffer_size request - 1) /
            effective_buffer_size request) ∧
      (effective_buffer_size request ∣ object1.stream.buffer.length →
        object1.total_steps =
          (object1.stream.buffer.length + effective_buffer_size request - 1) /
            effective_buffer_size request + 1)) ∧
    (object.first_read = false → object1.total_steps = object.total_steps) := by
  obtain ⟨object2, bs1, q, hh, _, _, _, _, hbuf1, _, _, _, _, htsc, hts⟩ :=
    get_buffer_reply pm pf object request rv ec r _ h
  simp only [Option.some.injEq] at hh
  subst hh
  have hl1 : object1.stream.buffer.length = (object.materialize pm pf).stream.buffer.length := by
    rw [hbuf1]
  refine ⟨htsc, ?_, ?_⟩
  · intro hfirst
    rw [hfirst, if_pos rfl, ← hl1] at hts
    refine ⟨hts, ?_, ?_⟩
    · intro hnd
      rw [hts, ceil_div_of_not_dvd _ _ hmax hnd]
    · intro hd
      rw [hts, ceil_div_of_dvd _ _ hmax hd]
  · intro hfirst
    rw [hfirst] at hts
    simpa using hts

/-- C5 amended, at a concrete input: the first read of the sample stream with a buffer size
of 8. -/
theorem C5_witness :
    ∃ r object1,
      EcDoRpc_RopFastTransferSourceGetBuffer id id
          (some (some (EMSMDBP_OBJECT_FTCONTEXT (sample_ftcontext 0 0)))) (sample_request 8) =
        some (MAPI_E_SUCCESS, { error_code := MAPI_E_SUCCESS, u := some r },
          some (some object1)) ∧
      r.TotalStepCount = object1.total_steps :=
  ⟨_, _, rfl,
    (C5_total_steps id id (EMSMDBP_OBJECT_FTCONTEXT (sample_ftcontext 0 0)) _
      (sample_request 8) _ _ _ (by decide) rfl).1⟩

/-! ## The encoder: offsets and cutmarks -/

theorem le_bytes_length : ∀ (n v : Nat), (le_bytes n v).length = n := by
  intro n
  induction n with
  | zero => intro v; rfl
  | succ n ih => intro v; simp [le_bytes, ih]

theorem ndr_push_bytes_offset (ndr : ndr_push) (bytes : List Nat) :
    (ndr_push_bytes ndr bytes).offset = ndr.offset + bytes.length := by
  simp [ndr_push_bytes, ndr_push.offset]

theorem ndr_set_flags_offset (ndr : ndr_push) (f : ndr_flags) :
    (ndr_set_flags ndr f).offset = ndr.offset := rfl

theorem ndr_push_uint8_offset (ndr : ndr_push) (v : Nat) :
    (ndr_push_uint8 ndr v).offset = ndr.offset + 1 := by
  simp [ndr_push_uint8, ndr_push_bytes_offset, le_bytes_length]

theorem ndr_push_uint16_offset (ndr : ndr_push) (v : Nat) :
    (ndr_push_uint16 ndr v).offset = ndr.offset + 2 := by
  simp [ndr_push_uint16, ndr_push_bytes_offset, le_bytes_length]

theorem ndr_push_uint32_offset (ndr : ndr_push) (v : Nat) :
    (ndr_push_uint32 ndr v).offset = ndr.offset + 4 := by
  simp [ndr_push_uint32, ndr_push_bytes_offset, le_bytes_length]

theorem ndr_push_dlong_offset (ndr : ndr_push) (v : Nat) :
    (ndr_push_dlong ndr v).offset = ndr.offset + 8 := by
  simp [ndr_push_dlong, ndr_push_bytes_offset, le_bytes_length]

theorem ndr_push_double_offset (ndr : ndr_push) (v : Nat) :
    (ndr_push_double ndr v).offset = ndr.offset + 8 := by
  simp [ndr_push_double, ndr_push_bytes_offset, le_bytes_length]

theorem ndr_push_GUID_offset (ndr : ndr_push) (guid : GUID) :
    (ndr_push_GUID ndr guid).offset = ndr.offset + 16 := by
  simp [ndr_push_GUID, ndr_push_bytes_offset, GUID.wire]

theorem ndr_push_FILETIME_offset (ndr : ndr_push) (t : FILETIME) :
    (ndr_push_FILETIME ndr t).offset = ndr.offset + 8 := by
  simp [ndr_push_FILETIME, ndr_push_uint32_offset]

theorem ndr_push_Binary_r_offset (ndr : ndr_push) (bin : Binary_r) :
    ndr.offset + 4 ≤ (ndr_push_Binary_r ndr bin).offset := by
  simp [ndr_push_Binary_r, ndr_push_bytes_offset, ndr_push_uint32_offset]

theorem ndr_push_string_offset (ndr ndr1 : ndr_push) (s : String)
    (h : ndr_push_string ndr s = some ndr1) : ndr.offset < ndr1.offset := by
  unfold ndr_push_string at h
  split at h
  · split at h
    · simp only [Option.some.injEq] at h
      subst h
      simp [ndr_push_bytes_offset]
    · simp at h
  · simp only [Option.some.injEq] at h
    subst h
    simp [ndr_push_bytes_offset]

/-- A value pushed by `oxcfxics_ndr_push_simple_data` never shortens the stream, and it
lengthens it unless the type is `PT_NULL`. -/
theorem push_simple_data_offset (ndr ndr1 : ndr_push) (data_type : Nat) (value : prop_data)
    (h : oxcfxics_ndr_push_simple_data ndr data_type value = some ndr1) :
    ndr.offset ≤ ndr1.offset ∧ (data_type ≠ PT_NULL → ndr.offset < ndr1.offset) := by
  unfold oxcfxics_ndr_push_simple_data at h
  by_cases h1 : data_type = PT_I2
  · rw [if_pos h1] at h
    cases value <;> first | contradiction | skip
    cases h; rw [ndr_push_uint16_offset]; omega
  rw [if_neg h1] at h
  by_cases h2 : data_type = PT_LONG ∨ data_type = PT_ERROR ∨ data_type = PT_OBJECT
  · rw [if_pos h2] at h
    cases value <;> first | contradiction | skip
    cases h; rw [ndr_push_uint32_offset]; omega
  rw [if_neg h2] at h
  by_cases h3 : data_type = PT_DOUBLE
  · rw [if_pos h3] at h
    cases value <;> first | contradiction | skip
    cases h; rw [ndr_push_double_offset]; omega
  rw [if_neg h3] at h
  by_cases h4 : data_type = PT_I8
  · rw [if_pos h4] at h
    cases value <;> first | contradiction | skip
    cases h; rw [ndr_push_dlong_offset]; omega
  rw [if_neg h4] at h
  by_cases h5 : data_type = PT_BOOLEAN
  · rw [if_pos h5] at h
    cases value <;> first | contradiction | skip
    cases h
    split <;> rw [ndr_push_uint16_offset] <;> omega
  rw [if_neg h5] at h
  by_cases h6 : data_type = PT_STRING8
  · rw [if_pos h6] at h
    cases value <;> first | contradiction | skip
    have := ndr_push_string_offset _ _ _ h
    rw [ndr_set_flags_offset, ndr_push_uint32_offset] at this
    omega
  rw [if_neg h6] at h
  by_cases h7 : data_type = PT_UNICODE
  · rw [if_pos h7] at h
    cases value <;> first | contradiction | skip
    have := ndr_push_string_offset _ _ _ h
    rw [ndr_set_flags_offset, ndr_push_uint32_offset] at this
    omega
  rw [if_neg h7] at h
  by_cases h8 : data_type = PT_SVREID ∨ data_type = PT_BINARY
  · rw [if_pos h8] at h
    cases value <;> first | contradiction | skip
    rename_i bin
    cases h
    have := ndr_push_Binary_r_offset ndr bin
    omega
  rw [if_neg h8] at h
  by_cases h9 : data_type = PT_CLSID
  · rw [if_pos h9] at h
    cases value <;> first | contradiction | skip
    cases h; rw [ndr_push_GUID_offset]; omega
  rw [if_neg h9] at h
  by_cases h10 : data_type = PT_SYSTIME
  · rw [if_pos h10] at h
    cases value <;> first | contradiction | skip
    cases h; rw [ndr_push_FILETIME_offset]; omega
  rw [if_neg h10] at h
  by_cases h11 : data_type = PT_NULL
  · rw [if_pos h11] at h
    cases h
    exact ⟨Nat.le_refl _, fun hne => absurd h11 hne⟩
  rw [if_neg h11] at h
  contradiction

theorem push_array_elements_offset (data_type : Nat) :
    ∀ (values : List prop_data) (ndr ndr1 : ndr_push),
      push_array_elements data_type ndr values = some ndr1 → ndr.offset ≤ ndr1.offset := by
  intro values
  induction values with
  | nil => intro ndr ndr1 h; simp [push_array_elements] at h; subst h; exact Nat.le_refl _
  | cons v rest ih =>
    intro ndr ndr1 h
    unfold push_array_elements at h
    split at h
    · simp at h
    · rename_i ndr2 h2
      have := (push_simple_data_offset _ _ _ _ h2).1
      have := ih _ _ h
      omega

/-- The value of a property never shortens the stream, and it lengthens it unless the type of
the property is `PT_NULL`. -/
theorem push_property_value_offset (ndr ndr1 : ndr_push) (property : Nat) (value : prop_data)
    (h : push_property_value ndr property value = some ndr1) :
    ndr.offset ≤ ndr1.offset ∧ (property % 2 ^ 16 ≠ PT_NULL → ndr.offset < ndr1.offset) := by
  unfold push_property_value at h
  by_cases hmv : (property % 2 ^ 16 / MV_FLAG) % 2 = 1
  · rw [if_pos hmv] at h
    have hstrict : ∀ (n : Nat) (vs : List prop_data) (t : Nat),
        push_array_elements t (ndr_push_uint32 ndr n) vs = some ndr1 →
        ndr.offset < ndr1.offset := by
      intro n vs t hh
      have := push_array_elements_offset _ _ _ _ hh
      rw [ndr_push_uint32_offset] at this
      omega
    have hlt : ndr.offset < ndr1.offset := by
      by_cases h1 : property % 2 ^ 16 % 0x1000 = PT_SHORT
      · rw [if_pos h1] at h
        cases value <;> first | contradiction | skip
        exact hstrict _ _ _ h
      rw [if_neg h1] at h
      by_cases h2 : property % 2 ^ 16 % 0x1000 = PT_LONG
      · rw [if_pos h2] at h
        cases value <;> first | contradiction | skip
        exact hstrict _ _ _ h
      rw [if_neg h2] at h
      by_cases h3 : property % 2 ^ 16 % 0x1000 = PT_I8
      · rw [if_pos h3] at h
        cases value <;> first | contradiction | skip
        exact hstrict _ _ _ h
      rw [if_neg h3] at h
      by_cases h4 : property % 2 ^ 16 % 0x1000 = PT_BINARY
      · rw [if_pos h4] at h
        cases value <;> first | contradiction | skip
        exact hstrict _ _ _ h
      rw [if_neg h4] at h
      by_cases h5 : property % 2 ^ 16 % 0x1000 = PT_UNICODE
      · rw [if_pos h5] at h
        cases value <;> first | contradiction | skip
        exact hstrict _ _ _ h
      rw [if_neg h5] at h
      contradiction
    exact ⟨Nat.le_of_lt hlt, fun _ => hlt⟩
  · rw [if_neg hmv] at h
    exact push_simple_data_offset _ _ _ _ h

/-- The tag of a property (with the name of a named property) lengthens the stream. -/
theorem push_property_tag_offset (get_nameid : Nat → Option MAPINAMEID) (ndr ndr1 : ndr_push)
    (property : Nat) (h : push_property_tag get_nameid ndr property = some (some ndr1)) :
    ndr.offset < ndr1.offset := by
  unfold push_property_tag at h
  split_ifs at h with hn
  · simp only at h
    split at h
    · simp at h
    · split_ifs at h with hk1 hk2
      · simp only [Option.some.injEq] at h
        subst h
        rw [ndr_push_uint32_offset, ndr_push_uint8_offset, ndr_push_GUID_offset,
          ndr_push_uint32_offset]
        omega
      · simp only [Option.some.injEq] at h
        have := ndr_push_string_offset _ _ _ h
        rw [ndr_set_flags_offset, ndr_push_uint8_offset, ndr_push_GUID_offset,
          ndr_push_uint32_offset] at this
        omega
      · simp only [Option.some.injEq] at h
        subst h
        rw [ndr_push_GUID_offset, ndr_push_uint32_offset]
        omega
  · simp only [Option.some.injEq] at h
    subst h
    rw [ndr_push_uint32_offset]
    omega

/-- The cutmarks that `oxcfxics_ndr_push_properties` adds: they follow the ones already there,
lie beyond the offset at entry and up to the offset at exit, never decrease, and increase
strictly when no property of the list has type `PT_NULL`. -/
theorem push_properties_cutmarks (get_nameid : Nat → Option MAPINAMEID) :
    ∀ (properties : List Nat) (ndr : ndr_push) (cutmarks : List Nat)
      (data_pointers : List prop_data) (retvals : List MAPISTATUS)
      (ndr1 : ndr_push) (cutmarks1 : List Nat),
      oxcfxics_ndr_push_properties get_nameid ndr cutmarks properties data_pointers retvals =
        some (ndr1, cutmarks1) →
      ∃ added, cutmarks1 = cutmarks ++ added ∧ ndr.offset ≤ ndr1.offset ∧
        (∀ m ∈ added, ndr.offset < m ∧ m ≤ ndr1.offset) ∧
        added.Pairwise (fun a b => a ≤ b) ∧
        ((∀ p ∈ properties, p % 2 ^ 16 ≠ PT_NULL) → added.Pairwise (fun a b => a < b)) := by
  intro properties
  induction properties with
  | nil =>
    intro ndr cutmarks data_pointers retvals ndr1 cutmarks1 h
    simp only [oxcfxics_ndr_push_properties, Option.some.injEq, Prod.mk.injEq] at h
    obtain ⟨rfl, rfl⟩ := h
    exact ⟨[], by simp, Nat.le_refl _, by simp, List.Pairwise.nil, fun _ => List.Pairwise.nil⟩
  | cons p properties ih =>
    intro ndr cutmarks data_pointers retvals ndr1 cutmarks1 h
    cases retvals with
    | nil => simp [oxcfxics_ndr_push_properties] at h
    | cons rv retvals =>
      rw [oxcfxics_ndr_push_properties] at h
      by_cases hrv : rv = MAPI_E_SUCCESS
      · rw [if_pos hrv] at h
        cases htag : push_property_tag get_nameid ndr p with
        | none =>
          rw [htag] at h
          obtain ⟨added, hcm, hle, hmem, hs, hstrict⟩ := ih _ _ _ _ _ _ h
          exact ⟨added, hcm, hle, hmem, hs,
            fun hp => hstrict (fun q hq => hp q (List.mem_cons_of_mem _ hq))⟩
        | some o =>
          cases o with
          | none => rw [htag] at h; simp at h
          | some ndr2 =>
            rw [htag] at h
            simp only at h
            have htago := push_property_tag_offset _ _ _ _ htag
            cases data_pointers with
            | nil => simp at h
            | cons v data_pointers =>
              simp only at h
              cases hval : push_property_value ndr2 p v with
              | none => rw [hval] at h; simp at h
              | some ndr3 =>
                rw [hval] at h
                simp only at h
                obtain ⟨hvle, hvlt⟩ := push_property_value_offset _ _ _ _ hval
                obtain ⟨added, hcm, hle, hmem, hs, hstrict⟩ := ih _ _ _ _ _ _ h
                refine ⟨ndr2.offset :: ndr3.offset :: added, ?_, by omega, ?_, ?_, ?_⟩
                · rw [hcm]; simp
                · intro m hm
                  simp only [List.mem_cons] at hm
                  rcases hm with rfl | rfl | hm
                  · omega
                  · omega
                  · have := hmem m hm; omega
                · refine List.Pairwise.cons ?_ (List.Pairwise.cons ?_ hs)
                  · intro m hm
                    simp only [List.mem_cons] at hm
                    rcases hm with rfl | hm
                    · exact hvle
                    · have := hmem m hm; omega
                  · intro m hm
                    have := hmem m hm; omega
                · intro hp
                  have hpnull := hp p (List.mem_cons_self _ _)
                  have hlt := hvlt hpnull
                  refine List.Pairwise.cons ?_ (List.Pairwise.cons ?_
                    (hstrict (fun q hq => hp q (List.mem_cons_of_mem _ hq))))
                  · intro m hm
                    simp only [List.mem_cons] at hm
                    rcases hm with rfl | hm
                    · exact hlt
                    · have := hmem m hm; omega
                  · intro m hm
                    have := hmem m hm; omega
      · rw [if_neg hrv] at h
        obtain ⟨added, hcm, hle, hmem, hs, hstrict⟩ := ih _ _ _ _ _ _ h
        exact ⟨added, hcm, hle, hmem, hs,
          fun hp => hstrict (fun q hq => hp q (List.mem_cons_of_mem _ hq))⟩

/-- C6, refuted as stated.  For the one property `0x30010001` (type `PT_NULL`) with status
success, the encoder produces the stream `01 00 01 30` and the cutmark array
`4, 4, 0xffffffff`: the cutmark after the tag and the cutmark after the (empty) value are
equal, so the array is not strictly increasing up to the terminator. -/
theorem C6_counterexample :
    FastTransferSourceCopyTo_stream (fun _ => none) [0x30010001] [prop_data.unread]
        [MAPI_E_SUCCESS] = some ([0x01, 0x00, 0x01, 0x30], [4, 4, 0xffffffff]) ∧
    ¬ List.Pairwise (fun a b => a < b) [4, 4] := by
  constructor
  · rfl
  · decide

/-- C6, amended.  For every list of properties, values and statuses, the cutmark array
produced by the encoder (`oxcfxics_ndr_push_properties` followed by the terminator
`0xffffffff`) is, up to the terminator, non-decreasing and made of offsets into the stream;
it is strictly increasing when no property of the list has type `PT_NULL` (whose value takes
no byte). -/
theorem C6_cutmarks_non_decreasing (get_nameid : Nat → Option MAPINAMEID)
    (needed_properties : List Nat) (data_pointers : List prop_data)
    (retvals : List MAPISTATUS) (stream cutmarks : List Nat)
    (h : FastTransferSourceCopyTo_stream get_nameid needed_properties data_pointers retvals =
      some (stream, cutmarks)) :
    ∃ marks, cutmarks = marks ++ [0xffffffff] ∧
      marks.Pairwise (fun a b => a ≤ b) ∧
      (∀ m ∈ marks, 0 < m ∧ m ≤ stream.length) ∧
      ((∀ p ∈ needed_properties, p % 2 ^ 16 ≠ PT_NULL) →
        marks.Pairwise (fun a b => a < b)) := by
  unfold FastTransferSourceCopyTo_stream at h
  split at h
  · simp at h
  · rename_i ndr1 cm1 hpush
    simp only [Option.some.injEq, Prod.mk.injEq] at h
    obtain ⟨rfl, rfl⟩ := h
    obtain ⟨added, hcm, _, hmem, hs, hstrict⟩ := push_properties_cutmarks _ _ _ _ _ _ _ _ hpush
    simp only [List.nil_append] at hcm
    subst hcm
    refine ⟨cm1, rfl, hs, ?_, hstrict⟩
    intro m hm
    have := hmem m hm
    simp only [ndr_push.offset] at this
    omega

/-- C6 amended, at a concrete input: the `PT_BINARY` property `0x65e20102` with a value of 12
bytes gives `sample_stream` and `sample_cutmarks`, which increase strictly. -/
theorem C6_witness :
    FastTransferSourceCopyTo_stream (fun _ => none) [0x65e20102]
        [prop_data.Binary_r { cb := 12, lpb := [1, 2, 3, 4, 5, 6, 7, 8, 9, 10, 11, 12] }]
        [MAPI_E_SUCCESS] = some (sample_stream, sample_cutmarks) ∧
    ∃ marks, sample_cutmarks = marks ++ [0xffffffff] ∧
      marks.Pairwise (fun a b => a ≤ b) ∧
      (∀ m ∈ marks, 0 < m ∧ m ≤ sample_stream.length) ∧
      ((∀ p ∈ [0x65e20102], p % 2 ^ 16 ≠ PT_NULL) → marks.Pairwise (fun a b => a < b)) :=
  ⟨rfl, C6_cutmarks_non_decreasing (fun _ => none) [0x65e20102]
    [prop_data.Binary_r { cb := 12, lpb := [1, 2, 3, 4, 5, 6, 7, 8, 9, 10, 11, 12] }]
    [MAPI_E_SUCCESS] sample_stream sample_cutmarks rfl⟩

/-! ## The upload-state machine -/

/-- C7. Upload-state FSM.  On a synccontext that is idle (`state_property = 0`), `Continue` and
`End` reply `MAPI_E_NOT_INITIALIZED` and leave the context as it is; on a synccontext that is
staging a property, `Begin` replies `MAPI_E_NOT_INITIALIZED`; `Begin` from idle with one of
the four valid properties replies success and moves to staging that property (a non-zero
`state_property`); `Continue` while staging replies success and keeps the property; `End` while
staging replies success and returns to idle. -/
theorem C7_upload_state_machine
    (IDSET_parse : DATA_BLOB → Bool → Option idset) (sc : emsmdbp_object_synccontext) :
    (sc.state_property = 0 →
      (∀ request, EcDoRpc_RopSyncUploadStateStreamContinue
          (some (some (EMSMDBP_OBJECT_SYNCCONTEXT sc))) request =
        (MAPI_E_SUCCESS, { error_code := MAPI_E_NOT_INITIALIZED, u := none },
          some (some (EMSMDBP_OBJECT_SYNCCONTEXT sc)))) ∧
      EcDoRpc_RopSyncUploadStateStreamEnd IDSET_parse
          (some (some (EMSMDBP_OBJECT_SYNCCONTEXT sc))) =
        (MAPI_E_SUCCESS, { error_code := MAPI_E_NOT_INITIALIZED, u := none },
          some (some (EMSMDBP_OBJECT_SYNCCONTEXT sc))) ∧
      (∀ request, request.StateProperty = PidTagIdsetGiven ∨
          request.StateProperty = PidTagCnsetSeen ∨
          request.StateProperty = PidTagCnsetSeenFAI ∨
          request.StateProperty = PidTagCnsetRead →
        ∃ sc1, EcDoRpc_RopSyncUploadStateStreamBegin
            (some (some (EMSMDBP_OBJECT_SYNCCONTEXT sc))) request =
          (MAPI_E_SUCCESS, { error_code := MAPI_E_SUCCESS, u := none },
            some (some (EMSMDBP_OBJECT_SYNCCONTEXT sc1))) ∧
          sc1.state_property = request.StateProperty ∧ sc1.state_property ≠ 0)) ∧
    (sc.state_property ≠ 0 →
      (∀ request, EcDoRpc_RopSyncUploadStateStreamBegin
          (some (some (EMSMDBP_OBJECT_SYNCCONTEXT sc))) request =
        (MAPI_E_SUCCESS, { error_code := MAPI_E_NOT_INITIALIZED, u := none },
          some (some (EMSMDBP_OBJECT_SYNCCONTEXT sc)))) ∧
      (∀ request, ∃ sc1, EcDoRpc_RopSyncUploadStateStreamContinue
            (some (some (EMSMDBP_OBJECT_SYNCCONTEXT sc))) request =
          (MAPI_E_SUCCESS, { error_code := MAPI_E_SUCCESS, u := none },
            some (some (EMSMDBP_OBJECT_SYNCCONTEXT sc1))) ∧
          sc1.state_property = sc.state_property) ∧
      (∃ sc1, EcDoRpc_RopSyncUploadStateStreamEnd IDSET_parse
            (some (some (EMSMDBP_OBJECT_SYNCCONTEXT sc))) =
          (MAPI_E_SUCCESS, { error_code := MAPI_E_SUCCESS, u := none },
            some (some (EMSMDBP_OBJECT_SYNCCONTEXT sc1))) ∧
          sc1.state_property = 0)) := by
  constructor
  · intro hidle
    refine ⟨?_, ?_, ?_⟩
    · intro request
      simp [EcDoRpc_RopSyncUploadStateStreamContinue, hidle]
    · simp [EcDoRpc_RopSyncUploadStateStreamEnd, hidle]
    · intro request hvalid
      have hne : request.StateProperty ≠ 0 := by
        simp only [PidTagIdsetGiven, PidTagCnsetSeen, PidTagCnsetSeenFAI, PidTagCnsetRead]
          at hvalid
        omega
      simp only [EcDoRpc_RopSyncUploadStateStreamBegin, hidle, ne_eq, not_true_eq_false,
        if_false, hvalid]
      exact ⟨_, rfl, rfl, hne⟩
  · intro hstaging
    refine ⟨?_, ?_, ?_⟩
    · intro request
      simp [EcDoRpc_RopSyncUploadStateStreamBegin, hstaging]
    · intro request
      simp only [EcDoRpc_RopSyncUploadStateStreamContinue, hstaging, if_false]
      exact ⟨_, rfl, rfl⟩
    · simp only [EcDoRpc_RopSyncUploadStateStreamEnd, hstaging, if_false]
      exact ⟨_, rfl, rfl⟩

/-- C7, at a concrete input: `Begin(IdsetGiven)` on the idle sample context moves to staging
`PidTagIdsetGiven`. -/
theorem C7_witness :
    ∃ sc1, EcDoRpc_RopSyncUploadStateStreamBegin
        (some (some (EMSMDBP_OBJECT_SYNCCONTEXT (sample_synccontext 0 []))))
        { StateProperty := PidTagIdsetGiven } =
      (MAPI_E_SUCCESS, { error_code := MAPI_E_SUCCESS, u := none },
        some (some (EMSMDBP_OBJECT_SYNCCONTEXT sc1))) ∧
      sc1.state_property = PidTagIdsetGiven ∧ sc1.state_property ≠ 0 :=
  ((C7_upload_state_machine (fun _ _ => none) (sample_synccontext 0 [])).1 rfl).2.2
    { StateProperty := PidTagIdsetGiven } (Or.inl rfl)

theorem upload_state_reset_fields (sc : emsmdbp_object_synccontext) :
    (upload_state_reset sc).idset_given = sc.idset_given ∧
    (upload_state_reset sc).cnset_seen = sc.cnset_seen ∧
    (upload_state_reset sc).cnset_seen_fai = sc.cnset_seen_fai ∧
    (upload_state_reset sc).cnset_read = sc.cnset_read ∧
    (upload_state_reset sc).state_property = 0 ∧
    (upload_state_reset sc).state_stream.buffer.length = 0 := by
  unfold upload_state_reset
  by_cases hb : sc.state_stream.buffer.length > 0
  · rw [if_pos hb]
    exact ⟨rfl, rfl, rfl, rfl, rfl, rfl⟩
  · rw [if_neg hb]
    exact ⟨rfl, rfl, rfl, rfl, rfl, by show sc.state_stream.buffer.length = 0; omega⟩

/-- What `End` does while a property is staged: it replies success, stores the result of the
parse (`NULL` included) as the set of the staged property, with `single` set for the three
change-number sets, keeps the three other sets, empties the staging buffer and goes idle. -/
theorem upload_state_end_staging
    (IDSET_parse : DATA_BLOB → Bool → Option idset) (sc : emsmdbp_object_synccontext)
    (hstaging : sc.state_property = PidTagIdsetGiven ∨ sc.state_property = PidTagCnsetSeen ∨
      sc.state_property = PidTagCnsetSeenFAI ∨ sc.state_property = PidTagCnsetRead) :
    ∃ sc1, EcDoRpc_RopSyncUploadStateStreamEnd IDSET_parse
        (some (some (EMSMDBP_OBJECT_SYNCCONTEXT sc))) =
      (MAPI_E_SUCCESS, { error_code := MAPI_E_SUCCESS, u := none },
        some (some (EMSMDBP_OBJECT_SYNCCONTEXT sc1))) ∧
      sc1.idset_given = (if sc.state_property = PidTagIdsetGiven then
        IDSET_parse sc.state_stream.buffer false else sc.idset_given) ∧
      sc1.cnset_seen = (if sc.state_property = PidTagCnsetSeen then
        (IDSET_parse sc.state_stream.buffer false).map idset.set_single else sc.cnset_seen) ∧
      sc1.cnset_seen_fai = (if sc.state_property = PidTagCnsetSeenFAI then
        (IDSET_parse sc.state_stream.buffer false).map idset.set_single
        else sc.cnset_seen_fai) ∧
      sc1.cnset_read = (if sc.state_property = PidTagCnsetRead then
        (IDSET_parse sc.state_stream.buffer false).map idset.set_single else sc.cnset_read) ∧
      sc1.state_property = 0 ∧ sc1.state_stream.buffer.length = 0 := by
  have hne : sc.state_property ≠ 0 := by
    simp only [PidTagIdsetGiven, PidTagCnsetSeen, PidTagCnsetSeenFAI, PidTagCnsetRead]
      at hstaging
    omega
  simp only [EcDoRpc_RopSyncUploadStateStreamEnd, hne, if_false]
  refine ⟨_, rfl, ?_⟩
  obtain ⟨h1, h2, h3, h4, h5, h6⟩ := upload_state_reset_fields
    (upload_state_store sc (IDSET_parse sc.state_stream.buffer false))
  rw [h1, h2, h3, h4, h5, h6]
  refine ⟨?_, ?_, ?_, ?_, rfl, rfl⟩ <;>
    rcases hstaging with h | h | h | h <;>
    simp [upload_state_store, h, PidTagIdsetGiven, PidTagCnsetSeen, PidTagCnsetSeenFAI,
      PidTagCnsetRead]

/-- C8, refuted as stated.  The sample context holds `sample_idset` as `idset_given` and is
staging `PidTagIdsetGiven` with the bytes `FF FF`; with a parser that rejects these bytes,
`End` replies success (no error code) and the stored `idset_given` is gone (`NULL`). -/
theorem C8_counterexample :
    (sample_synccontext PidTagIdsetGiven [0xff, 0xff]).idset_given = some sample_idset ∧
    ∃ sc1, EcDoRpc_RopSyncUploadStateStreamEnd (fun _ _ => none)
        (some (some (EMSMDBP_OBJECT_SYNCCONTEXT
          (sample_synccontext PidTagIdsetGiven [0xff, 0xff])))) =
      (MAPI_E_SUCCESS, { error_code := MAPI_E_SUCCESS, u := none },
        some (some (EMSMDBP_OBJECT_SYNCCONTEXT sc1))) ∧
      sc1.idset_given = none := by
  refine ⟨rfl, _, rfl, ?_⟩
  decide

/-- C8, amended.  When the bytes staged for a state property do not parse as an idset
(`IDSET_parse` gives `NULL`), `SyncUploadStateStreamEnd` replies success, the stored idset of
that property becomes `NULL`, the three other stored idsets are unchanged, and the context is
idle with an empty staging buffer. -/
theorem C8_end_on_parse_failure
    (IDSET_parse : DATA_BLOB → Bool → Option idset) (sc : emsmdbp_object_synccontext)
    (hstaging : sc.state_property = PidTagIdsetGiven ∨ sc.state_property = PidTagCnsetSeen ∨
      sc.state_property = PidTagCnsetSeenFAI ∨ sc.state_property = PidTagCnsetRead)
    (hparse : IDSET_parse sc.state_stream.buffer false = none) :
    ∃ sc1, EcDoRpc_RopSyncUploadStateStreamEnd IDSET_parse
        (some (some (EMSMDBP_OBJECT_SYNCCONTEXT sc))) =
      (MAPI_E_SUCCESS, { error_code := MAPI_E_SUCCESS, u := none },
        some (some (EMSMDBP_OBJECT_SYNCCONTEXT sc1))) ∧
      (sc.state_property = PidTagIdsetGiven →
        sc1.idset_given = none ∧ sc1.cnset_seen = sc.cnset_seen ∧
        sc1.cnset_seen_fai = sc.cnset_seen_fai ∧ sc1.cnset_read = sc.cnset_read) ∧
      (sc.state_property = PidTagCnsetSeen →
        sc1.cnset_seen = none ∧ sc1.idset_given = sc.idset_given ∧
        sc1.cnset_seen_fai = sc.cnset_seen_fai ∧ sc1.cnset_read = sc.cnset_read) ∧
      (sc.state_property = PidTagCnsetSeenFAI →
        sc1.cnset_seen_fai = none ∧ sc1.idset_given = sc.idset_given ∧
        sc1.cnset_seen = sc.cnset_seen ∧ sc1.cnset_read = sc.cnset_read) ∧
      (sc.state_property = PidTagCnsetRead →
        sc1.cnset_read = none ∧ sc1.idset_given = sc.idset_given ∧
        sc1.cnset_seen = sc.cnset_seen ∧ sc1.cnset_seen_fai = sc.cnset_seen_fai) ∧
      sc1.state_property = 0 ∧ sc1.state_stream.buffer.length = 0 := by
  obtain ⟨sc1, hend, h1, h2, h3, h4, h5, h6⟩ :=
    upload_state_end_staging IDSET_parse sc hstaging
  rw [hparse] at h1 h2 h3 h4
  refine ⟨sc1, hend, ?_, ?_, ?_, ?_, h5, h6⟩ <;> intro h <;> rw [h] at h1 h2 h3 h4 <;>
    simp [PidTagIdsetGiven, PidTagCnsetSeen, PidTagCnsetSeenFAI, PidTagCnsetRead]
      at h1 h2 h3 h4 <;>
    simp [h1, h2, h3, h4]

/-- C8 amended, at a concrete input: the sample context staging `PidTagCnsetSeen` with the
bytes `FF FF` and a parser that rejects them. -/
theorem C8_witness :
    ∃ sc1, EcDoRpc_RopSyncUploadStateStreamEnd (fun _ _ => none)
        (some (some (EMSMDBP_OBJECT_SYNCCONTEXT
          (sample_synccontext PidTagCnsetSeen [0xff, 0xff])))) =
      (MAPI_E_SUCCESS, { error_code := MAPI_E_SUCCESS, u := none },
        some (some (EMSMDBP_OBJECT_SYNCCONTEXT sc1))) ∧
      sc1.cnset_seen = none ∧ sc1.idset_given = some sample_idset ∧
      sc1.state_property = 0 ∧ sc1.state_stream.buffer.length = 0 := by
  obtain ⟨sc1, hend, _, h2, _, _, h5, h6⟩ := C8_end_on_parse_failure (fun _ _ => none)
    (sample_synccontext PidTagCnsetSeen [0xff, 0xff]) (Or.inr (Or.inl rfl)) rfl
  exact ⟨sc1, hend, (h2 rfl).1, (h2 rfl).2.1, h5, h6⟩

/-- C9. When the staged bytes parse, `SyncUploadStateStreamEnd` in `Staging(p)` replies
success and replaces exactly the stored idset that corresponds to `p`: by the parsed idset as
it is for `PidTagIdsetGiven` (`single` is not touched, so it stays unset when the parser left
it unset), and by the parsed idset with `single` set for `PidTagCnsetSeen`,
`PidTagCnsetSeenFAI` and `PidTagCnsetRead`; the three other stored idsets are unchanged, and
the context is idle with an empty staging buffer. -/
theorem C9_end_replaces_staged_idset
    (IDSET_parse : DATA_BLOB → Bool → Option idset) (sc : emsmdbp_object_synccontext)
    (parsed : idset)
    (hstaging : sc.state_property = PidTagIdsetGiven ∨ sc.state_property = PidTagCnsetSeen ∨
      sc.state_property = PidTagCnsetSeenFAI ∨ sc.state_property = PidTagCnsetRead)
    (hparse : IDSET_parse sc.state_stream.buffer false = some parsed) :
    ∃ sc1, EcDoRpc_RopSyncUploadStateStreamEnd IDSET_parse
        (some (some (EMSMDBP_OBJECT_SYNCCONTEXT sc))) =
      (MAPI_E_SUCCESS, { error_code := MAPI_E_SUCCESS, u := none },
        some (some (EMSMDBP_OBJECT_SYNCCONTEXT sc1))) ∧
      (sc.state_property = PidTagIdsetGiven →
        sc1.idset_given = some parsed ∧ sc1.cnset_seen = sc.cnset_seen ∧
        sc1.cnset_seen_fai = sc.cnset_seen_fai ∧ sc1.cnset_read = sc.cnset_read) ∧
      (sc.state_property = PidTagCnsetSeen →
        sc1.cnset_seen = some parsed.set_single ∧ sc1.idset_given = sc.idset_given ∧
        sc1.cnset_seen_fai = sc.cnset_seen_fai ∧ sc1.cnset_read = sc.cnset_read) ∧
      (sc.state_property = PidTagCnsetSeenFAI →
        sc1.cnset_seen_fai = some parsed.set_single ∧ sc1.idset_given = sc.idset_given ∧
        sc1.cnset_seen = sc.cnset_seen ∧ sc1.cnset_read = sc.cnset_read) ∧
      (sc.state_property = PidTagCnsetRead →
        sc1.cnset_read = some parsed.set_single ∧ sc1.idset_given = sc.idset_given ∧
        sc1.cnset_seen = sc.cnset_seen ∧ sc1.cnset_seen_fai = sc.cnset_seen_fai) ∧
      parsed.set_single.head.single = true ∧
      parsed.set_single.head.ranges = parsed.head.ranges ∧
      parsed.set_single.next = parsed.next ∧
      (parsed.head.single = false → sc.state_property = PidTagIdsetGiven →
        ∃ stored, sc1.idset_given = some stored ∧ stored.head.single = false) ∧
      sc1.state_property = 0 ∧ sc1.state_stream.buffer.length = 0 := by
  obtain ⟨sc1, hend, h1, h2, h3, h4, h5, h6⟩ :=
    upload_state_end_staging IDSET_parse sc hstaging
  rw [hparse] at h1 h2 h3 h4
  refine ⟨sc1, hend, ?_, ?_, ?_, ?_, rfl, rfl, rfl, ?_, h5, h6⟩
  · intro h
    rw [h] at h1 h2 h3 h4
    simp [PidTagIdsetGiven, PidTagCnsetSeen, PidTagCnsetSeenFAI, PidTagCnsetRead]
      at h1 h2 h3 h4
    simp [h1, h2, h3, h4]
  · intro h
    rw [h] at h1 h2 h3 h4
    simp [PidTagIdsetGiven, PidTagCnsetSeen, PidTagCnsetSeenFAI, PidTagCnsetRead]
      at h1 h2 h3 h4
    simp [h1, h2, h3, h4]
  · intro h
    rw [h] at h1 h2 h3 h4
    simp [PidTagIdsetGiven, PidTagCnsetSeen, PidTagCnsetSeenFAI, PidTagCnsetRead]
      at h1 h2 h3 h4
    simp [h1, h2, h3, h4]
  · intro h
    rw [h] at h1 h2 h3 h4
    simp [PidTagIdsetGiven, PidTagCnsetSeen, PidTagCnsetSeenFAI, PidTagCnsetRead]
      at h1 h2 h3 h4
    simp [h1, h2, h3, h4]
  · intro hs h
    rw [h] at h1
    simp only [if_true] at h1
    exact ⟨parsed, h1, hs⟩

/-- C9, at a concrete input: the sample context staging `PidTagCnsetRead`, with a parser that
yields `sample_idset2`. -/
theorem C9_witness :
    ∃ sc1, EcDoRpc_RopSyncUploadStateStreamEnd (fun _ _ => some sample_idset2)
        (some (some (EMSMDBP_OBJECT_SYNCCONTEXT
          (sample_synccontext PidTagCnsetRead [1, 2, 3])))) =
      (MAPI_E_SUCCESS, { error_code := MAPI_E_SUCCESS, u := none },
        some (some (EMSMDBP_OBJECT_SYNCCONTEXT sc1))) ∧
      sc1.cnset_read = some sample_idset2.set_single ∧
      sc1.idset_given = some sample_idset ∧ sc1.cnset_seen = some sample_idset ∧
      sc1.cnset_seen_fai = some sample_idset ∧
      sc1.state_property = 0 ∧ sc1.state_stream.buffer.length = 0 := by
  obtain ⟨sc1, hend, _, _, _, h4, _, _, _, _, h5, h6⟩ :=
    C9_end_replaces_staged_idset (fun _ _ => some sample_idset2)
      (sample_synccontext PidTagCnsetRead [1, 2, 3]) sample_idset2
      (Or.inr (Or.inr (Or.inr rfl))) rfl
  exact ⟨sc1, hend, (h4 rfl).1, (h4 rfl).2.1, (h4 rfl).2.2.1, (h4 rfl).2.2.2, h5, h6⟩

/-! ## Source keys and identifiers -/

theorem GUID.wire_length (guid : GUID) : guid.wire.length = 16 := by
  simp [GUID.wire]

/-- Reading a GUID back from the bytes it was pushed as gives the GUID. -/
theorem GUID.of_bytes_wire (guid : GUID) (rest : List Nat) :
    GUID.of_bytes (guid.wire ++ rest) = some guid := by
  unfold GUID.of_bytes
  have hl := guid.wire_length
  rw [if_pos (by rw [List.length_append]; omega)]
  congr 1
  cases guid with | mk o =>
  congr 1
  funext i
  apply Fin.ext
  have hi : i.val < (List.ofFn fun j => (o j).val).length := by
    rw [List.length_ofFn]; exact i.isLt
  simp only [GUID.wire, List.getD_eq_getElem?_getD]
  rw [List.getElem?_append_left hi, List.getElem?_eq_getElem hi, List.getElem_ofFn]
  simp only [Option.getD_some, Fin.eta]
  exact Nat.mod_eq_of_lt (o i).isLt

theorem make_xid_push_id_data : ∀ (n : Nat) (ndr : ndr_push) (id : Nat),
    (make_xid_push_id n ndr id).data = ndr.data ++ le_bytes n id := by
  intro n
  induction n with
  | zero => intro ndr id; simp [make_xid_push_id, le_bytes]
  | succ n ih =>
    intro ndr id
    simp [make_xid_push_id, le_bytes, ih, ndr_push_uint8, ndr_push_bytes]

/-- The loop of `oxcfxics_fmid_from_source_key` rebuilds a value from its little-endian
bytes. -/
theorem source_key_accumulate_le_bytes : ∀ (n e v fmid : Nat), fmid < 2 ^ e →
    e + 8 * n < 64 →
    source_key_accumulate (le_bytes n v) fmid (2 ^ e) = fmid + 2 ^ e * (v % 2 ^ (8 * n)) := by
  intro n
  induction n with
  | zero => intro e v fmid _ _; simp [source_key_accumulate, le_bytes, Nat.mod_one]
  | succ n ih =>
    intro e v fmid hf he
    simp only [le_bytes, source_key_accumulate]
    have hb : v % 256 < 256 := Nat.mod_lt _ (by decide)
    have hP : 0 < 2 ^ e := Nat.two_pow_pos e
    have hpe : 2 ^ e * 2 ^ 8 = 2 ^ (e + 8) := (Nat.pow_add 2 e 8).symm
    have hlt64 : 2 ^ (e + 8) < 2 ^ 64 := Nat.pow_lt_pow_right (by decide) (by omega)
    have hprod : 2 ^ e * (v % 256) + fmid < 2 ^ (e + 8) := by
      rw [← hpe]
      have : 2 ^ e * (v % 256) + 2 ^ e ≤ 2 ^ e * 2 ^ 8 := by
        rw [← Nat.mul_succ]
        exact Nat.mul_le_mul_left _ hb
      omega
    have hterm : v % 256 % 256 * 2 ^ e % 2 ^ 64 = 2 ^ e * (v % 256) := by
      rw [Nat.mod_mod, Nat.mul_comm]
      apply Nat.mod_eq_of_lt
      omega
    have hbase : 2 ^ e * 2 ^ 8 % 2 ^ 64 = 2 ^ (e + 8) := by
      rw [hpe]; exact Nat.mod_eq_of_lt hlt64
    rw [hterm, hbase, Nat.or_comm, ← Nat.mul_add_lt_is_or hf]
    rw [ih (e + 8) (v / 256) _ hprod (by omega)]
    have hmod : v % 2 ^ (8 * (n + 1)) = v % 256 + 256 * (v / 256 % 2 ^ (8 * n)) := by
      have : 2 ^ (8 * (n + 1)) = 256 * 2 ^ (8 * n) := by
        rw [Nat.mul_succ, Nat.pow_add]; ring
      rw [this, Nat.mod_mul]
    rw [hmod, ← hpe]
    ring

/-- The source key made for `(guid, id)` has 22 bytes, and decoding it gives the low 48 bits of
`id` shifted left by 16, or-ed with the replica id that the owner has for `guid`. -/
theorem fmid_from_source_key_make_gid (emsmdbp_guid_to_replid : GUID → Option Nat)
    (guid : GUID) (r id : Nat) (hr : emsmdbp_guid_to_replid guid = some r) :
    ∃ key, oxcfxics_make_gid guid id = some key ∧ key.cb = 22 ∧ key.lpb.length = 22 ∧
      key.lpb = guid.wire ++ le_bytes 6 (id % 2 ^ 64) ∧
      oxcfxics_fmid_from_source_key emsmdbp_guid_to_replid key =
        some (MAPISTORE_SUCCESS,
          some ((((id % 2 ^ 64 % 2 ^ 48) <<< 16) % 2 ^ 64) ||| (r % 2 ^ 16))) := by
  have hdata : (make_xid_push_id 6 (ndr_push_GUID ndr_push_init_ctx guid) (id % 2 ^ 64)).data =
      guid.wire ++ le_bytes 6 (id % 2 ^ 64) := by
    rw [make_xid_push_id_data]
    simp [ndr_push_GUID, ndr_push_bytes, ndr_push_init_ctx]
  have hlen : (guid.wire ++ le_bytes 6 (id % 2 ^ 64)).length = 22 := by
    rw [List.length_append, GUID.wire_length, le_bytes_length]
  have hmake : oxcfxics_make_gid guid id = some
      { cb := (make_xid_push_id 6 (ndr_push_GUID ndr_push_init_ctx guid)
          (id % 2 ^ 64)).offset
        lpb := (make_xid_push_id 6 (ndr_push_GUID ndr_push_init_ctx guid)
          (id % 2 ^ 64)).data } := by
    unfold oxcfxics_make_gid oxcfxics_make_xid
    rw [if_neg (by decide)]
  generalize make_xid_push_id 6 (ndr_push_GUID ndr_push_init_ctx guid) (id % 2 ^ 64) = ndr
    at hdata hmake
  generalize hv : id % 2 ^ 64 = v at hdata hlen
  refine ⟨_, hmake, ?_, ?_, hdata, ?_⟩
  · simp only [ndr_push.offset, hdata, hlen]
  · simp only [hdata, hlen]
  · unfold oxcfxics_fmid_from_source_key
    simp only [hdata, GUID.of_bytes_wire, hr, hlen, Nat.lt_irrefl, if_false]
    rw [List.drop_left' guid.wire_length, List.take_of_length_le (by rw [le_bytes_length])]
    have hacc := source_key_accumulate_le_bytes 6 0 v 0 (by decide) (by decide)
    simp only [Nat.pow_zero, Nat.zero_add, Nat.one_mul] at hacc
    rw [hacc]

/-- C10. Fmid / source-key round trip.  For a replica GUID that the owner maps to the replica
id `r` (16 bits) and a global counter below `2^48`, `oxcfxics_make_gid` builds a source key of
22 bytes and `oxcfxics_fmid_from_source_key` applied to it succeeds and returns
`(globcnt << 16) | r`; hence for every 64-bit fmid whose replica id is `r`, decoding the source
key made for the global counter of the fmid gives the fmid back. -/
theorem C10_fmid_source_key_round_trip (emsmdbp_guid_to_replid : GUID → Option Nat)
    (guid : GUID) (r globcnt : Nat)
    (hr : emsmdbp_guid_to_replid guid = some r) (hr16 : r < 2 ^ 16)
    (hg : globcnt < 2 ^ 48) :
    (∃ key, oxcfxics_make_gid guid globcnt = some key ∧ key.cb = 22 ∧ key.lpb.length = 22 ∧
      oxcfxics_fmid_from_source_key emsmdbp_guid_to_replid key =
        some (MAPISTORE_SUCCESS, some ((globcnt <<< 16) ||| r))) ∧
    (∀ fmid, fmid < 2 ^ 64 → fmid % 2 ^ 16 = r →
      ∃ key, oxcfxics_make_gid guid (fmid >>> 16) = some key ∧
        oxcfxics_fmid_from_source_key emsmdbp_guid_to_replid key =
          some (MAPISTORE_SUCCESS, some fmid)) := by
  have hround : ∀ g, g < 2 ^ 48 →
      (((g % 2 ^ 64 % 2 ^ 48) <<< 16) % 2 ^ 64) ||| (r % 2 ^ 16) = (g <<< 16) ||| r := by
    intro g hg48
    have h1 : g % 2 ^ 64 % 2 ^ 48 = g := by omega
    have h2 : (g <<< 16) % 2 ^ 64 = g <<< 16 := by
      rw [Nat.shiftLeft_eq]; omega
    rw [h1, h2, Nat.mod_eq_of_lt hr16]
  constructor
  · obtain ⟨key, hkey, hcb, hlen, _, hdec⟩ :=
      fmid_from_source_key_make_gid emsmdbp_guid_to_replid guid r globcnt hr
    rw [hround globcnt hg] at hdec
    exact ⟨key, hkey, hcb, hlen, hdec⟩
  · intro fmid hf hrep
    obtain ⟨key, hkey, _, _, _, hdec⟩ :=
      fmid_from_source_key_make_gid emsmdbp_guid_to_replid guid r (fmid >>> 16) hr
    have hg48 : fmid >>> 16 < 2 ^ 48 := by
      rw [Nat.shiftRight_eq_div_pow]; omega
    rw [hround _ hg48] at hdec
    have hback : ((fmid >>> 16) <<< 16) ||| r = fmid := by
      rw [Nat.shiftLeft_eq, Nat.shiftRight_eq_div_pow, Nat.mul_comm,
        ← Nat.mul_add_lt_is_or hr16, ← hrep]
      exact Nat.div_add_mod fmid (2 ^ 16)
    rw [hback] at hdec
    exact ⟨key, hkey, hdec⟩

/-- C10, at a concrete input: the all-zero GUID mapped to replica id 1 and the global counter
`0x010203040506`. -/
theorem C10_witness :
    (∃ key, oxcfxics_make_gid sample_guid 0x010203040506 = some key ∧ key.cb = 22 ∧
      key.lpb.length = 22 ∧
      oxcfxics_fmid_from_source_key (fun _ => some 1) key =
        some (MAPISTORE_SUCCESS, some ((0x010203040506 <<< 16) ||| 1))) ∧
    (∀ fmid, fmid < 2 ^ 64 → fmid % 2 ^ 16 = 1 →
      ∃ key, oxcfxics_make_gid sample_guid (fmid >>> 16) = some key ∧
        oxcfxics_fmid_from_source_key (fun _ => some 1) key =
          some (MAPISTORE_SUCCESS, some fmid)) :=
  C10_fmid_source_key_round_trip (fun _ => some 1) sample_guid 1 0x010203040506 rfl
    (by decide) (by decide)

/-! ## Decoding a source key -/

theorem le_value_lt : ∀ bytes : List Nat, le_value bytes < 2 ^ (8 * bytes.length) := by
  intro bytes
  induction bytes with
  | nil => simp [le_value]
  | cons b bs ih =>
    simp only [le_value, List.length_cons]
    have hb : b % 256 < 256 := Nat.mod_lt _ (by decide)
    have hp : 2 ^ (8 * (bs.length + 1)) = 256 * 2 ^ (8 * bs.length) := by
      rw [Nat.mul_succ, Nat.pow_add]; ring
    rw [hp]
    have : 256 * le_value bs + 256 ≤ 256 * 2 ^ (8 * bs.length) := by
      rw [← Nat.mul_succ]
      exact Nat.mul_le_mul_left _ ih
    omega

/-- The loop of `oxcfxics_fmid_from_source_key` computes the little-endian value of the bytes
it reads. -/
theorem source_key_accumulate_le_value : ∀ (bytes : List Nat) (e fmid : Nat), fmid < 2 ^ e →
    e + 8 * bytes.length < 64 →
    source_key_accumulate bytes fmid (2 ^ e) = fmid + 2 ^ e * le_value bytes := by
  intro bytes
  induction bytes with
  | nil => intro e fmid _ _; simp [source_key_accumulate, le_value]
  | cons b bs ih =>
    intro e fmid hf he
    simp only [List.length_cons] at he
    simp only [source_key_accumulate, le_value]
    have hb : b % 256 < 256 := Nat.mod_lt _ (by decide)
    have hpe : 2 ^ e * 2 ^ 8 = 2 ^ (e + 8) := (Nat.pow_add 2 e 8).symm
    have hlt64 : 2 ^ (e + 8) < 2 ^ 64 := Nat.pow_lt_pow_right (by decide) (by omega)
    have hprod : 2 ^ e * (b % 256) + fmid < 2 ^ (e + 8) := by
      rw [← hpe]
      have : 2 ^ e * (b % 256) + 2 ^ e ≤ 2 ^ e * 2 ^ 8 := by
        rw [← Nat.mul_succ]
        exact Nat.mul_le_mul_left _ hb
      omega
    have hterm : b % 256 * 2 ^ e % 2 ^ 64 = 2 ^ e * (b % 256) := by
      rw [Nat.mul_comm]
      apply Nat.mod_eq_of_lt
      omega
    have hbase : 2 ^ e * 2 ^ 8 % 2 ^ 64 = 2 ^ (e + 8) := by
      rw [hpe]; exact Nat.mod_eq_of_lt hlt64
    rw [hterm, hbase, Nat.or_comm, ← Nat.mul_add_lt_is_or hf]
    rw [ih (e + 8) _ hprod (by omega), ← hpe]
    ring

/-- What `oxcfxics_fmid_from_source_key` returns for a source key of at least 22 bytes. -/
theorem fmid_from_source_key_value (emsmdbp_guid_to_replid : GUID → Option Nat)
    (source_key : Binary_r) (hlen : 22 ≤ source_key.lpb.length) :
    ∃ guid, GUID.of_bytes source_key.lpb = some guid ∧
      oxcfxics_fmid_from_source_key emsmdbp_guid_to_replid source_key =
        match emsmdbp_guid_to_replid guid with
        | none => some (MAPISTORE_ERROR, none)
        | some replid =>
          some (MAPISTORE_SUCCESS,
            some ((le_value ((source_key.lpb.drop 16).take 6) <<< 16) ||| (replid % 2 ^ 16))) := by
  have hg : ∃ guid, GUID.of_bytes source_key.lpb = some guid := by
    unfold GUID.of_bytes
    rw [if_pos (by omega)]
    exact ⟨_, rfl⟩
  obtain ⟨guid, hguid⟩ := hg
  refine ⟨guid, hguid, ?_⟩
  unfold oxcfxics_fmid_from_source_key
  rw [hguid]
  cases hr : emsmdbp_guid_to_replid guid with
  | none => simp only [hr]
  | some replid =>
    simp only [hr]
    rw [if_neg (by omega)]
    have hl6 : ((source_key.lpb.drop 16).take 6).length = 6 := by
      rw [List.length_take, List.length_drop]; omega
    have hacc := source_key_accumulate_le_value ((source_key.lpb.drop 16).take 6) 0 0
      (by decide) (by rw [hl6]; decide)
    simp only [Nat.pow_zero, Nat.zero_add, Nat.one_mul] at hacc
    have hlt := le_value_lt ((source_key.lpb.drop 16).take 6)
    rw [hl6] at hlt
    rw [hacc]
    have h2 : (le_value ((source_key.lpb.drop 16).take 6) <<< 16) % 2 ^ 64 =
        le_value ((source_key.lpb.drop 16).take 6) <<< 16 := by
      rw [Nat.shiftLeft_eq]
      apply Nat.mod_eq_of_lt
      generalize le_value ((source_key.lpb.drop 16).take 6) = v at hlt
      omega
    rw [h2]

/-- C11. For a source key of at least 22 bytes, `oxcfxics_fmid_from_source_key` reads a GUID
from the first 16 bytes; when the owner has the replica id `replid` (16 bits) for that GUID it
succeeds and writes `(globcnt << 16) | replid`, where `globcnt` is the little-endian value of
the next 6 bytes; it returns an error, and writes nothing, exactly when the lookup of the GUID
fails; and then `SyncImportMessageChange` (for its first property) and
`SyncImportHierarchyChange` (for its first and for its second hierarchy value) reply
`MAPI_E_NOT_FOUND`. -/
theorem C11_fmid_from_source_key (store : sync_store) (source_key : Binary_r)
    (hlen : 22 ≤ source_key.lpb.length) :
    ∃ guid, GUID.of_bytes source_key.lpb = some guid ∧
      (∀ replid, store.emsmdbp_guid_to_replid guid = some replid → replid < 2 ^ 16 →
        oxcfxics_fmid_from_source_key store.emsmdbp_guid_to_replid source_key =
          some (MAPISTORE_SUCCESS,
            some ((le_value ((source_key.lpb.drop 16).take 6) <<< 16) ||| replid))) ∧
      (oxcfxics_fmid_from_source_key store.emsmdbp_guid_to_replid source_key =
          some (MAPISTORE_ERROR, none) ↔ store.emsmdbp_guid_to_replid guid = none) ∧
      (∀ code fmid, oxcfxics_fmid_from_source_key store.emsmdbp_guid_to_replid source_key =
          some (code, fmid) →
        (code ≠ MAPISTORE_SUCCESS ↔ store.emsmdbp_guid_to_replid guid = none) ∧
        (fmid = none ↔ store.emsmdbp_guid_to_replid guid = none)) ∧
      (store.emsmdbp_guid_to_replid guid = none →
        (∀ synccontext ImportFlag tag rest, store.emsmdbp_is_mapistore = true →
          EcDoRpc_RopSyncImportMessageChange store
            (some (some (EMSMDBP_OBJECT_SYNCCONTEXT synccontext)))
            { ImportFlag := ImportFlag
              PropertyValues := { ulPropTag := tag, value := .Binary_r source_key } :: rest } =
          some (MAPI_E_SUCCESS, { error_code := MAPI_E_NOT_FOUND, u := none },
            { record_handle := false, set_properties := none })) ∧
        (∀ synccontext tag rest values,
          EcDoRpc_RopSyncImportHierarchyChange store
            (some (some (EMSMDBP_OBJECT_SYNCCONTEXT synccontext)))
            { HierarchyValues := { ulPropTag := tag, value := .Binary_r source_key } :: rest
              PropertyValues := values } =
          some (MAPI_E_SUCCESS, { error_code := MAPI_E_NOT_FOUND, u := none },
            { record_handle := false, set_properties := none })) ∧
        (∀ synccontext parent_tag parent_key parentFolderID tag rest values,
          oxcfxics_fmid_from_source_key store.emsmdbp_guid_to_replid parent_key =
            some (MAPISTORE_SUCCESS, some parentFolderID) →
          EcDoRpc_RopSyncImportHierarchyChange store
            (some (some (EMSMDBP_OBJECT_SYNCCONTEXT synccontext)))
            { HierarchyValues :=
                { ulPropTag := parent_tag, value := .Binary_r parent_key } ::
                  { ulPropTag := tag, value := .Binary_r source_key } :: rest
              PropertyValues := values } =
          some (MAPI_E_SUCCESS, { error_code := MAPI_E_NOT_FOUND, u := none },
            { record_handle := false, set_properties := none }))) := by
  obtain ⟨guid, hguid, hval⟩ :=
    fmid_from_source_key_value store.emsmdbp_guid_to_replid source_key hlen
  refine ⟨guid, hguid, ?_, ?_, ?_, ?_⟩
  · intro replid hr h16
    rw [hval, hr]
    simp only [Nat.mod_eq_of_lt h16]
  · rw [hval]
    cases hr : store.emsmdbp_guid_to_replid guid with
    | none => simp
    | some replid => simp
  · intro code fmid
    rw [hval]
    cases hr : store.emsmdbp_guid_to_replid guid with
    | none =>
      intro h
      simp only [Option.some.injEq, Prod.mk.injEq] at h
      obtain ⟨h1, h2⟩ := h
      subst h1 h2
      simp
    | some replid =>
      intro h
      simp only [Option.some.injEq, Prod.mk.injEq] at h
      obtain ⟨h1, h2⟩ := h
      subst h1 h2
      simp
  · intro hr
    rw [hr] at hval
    refine ⟨?_, ?_, ?_⟩
    · intro synccontext ImportFlag tag rest hm
      simp only [EcDoRpc_RopSyncImportMessageChange, hm, hval, Bool.not_true, Bool.false_eq_true,
        if_false]
    · intro synccontext tag rest values
      simp only [EcDoRpc_RopSyncImportHierarchyChange, hval]
    · intro synccontext parent_tag parent_key parentFolderID tag rest values hp
      simp only [EcDoRpc_RopSyncImportHierarchyChange, hp, hval]

/-- C11, at a concrete input: the sample source key decodes to `0x0102030405060001` with a
store that knows the GUID as replica 1. -/
theorem C11_witness :
    22 ≤ sample_source_key.lpb.length ∧
    oxcfxics_fmid_from_source_key sample_store.emsmdbp_guid_to_replid sample_source_key =
      some (MAPISTORE_SUCCESS, some 0x0102030405060001) := by
  refine ⟨by decide, ?_⟩
  obtain ⟨guid, _, hval, _⟩ := C11_fmid_from_source_key sample_store sample_source_key (by decide)
  exact hval 1 rfl (by decide)

/-! ## The encodings of fixed size -/

/-- The bytes of `le_bytes` are the little-endian digits of the value: read back least
significant first they give the value modulo `2 ^ (8 * n)`. -/
theorem le_value_le_bytes : ∀ n v : Nat, le_value (le_bytes n v) = v % 2 ^ (8 * n) := by
  intro n
  induction n with
  | zero => intro v; simp [le_bytes, le_value, Nat.mod_one]
  | succ n ih =>
    intro v
    simp only [le_bytes, le_value, ih, Nat.mod_mod]
    have : 2 ^ (8 * (n + 1)) = 256 * 2 ^ (8 * n) := by
      rw [Nat.mul_succ, Nat.pow_add]; ring
    rw [this, Nat.mod_mul]

theorem le_bytes_lt : ∀ (n v b : Nat), b ∈ le_bytes n v → b < 256 := by
  intro n
  induction n with
  | zero => intro v b hb; simp [le_bytes] at hb
  | succ n ih =>
    intro v b hb
    simp only [le_bytes, List.mem_cons] at hb
    rcases hb with hb | hb
    · rw [hb]; exact Nat.mod_lt _ (by decide)
    · exact ih _ _ hb

/-- The two 32-bit halves of a `FILETIME`, low half first, are the 8 little-endian bytes of
the 64-bit time. -/
theorem le_bytes_FILETIME (low high : Nat) :
    le_bytes 4 low ++ le_bytes 4 high = le_bytes 8 (low % 2 ^ 32 + 2 ^ 32 * high) := by
  simp only [le_bytes, List.cons_append, List.nil_append, List.cons.injEq, and_true]
  refine ⟨?_, ?_, ?_, ?_, ?_, ?_, ?_, ?_⟩ <;> omega

/-- C13. `oxcfxics_ndr_push_simple_data` appends to the stream, by type code: for `PT_I2` the
2 little-endian bytes of the value; for `PT_LONG`, `PT_ERROR` and `PT_OBJECT` its 4
little-endian bytes; for `PT_I8` its 8 little-endian bytes and for `PT_SYSTIME` the 8
little-endian bytes of the 64-bit time; for `PT_BOOLEAN` the two bytes 1, 0 when the input byte
is not zero and 0, 0 otherwise; for `PT_CLSID` the 16 bytes of the GUID; for `PT_NULL`
nothing.  (`le_bytes n v` has `n` bytes, each below 256, whose little-endian value is `v`
modulo `2 ^ (8 * n)`.) -/
theorem C13_fixed_size_encodings (ndr : ndr_push) :
    (∀ n v, (le_bytes n v).length = n ∧ le_value (le_bytes n v) = v % 2 ^ (8 * n) ∧
      ∀ b ∈ le_bytes n v, b < 256) ∧
    (∀ v, oxcfxics_ndr_push_simple_data ndr PT_I2 (.uint16 v) =
      some { ndr with data := ndr.data ++ le_bytes 2 v }) ∧
    (∀ v, oxcfxics_ndr_push_simple_data ndr PT_LONG (.uint32 v) =
      some { ndr with data := ndr.data ++ le_bytes 4 v }) ∧
    (∀ v, oxcfxics_ndr_push_simple_data ndr PT_ERROR (.uint32 v) =
      some { ndr with data := ndr.data ++ le_bytes 4 v }) ∧
    (∀ v, oxcfxics_ndr_push_simple_data ndr PT_OBJECT (.uint32 v) =
      some { ndr with data := ndr.data ++ le_bytes 4 v }) ∧
    (∀ v, oxcfxics_ndr_push_simple_data ndr PT_I8 (.uint64 v) =
      some { ndr with data := ndr.data ++ le_bytes 8 v }) ∧
    (∀ t : FILETIME, oxcfxics_ndr_push_simple_data ndr PT_SYSTIME (.FILETIME t) =
      some { ndr with
             data := ndr.data ++
               le_bytes 8 (t.dwLowDateTime % 2 ^ 32 + 2 ^ 32 * t.dwHighDateTime) }) ∧
    (∀ v, oxcfxics_ndr_push_simple_data ndr PT_BOOLEAN (.uint8 v) =
      some { ndr with data := ndr.data ++ (if v % 256 ≠ 0 then [1, 0] else [0, 0]) }) ∧
    (∀ guid : GUID, guid.wire.length = 16 ∧
      oxcfxics_ndr_push_simple_data ndr PT_CLSID (.GUID guid) =
        some { ndr with data := ndr.data ++ guid.wire }) ∧
    (∀ value, oxcfxics_ndr_push_simple_data ndr PT_NULL value = some ndr) := by
  refine ⟨fun n v => ⟨le_bytes_length n v, le_value_le_bytes n v, le_bytes_lt n v⟩,
    ?_, ?_, ?_, ?_, ?_, ?_, ?_, ?_, ?_⟩
  · intro v; rfl
  · intro v; rfl
  · intro v; rfl
  · intro v; rfl
  · intro v; rfl
  · intro t
    rw [← le_bytes_FILETIME]
    simp [oxcfxics_ndr_push_simple_data, PT_SYSTIME, PT_I2, PT_LONG, PT_ERROR, PT_OBJECT,
      PT_DOUBLE, PT_I8, PT_BOOLEAN, PT_STRING8, PT_UNICODE, PT_SVREID, PT_BINARY, PT_CLSID,
      ndr_push_FILETIME, ndr_push_uint32, ndr_push_bytes]
  · intro v
    by_cases hv : v % 256 = 0
    · simp [oxcfxics_ndr_push_simple_data, PT_BOOLEAN, PT_I2, PT_LONG, PT_ERROR, PT_OBJECT,
        PT_DOUBLE, PT_I8, hv, ndr_push_uint16, ndr_push_bytes, le_bytes]
    · simp [oxcfxics_ndr_push_simple_data, PT_BOOLEAN, PT_I2, PT_LONG, PT_ERROR, PT_OBJECT,
        PT_DOUBLE, PT_I8, hv, ndr_push_uint16, ndr_push_bytes, le_bytes]
  · intro guid
    exact ⟨guid.wire_length, rfl⟩
  · intro value
    cases value <;> rfl

/-- C13, at a concrete input: the 16-bit value `0x1234` is pushed as the bytes `34 12`, and
the boolean 2 as the bytes `01 00`. -/
theorem C13_witness :
    oxcfxics_ndr_push_simple_data ndr_push_init_ctx PT_I2 (.uint16 0x1234) =
      some { ndr_push_init_ctx with data := ndr_push_init_ctx.data ++ le_bytes 2 0x1234 } ∧
    le_bytes 2 0x1234 = [0x34, 0x12] ∧
    oxcfxics_ndr_push_simple_data ndr_push_init_ctx PT_BOOLEAN (.uint8 2) =
      some { ndr_push_init_ctx with
             data := ndr_push_init_ctx.data ++ (if 2 % 256 ≠ 0 then [1, 0] else [0, 0]) } :=
  ⟨(C13_fixed_size_encodings ndr_push_init_ctx).2.1 0x1234, by decide,
    (C13_fixed_size_encodings ndr_push_init_ctx).2.2.2.2.2.2.2.1 2⟩

/-! ## Strings on a shared push context -/

theorem utf16le_flatten_length : ∀ cs : List Char,
    ((cs.map utf16le).flatten).length =
      2 * (cs.map (fun c => if c.toNat < 0x10000 then 1 else 2)).sum := by
  intro cs
  induction cs with
  | nil => rfl
  | cons c cs ih =>
    simp only [List.map_cons, List.flatten_cons, List.length_append, List.sum_cons, ih]
    unfold utf16le
    split
    · rw [le_bytes_length]; omega
    · rw [List.length_append, le_bytes_length, le_bytes_length]; omega

/-- On a context whose flags do not carry `LIBNDR_FLAG_STR_ASCII`, a `PT_UNICODE` value of `n`
UTF-16 code units is pushed as the count `2n+2` followed by `2n+2` bytes: the UTF-16LE code
units and a terminator of two bytes. -/
theorem push_unicode_utf16 (ndr : ndr_push) (s : String)
    (hflag : ndr.flags.LIBNDR_FLAG_STR_ASCII = false) :
    ∃ ndr1, oxcfxics_ndr_push_simple_data ndr PT_UNICODE (.string s) = some ndr1 ∧
      ndr1.data = ndr.data ++ le_bytes 4 ((strlen_m_ext s * 2 + 2) % 2 ^ 32) ++
        ((s.toList.map utf16le).flatten ++ [0, 0]) ∧
      ((s.toList.map utf16le).flatten ++ [0, 0]).length = strlen_m_ext s * 2 + 2 ∧
      ndr1.flags.LIBNDR_FLAG_STR_ASCII = false := by
  refine ⟨ndr_push.mk (ndr.data ++ le_bytes 4 ((strlen_m_ext s * 2 + 2) % 2 ^ 32) ++
      ((s.toList.map utf16le).flatten ++ [0, 0]))
    (ndr_set_flags ndr LIBNDR_FLAG_STR_NULLTERM).flags, ?_, rfl, ?_, ?_⟩
  · simp [oxcfxics_ndr_push_simple_data, PT_UNICODE, PT_I2, PT_LONG, PT_ERROR, PT_OBJECT,
      PT_DOUBLE, PT_I8, PT_BOOLEAN, PT_STRING8, ndr_push_string, ndr_set_flags,
      ndr_push_uint32, ndr_push_bytes, hflag, LIBNDR_FLAG_STR_NULLTERM]
  · rw [List.length_append, utf16le_flatten_length]
    simp only [strlen_m_ext, List.length_cons, List.length_nil]
    omega
  · simp [ndr_set_flags, LIBNDR_FLAG_STR_NULLTERM, hflag]

/-- A `PT_STRING8` value leaves `LIBNDR_FLAG_STR_ASCII` in the flags of the context. -/
theorem push_string8_sets_ascii (ndr ndr1 : ndr_push) (s : String)
    (h : oxcfxics_ndr_push_simple_data ndr PT_STRING8 (.string s) = some ndr1) :
    ndr1.flags.LIBNDR_FLAG_STR_ASCII = true := by
  simp only [oxcfxics_ndr_push_simple_data, PT_STRING8, PT_I2, PT_LONG, PT_ERROR, PT_OBJECT,
    PT_DOUBLE, PT_I8, PT_BOOLEAN, ndr_push_string, ndr_set_flags, ndr_push_uint32,
    ndr_push_bytes, LIBNDR_FLAG_STR_NULLTERM_ASCII, Bool.or_true, if_true] at h
  simp at h
  obtain ⟨_, h⟩ := h
  subst h
  rfl

/-- On a context whose flags carry `LIBNDR_FLAG_STR_ASCII`, a `PT_UNICODE` value made of `n`
ASCII characters is pushed as the count `2n+2` followed by `n+1` bytes: one byte per character
and a terminator of one byte. -/
theorem push_unicode_ascii_flag (ndr : ndr_push) (s : String)
    (hflag : ndr.flags.LIBNDR_FLAG_STR_ASCII = true)
    (hs : s.toList.all (fun c => c.toNat < 0x80) = true) :
    ∃ ndr1, oxcfxics_ndr_push_simple_data ndr PT_UNICODE (.string s) = some ndr1 ∧
      ndr1.data = ndr.data ++ le_bytes 4 ((strlen_m_ext s * 2 + 2) % 2 ^ 32) ++
        (s.toList.map Char.toNat ++ [0]) ∧
      ndr1.flags.LIBNDR_FLAG_STR_ASCII = true := by
  refine ⟨ndr_push.mk (ndr.data ++ le_bytes 4 ((strlen_m_ext s * 2 + 2) % 2 ^ 32) ++
      (s.toList.map Char.toNat ++ [0]))
    (ndr_set_flags ndr LIBNDR_FLAG_STR_NULLTERM).flags, ?_, rfl, ?_⟩
  · simp only [oxcfxics_ndr_push_simple_data, PT_UNICODE, PT_I2, PT_LONG, PT_ERROR, PT_OBJECT,
      PT_DOUBLE, PT_I8, PT_BOOLEAN, PT_STRING8, ndr_push_string, ndr_set_flags,
      ndr_push_uint32, ndr_push_bytes, hflag, LIBNDR_FLAG_STR_NULLTERM, Bool.true_or, if_true,
      hs]
    simp
  · simp [ndr_set_flags, LIBNDR_FLAG_STR_NULLTERM, hflag]

/-- C14. The claim fails on the stream that receives the `PT_STRING8` value "a" and then the
`PT_UNICODE` value "ab": the `PT_UNICODE` value is pushed as the count 6 followed by the three
bytes `61 62 00`, where the same value at the start of a stream is pushed as the count 6
followed by the six bytes `61 00 62 00 00 00`. -/
theorem C14_unicode_after_string8 :
    (oxcfxics_ndr_push_properties sample_get_nameid ndr_push_init_ctx []
        [sample_string8_tag, sample_unicode_tag] [.string "a", .string "ab"]
        [MAPI_E_SUCCESS, MAPI_E_SUCCESS]).map (fun r => (r.1.data, r.2)) =
      some ([0x1e, 0, 0x37, 0, 2, 0, 0, 0, 0x61, 0,
             0x1f, 0, 0, 0x10, 6, 0, 0, 0, 0x61, 0x62, 0], [4, 10, 14, 21]) ∧
    (oxcfxics_ndr_push_properties sample_get_nameid ndr_push_init_ctx []
        [sample_unicode_tag] [.string "ab"] [MAPI_E_SUCCESS]).map (fun r => (r.1.data, r.2)) =
      some ([0x1f, 0, 0, 0x10, 6, 0, 0, 0, 0x61, 0, 0x62, 0, 0, 0], [4, 14]) := by
  constructor <;> decide

/-! ## Named properties -/

/-- On a context whose flags do not carry `LIBNDR_FLAG_STR_ASCII`, the tag of a named property
whose id resolves is pushed as the 32-bit tag, the 16 bytes of the GUID and then, for
`MNID_ID`, the byte 0 and the 32-bit number, and for `MNID_STRING`, the byte 1 and the name in
UTF-16LE with a terminator of two bytes. -/
theorem push_property_tag_named (get_nameid : Nat → Option MAPINAMEID) (ndr : ndr_push)
    (property : Nat) (nameid : MAPINAMEID) (hnamed : 0x80000000 < property)
    (hid : get_nameid ((property % 2 ^ 32) / 2 ^ 16) = some nameid)
    (hflag : ndr.flags.LIBNDR_FLAG_STR_ASCII = false) :
    (nameid.ulKind = MNID_ID →
      ∃ ndr1, push_property_tag get_nameid ndr property = some (some ndr1) ∧
        ndr1.data = ndr.data ++ le_bytes 4 property ++ nameid.lpguid.wire ++ [0] ++
          le_bytes 4 nameid.lid) ∧
    (nameid.ulKind = MNID_STRING →
      ∃ ndr1, push_property_tag get_nameid ndr property = some (some ndr1) ∧
        ndr1.data = ndr.data ++ le_bytes 4 property ++ nameid.lpguid.wire ++ [1] ++
          ((nameid.Name.toList.map utf16le).flatten ++ [0, 0])) := by
  have hgt : property > 0x80000000 := hnamed
  constructor
  · intro hk
    refine ⟨ndr_push.mk (ndr.data ++ le_bytes 4 property ++ nameid.lpguid.wire ++ [0] ++
      le_bytes 4 nameid.lid) ndr.flags, ?_, rfl⟩
    unfold push_property_tag
    rw [if_pos hgt]
    simp only [hid]
    rw [if_pos hk]
    simp [ndr_push_uint32, ndr_push_uint8, ndr_push_GUID, ndr_push_bytes, le_bytes]
  · intro hk
    have hne : nameid.ulKind ≠ MNID_ID := by rw [hk]; decide
    refine ⟨ndr_push.mk (ndr.data ++ le_bytes 4 property ++ nameid.lpguid.wire ++ [1] ++
      ((nameid.Name.toList.map utf16le).flatten ++ [0, 0]))
      (ndr_set_flags ndr LIBNDR_FLAG_STR_NULLTERM).flags, ?_, rfl⟩
    unfold push_property_tag
    rw [if_pos hgt]
    simp only [hid]
    rw [if_neg hne, if_pos hk]
    simp [ndr_push_string, ndr_set_flags, ndr_push_uint32, ndr_push_uint8, ndr_push_GUID,
      ndr_push_bytes, le_bytes, hflag, LIBNDR_FLAG_STR_NULLTERM]

/-- The value of a property follows its tag: `oxcfxics_ndr_push_properties` on one property
with status `MAPI_E_SUCCESS` pushes the tag, records a cutmark, pushes the value and records a
second cutmark. -/
theorem push_properties_single (get_nameid : Nat → Option MAPINAMEID) (ndr ndr1 : ndr_push)
    (cutmarks : List Nat) (property : Nat) (value : prop_data)
    (htag : push_property_tag get_nameid ndr property = some (some ndr1)) :
    oxcfxics_ndr_push_properties get_nameid ndr cutmarks [property] [value] [MAPI_E_SUCCESS] =
      (push_property_value ndr1 property value).map
        (fun ndr2 => (ndr2, cutmarks ++ [ndr1.offset] ++ [ndr2.offset])) := by
  simp only [oxcfxics_ndr_push_properties, htag, if_true]
  cases push_property_value ndr1 property value with
  | none => rfl
  | some ndr2 => simp [oxcfxics_ndr_push_properties]

/-- C15. The claim fails on the stream that receives the `PT_STRING8` value "a" and then the
named property `0x80010003` whose name is the string "ab": after the tag, the 16 bytes of the
GUID and the kind byte 1 the name is pushed as the three bytes `61 62 00`, where the same
property at the start of a stream has its name pushed as the six bytes `61 00 62 00 00 00`;
the value `07 00 00 00` follows in both. -/
theorem C15_named_property_after_string8 :
    (oxcfxics_ndr_push_properties sample_get_nameid ndr_push_init_ctx []
        [sample_string8_tag, sample_named_tag] [.string "a", .uint32 7]
        [MAPI_E_SUCCESS, MAPI_E_SUCCESS]).map (fun r => (r.1.data, r.2)) =
      some ([0x1e, 0, 0x37, 0, 2, 0, 0, 0, 0x61, 0,
             3, 0, 1, 0x80, 0, 0, 0, 0, 0, 0, 0, 0, 0, 0, 0, 0, 0, 0, 0, 0,
             1, 0x61, 0x62, 0, 7, 0, 0, 0], [4, 10, 34, 38]) ∧
    (oxcfxics_ndr_push_properties sample_get_nameid ndr_push_init_ctx []
        [sample_named_tag] [.uint32 7] [MAPI_E_SUCCESS]).map (fun r => (r.1.data, r.2)) =
      some ([3, 0, 1, 0x80, 0, 0, 0, 0, 0, 0, 0, 0, 0, 0, 0, 0, 0, 0, 0, 0,
             1, 0x61, 0, 0x62, 0, 0, 0, 7, 0, 0, 0], [27, 31]) := by
  constructor <;> decide

/-! ## Push followed by pull -/

/-- Pulling a scalar of `n` bytes where `le_bytes n v` was pushed gives `v` modulo
`2 ^ (8 * n)` and moves the offset past the `n` bytes. -/
theorem ndr_pull_scalar_le_bytes (n v : Nat) (before after : List Nat) :
    ndr_pull_scalar n { data := before ++ le_bytes n v ++ after, offset := before.length } =
      (v % 2 ^ (8 * n),
        { data := before ++ le_bytes n v ++ after, offset := before.length + n }) := by
  unfold ndr_pull_scalar
  have hlen : before.length + n ≤ (before ++ le_bytes n v ++ after).length := by
    rw [List.length_append, List.length_append, le_bytes_length]; omega
  simp only
  rw [if_pos hlen, List.append_assoc, List.drop_left,
    List.take_left' (le_bytes_length n v), le_value_le_bytes]

/-- C12 (counterexample). A `PT_DOUBLE` value is pushed as 8 bytes, and
`pull_emsmdb_property` returns `NULL` for the type and leaves the offset where it was.  The
`PT_UNICODE` value "ab" is pushed as the 10 bytes `06 00 00 00 61 00 62 00 00 00`, and
`pull_emsmdb_property` reads from them the string of the one character `U+0006` and moves the
offset by 2. -/
theorem C12_counterexample :
    (oxcfxics_ndr_push_simple_data ndr_push_init_ctx PT_DOUBLE
        (.double 0x3ff0000000000000)).map
      (fun ndr => (ndr.data, pull_emsmdb_property 0 PT_DOUBLE { data := some ndr.data })) =
      some ([0, 0, 0, 0, 0, 0, 0xf0, 0x3f], some (none, 0)) ∧
    (oxcfxics_ndr_push_simple_data ndr_push_init_ctx PT_UNICODE (.string "ab")).map
      (fun ndr => (ndr.data, pull_emsmdb_property 0 sample_unicode_tag
        { data := some ndr.data })) =
      some ([6, 0, 0, 0, 0x61, 0, 0x62, 0, 0, 0],
        some (some (.string (String.mk [Char.ofNat 6])), 2)) := by
  constructor <;> decide

/-- C12 (amended). For the types `PT_I2`, `PT_LONG`, `PT_ERROR`, `PT_I8` and `PT_SYSTIME`, and
every value of the C type, `pull_emsmdb_property` applied at the offset where
`oxcfxics_ndr_push_simple_data` pushed the value (whatever was pushed before and whatever
follows) yields the value and moves the offset by exactly the number of bytes pushed (2, 4, 4,
8, 8).  For `PT_BOOLEAN` it yields the 16-bit value 1 for an input byte that is not zero and 0
otherwise, and moves the offset by 2.  For the other types of the encoder the round trip does
not hold.  For `PT_DOUBLE`, `PT_SVREID` and `PT_CLSID`, `pull_emsmdb_property` returns `NULL`
and leaves the offset, whatever the bytes.  For `PT_NULL` the encoder pushes nothing, whatever
the value, and `pull_emsmdb_property` reads the four bytes that follow as a 32-bit value and
moves the offset by 4.  For the four remaining types it reads another encoding, as these
values show: the `PT_OBJECT` value 1, pushed as `01 00 00 00`, comes back as the binary of the
one byte `00` with the offset moved by 3; the `PT_STRING8` value "ab", pushed as
`03 00 00 00 61 62 00`, as the string of the one character `U+0003` with the offset moved by
2; the `PT_UNICODE` value "ab", pushed as `06 00 00 00 61 00 62 00 00 00`, as the string of
the one character `U+0006` with the offset moved by 2; the `PT_BINARY` value `aa bb`, pushed
as `02 00 00 00 aa bb`, as the binary of the two bytes `00 00` with the offset moved by 4. -/
theorem C12_round_trip_fixed_width (ndr : ndr_push) (after : List Nat) (tag : Nat) :
    (∀ v, v < 2 ^ 16 → tag % 2 ^ 16 = PT_I2 →
      ∃ ndr1, oxcfxics_ndr_push_simple_data ndr PT_I2 (.uint16 v) = some ndr1 ∧
        ndr1.offset = ndr.offset + 2 ∧
        pull_emsmdb_property ndr.offset tag { data := some (ndr1.data ++ after) } =
          some (some (.uint16 v), ndr1.offset)) ∧
    (∀ v, v < 2 ^ 32 → tag % 2 ^ 16 = PT_LONG →
      ∃ ndr1, oxcfxics_ndr_push_simple_data ndr PT_LONG (.uint32 v) = some ndr1 ∧
        ndr1.offset = ndr.offset + 4 ∧
        pull_emsmdb_property ndr.offset tag { data := some (ndr1.data ++ after) } =
          some (some (.uint32 v), ndr1.offset)) ∧
    (∀ v, v < 2 ^ 32 → tag % 2 ^ 16 = PT_ERROR →
      ∃ ndr1, oxcfxics_ndr_push_simple_data ndr PT_ERROR (.uint32 v) = some ndr1 ∧
        ndr1.offset = ndr.offset + 4 ∧
        pull_emsmdb_property ndr.offset tag { data := some (ndr1.data ++ after) } =
          some (some (.uint32 v), ndr1.offset)) ∧
    (∀ v, v < 2 ^ 64 → tag % 2 ^ 16 = PT_I8 →
      ∃ ndr1, oxcfxics_ndr_push_simple_data ndr PT_I8 (.uint64 v) = some ndr1 ∧
        ndr1.offset = ndr.offset + 8 ∧
        pull_emsmdb_property ndr.offset tag { data := some (ndr1.data ++ after) } =
          some (some (.uint64 v), ndr1.offset)) ∧
    (∀ t : FILETIME, t.dwLowDateTime < 2 ^ 32 → t.dwHighDateTime < 2 ^ 32 →
      tag % 2 ^ 16 = PT_SYSTIME →
      ∃ ndr1, oxcfxics_ndr_push_simple_data ndr PT_SYSTIME (.FILETIME t) = some ndr1 ∧
        ndr1.offset = ndr.offset + 8 ∧
        pull_emsmdb_property ndr.offset tag { data := some (ndr1.data ++ after) } =
          some (some (.FILETIME t), ndr1.offset)) ∧
    (∀ v, tag % 2 ^ 16 = PT_BOOLEAN →
      ∃ ndr1, oxcfxics_ndr_push_simple_data ndr PT_BOOLEAN (.uint8 v) = some ndr1 ∧
        ndr1.offset = ndr.offset + 2 ∧
        pull_emsmdb_property ndr.offset tag { data := some (ndr1.data ++ after) } =
          some (some (.uint16 (if v % 256 ≠ 0 then 1 else 0)), ndr1.offset)) ∧
    (tag % 2 ^ 16 = PT_DOUBLE ∨ tag % 2 ^ 16 = PT_SVREID ∨ tag % 2 ^ 16 = PT_CLSID →
      ∀ offset data, pull_emsmdb_property offset tag data = some (none, offset)) ∧
    (∀ value, oxcfxics_ndr_push_simple_data ndr PT_NULL value = some ndr) ∧
    (∀ v, v < 2 ^ 32 → tag % 2 ^ 16 = PT_NULL →
      pull_emsmdb_property ndr.offset tag { data := some (ndr.data ++ le_bytes 4 v ++ after) } =
        some (some (.uint32 v), ndr.offset + 4)) ∧
    (oxcfxics_ndr_push_simple_data ndr_push_init_ctx PT_OBJECT (.uint32 1)).map
      (fun ndr1 => (ndr1.data, pull_emsmdb_property 0 0x3701000d { data := some ndr1.data })) =
      some ([1, 0, 0, 0], some (some (.Binary_r { cb := 1, lpb := [0] }), 3)) ∧
    (oxcfxics_ndr_push_simple_data ndr_push_init_ctx PT_STRING8 (.string "ab")).map
      (fun ndr1 => (ndr1.data, pull_emsmdb_property 0 0x0037001e { data := some ndr1.data })) =
      some ([3, 0, 0, 0, 0x61, 0x62, 0],
        some (some (.string (String.mk [Char.ofNat 3])), 2)) ∧
    (oxcfxics_ndr_push_simple_data ndr_push_init_ctx PT_UNICODE (.string "ab")).map
      (fun ndr1 => (ndr1.data, pull_emsmdb_property 0 0x0037001f { data := some ndr1.data })) =
      some ([6, 0, 0, 0, 0x61, 0, 0x62, 0, 0, 0],
        some (some (.string (String.mk [Char.ofNat 6])), 2)) ∧
    (oxcfxics_ndr_push_simple_data ndr_push_init_ctx PT_BINARY
        (.Binary_r { cb := 2, lpb := [0xaa, 0xbb] })).map
      (fun ndr1 => (ndr1.data, pull_emsmdb_property 0 PR_SOURCE_KEY
        { data := some ndr1.data })) =
      some ([2, 0, 0, 0, 0xaa, 0xbb],
        some (some (.Binary_r { cb := 2, lpb := [0, 0] }), 4)) := by
  have hpull := fun n v => ndr_pull_scalar_le_bytes n v ndr.data after
  refine ⟨?_, ?_, ?_, ?_, ?_, ?_, ?_, ?_, ?_, ?_, ?_, ?_, ?_⟩
  · intro v hv ht
    refine ⟨ndr_push_uint16 ndr v, rfl, ?_, ?_⟩
    · simp [ndr_push.offset, ndr_push_uint16, ndr_push_bytes, le_bytes_length]
    · simp only [pull_emsmdb_property, ht, PT_I2, PT_BOOLEAN, DATA_BLOB.bytes, ndr_push.offset,
        ndr_pull_uint16, ndr_push_uint16, ndr_push_bytes, hpull]
      simp [le_bytes_length]
      omega
  · intro v hv ht
    refine ⟨ndr_push_uint32 ndr v, rfl, ?_, ?_⟩
    · simp [ndr_push.offset, ndr_push_uint32, ndr_push_bytes, le_bytes_length]
    · simp only [pull_emsmdb_property, ht, PT_I2, PT_BOOLEAN, PT_NULL, PT_ERROR, PT_LONG,
        DATA_BLOB.bytes, ndr_push.offset, ndr_pull_uint32, ndr_push_uint32, ndr_push_bytes,
        hpull]
      simp [le_bytes_length]
      omega
  · intro v hv ht
    refine ⟨ndr_push_uint32 ndr v, rfl, ?_, ?_⟩
    · simp [ndr_push.offset, ndr_push_uint32, ndr_push_bytes, le_bytes_length]
    · simp only [pull_emsmdb_property, ht, PT_I2, PT_BOOLEAN, PT_NULL, PT_ERROR, PT_LONG,
        DATA_BLOB.bytes, ndr_push.offset, ndr_pull_uint32, ndr_push_uint32, ndr_push_bytes,
        hpull]
      simp [le_bytes_length]
      omega
  · intro v hv ht
    refine ⟨ndr_push_dlong ndr v, rfl, ?_, ?_⟩
    · simp [ndr_push.offset, ndr_push_dlong, ndr_push_bytes, le_bytes_length]
    · simp only [pull_emsmdb_property, ht, PT_I2, PT_BOOLEAN, PT_NULL, PT_ERROR, PT_LONG,
        PT_I8, DATA_BLOB.bytes, ndr_push.offset, ndr_pull_hyper, ndr_push_dlong,
        ndr_push_bytes, hpull]
      simp [le_bytes_length]
      omega
  · intro t hlow hhigh ht
    have hpush : oxcfxics_ndr_push_simple_data ndr PT_SYSTIME (.FILETIME t) =
        some (ndr_push_bytes ndr
          (le_bytes 8 (t.dwLowDateTime % 2 ^ 32 + 2 ^ 32 * t.dwHighDateTime))) := by
      rw [← le_bytes_FILETIME]
      simp [oxcfxics_ndr_push_simple_data, PT_SYSTIME, PT_I2, PT_LONG, PT_ERROR, PT_OBJECT,
        PT_DOUBLE, PT_I8, PT_BOOLEAN, PT_STRING8, PT_UNICODE, PT_SVREID, PT_BINARY, PT_CLSID,
        ndr_push_FILETIME, ndr_push_uint32, ndr_push_bytes]
    refine ⟨_, hpush, ?_, ?_⟩
    · simp [ndr_push.offset, ndr_push_bytes, le_bytes_length]
    · simp only [pull_emsmdb_property, ht, PT_I2, PT_BOOLEAN, PT_NULL, PT_ERROR, PT_LONG,
        PT_I8, PT_SYSTIME, DATA_BLOB.bytes, ndr_push.offset, ndr_push_bytes, ndr_pull_hyper,
        hpull]
      cases t with
      | mk low high =>
        simp [le_bytes_length]
        simp only at hlow hhigh
        constructor <;> omega
  · intro v ht
    refine ⟨ndr_push_uint16 ndr (if v % 256 ≠ 0 then 1 else 0), ?_, ?_, ?_⟩
    · by_cases hv : v % 256 = 0
      · simp [oxcfxics_ndr_push_simple_data, PT_BOOLEAN, PT_I2, PT_LONG, PT_ERROR, PT_OBJECT,
          PT_DOUBLE, PT_I8, hv]
      · simp [oxcfxics_ndr_push_simple_data, PT_BOOLEAN, PT_I2, PT_LONG, PT_ERROR, PT_OBJECT,
          PT_DOUBLE, PT_I8, hv]
    · simp [ndr_push.offset, ndr_push_uint16, ndr_push_bytes, le_bytes_length]
    · simp only [pull_emsmdb_property, ht, PT_BOOLEAN, DATA_BLOB.bytes, ndr_push.offset,
        ndr_pull_uint16, ndr_push_uint16, ndr_push_bytes, hpull]
      by_cases hv : v % 256 = 0 <;> simp [le_bytes_length, hv]
  · intro ht offset data
    rcases ht with ht | ht | ht <;>
      simp only [pull_emsmdb_property, ht, PT_BOOLEAN, PT_I2, PT_NULL, PT_ERROR, PT_LONG,
        PT_I8, PT_SYSTIME, PT_UNICODE, PT_STRING8, PT_OBJECT, PT_BINARY, PT_DOUBLE, PT_SVREID,
        PT_CLSID] <;>
      simp
  · intro value
    simp [oxcfxics_ndr_push_simple_data, PT_NULL, PT_I2, PT_LONG, PT_ERROR, PT_OBJECT,
      PT_DOUBLE, PT_I8, PT_BOOLEAN, PT_STRING8, PT_UNICODE, PT_SVREID, PT_BINARY, PT_CLSID,
      PT_SYSTIME]
  · intro v hv ht
    simp only [pull_emsmdb_property, ht, PT_I2, PT_BOOLEAN, PT_NULL, PT_ERROR, PT_LONG,
      DATA_BLOB.bytes, ndr_push.offset, ndr_pull_uint32, hpull]
    simp
    omega
  · decide
  · decide
  · decide
  · decide

/-- C12 (amended), at a concrete input: the 16-bit value `0x1234` pushed at the start of a
stream and pulled back with the tag `0x0e080002`. -/
theorem C12_witness :
    ∃ ndr1, oxcfxics_ndr_push_simple_data ndr_push_init_ctx PT_I2 (.uint16 0x1234) = some ndr1 ∧
      ndr1.offset = ndr_push_init_ctx.offset + 2 ∧
      pull_emsmdb_property ndr_push_init_ctx.offset 0x0e080002
          { data := some (ndr1.data ++ [0xff]) } =
        some (some (.uint16 0x1234), ndr1.offset) :=
  (C12_round_trip_fixed_width ndr_push_init_ctx [0xff] 0x0e080002).1 0x1234 (by decide)
    (by decide)

/-! ## The property lists of `SyncConfigure` -/

theorem exclusion_set_same (e : Nat → Bool) (i : Nat) (value : Bool) :
    exclusion_set e i value i = value := by
  simp [exclusion_set]

theorem exclusion_set_other (e : Nat → Bool) (i k : Nat) (value : Bool) (h : k ≠ i) :
    exclusion_set e i value k = e k := by
  simp [exclusion_set, h]

theorem exclusion_set_true_mono (e : Nat → Bool) (i k : Nat) (h : e k = true) :
    exclusion_set e i true k = true := by
  unfold exclusion_set
  split
  · rfl
  · exact h

/-- The array after `exclude_tags`: an id is marked when it was marked before or is the id of
one of the tags. -/
theorem exclude_tags_eq : ∀ (tags : List Nat) (e : Nat → Bool) (k : Nat),
    exclude_tags e tags k = (e k || decide (k ∈ tags.map prop_id)) := by
  intro tags
  induction tags with
  | nil => intro e k; simp [exclude_tags]
  | cons t ts ih =>
    intro e k
    rw [exclude_tags, ih]
    unfold exclusion_set
    by_cases hk : k = prop_id t
    · simp [hk]
    · simp [hk]

/-- What the loop over the available properties of a table does to the array and to the
list: the list grows at its end by tags of the table whose id was not marked, marks stay, the
ids of the list stay marked and distinct, and the first tag of the table with a given unmarked
id is added. -/
theorem add_available_properties_spec : ∀ (available : List Nat) (e : Nat → Bool)
    (properties : List Nat),
    (∃ extra, (add_available_properties e properties available).2 = properties ++ extra ∧
      ∀ t ∈ extra, t ∈ available ∧ e (prop_id t) = false) ∧
    (∀ k, e k = true → (add_available_properties e properties available).1 k = true) ∧
    ((∀ t ∈ properties, e (prop_id t) = true) → (properties.map prop_id).Nodup →
      (∀ t ∈ (add_available_properties e properties available).2,
        (add_available_properties e properties available).1 (prop_id t) = true) ∧
      ((add_available_properties e properties available).2.map prop_id).Nodup) ∧
    (∀ i t, e i = false → available.find? (fun tag => prop_id tag = i) = some t →
      t ∈ (add_available_properties e properties available).2) := by
  intro available
  induction available with
  | nil =>
    intro e properties
    refine ⟨⟨[], by simp [add_available_properties], by simp⟩, ?_, ?_, ?_⟩
    · intro k hk; exact hk
    · intro h1 h2; exact ⟨h1, h2⟩
    · intro i t _ hfind; simp at hfind
  | cons a rest ih =>
    intro e properties
    by_cases ha : e (prop_id a) = true
    · have hstep : add_available_properties e properties (a :: rest) =
          add_available_properties e properties rest := by
        simp [add_available_properties, ha]
      rw [hstep]
      obtain ⟨⟨extra, hextra, hmem⟩, hmono, hinv, hfirst⟩ := ih e properties
      refine ⟨⟨extra, hextra, ?_⟩, hmono, hinv, ?_⟩
      · intro t ht
        exact ⟨List.mem_cons_of_mem _ (hmem t ht).1, (hmem t ht).2⟩
      · intro i t hi hfind
        have hne : ¬ prop_id a = i := by
          intro h; rw [h] at ha; rw [ha] at hi; exact Bool.noConfusion hi
        rw [List.find?_cons_of_neg _ (by simpa using hne)] at hfind
        exact hfirst i t hi hfind
    · have hfalse : e (prop_id a) = false := by
        cases h : e (prop_id a)
        · rfl
        · exact absurd h ha
      have hstep : add_available_properties e properties (a :: rest) =
          add_available_properties (exclusion_set e (prop_id a) true) (properties ++ [a])
            rest := by
        simp [add_available_properties, hfalse]
      rw [hstep]
      obtain ⟨⟨extra, hextra, hmem⟩, hmono, hinv, hfirst⟩ :=
        ih (exclusion_set e (prop_id a) true) (properties ++ [a])
      refine ⟨⟨a :: extra, ?_, ?_⟩, ?_, ?_, ?_⟩
      · rw [hextra]; simp
      · intro t ht
        rcases List.mem_cons.mp ht with h | h
        · rw [h]; exact ⟨List.mem_cons_self _ _, hfalse⟩
        · obtain ⟨h1, h2⟩ := hmem t h
          refine ⟨List.mem_cons_of_mem _ h1, ?_⟩
          by_cases hid : prop_id t = prop_id a
          · rw [hid]; exact hfalse
          · rw [exclusion_set_other _ _ _ _ hid] at h2; exact h2
      · intro k hk
        exact hmono k (exclusion_set_true_mono e _ k hk)
      · intro h1 h2
        apply hinv
        · intro t ht
          rcases List.mem_append.mp ht with h | h
          · exact exclusion_set_true_mono e _ _ (h1 t h)
          · simp only [List.mem_singleton] at h
            rw [h]; exact exclusion_set_same _ _ _
        · rw [List.map_append, List.nodup_append]
          refine ⟨h2, by simp, ?_⟩
          intro x hx hx2
          simp only [List.map_cons, List.map_nil, List.mem_singleton] at hx2
          obtain ⟨t, ht, hxt⟩ := List.mem_map.mp hx
          have := h1 t ht
          rw [hxt, hx2, hfalse] at this
          exact Bool.noConfusion this
      · intro i t hi hfind
        by_cases hid : prop_id a = i
        · rw [List.find?_cons_of_pos _ (by simpa using hid)] at hfind
          cases hfind
          rw [hextra]
          simp
        · rw [List.find?_cons_of_neg _ (by simpa using hid)] at hfind
          apply hfirst i t _ hfind
          rw [exclusion_set_other _ _ _ _ (fun h => hid h.symm)]
          exact hi

theorem specified_properties_true : ∀ (tags : List Nat) (e : Nat → Bool)
    (properties : List Nat),
    specified_properties true e properties tags = add_available_properties e properties tags := by
  intro tags
  induction tags with
  | nil => intro e properties; rfl
  | cons t ts ih =>
    intro e properties
    simp only [specified_properties, add_available_properties, ih, if_true]

/-- The loop over the tags of the request without `include_props`: the list stays, marks
stay, and the id of every tag of the request is marked. -/
theorem specified_properties_false : ∀ (tags : List Nat) (e : Nat → Bool)
    (properties : List Nat),
    (specified_properties false e properties tags).2 = properties ∧
    (∀ k, e k = true → (specified_properties false e properties tags).1 k = true) ∧
    (∀ t ∈ tags, (specified_properties false e properties tags).1 (prop_id t) = true) := by
  intro tags
  induction tags with
  | nil =>
    intro e properties
    exact ⟨rfl, fun k hk => hk, by simp⟩
  | cons a rest ih =>
    intro e properties
    by_cases ha : e (prop_id a) = true
    · have hstep : specified_properties false e properties (a :: rest) =
          specified_properties false e properties rest := by
        simp [specified_properties, ha]
      rw [hstep]
      obtain ⟨h1, h2, h3⟩ := ih e properties
      refine ⟨h1, h2, ?_⟩
      intro t ht
      rcases List.mem_cons.mp ht with h | h
      · rw [h]; exact h2 _ ha
      · exact h3 t h
    · have hfalse : e (prop_id a) = false := by
        cases h : e (prop_id a)
        · rfl
        · exact absurd h ha
      have hstep : specified_properties false e properties (a :: rest) =
          specified_properties false (exclusion_set e (prop_id a) true) properties rest := by
        simp [specified_properties, hfalse]
      rw [hstep]
      obtain ⟨h1, h2, h3⟩ := ih (exclusion_set e (prop_id a) true) properties
      refine ⟨h1, fun k hk => h2 k (exclusion_set_true_mono e _ k hk), ?_⟩
      intro t ht
      rcases List.mem_cons.mp ht with h | h
      · rw [h]; exact h2 _ (exclusion_set_same _ _ _)
      · exact h3 t h

/-- What one of the blocks that read a table does, when it returns. -/
theorem add_table_properties_spec (table : Option (Option (List Nat))) (e e1 : Nat → Bool)
    (properties properties1 : List Nat)
    (h : add_table_properties table e properties = some (e1, properties1)) :
    (∃ extra, properties1 = properties ++ extra ∧
      ∀ t ∈ extra, e (prop_id t) = false ∧ ∃ available, table = some (some available) ∧
        t ∈ available) ∧
    (∀ k, e k = true → e1 k = true) ∧
    ((∀ t ∈ properties, e (prop_id t) = true) → (properties.map prop_id).Nodup →
      (∀ t ∈ properties1, e1 (prop_id t) = true) ∧ (properties1.map prop_id).Nodup) ∧
    (∀ available, table = some (some available) → ∀ i t, e i = false →
      available.find? (fun tag => prop_id tag = i) = some t → t ∈ properties1) := by
  unfold add_table_properties at h
  match table, h with
  | some none, h =>
    simp only [Option.some.injEq, Prod.mk.injEq] at h
    obtain ⟨h1, h2⟩ := h
    subst h1 h2
    refine ⟨⟨[], by simp, by simp⟩, fun k hk => hk, fun h1 h2 => ⟨h1, h2⟩, ?_⟩
    intro available hav
    cases hav
  | some (some available), h =>
    simp only at h
    split at h
    · simp only [Option.some.injEq] at h
      obtain ⟨⟨extra, hextra, hmem⟩, hmono, hinv, hfirst⟩ :=
        add_available_properties_spec available e properties
      rw [h] at hextra hmono hinv hfirst
      refine ⟨⟨extra, hextra, ?_⟩, hmono, hinv, ?_⟩
      · intro t ht
        exact ⟨(hmem t ht).2, available, rfl, (hmem t ht).1⟩
      · intro available1 hav
        simp only [Option.some.injEq] at hav
        subst hav
        exact hfirst
    · exact absurd h (by simp)

theorem mandatory_properties_documented (contents_mode : Bool) :
    mandatory_properties contents_mode = documented_mandatory contents_mode := by
  cases contents_mode <;> rfl

theorem mandatory_properties_nodup (contents_mode : Bool) :
    ((mandatory_properties contents_mode).map prop_id).Nodup := by
  cases contents_mode <;> decide

theorem mandatory_properties_not_body (contents_mode : Bool) :
    ∀ t ∈ mandatory_properties contents_mode,
      prop_id t ≠ prop_id PR_BODY_HTML ∧ prop_id t ≠ prop_id PR_BODY_UNICODE := by
  cases contents_mode <;> decide

/-- The array before the loop over the tags of the request (line 1511): the ids of the
mandatory properties and the ids of the explicit exclusions are marked, and no other. -/
theorem initial_exclusion_eq (contents_mode : Bool) (k : Nat) :
    exclude_tags (exclude_tags (fun _ => false) (mandatory_properties contents_mode))
        explicit_exclusions k =
      (decide (k ∈ (mandatory_properties contents_mode).map prop_id) ||
        decide (k ∈ always_excluded_ids)) := by
  have hx : explicit_exclusions.map prop_id = always_excluded_ids := by decide
  rw [exclude_tags_eq, exclude_tags_eq, hx]
  simp

/-- With `include_props`, lines 1476-1528 leave what the loop over the tags of the request
gives, which is the loop that adds the unmarked tags of a list. -/
theorem SyncConfigure_specified_include (request : SyncConfigure_req) (contents_mode : Bool)
    (hinclude : flag_set request.SynchronizationFlag
      SynchronizationFlag_OnlySpecifiedProperties = true) :
    SyncConfigure_specified request contents_mode =
      add_available_properties
        (exclude_tags (exclude_tags (fun _ => false) (mandatory_properties contents_mode))
          explicit_exclusions)
        (mandatory_properties contents_mode) request.PropertyTags := by
  simp only [SyncConfigure_specified, hinclude, Bool.not_true, Bool.false_and,
    Bool.false_eq_true, if_false, specified_properties_true]

/-- Without `include_props`, lines 1476-1528 leave the mandatory properties, whose ids are
marked; the ids of the tags of the request are marked unless "best body" is requested, and
then the ids of `PR_BODY_HTML` and `PR_BODY_UNICODE` are not marked. -/
theorem SyncConfigure_specified_exclude (request : SyncConfigure_req) (contents_mode : Bool)
    (hinclude : flag_set request.SynchronizationFlag
      SynchronizationFlag_OnlySpecifiedProperties = false) :
    (SyncConfigure_specified request contents_mode).2 = mandatory_properties contents_mode ∧
    (∀ t ∈ mandatory_properties contents_mode,
      (SyncConfigure_specified request contents_mode).1 (prop_id t) = true) ∧
    (flag_set request.SynchronizationFlag SynchronizationFlag_BestBody = false →
      ∀ s ∈ request.PropertyTags,
        (SyncConfigure_specified request contents_mode).1 (prop_id s) = true) ∧
    (flag_set request.SynchronizationFlag SynchronizationFlag_BestBody = true →
      (SyncConfigure_specified request contents_mode).1 (prop_id PR_BODY_HTML) = false ∧
      (SyncConfigure_specified request contents_mode).1 (prop_id PR_BODY_UNICODE) = false) := by
  obtain ⟨h1, h2, h3⟩ := specified_properties_false request.PropertyTags
    (exclude_tags (exclude_tags (fun _ => false) (mandatory_properties contents_mode))
      explicit_exclusions) (mandatory_properties contents_mode)
  have hmand : ∀ t ∈ mandatory_properties contents_mode,
      (specified_properties false
        (exclude_tags (exclude_tags (fun _ => false) (mandatory_properties contents_mode))
          explicit_exclusions) (mandatory_properties contents_mode)
        request.PropertyTags).1 (prop_id t) = true := by
    intro t ht
    apply h2
    rw [initial_exclusion_eq]
    simp only [Bool.or_eq_true, decide_eq_true_eq]
    exact Or.inl (List.mem_map_of_mem _ ht)
  cases hbest : flag_set request.SynchronizationFlag SynchronizationFlag_BestBody with
  | false =>
    simp only [SyncConfigure_specified, hinclude, hbest, Bool.not_false, Bool.and_false,
      Bool.false_eq_true, if_false]
    exact ⟨h1, hmand, fun _ => h3, fun h => absurd h (by simp)⟩
  | true =>
    simp only [SyncConfigure_specified, hinclude, hbest, Bool.not_false, Bool.and_true,
      if_true]
    refine ⟨h1, ?_, fun h => absurd h (by simp), fun _ => ⟨?_, ?_⟩⟩
    · intro t ht
      obtain ⟨hb1, hb2⟩ := mandatory_properties_not_body contents_mode t ht
      rw [exclusion_set_other _ _ _ _ hb2, exclusion_set_other _ _ _ _ hb1]
      exact hmand t ht
    · rw [exclusion_set_other _ _ _ _ (by decide)]
      exact exclusion_set_same _ _ _
    · exact exclusion_set_same _ _ _

/-- The arrays that `SyncConfigure` computes without `include_props`: `properties` is the
mandatory properties followed by tags of the message table (contents mode) or of the folder
table (hierarchy mode) whose id was not marked at line 1529, among them the first tag of the
table for each such id; `fai_properties` is either left as it was or is `properties` followed
by tags whose id was not marked either; and no id occurs twice in either array. -/
theorem SyncConfigure_properties_exclude (tables : folder_tables) (request : SyncConfigure_req)
    (sc sc1 : emsmdbp_object_synccontext)
    (hinclude : flag_set request.SynchronizationFlag
      SynchronizationFlag_OnlySpecifiedProperties = false)
    (h : SyncConfigure_properties tables request sc = some sc1) :
    (∃ extra, sc1.properties = mandatory_properties sc.request.contents_mode ++ extra ∧
      ∀ t ∈ extra,
        (SyncConfigure_specified request sc.request.contents_mode).1 (prop_id t) = false ∧
        ∃ available,
          (if sc.request.contents_mode then tables.MAPISTORE_MESSAGE_TABLE
            else tables.MAPISTORE_FOLDER_TABLE) = some (some available) ∧ t ∈ available) ∧
    (sc1.properties.map prop_id).Nodup ∧
    (sc1.fai_properties = sc.fai_properties ∨
      ((∃ extra, sc1.fai_properties = sc1.properties ++ extra ∧
        ∀ t ∈ extra,
          (SyncConfigure_specified request sc.request.contents_mode).1 (prop_id t) = false) ∧
       (sc1.fai_properties.map prop_id).Nodup)) ∧
    (∀ available,
      (if sc.request.contents_mode then tables.MAPISTORE_MESSAGE_TABLE
        else tables.MAPISTORE_FOLDER_TABLE) = some (some available) →
      (sc.request.contents_mode = true → sc.request.normal = true) →
      ∀ i t, (SyncConfigure_specified request sc.request.contents_mode).1 i = false →
        available.find? (fun tag => prop_id tag = i) = some t → t ∈ sc1.properties) := by
  obtain ⟨hS2, hSinv, _, _⟩ :=
    SyncConfigure_specified_exclude request sc.request.contents_mode hinclude
  have hnodup := mandatory_properties_nodup sc.request.contents_mode
  unfold SyncConfigure_properties at h
  simp only [hinclude, Bool.not_false, if_true] at h
  rw [hS2] at h
  generalize (SyncConfigure_specified request sc.request.contents_mode).1 = e at h hSinv ⊢
  cases hc : sc.request.contents_mode with
  | false =>
    rw [hc] at h hSinv hnodup
    simp only [Bool.false_eq_true, if_false] at h ⊢
    cases hadd : add_table_properties tables.MAPISTORE_FOLDER_TABLE e
        (mandatory_properties false) with
    | none => rw [hadd] at h; exact absurd h (by simp)
    | some r =>
      obtain ⟨e1, p1⟩ := r
      rw [hadd] at h
      simp only [Option.some.injEq] at h
      subst h
      obtain ⟨hextra, _, hinv, hfirst⟩ := add_table_properties_spec _ _ _ _ _ hadd
      exact ⟨hextra, (hinv hSinv hnodup).2, Or.inl rfl,
        fun available hav _ => hfirst available hav⟩
  | true =>
    rw [hc] at h hSinv hnodup
    simp only [if_true] at h ⊢
    have hnormal : ∃ e1 p1,
        (if sc.request.normal = true then
          add_table_properties tables.MAPISTORE_MESSAGE_TABLE e (mandatory_properties true)
         else some (e, mandatory_properties true)) = some (e1, p1) := by
      cases hn : (if sc.request.normal = true then
          add_table_properties tables.MAPISTORE_MESSAGE_TABLE e (mandatory_properties true)
         else some (e, mandatory_properties true)) with
      | none => rw [hn] at h; exact absurd h (by simp)
      | some r => exact ⟨r.1, r.2, rfl⟩
    obtain ⟨e1, p1, hn⟩ := hnormal
    rw [hn] at h
    simp only at h
    have hfacts : (∃ extra, p1 = mandatory_properties true ++ extra ∧
          ∀ t ∈ extra, e (prop_id t) = false ∧
            ∃ available, tables.MAPISTORE_MESSAGE_TABLE = some (some available) ∧
              t ∈ available) ∧
        (∀ k, e k = true → e1 k = true) ∧
        ((∀ t ∈ p1, e1 (prop_id t) = true) ∧ (p1.map prop_id).Nodup) ∧
        (∀ available, tables.MAPISTORE_MESSAGE_TABLE = some (some available) →
          sc.request.normal = true → ∀ i t, e i = false →
          available.find? (fun tag => prop_id tag = i) = some t → t ∈ p1) := by
      cases hnb : sc.request.normal with
      | false =>
        rw [hnb] at hn
        simp only [Bool.false_eq_true, if_false, Option.some.injEq, Prod.mk.injEq] at hn
        obtain ⟨he, hp⟩ := hn
        subst he hp
        exact ⟨⟨[], by simp, by simp⟩, fun k hk => hk, ⟨hSinv, hnodup⟩,
          fun _ _ hx => absurd hx (by simp)⟩
      | true =>
        rw [hnb] at hn
        simp only [if_true] at hn
        obtain ⟨hextra, hmono, hinv, hfirst⟩ := add_table_properties_spec _ _ _ _ _ hn
        exact ⟨hextra, hmono, hinv hSinv hnodup, fun available hav _ => hfirst available hav⟩
    obtain ⟨hextra, hmono, ⟨hinv1, hnodup1⟩, hfirst⟩ := hfacts
    cases hf : sc.request.fai with
    | false =>
      rw [hf] at h
      simp only [Bool.false_eq_true, if_false, Option.some.injEq] at h
      subst h
      exact ⟨hextra, hnodup1, Or.inl rfl,
        fun available hav hnorm => hfirst available hav (hnorm trivial)⟩
    | true =>
      rw [hf] at h
      simp only [if_true] at h
      cases hadd : add_table_properties tables.MAPISTORE_FAI_TABLE e1 p1 with
      | none => rw [hadd] at h; exact absurd h (by simp)
      | some r =>
        obtain ⟨e2, p2⟩ := r
        rw [hadd] at h
        simp only [Option.some.injEq] at h
        subst h
        obtain ⟨⟨fextra, hfextra, hfmem⟩, _, hinv2, _⟩ :=
          add_table_properties_spec _ _ _ _ _ hadd
        refine ⟨hextra, hnodup1, Or.inr ⟨⟨fextra, hfextra, ?_⟩, (hinv2 hinv1 hnodup1).2⟩,
          fun available hav hnorm => hfirst available hav (hnorm trivial)⟩
        intro t ht
        cases het : e (prop_id t) with
        | false => rfl
        | true =>
          have := hmono _ het
          rw [(hfmem t ht).1] at this
          exact absurd this (by simp)

/-- The array `properties` that `SyncConfigure` computes with `include_props`, and the array
`fai_properties`, which it leaves as it was. -/
theorem SyncConfigure_properties_include (tables : folder_tables) (request : SyncConfigure_req)
    (sc : emsmdbp_object_synccontext)
    (hinclude : flag_set request.SynchronizationFlag
      SynchronizationFlag_OnlySpecifiedProperties = true) :
    SyncConfigure_properties tables request sc =
      some { sc with
        properties :=
          (add_available_properties
            (exclude_tags
              (exclude_tags (fun _ => false) (mandatory_properties sc.request.contents_mode))
              explicit_exclusions)
            (mandatory_properties sc.request.contents_mode) request.PropertyTags).2 } := by
  unfold SyncConfigure_properties
  simp only [hinclude, Bool.not_true, Bool.false_eq_true, if_false,
    SyncConfigure_specified_include request _ hinclude]

/-- A reply of `SyncConfigure` that comes with a synccontext: the arrays of the synccontext
are those computed from the initial object with the option bits of the request, and both the
value returned and the error code are `MAPI_E_SUCCESS`. -/
theorem SyncConfigure_some (synccontext_init : emsmdbp_object_synccontext)
    (tables : folder_tables) (handle : handle_lookup) (request : SyncConfigure_req)
    (retval : MAPISTATUS) (reply : EcDoRpc_MAPI_REPL Unit) (sc : emsmdbp_object_synccontext)
    (h : EcDoRpc_RopSyncConfigure synccontext_init tables handle request =
      some (retval, reply, some sc)) :
    SyncConfigure_properties tables request
        { synccontext_init with request := SyncConfigure_request request } = some sc ∧
      retval = MAPI_E_SUCCESS ∧ reply.error_code = MAPI_E_SUCCESS := by
  unfold EcDoRpc_RopSyncConfigure at h
  split at h
  · split at h
    · simp at h
    · dsimp only at h
      split at h
      · simp at h
      · split at h
        · simp at h
        · rename_i sc1 hsc
          simp only [Option.some.injEq, Prod.mk.injEq] at h
          obtain ⟨h1, h2, h3⟩ := h
          subst h1 h2 h3
          exact ⟨hsc, rfl, rfl⟩
  · simp at h

theorem add_table_properties_returns (table : Option (Option (List Nat))) (e : Nat → Bool)
    (properties : List Nat) (h : table_answers table = true) :
    ∃ r, add_table_properties table e properties = some r := by
  unfold add_table_properties
  match table, h with
  | some none, _ => exact ⟨_, rfl⟩
  | some (some available), h =>
    simp only [table_answers, decide_eq_true_eq] at h
    simp only [h, if_true]
    exact ⟨_, rfl⟩

/-- `SyncConfigure` on a folder returns with a synccontext when the request passes the test of
line 1453 and the three tables of the folder answer. -/
theorem SyncConfigure_returns (synccontext_init : emsmdbp_object_synccontext)
    (tables : folder_tables) (request : SyncConfigure_req)
    (hunicode : ¬ (flag_set request.SendOptions FastTransfer_Unicode = true ∧
      flag_set request.SynchronizationFlag SynchronizationFlag_Unicode = false))
    (hmessage : table_answers tables.MAPISTORE_MESSAGE_TABLE = true)
    (hfai : table_answers tables.MAPISTORE_FAI_TABLE = true)
    (hfolder : table_answers tables.MAPISTORE_FOLDER_TABLE = true) :
    ∃ sc, EcDoRpc_RopSyncConfigure synccontext_init tables
        (some (some (EMSMDBP_OBJECT_OTHER EMSMDBP_OBJECT_FOLDER))) request =
      some (MAPI_E_SUCCESS, { error_code := MAPI_E_SUCCESS, u := none }, some sc) := by
  have hprops : ∀ sc0 : emsmdbp_object_synccontext,
      ∃ sc, SyncConfigure_properties tables request sc0 = some sc := by
    intro sc0
    unfold SyncConfigure_properties
    generalize SyncConfigure_specified request sc0.request.contents_mode = S
    simp only
    split
    · split
      · have hn : ∃ r, (if sc0.request.normal = true then
            add_table_properties tables.MAPISTORE_MESSAGE_TABLE S.1 S.2
            else some (S.1, S.2)) = some r := by
          split
          · exact add_table_properties_returns _ _ _ hmessage
          · exact ⟨_, rfl⟩
        obtain ⟨r, hr⟩ := hn
        rw [hr]
        simp only
        split
        · obtain ⟨r2, hr2⟩ := add_table_properties_returns tables.MAPISTORE_FAI_TABLE r.1 r.2 hfai
          rw [hr2]
          exact ⟨_, rfl⟩
        · exact ⟨_, rfl⟩
      · obtain ⟨r, hr⟩ := add_table_properties_returns tables.MAPISTORE_FOLDER_TABLE S.1 S.2
          hfolder
        rw [hr]
        exact ⟨_, rfl⟩
    · exact ⟨_, rfl⟩
  obtain ⟨sc, hsc⟩ := hprops { synccontext_init with request := SyncConfigure_request request }
  refine ⟨sc, ?_⟩
  unfold EcDoRpc_RopSyncConfigure
  simp only [ne_eq, not_true_eq_false, if_false]
  rw [if_neg, hsc]
  intro hcontra
  apply hunicode
  refine ⟨hcontra.1, ?_⟩
  cases hflag : flag_set request.SynchronizationFlag SynchronizationFlag_Unicode
  · rfl
  · exact absurd hflag hcontra.2

/-- C16. Whenever `SyncConfigure` makes a synccontext (whatever the mode, the flags, the tags
of the request and the available properties of the tables), its array `properties` starts with
the mandatory properties of the mode in the documented order, and neither `properties` nor
`fai_properties` holds two tags with the same 16-bit id (the initial object has no FAI
properties).  On a folder it does make one when the request passes the test of line 1453 and
the tables of the folder answer. -/
theorem C16_mandatory_first_no_duplicate_id (synccontext_init : emsmdbp_object_synccontext)
    (tables : folder_tables) (handle : handle_lookup) (request : SyncConfigure_req)
    (hinit : synccontext_init.fai_properties = []) :
    (∀ retval reply sc,
      EcDoRpc_RopSyncConfigure synccontext_init tables handle request =
        some (retval, reply, some sc) →
      (∃ extra, sc.properties =
        documented_mandatory (decide (request.SynchronizationType = Contents)) ++ extra) ∧
      (sc.properties.map prop_id).Nodup ∧ (sc.fai_properties.map prop_id).Nodup) ∧
    (¬ (flag_set request.SendOptions FastTransfer_Unicode = true ∧
        flag_set request.SynchronizationFlag SynchronizationFlag_Unicode = false) →
      table_answers tables.MAPISTORE_MESSAGE_TABLE = true →
      table_answers tables.MAPISTORE_FAI_TABLE = true →
      table_answers tables.MAPISTORE_FOLDER_TABLE = true →
      ∃ sc, EcDoRpc_RopSyncConfigure synccontext_init tables
          (some (some (EMSMDBP_OBJECT_OTHER EMSMDBP_OBJECT_FOLDER))) request =
        some (MAPI_E_SUCCESS, { error_code := MAPI_E_SUCCESS, u := none }, some sc)) := by
  refine ⟨?_, SyncConfigure_returns synccontext_init tables request⟩
  intro retval reply sc h
  obtain ⟨hprops, _, _⟩ := SyncConfigure_some _ _ _ _ _ _ _ h
  have hmode : ({ synccontext_init with request := SyncConfigure_request request } :
      emsmdbp_object_synccontext).request.contents_mode =
      decide (request.SynchronizationType = Contents) := rfl
  cases hinclude : flag_set request.SynchronizationFlag
      SynchronizationFlag_OnlySpecifiedProperties with
  | false =>
    obtain ⟨⟨extra, hextra, _⟩, hnodup, hfai, _⟩ :=
      SyncConfigure_properties_exclude tables request _ sc hinclude hprops
    rw [hmode, mandatory_properties_documented] at hextra
    refine ⟨⟨extra, hextra⟩, hnodup, ?_⟩
    rcases hfai with hfai | hfai
    · rw [hfai]
      show (List.map prop_id synccontext_init.fai_properties).Nodup
      rw [hinit]
      exact List.nodup_nil
    · exact hfai.2
  | true =>
    rw [SyncConfigure_properties_include tables request _ hinclude] at hprops
    simp only [Option.some.injEq] at hprops
    subst hprops
    obtain ⟨⟨extra, hextra, _⟩, _, hinv, _⟩ := add_available_properties_spec
      request.PropertyTags
      (exclude_tags
        (exclude_tags (fun _ => false)
          (mandatory_properties (decide (request.SynchronizationType = Contents))))
        explicit_exclusions)
      (mandatory_properties (decide (request.SynchronizationType = Contents)))
    have hmarked : ∀ t ∈ mandatory_properties (decide (request.SynchronizationType = Contents)),
        exclude_tags
          (exclude_tags (fun _ => false)
            (mandatory_properties (decide (request.SynchronizationType = Contents))))
          explicit_exclusions (prop_id t) = true := by
      intro t ht
      rw [initial_exclusion_eq]
      simp only [Bool.or_eq_true, decide_eq_true_eq]
      exact Or.inl (List.mem_map_of_mem _ ht)
    refine ⟨⟨extra, ?_⟩, (hinv hmarked (mandatory_properties_nodup _)).2, ?_⟩
    · rw [← mandatory_properties_documented]
      exact hextra
    · show (List.map prop_id synccontext_init.fai_properties).Nodup
      rw [hinit]
      exact List.nodup_nil

/-- C16, at a concrete input: a contents request with the flags `Unicode`, `FAI`, `Normal`
and `BestBody` that excludes `PR_BODY_HTML` and the subject, on the sample folder. -/
theorem C16_witness :
    (sample_synccontext 0 []).fai_properties = [] ∧
    ∃ sc, EcDoRpc_RopSyncConfigure (sample_synccontext 0 []) sample_tables
        (some (some (EMSMDBP_OBJECT_OTHER EMSMDBP_OBJECT_FOLDER)))
        (sample_configure_request 0x2031 [PR_BODY_HTML, sample_subject_tag]) =
      some (MAPI_E_SUCCESS, { error_code := MAPI_E_SUCCESS, u := none }, some sc) :=
  ⟨rfl, (C16_mandatory_first_no_duplicate_id (sample_synccontext 0 []) sample_tables
    sample_folder_handle (sample_configure_request 0x2031 [PR_BODY_HTML, sample_subject_tag])
    rfl).2 (by decide) (by decide) (by decide) (by decide)⟩

/-- C17 (counterexample). A contents request with the flags `Unicode`, `FAI`, `Normal` and
`BestBody`, without `OnlySpecifiedProperties`, that excludes `PR_BODY_HTML`, on a folder whose
message table lists the subject only: the computed list is the eight mandatory properties and
the subject, and holds neither `PR_BODY_HTML` nor `PR_BODY_UNICODE`. -/
theorem C17_counterexample :
    (EcDoRpc_RopSyncConfigure (sample_synccontext 0 []) sample_tables_no_body
        sample_folder_handle (sample_configure_request 0x2031 [PR_BODY_HTML])).map
      (fun r => (r.1, r.2.1.error_code, r.2.2.map (fun sc => sc.properties))) =
      some (MAPI_E_SUCCESS, MAPI_E_SUCCESS,
        some [PR_MID, PR_ASSOCIATED, PR_MESSAGE_SIZE, PidTagChangeNumber, PR_CHANGE_KEY,
          PR_PREDECESSOR_CHANGE_LIST, PR_LAST_MODIFICATION_TIME, PR_DISPLAY_NAME_UNICODE,
          sample_subject_tag]) ∧
    PR_BODY_HTML ∉ [PR_MID, PR_ASSOCIATED, PR_MESSAGE_SIZE, PidTagChangeNumber, PR_CHANGE_KEY,
      PR_PREDECESSOR_CHANGE_LIST, PR_LAST_MODIFICATION_TIME, PR_DISPLAY_NAME_UNICODE,
      sample_subject_tag] ∧
    PR_BODY_UNICODE ∉ [PR_MID, PR_ASSOCIATED, PR_MESSAGE_SIZE, PidTagChangeNumber, PR_CHANGE_KEY,
      PR_PREDECESSOR_CHANGE_LIST, PR_LAST_MODIFICATION_TIME, PR_DISPLAY_NAME_UNICODE,
      sample_subject_tag] := by
  refine ⟨by decide, by decide, by decide⟩

/-- C17 (amended). For a request without `OnlySpecifiedProperties` and with `BestBody`,
whatever tags the client supplied: the table from which `properties` is completed is the
message table in contents mode, when the flag `Normal` is set, and the folder table in
hierarchy mode.  For `PR_BODY_HTML` and for `PR_BODY_UNICODE`, the first tag with that id among
the available properties of the table is in the computed list; and a tag with that id is in the
computed list only if the table lists one. -/
theorem C17_best_body_not_excluded (synccontext_init : emsmdbp_object_synccontext)
    (tables : folder_tables) (handle : handle_lookup) (request : SyncConfigure_req)
    (retval : MAPISTATUS) (reply : EcDoRpc_MAPI_REPL Unit) (sc : emsmdbp_object_synccontext)
    (hinclude : flag_set request.SynchronizationFlag
      SynchronizationFlag_OnlySpecifiedProperties = false)
    (hbest : flag_set request.SynchronizationFlag SynchronizationFlag_BestBody = true)
    (h : EcDoRpc_RopSyncConfigure synccontext_init tables handle request =
      some (retval, reply, some sc)) :
    ∀ body, body = PR_BODY_HTML ∨ body = PR_BODY_UNICODE →
      (∀ available,
        (if request.SynchronizationType = Contents then tables.MAPISTORE_MESSAGE_TABLE
          else tables.MAPISTORE_FOLDER_TABLE) = some (some available) →
        (request.SynchronizationType = Contents →
          flag_set request.SynchronizationFlag SynchronizationFlag_Normal = true) →
        ∀ t, available.find? (fun tag => prop_id tag = prop_id body) = some t →
          t ∈ sc.properties) ∧
      (∀ t ∈ sc.properties, prop_id t = prop_id body →
        ∃ available,
          (if request.SynchronizationType = Contents then tables.MAPISTORE_MESSAGE_TABLE
            else tables.MAPISTORE_FOLDER_TABLE) = some (some available) ∧ t ∈ available) := by
  intro body hbody
  obtain ⟨hprops, _, _⟩ := SyncConfigure_some _ _ _ _ _ _ _ h
  obtain ⟨⟨extra, hextra, hmem⟩, _, _, hfirst⟩ :=
    SyncConfigure_properties_exclude tables request _ sc hinclude hprops
  obtain ⟨_, _, _, hunmarked⟩ := SyncConfigure_specified_exclude request
    (decide (request.SynchronizationType = Contents)) hinclude
  have hbodyid : (SyncConfigure_specified request
      (decide (request.SynchronizationType = Contents))).1 (prop_id body) = false := by
    rcases hbody with hb | hb
    · rw [hb]; exact (hunmarked hbest).1
    · rw [hb]; exact (hunmarked hbest).2
  simp only [SyncConfigure_request, decide_eq_true_eq] at hfirst hmem hextra
  constructor
  · intro available hav hnormal t hfind
    exact hfirst available hav hnormal (prop_id body) t hbodyid hfind
  · intro t ht hid
    rw [hextra] at ht
    rcases List.mem_append.mp ht with hm | he
    · have := mandatory_properties_not_body _ t hm
      rcases hbody with hb | hb
      · rw [hb] at hid; exact absurd hid this.1
      · rw [hb] at hid; exact absurd hid this.2
    · exact (hmem t he).2

/-- C17 (amended), at a concrete input: the request of `C16_witness` on the sample folder,
whose message table lists `PR_BODY_UNICODE` and `PR_BODY_HTML`; both are in the computed list
although the client excluded `PR_BODY_HTML`. -/
theorem C17_witness :
    ∃ sc, EcDoRpc_RopSyncConfigure (sample_synccontext 0 []) sample_tables
        sample_folder_handle
        (sample_configure_request 0x2031 [PR_BODY_HTML, sample_subject_tag]) =
        some (MAPI_E_SUCCESS, { error_code := MAPI_E_SUCCESS, u := none }, some sc) ∧
      PR_BODY_HTML ∈ sc.properties ∧ PR_BODY_UNICODE ∈ sc.properties := by
  obtain ⟨sc, hsc⟩ := SyncConfigure_returns (sample_synccontext 0 []) sample_tables
    (sample_configure_request 0x2031 [PR_BODY_HTML, sample_subject_tag])
    (by decide) (by decide) (by decide) (by decide)
  have hthm := C17_best_body_not_excluded (sample_synccontext 0 []) sample_tables
    sample_folder_handle (sample_configure_request 0x2031 [PR_BODY_HTML, sample_subject_tag])
    MAPI_E_SUCCESS { error_code := MAPI_E_SUCCESS, u := none } sc (by decide) (by decide) hsc
  refine ⟨sc, hsc, ?_, ?_⟩
  · exact (hthm PR_BODY_HTML (Or.inl rfl)).1 _ rfl (fun _ => by decide) PR_BODY_HTML
      (by decide)
  · exact (hthm PR_BODY_UNICODE (Or.inr rfl)).1 _ rfl (fun _ => by decide) PR_BODY_UNICODE
      (by decide)

theorem first_occurrence_per_id_congr : ∀ (tags seen seen1 : List Nat),
    (∀ k, k ∈ seen ↔ k ∈ seen1) →
    first_occurrence_per_id seen tags = first_occurrence_per_id seen1 tags := by
  intro tags
  induction tags with
  | nil => intro seen seen1 _; rfl
  | cons t ts ih =>
    intro seen seen1 hs
    simp only [first_occurrence_per_id]
    by_cases ht : prop_id t ∈ seen
    · rw [if_pos ht, if_pos ((hs _).mp ht)]
      exact ih seen seen1 hs
    · rw [if_neg ht, if_neg (fun h => ht ((hs _).mpr h))]
      congr 1
      apply ih
      intro k
      simp only [List.mem_cons, hs k]

/-- A list of tags with distinct ids, none of them seen before, is kept whole by
`first_occurrence_per_id`, and its ids are seen by what follows. -/
theorem first_occurrence_per_id_append : ∀ (first seen rest : List Nat),
    (first.map prop_id).Nodup → (∀ t ∈ first, prop_id t ∉ seen) →
    first_occurrence_per_id seen (first ++ rest) =
      first ++ first_occurrence_per_id (first.map prop_id ++ seen) rest := by
  intro first
  induction first with
  | nil => intro seen rest _ _; rfl
  | cons t ts ih =>
    intro seen rest hnodup hseen
    simp only [List.map_cons, List.nodup_cons] at hnodup
    simp only [List.cons_append, first_occurrence_per_id]
    rw [if_neg (hseen t (List.mem_cons_self _ _))]
    congr 1
    show first_occurrence_per_id (prop_id t :: seen) (ts ++ rest) = _
    rw [ih (prop_id t :: seen) rest hnodup.2]
    · congr 1
      apply first_occurrence_per_id_congr
      intro k
      simp only [List.mem_append, List.mem_cons, List.map_cons]
      tauto
    · intro t1 ht1 hmem
      rcases List.mem_cons.mp hmem with h | h
      · exact hnodup.1 (h ▸ List.mem_map_of_mem _ ht1)
      · exact hseen t1 (List.mem_cons_of_mem _ ht1) h

/-- The loop that adds the unmarked tags of a list, when the marked ids are the ids seen and
the ids of a fixed set: it adds, of the tags whose id is not in the fixed set, the first
occurrence of every id not seen. -/
theorem add_available_properties_first_occurrence : ∀ (tags : List Nat) (e : Nat → Bool)
    (properties seen fixed : List Nat),
    (∀ k, e k = true ↔ k ∈ seen ∨ k ∈ fixed) →
    (add_available_properties e properties tags).2 =
      properties ++
        first_occurrence_per_id seen (tags.filter (fun tag => prop_id tag ∉ fixed)) := by
  intro tags
  induction tags with
  | nil =>
    intro e properties seen fixed _
    simp [add_available_properties, first_occurrence_per_id]
  | cons t ts ih =>
    intro e properties seen fixed he
    by_cases ht : e (prop_id t) = true
    · have hstep : add_available_properties e properties (t :: ts) =
          add_available_properties e properties ts := by
        simp [add_available_properties, ht]
      rw [hstep, ih e properties seen fixed he]
      by_cases hfixed : prop_id t ∈ fixed
      · rw [List.filter_cons_of_neg (by simpa using hfixed)]
      · rw [List.filter_cons_of_pos (by simpa using hfixed)]
        have hseen : prop_id t ∈ seen := by
          rcases (he _).mp ht with h | h
          · exact h
          · exact absurd h hfixed
        simp only [first_occurrence_per_id, if_pos hseen]
    · have hfalse : e (prop_id t) = false := by
        cases h : e (prop_id t)
        · rfl
        · exact absurd h ht
      have hnot : ¬ (prop_id t ∈ seen ∨ prop_id t ∈ fixed) := fun h => ht ((he _).mpr h)
      have hstep : add_available_properties e properties (t :: ts) =
          add_available_properties (exclusion_set e (prop_id t) true) (properties ++ [t])
            ts := by
        simp [add_available_properties, hfalse]
      rw [hstep, ih (exclusion_set e (prop_id t) true) (properties ++ [t])
        (prop_id t :: seen) fixed]
      · rw [List.filter_cons_of_pos (by simpa using fun h => hnot (Or.inr h))]
        simp only [first_occurrence_per_id, if_neg (fun h => hnot (Or.inl h))]
        simp
      · intro k
        unfold exclusion_set
        by_cases hk : k = prop_id t
        · simp [hk]
        · simp only [hk, if_false, he k, List.mem_cons, false_or]

/-- C18. Whenever `SyncConfigure` makes a synccontext: with `OnlySpecifiedProperties` set, the
computed list is the documented inclusion list (the mandatory properties followed by the
supplied tags that are not always-excluded, first occurrence per id), whatever the tables of
the store list; without `OnlySpecifiedProperties` and without `BestBody`, a tag of
`properties` or of `fai_properties` whose id is the id of a supplied tag is a mandatory
property (the initial object has no FAI properties). -/
theorem C18_inclusion_list_or_exclusion_list (synccontext_init : emsmdbp_object_synccontext)
    (tables : folder_tables) (handle : handle_lookup) (request : SyncConfigure_req)
    (retval : MAPISTATUS) (reply : EcDoRpc_MAPI_REPL Unit) (sc : emsmdbp_object_synccontext)
    (hinit : synccontext_init.fai_properties = [])
    (h : EcDoRpc_RopSyncConfigure synccontext_init tables handle request =
      some (retval, reply, some sc)) :
    (flag_set request.SynchronizationFlag SynchronizationFlag_OnlySpecifiedProperties = true →
      sc.properties =
        documented_inclusion_list (decide (request.SynchronizationType = Contents))
          request.PropertyTags) ∧
    (flag_set request.SynchronizationFlag SynchronizationFlag_OnlySpecifiedProperties = false →
      flag_set request.SynchronizationFlag SynchronizationFlag_BestBody = false →
      ∀ t ∈ sc.properties ++ sc.fai_properties, ∀ s ∈ request.PropertyTags,
        prop_id t = prop_id s →
        t ∈ documented_mandatory (decide (request.SynchronizationType = Contents))) := by
  obtain ⟨hprops, _, _⟩ := SyncConfigure_some _ _ _ _ _ _ _ h
  constructor
  · intro hinclude
    rw [SyncConfigure_properties_include tables request _ hinclude] at hprops
    simp only [Option.some.injEq] at hprops
    subst hprops
    show (add_available_properties _ _ _).2 = _
    simp only [SyncConfigure_request]
    rw [add_available_properties_first_occurrence request.PropertyTags _ _
      ((mandatory_properties (decide (request.SynchronizationType = Contents))).map prop_id)
      always_excluded_ids]
    · unfold documented_inclusion_list
      rw [first_occurrence_per_id_append _ _ _
        (by rw [← mandatory_properties_documented]; exact mandatory_properties_nodup _)
        (by intro t _ hmem; cases hmem)]
      rw [mandatory_properties_documented, List.append_nil]
    · intro k
      rw [initial_exclusion_eq]
      simp only [Bool.or_eq_true, decide_eq_true_eq]
  · intro hinclude hbest t ht s hs hid
    obtain ⟨⟨extra, hextra, hmem⟩, _, hfai, _⟩ :=
      SyncConfigure_properties_exclude tables request _ sc hinclude hprops
    obtain ⟨_, _, hmarked, _⟩ := SyncConfigure_specified_exclude request
      (decide (request.SynchronizationType = Contents)) hinclude
    have hs1 := hmarked hbest s hs
    simp only [SyncConfigure_request] at hextra hmem hfai
    have hproperties : t ∈ sc.properties →
        t ∈ documented_mandatory (decide (request.SynchronizationType = Contents)) := by
      intro htp
      rw [hextra] at htp
      rcases List.mem_append.mp htp with hm | he
      · rw [← mandatory_properties_documented]; exact hm
      · have := (hmem t he).1
        rw [hid, hs1] at this
        exact absurd this (by simp)
    rcases List.mem_append.mp ht with htp | htf
    · exact hproperties htp
    · rcases hfai with hfai | ⟨⟨fextra, hfextra, hfmem⟩, _⟩
      · rw [hfai] at htf
        change t ∈ synccontext_init.fai_properties at htf
        rw [hinit] at htf
        cases htf
      · rw [hfextra] at htf
        rcases List.mem_append.mp htf with htp | he
        · exact hproperties htp
        · have := hfmem t he
          rw [hid, hs1] at this
          exact absurd this (by simp)

/-- C18, at a concrete input: an inclusion request that supplies `PR_BODY_HTML`, the subject,
a second tag with the id of `PR_BODY_HTML`, `PR_MID` and a tag with the id of
`PR_CHANGE_KEY`; the computed list is the eight mandatory properties followed by
`PR_BODY_HTML` and the subject. -/
theorem C18_witness :
    ∃ sc, EcDoRpc_RopSyncConfigure (sample_synccontext 0 []) sample_tables
        sample_folder_handle
        (sample_configure_request 0x00b1
          [PR_BODY_HTML, sample_subject_tag, 0x1013001f, PR_MID, 0x65e2001f]) =
        some (MAPI_E_SUCCESS, { error_code := MAPI_E_SUCCESS, u := none }, some sc) ∧
      sc.properties =
        [PR_MID, PR_ASSOCIATED, PR_MESSAGE_SIZE, PidTagChangeNumber, PR_CHANGE_KEY,
          PR_PREDECESSOR_CHANGE_LIST, PR_LAST_MODIFICATION_TIME, PR_DISPLAY_NAME_UNICODE,
          PR_BODY_HTML, sample_subject_tag] := by
  obtain ⟨sc, hsc⟩ := SyncConfigure_returns (sample_synccontext 0 []) sample_tables
    (sample_configure_request 0x00b1
      [PR_BODY_HTML, sample_subject_tag, 0x1013001f, PR_MID, 0x65e2001f])
    (by decide) (by decide) (by decide) (by decide)
  refine ⟨sc, hsc, ?_⟩
  rw [(C18_inclusion_list_or_exclusion_list (sample_synccontext 0 []) sample_tables
    sample_folder_handle _ _ _ sc rfl hsc).1 (by decide)]
  decide

/-! ## Imports and the status of `emsmdbp_object_set_properties` -/

/-- When `SyncImportHierarchyChange` replies `MAPI_E_SUCCESS`, it has called
`emsmdbp_object_set_properties` and the call returned `MAPI_E_SUCCESS`. -/
theorem hierarchy_change_success (store : sync_store) (handle : handle_lookup)
    (request : SyncImportHierarchyChange_req) (retval : MAPISTATUS)
    (reply : EcDoRpc_MAPI_REPL SyncImportHierarchyChange_repl) (effects : sync_effects)
    (h : EcDoRpc_RopSyncImportHierarchyChange store handle request =
      some (retval, reply, effects))
    (hsuccess : reply.error_code = MAPI_E_SUCCESS) :
    effects.set_properties = some MAPI_E_SUCCESS := by
  have happly : ∀ folderID aRow, hierarchy_change_apply store folderID aRow =
      (retval, reply, effects) → effects.set_properties = some MAPI_E_SUCCESS := by
    intro folderID aRow ha
    unfold hierarchy_change_apply at ha
    simp only at ha
    split at ha
    · simp only [Prod.mk.injEq] at ha
      obtain ⟨_, h2, _⟩ := ha
      rw [← h2] at hsuccess
      exact absurd hsuccess (by decide)
    · rename_i hret
      simp only [Prod.mk.injEq] at ha
      obtain ⟨_, _, h3⟩ := ha
      rw [← h3]
      simp only [ne_eq, not_not] at hret
      simp only [hret]
  have himport : ∀ parentFolderID folderID,
      hierarchy_change_import store request parentFolderID folderID =
        (retval, reply, effects) → effects.set_properties = some MAPI_E_SUCCESS := by
    intro parentFolderID folderID hi
    unfold hierarchy_change_import at hi
    simp only at hi
    split at hi
    · split at hi
      · simp only [Prod.mk.injEq] at hi
        obtain ⟨_, h2, _⟩ := hi
        rw [← h2] at hsuccess
        exact absurd hsuccess (by decide)
      · split at hi
        · rename_i hret
          simp only [Prod.mk.injEq] at hi
          obtain ⟨_, h2, _⟩ := hi
          rw [← h2] at hsuccess
          exact absurd hsuccess.symm hret.symm
        · exact happly _ _ hi
    · exact happly _ _ hi
  have hfail : ∀ code : MAPISTATUS, code ≠ MAPI_E_SUCCESS →
      (some (MAPI_E_SUCCESS, ({ error_code := code, u := none } :
        EcDoRpc_MAPI_REPL SyncImportHierarchyChange_repl),
        ({ record_handle := false, set_properties := none } : sync_effects)) =
        some (retval, reply, effects)) → False := by
    intro code hcode hx
    simp only [Option.some.injEq, Prod.mk.injEq] at hx
    obtain ⟨_, h2, _⟩ := hx
    rw [← h2] at hsuccess
    exact hcode hsuccess
  unfold EcDoRpc_RopSyncImportHierarchyChange at h
  split at h
  · split at h
    · split at h
      · exact absurd h (by simp)
      · split at h
        · split at h
          · exact absurd h (by simp)
          · simp only [Option.some.injEq] at h
            exact himport _ _ h
          · exact (hfail _ (by decide) h).elim
        · exact absurd h (by simp)
      · exact (hfail _ (by decide) h).elim
    · exact absurd h (by simp)
  · exact (hfail _ (by decide) h).elim

/-- When `SyncImportMessageChange` calls `emsmdbp_object_set_properties`, it replies
`MAPI_E_SUCCESS` whatever the call returned. -/
theorem message_change_apply_success (store : sync_store)
    (request : SyncImportMessageChange_req) (messageID : Nat) :
    (message_change_apply store request messageID).2.1.error_code = MAPI_E_SUCCESS ∧
    (message_change_apply store request messageID).2.2.set_properties =
      some (store.emsmdbp_object_set_properties messageID request.PropertyValues) :=
  ⟨rfl, rfl⟩

/-- C19. With a store whose `emsmdbp_object_set_properties` fails with `MAPI_E_NO_SUPPORT`,
`SyncImportMessageChange` on the sample message change replies `MAPI_E_SUCCESS` with
`MessageId` 0 and keeps the handle of the message, although the call that sets the properties
has failed; `SyncImportHierarchyChange` with the same store replies `MAPI_E_NO_SUPPORT`. -/
theorem C19_message_change_ignores_set_properties :
    EcDoRpc_RopSyncImportMessageChange sample_store_failing sample_synccontext_handle
        sample_message_change =
      some (MAPI_E_SUCCESS, { error_code := MAPI_E_SUCCESS, u := some { MessageId := 0 } },
        { record_handle := true, set_properties := some MAPI_E_NO_SUPPORT }) ∧
    EcDoRpc_RopSyncImportHierarchyChange sample_store_failing sample_synccontext_handle
        sample_hierarchy_change =
      some (MAPI_E_SUCCESS, { error_code := MAPI_E_NO_SUPPORT, u := none },
        { record_handle := false, set_properties := some MAPI_E_NO_SUPPORT }) := by
  constructor <;> decide

/-! ## Handles that do not resolve to an object of the expected type -/

/-- C20 (counterexample). `SetLocalReplicaMidsetDeleted` on a handle that does not resolve
replies `MAPI_E_SUCCESS`; and `FastTransferSourceCopyTo` on a handle that resolves to a
synccontext, for which the store gives no available properties, replies `MAPI_E_SUCCESS` and
makes no ftcontext. -/
theorem C20_counterexample :
    EcDoRpc_RopSetLocalReplicaMidsetDeleted none =
      (MAPI_E_SUCCESS, { error_code := MAPI_E_SUCCESS, u := none }) ∧
    EcDoRpc_RopFastTransferSourceCopyTo sample_copy_store sample_synccontext_handle
        { Level := 0, PropertyTags := [] } =
      some (MAPI_E_SUCCESS, { error_code := MAPI_E_SUCCESS, u := none }, none) := by
  constructor <;> rfl

/-- C20 (amended). The handlers of `oxcfxics.c` are taken past the five `OPENCHANGE_RETVAL_IF`
checks of their pointer arguments, with which each of them begins.  In each of the cases that
follow the handler returns `MAPI_E_SUCCESS` to the RPC layer.  The nine handlers that work on
a synccontext (`SyncImportMessageChange`, `SyncImportHierarchyChange`, `SyncImportDeletes`,
`SyncUploadStateStreamBegin`, `Continue`, `End`, `SyncImportMessageMove`,
`SyncImportReadStateChanges`, `SyncGetTransferState`) reply `MAPI_E_INVALID_OBJECT` when the
handle does not resolve, carries no object, or carries an object that is not a synccontext;
`SyncConfigure` and `SyncOpenCollector` do so when the object is not a folder,
`GetLocalReplicaIds` when it is not a mailbox, `FastTransferSourceGetBuffer` when it is
neither an ftcontext nor a synccontext; `FastTransferSourceCopyTo` replies
`MAPI_E_INVALID_OBJECT` when the handle does not resolve; and `SetLocalReplicaMidsetDeleted`
replies `MAPI_E_SUCCESS` whatever the handle. -/
theorem C20_invalid_handle :
    (∀ (store : sync_store) (request : SyncImportMessageChange_req) (handle : handle_lookup),
      (∀ sc, handle ≠ some (some (EMSMDBP_OBJECT_SYNCCONTEXT sc))) →
      EcDoRpc_RopSyncImportMessageChange store handle request =
        some (MAPI_E_SUCCESS, { error_code := MAPI_E_INVALID_OBJECT, u := none },
          { record_handle := false, set_properties := none })) ∧
    (∀ (store : sync_store) (request : SyncImportHierarchyChange_req) (handle : handle_lookup),
      (∀ sc, handle ≠ some (some (EMSMDBP_OBJECT_SYNCCONTEXT sc))) →
      EcDoRpc_RopSyncImportHierarchyChange store handle request =
        some (MAPI_E_SUCCESS, { error_code := MAPI_E_INVALID_OBJECT, u := none },
          { record_handle := false, set_properties := none })) ∧
    (∀ (synccontext_is_mapistore : Bool) (emsmdbp_guid_to_replid : GUID → Option Nat)
        (request : SyncImportDeletes_req) (handle : handle_lookup),
      (∀ sc, handle ≠ some (some (EMSMDBP_OBJECT_SYNCCONTEXT sc))) →
      EcDoRpc_RopSyncImportDeletes synccontext_is_mapistore emsmdbp_guid_to_replid handle
          request =
        some (MAPI_E_SUCCESS, { error_code := MAPI_E_INVALID_OBJECT, u := none }, none)) ∧
    (∀ (request : SyncUploadStateStreamBegin_req) (handle : handle_lookup),
      (∀ sc, handle ≠ some (some (EMSMDBP_OBJECT_SYNCCONTEXT sc))) →
      EcDoRpc_RopSyncUploadStateStreamBegin handle request =
        (MAPI_E_SUCCESS, { error_code := MAPI_E_INVALID_OBJECT, u := none }, handle)) ∧
    (∀ (request : SyncUploadStateStreamContinue_req) (handle : handle_lookup),
      (∀ sc, handle ≠ some (some (EMSMDBP_OBJECT_SYNCCONTEXT sc))) →
      EcDoRpc_RopSyncUploadStateStreamContinue handle request =
        (MAPI_E_SUCCESS, { error_code := MAPI_E_INVALID_OBJECT, u := none }, handle)) ∧
    (∀ (IDSET_parse : DATA_BLOB → Bool → Option idset) (handle : handle_lookup),
      (∀ sc, handle ≠ some (some (EMSMDBP_OBJECT_SYNCCONTEXT sc))) →
      EcDoRpc_RopSyncUploadStateStreamEnd IDSET_parse handle =
        (MAPI_E_SUCCESS, { error_code := MAPI_E_INVALID_OBJECT, u := none }, handle)) ∧
    (∀ (store : move_store) (request : SyncImportMessageMove_req) (handle : handle_lookup),
      (∀ sc, handle ≠ some (some (EMSMDBP_OBJECT_SYNCCONTEXT sc))) →
      EcDoRpc_RopSyncImportMessageMove store handle request =
        some (MAPI_E_SUCCESS, { error_code := MAPI_E_INVALID_OBJECT, u := none }, none)) ∧
    (∀ (store : sync_store) (MessageReadStates : List Nat) (handle : handle_lookup),
      (∀ sc, handle ≠ some (some (EMSMDBP_OBJECT_SYNCCONTEXT sc))) →
      EcDoRpc_RopSyncImportReadStateChanges store handle MessageReadStates =
        some (MAPI_E_SUCCESS, { error_code := MAPI_E_INVALID_OBJECT, u := none }, [])) ∧
    (∀ (oxcfxics_ndr_push_transfer_state :
          emsmdbp_object_synccontext → List Nat × emsmdbp_object_synccontext)
        (ftcontext_init : emsmdbp_object_ftcontext) (handle : handle_lookup),
      (∀ sc, handle ≠ some (some (EMSMDBP_OBJECT_SYNCCONTEXT sc))) →
      EcDoRpc_RopSyncGetTransferState oxcfxics_ndr_push_transfer_state ftcontext_init handle =
        (MAPI_E_SUCCESS, { error_code := MAPI_E_INVALID_OBJECT, u := none }, handle, none)) ∧
    (∀ (synccontext_init : emsmdbp_object_synccontext) (tables : folder_tables)
        (request : SyncConfigure_req) (handle : handle_lookup),
      handle ≠ some (some (EMSMDBP_OBJECT_OTHER EMSMDBP_OBJECT_FOLDER)) →
      EcDoRpc_RopSyncConfigure synccontext_init tables handle request =
        some (MAPI_E_SUCCESS, { error_code := MAPI_E_INVALID_OBJECT, u := none }, none)) ∧
    (∀ (synccontext_init : emsmdbp_object_synccontext) (IsContentsCollector : Nat)
        (handle : handle_lookup),
      handle ≠ some (some (EMSMDBP_OBJECT_OTHER EMSMDBP_OBJECT_FOLDER)) →
      EcDoRpc_RopSyncOpenCollector synccontext_init handle IsContentsCollector =
        (MAPI_E_SUCCESS, { error_code := MAPI_E_INVALID_OBJECT, u := none }, none)) ∧
    (∀ (emsmdbp_replid_to_guid : GUID) (openchangedb_reserve_fmid_range : Nat → Nat)
        (IdCount : Nat) (handle : handle_lookup),
      handle ≠ some (some (EMSMDBP_OBJECT_OTHER EMSMDBP_OBJECT_MAILBOX)) →
      EcDoRpc_RopGetLocalReplicaIds emsmdbp_replid_to_guid openchangedb_reserve_fmid_range
          handle IdCount =
        (MAPI_E_SUCCESS, { error_code := MAPI_E_INVALID_OBJECT, u := none })) ∧
    (∀ (prepare_with_messageChange prepare_with_folderChange :
          emsmdbp_object_synccontext → emsmdbp_object_synccontext)
        (request : FastTransferSourceGetBuffer_req) (handle : handle_lookup),
      (∀ ft, handle ≠ some (some (EMSMDBP_OBJECT_FTCONTEXT ft))) →
      (∀ sc, handle ≠ some (some (EMSMDBP_OBJECT_SYNCCONTEXT sc))) →
      EcDoRpc_RopFastTransferSourceGetBuffer prepare_with_messageChange
          prepare_with_folderChange handle request =
        some (MAPI_E_SUCCESS, { error_code := MAPI_E_INVALID_OBJECT, u := none }, handle)) ∧
    (∀ (store : copy_store) (request : FastTransferSourceCopyTo_req),
      EcDoRpc_RopFastTransferSourceCopyTo store none request =
        some (MAPI_E_SUCCESS, { error_code := MAPI_E_INVALID_OBJECT, u := none }, none)) ∧
    (∀ (handle : handle_lookup),
      EcDoRpc_RopSetLocalReplicaMidsetDeleted handle =
        (MAPI_E_SUCCESS, { error_code := MAPI_E_SUCCESS, u := none })) := by
  refine ⟨?_, ?_, ?_, ?_, ?_, ?_, ?_, ?_, ?_, ?_, ?_, ?_, ?_, ?_, ?_⟩
  · intro store request handle h
    match handle, h with
    | none, _ => rfl
    | some none, _ => rfl
    | some (some (EMSMDBP_OBJECT_FTCONTEXT _)), _ => rfl
    | some (some (EMSMDBP_OBJECT_OTHER _)), _ => rfl
    | some (some (EMSMDBP_OBJECT_SYNCCONTEXT sc)), h => exact absurd rfl (h sc)
  · intro store request handle h
    match handle, h with
    | none, _ => rfl
    | some none, _ => rfl
    | some (some (EMSMDBP_OBJECT_FTCONTEXT _)), _ => rfl
    | some (some (EMSMDBP_OBJECT_OTHER _)), _ => rfl
    | some (some (EMSMDBP_OBJECT_SYNCCONTEXT sc)), h => exact absurd rfl (h sc)
  · intro m g request handle h
    match handle, h with
    | none, _ => rfl
    | some none, _ => rfl
    | some (some (EMSMDBP_OBJECT_FTCONTEXT _)), _ => rfl
    | some (some (EMSMDBP_OBJECT_OTHER _)), _ => rfl
    | some (some (EMSMDBP_OBJECT_SYNCCONTEXT sc)), h => exact absurd rfl (h sc)
  · intro request handle h
    match handle, h with
    | none, _ => rfl
    | some none, _ => rfl
    | some (some (EMSMDBP_OBJECT_FTCONTEXT _)), _ => rfl
    | some (some (EMSMDBP_OBJECT_OTHER _)), _ => rfl
    | some (some (EMSMDBP_OBJECT_SYNCCONTEXT sc)), h => exact absurd rfl (h sc)
  · intro request handle h
    match handle, h with
    | none, _ => rfl
    | some none, _ => rfl
    | some (some (EMSMDBP_OBJECT_FTCONTEXT _)), _ => rfl
    | some (some (EMSMDBP_OBJECT_OTHER _)), _ => rfl
    | some (some (EMSMDBP_OBJECT_SYNCCONTEXT sc)), h => exact absurd rfl (h sc)
  · intro parse handle h
    match handle, h with
    | none, _ => rfl
    | some none, _ => rfl
    | some (some (EMSMDBP_OBJECT_FTCONTEXT _)), _ => rfl
    | some (some (EMSMDBP_OBJECT_OTHER _)), _ => rfl
    | some (some (EMSMDBP_OBJECT_SYNCCONTEXT sc)), h => exact absurd rfl (h sc)
  · intro store request handle h
    match handle, h with
    | none, _ => rfl
    | some none, _ => rfl
    | some (some (EMSMDBP_OBJECT_FTCONTEXT _)), _ => rfl
    | some (some (EMSMDBP_OBJECT_OTHER _)), _ => rfl
    | some (some (EMSMDBP_OBJECT_SYNCCONTEXT sc)), h => exact absurd rfl (h sc)
  · intro store states handle h
    match handle, h with
    | none, _ => rfl
    | some none, _ => rfl
    | some (some (EMSMDBP_OBJECT_FTCONTEXT _)), _ => rfl
    | some (some (EMSMDBP_OBJECT_OTHER _)), _ => rfl
    | some (some (EMSMDBP_OBJECT_SYNCCONTEXT sc)), h => exact absurd rfl (h sc)
  · intro push init handle h
    match handle, h with
    | none, _ => rfl
    | some none, _ => rfl
    | some (some (EMSMDBP_OBJECT_FTCONTEXT _)), _ => rfl
    | some (some (EMSMDBP_OBJECT_OTHER _)), _ => rfl
    | some (some (EMSMDBP_OBJECT_SYNCCONTEXT sc)), h => exact absurd rfl (h sc)
  · intro init tables request handle h
    match handle, h with
    | none, _ => rfl
    | some none, _ => rfl
    | some (some (EMSMDBP_OBJECT_FTCONTEXT _)), _ => rfl
    | some (some (EMSMDBP_OBJECT_SYNCCONTEXT _)), _ => rfl
    | some (some (EMSMDBP_OBJECT_OTHER type)), h =>
      have ht : type ≠ EMSMDBP_OBJECT_FOLDER := fun heq => h (by rw [heq])
      simp only [EcDoRpc_RopSyncConfigure, ne_eq, ht, not_false_eq_true, if_true]
  · intro init collector handle h
    match handle, h with
    | none, _ => rfl
    | some none, _ => rfl
    | some (some (EMSMDBP_OBJECT_FTCONTEXT _)), _ => rfl
    | some (some (EMSMDBP_OBJECT_SYNCCONTEXT _)), _ => rfl
    | some (some (EMSMDBP_OBJECT_OTHER type)), h =>
      have ht : type ≠ EMSMDBP_OBJECT_FOLDER := fun heq => h (by rw [heq])
      simp only [EcDoRpc_RopSyncOpenCollector, ne_eq, ht, not_false_eq_true, if_true]
  · intro guid reserve count handle h
    match handle, h with
    | none, _ => rfl
    | some none, _ => rfl
    | some (some (EMSMDBP_OBJECT_FTCONTEXT _)), _ => rfl
    | some (some (EMSMDBP_OBJECT_SYNCCONTEXT _)), _ => rfl
    | some (some (EMSMDBP_OBJECT_OTHER type)), h =>
      have ht : type ≠ EMSMDBP_OBJECT_MAILBOX := fun heq => h (by rw [heq])
      simp only [EcDoRpc_RopGetLocalReplicaIds, ne_eq, ht, not_false_eq_true, if_true]
  · intro pm pf request handle hft hsc
    match handle, hft, hsc with
    | none, _, _ => rfl
    | some none, _, _ => rfl
    | some (some (EMSMDBP_OBJECT_OTHER _)), _, _ => rfl
    | some (some (EMSMDBP_OBJECT_FTCONTEXT ft)), hft, _ => exact absurd rfl (hft ft)
    | some (some (EMSMDBP_OBJECT_SYNCCONTEXT sc)), _, hsc => exact absurd rfl (hsc sc)
  · intro store request
    rfl
  · intro handle
    rfl

/-- C20 (amended), at a concrete input: `SyncUploadStateStreamBegin` on a handle that resolves
to a folder. -/
theorem C20_witness :
    EcDoRpc_RopSyncUploadStateStreamBegin sample_folder_handle
        { StateProperty := PidTagIdsetGiven } =
      (MAPI_E_SUCCESS, { error_code := MAPI_E_INVALID_OBJECT, u := none },
        sample_folder_handle) :=
  C20_invalid_handle.2.2.2.1 { StateProperty := PidTagIdsetGiven } sample_folder_handle
    (by intro sc h; cases h)

/-! ## Rejected upload-state calls -/

/-- C30. A rejected upload-state call leaves the synccontext as it was.  Whenever
`SyncUploadStateStreamBegin` replies `MAPI_E_NOT_INITIALIZED` or `MAPI_E_INVALID_PARAMETER`,
and whenever `SyncUploadStateStreamContinue` or `SyncUploadStateStreamEnd` replies
`MAPI_E_NOT_INITIALIZED`, the object behind the handle after the call is the object before the
call (so `state_property`, the staged buffer and the four stored sets are the same).  `Begin`
replies `MAPI_E_NOT_INITIALIZED` exactly when a property is being staged, whatever the
property of the request, and `MAPI_E_INVALID_PARAMETER` exactly when none is staged and the
property of the request is not one of the four. -/
theorem C30_rejected_upload_state_unchanged
    (IDSET_parse : DATA_BLOB → Bool → Option idset) (sc : emsmdbp_object_synccontext) :
    (∀ request,
      ((EcDoRpc_RopSyncUploadStateStreamBegin
          (some (some (EMSMDBP_OBJECT_SYNCCONTEXT sc))) request).2.1.error_code =
          MAPI_E_NOT_INITIALIZED ∨
        (EcDoRpc_RopSyncUploadStateStreamBegin
          (some (some (EMSMDBP_OBJECT_SYNCCONTEXT sc))) request).2.1.error_code =
          MAPI_E_INVALID_PARAMETER) →
      (EcDoRpc_RopSyncUploadStateStreamBegin
        (some (some (EMSMDBP_OBJECT_SYNCCONTEXT sc))) request).2.2 =
        some (some (EMSMDBP_OBJECT_SYNCCONTEXT sc))) ∧
    (∀ request,
      (EcDoRpc_RopSyncUploadStateStreamContinue
        (some (some (EMSMDBP_OBJECT_SYNCCONTEXT sc))) request).2.1.error_code =
        MAPI_E_NOT_INITIALIZED →
      (EcDoRpc_RopSyncUploadStateStreamContinue
        (some (some (EMSMDBP_OBJECT_SYNCCONTEXT sc))) request).2.2 =
        some (some (EMSMDBP_OBJECT_SYNCCONTEXT sc))) ∧
    ((EcDoRpc_RopSyncUploadStateStreamEnd IDSET_parse
        (some (some (EMSMDBP_OBJECT_SYNCCONTEXT sc)))).2.1.error_code =
        MAPI_E_NOT_INITIALIZED →
      (EcDoRpc_RopSyncUploadStateStreamEnd IDSET_parse
        (some (some (EMSMDBP_OBJECT_SYNCCONTEXT sc)))).2.2 =
        some (some (EMSMDBP_OBJECT_SYNCCONTEXT sc))) ∧
    (∀ request,
      ((EcDoRpc_RopSyncUploadStateStreamBegin
          (some (some (EMSMDBP_OBJECT_SYNCCONTEXT sc))) request).2.1.error_code =
          MAPI_E_NOT_INITIALIZED ↔ sc.state_property ≠ 0) ∧
      ((EcDoRpc_RopSyncUploadStateStreamBegin
          (some (some (EMSMDBP_OBJECT_SYNCCONTEXT sc))) request).2.1.error_code =
          MAPI_E_INVALID_PARAMETER ↔
        (sc.state_property = 0 ∧
          ¬ (request.StateProperty = PidTagIdsetGiven ∨
            request.StateProperty = PidTagCnsetSeen ∨
            request.StateProperty = PidTagCnsetSeenFAI ∨
            request.StateProperty = PidTagCnsetRead)))) ∧
    ((EcDoRpc_RopSyncUploadStateStreamEnd IDSET_parse
        (some (some (EMSMDBP_OBJECT_SYNCCONTEXT sc)))).2.1.error_code =
        MAPI_E_NOT_INITIALIZED ↔ sc.state_property = 0) ∧
    (∀ request,
      (EcDoRpc_RopSyncUploadStateStreamContinue
        (some (some (EMSMDBP_OBJECT_SYNCCONTEXT sc))) request).2.1.error_code =
        MAPI_E_NOT_INITIALIZED ↔ sc.state_property = 0) := by
  refine ⟨?_, ?_, ?_, ?_, ?_, ?_⟩
  · intro request h
    unfold EcDoRpc_RopSyncUploadStateStreamBegin at h ⊢
    simp only at h ⊢
    split
    · rfl
    · split
      · rfl
      · rename_i h1 h2
        rw [if_neg h1, if_neg h2] at h
        rcases h with h | h <;> exact absurd h (by simp)
  · intro request h
    unfold EcDoRpc_RopSyncUploadStateStreamContinue at h ⊢
    simp only at h ⊢
    split
    · rfl
    · rename_i h1
      rw [if_neg h1] at h
      exact absurd h (by simp)
  · intro h
    unfold EcDoRpc_RopSyncUploadStateStreamEnd at h ⊢
    simp only at h ⊢
    split
    · rfl
    · rename_i h1
      rw [if_neg h1] at h
      exact absurd h (by simp)
  · intro request
    unfold EcDoRpc_RopSyncUploadStateStreamBegin
    simp only
    by_cases h1 : sc.state_property ≠ 0
    · rw [if_pos h1]
      simp only [true_iff, ne_eq]
      refine ⟨h1, ?_⟩
      constructor
      · intro h; exact absurd h (by simp)
      · intro h; exact absurd h.1 h1
    · rw [if_neg h1]
      have h0 : sc.state_property = 0 := by simpa using h1
      by_cases h2 : ¬ (request.StateProperty = PidTagIdsetGiven ∨
            request.StateProperty = PidTagCnsetSeen ∨
            request.StateProperty = PidTagCnsetSeenFAI ∨
            request.StateProperty = PidTagCnsetRead)
      · rw [if_pos h2]
        constructor
        · constructor
          · intro h; exact absurd h (by simp)
          · intro h; exact absurd h h1
        · constructor
          · intro _; exact ⟨h0, h2⟩
          · intro _; rfl
      · rw [if_neg h2]
        constructor
        · constructor
          · intro h; exact absurd h (by simp)
          · intro h; exact absurd h h1
        · constructor
          · intro h; exact absurd h (by simp)
          · intro h; exact absurd h.2 h2
  · unfold EcDoRpc_RopSyncUploadStateStreamEnd
    simp only
    by_cases h1 : sc.state_property = 0
    · rw [if_pos h1]; simp [h1]
    · rw [if_neg h1]
      constructor
      · intro h; exact absurd h (by simp)
      · intro h; exact absurd h h1
  · intro request
    unfold EcDoRpc_RopSyncUploadStateStreamContinue
    simp only
    by_cases h1 : sc.state_property = 0
    · rw [if_pos h1]; simp [h1]
    · rw [if_neg h1]
      constructor
      · intro h; exact absurd h (by simp)
      · intro h; exact absurd h h1

/-- C30, at a concrete input: `Begin` with a tag that is not a state property on the sample
synccontext while it stages `PidTagCnsetSeen` replies `MAPI_E_NOT_INITIALIZED` and leaves the
synccontext as it was. -/
theorem C30_witness :
    (EcDoRpc_RopSyncUploadStateStreamBegin
        (some (some (EMSMDBP_OBJECT_SYNCCONTEXT (sample_synccontext PidTagCnsetSeen [1, 2]))))
        { StateProperty := 0x0037001f }).2.1.error_code = MAPI_E_NOT_INITIALIZED ∧
    (EcDoRpc_RopSyncUploadStateStreamBegin
        (some (some (EMSMDBP_OBJECT_SYNCCONTEXT (sample_synccontext PidTagCnsetSeen [1, 2]))))
        { StateProperty := 0x0037001f }).2.2 =
      some (some (EMSMDBP_OBJECT_SYNCCONTEXT (sample_synccontext PidTagCnsetSeen [1, 2]))) :=
  ⟨by decide,
    (C30_rejected_upload_state_unchanged (fun _ _ => none)
      (sample_synccontext PidTagCnsetSeen [1, 2])).1 { StateProperty := 0x0037001f }
      (Or.inl (by decide))⟩

/-! ## The identifiers of `SyncImportMessageMove` -/

theorem or_mod_two_pow (a b n : Nat) : (a ||| b) % 2 ^ n = a % 2 ^ n ||| b % 2 ^ n := by
  apply Nat.eq_of_testBit_eq
  intro i
  simp only [Nat.testBit_mod_two_pow, Nat.testBit_or]
  cases decide (i < n) <;> simp

/-- Once the base of the loop is a multiple of `2 ^ 48`, the low 48 bits of the accumulator
stay as they are. -/
theorem source_key_accumulate_high : ∀ (bytes : List Nat) (fmid base : Nat),
    base % 2 ^ 48 = 0 →
    source_key_accumulate bytes fmid base % 2 ^ 48 = fmid % 2 ^ 48 := by
  intro bytes
  induction bytes with
  | nil => intro fmid base _; simp [source_key_accumulate]
  | cons b bs ih =>
    intro fmid base hbase
    simp only [source_key_accumulate]
    have hd : (2 : Nat) ^ 48 ∣ 2 ^ 64 := Nat.pow_dvd_pow 2 (by decide)
    have hdb : (2 : Nat) ^ 48 ∣ base := Nat.dvd_of_mod_eq_zero hbase
    have hnext : base * 2 ^ 8 % 2 ^ 64 % 2 ^ 48 = 0 := by
      rw [Nat.mod_mod_of_dvd _ hd]
      exact Nat.mod_eq_zero_of_dvd (Dvd.dvd.mul_right hdb _)
    have hterm : b % 256 * base % 2 ^ 64 % 2 ^ 48 = 0 := by
      rw [Nat.mod_mod_of_dvd _ hd]
      exact Nat.mod_eq_zero_of_dvd (Dvd.dvd.mul_left hdb _)
    rw [ih _ _ hnext, or_mod_two_pow, hterm, Nat.or_zero]

/-- The loop over a list of bytes in two parts. -/
theorem source_key_accumulate_append : ∀ (xs ys : List Nat) (e fmid : Nat), fmid < 2 ^ e →
    e + 8 * xs.length < 64 →
    source_key_accumulate (xs ++ ys) fmid (2 ^ e) =
      source_key_accumulate ys (fmid + 2 ^ e * le_value xs) (2 ^ (e + 8 * xs.length)) := by
  intro xs
  induction xs with
  | nil => intro ys e fmid _ _; simp [le_value]
  | cons b bs ih =>
    intro ys e fmid hf he
    simp only [List.length_cons] at he
    simp only [List.cons_append, source_key_accumulate, le_value, List.length_cons]
    have hb : b % 256 < 256 := Nat.mod_lt _ (by decide)
    have hpe : 2 ^ e * 2 ^ 8 = 2 ^ (e + 8) := (Nat.pow_add 2 e 8).symm
    have hlt64 : 2 ^ (e + 8) < 2 ^ 64 := Nat.pow_lt_pow_right (by decide) (by omega)
    have hprod : 2 ^ e * (b % 256) + fmid < 2 ^ (e + 8) := by
      rw [← hpe]
      have : 2 ^ e * (b % 256) + 2 ^ e ≤ 2 ^ e * 2 ^ 8 := by
        rw [← Nat.mul_succ]
        exact Nat.mul_le_mul_left _ hb
      omega
    have hterm : b % 256 * 2 ^ e % 2 ^ 64 = 2 ^ e * (b % 256) := by
      rw [Nat.mul_comm]
      apply Nat.mod_eq_of_lt
      omega
    have hbase : 2 ^ e * 2 ^ 8 % 2 ^ 64 = 2 ^ (e + 8) := by
      rw [hpe]; exact Nat.mod_eq_of_lt hlt64
    rw [hterm, hbase, Nat.or_comm, ← Nat.mul_add_lt_is_or hf]
    show source_key_accumulate (bs ++ ys) _ _ = _
    rw [ih ys (e + 8) _ hprod (by omega), ← hpe]
    have h1 : e + 8 + 8 * bs.length = e + 8 * (bs.length + 1) := by ring
    have h2 : 2 ^ e * (b % 256) + fmid + 2 ^ e * 2 ^ 8 * le_value bs =
        fmid + 2 ^ e * (b % 256 + 256 * le_value bs) := by ring
    rw [h1, h2]

/-- What the loop and the shift of `convertIdToFMID` compute: only the first six bytes count. -/
theorem source_key_accumulate_shift (bytes : List Nat) :
    (source_key_accumulate bytes 0 1 <<< 16) % 2 ^ 64 ||| 1 =
      2 ^ 16 * le_value (bytes.take 6) + 1 := by
  have hlen : (bytes.take 6).length ≤ 6 := by
    rw [List.length_take]; exact Nat.min_le_left _ _
  have happ := source_key_accumulate_append (bytes.take 6) (bytes.drop 6) 0 0 (by decide)
    (by omega)
  rw [List.take_append_drop] at happ
  simp only [Nat.pow_zero, Nat.zero_add, Nat.one_mul] at happ
  have hlt := le_value_lt (bytes.take 6)
  have hlt48 : le_value (bytes.take 6) < 2 ^ 48 :=
    lt_of_lt_of_le hlt (Nat.pow_le_pow_right (by decide) (by omega))
  have hlow : source_key_accumulate bytes 0 1 % 2 ^ 48 = le_value (bytes.take 6) := by
    rw [happ]
    by_cases h6 : (bytes.take 6).length = 6
    · rw [h6]
      rw [source_key_accumulate_high _ _ _ (by decide)]
      exact Nat.mod_eq_of_lt hlt48
    · have hdrop : bytes.drop 6 = [] := by
        apply List.drop_eq_nil_of_le
        rw [List.length_take] at h6 hlen
        omega
      rw [hdrop]
      simp only [source_key_accumulate]
      exact Nat.mod_eq_of_lt hlt48
  have hshift : (source_key_accumulate bytes 0 1 <<< 16) % 2 ^ 64 =
      2 ^ 16 * le_value (bytes.take 6) := by
    rw [Nat.shiftLeft_eq]
    have h64 : (2 : Nat) ^ 64 = 2 ^ 48 * 2 ^ 16 := by decide
    rw [h64, Nat.mul_mod_mul_right, hlow, Nat.mul_comm]
  rw [hshift]
  exact (Nat.mul_add_lt_is_or (by decide) _).symm

/-- C29 (code bug). `convertIdToFMID` does not look at the status of `GUID_from_string`
(line 2290).  On a blob of fewer than 17 bytes it returns `false`.  On a blob of 17 bytes or
more that the parser refuses, the comparison of line 2291 reads a GUID that was never
written: the result is undefined, and this is the only way to an undefined result.  The
function returns `false` exactly when the blob has fewer than 17 bytes or the parser gives a
GUID that is not the GUID of the local replica.  When the parser gives the GUID of the local
replica and the blob has 17 bytes or more, whatever its size, the identifier written is
`globcnt * 2 ^ 16 + 1`, where `globcnt` is the little-endian value of the at most 6 bytes at
the offsets 16 to 21: the low 16 bits (the replica id) are 1, the rest is `globcnt`, which is
below `2 ^ 48`, and a second blob that the parser reads as the same GUID and that agrees on
the bytes at the offsets 16 to 21 gives the same result. -/
theorem C29_convertIdToFMID_parser_status (GUID_from_string : List Nat → Option GUID)
    (replica_guid : GUID) (data : List Nat) (size : Nat) :
    (size < 17 → convertIdToFMID GUID_from_string replica_guid data size = some none) ∧
    (convertIdToFMID GUID_from_string replica_guid data size = none ↔
      (17 ≤ size ∧ GUID_from_string data = none)) ∧
    (convertIdToFMID GUID_from_string replica_guid data size = some none ↔
      (size < 17 ∨ ∃ guid, GUID_from_string data = some guid ∧ replica_guid ≠ guid)) ∧
    (17 ≤ size → GUID_from_string data = some replica_guid →
      convertIdToFMID GUID_from_string replica_guid data size =
        some (some (2 ^ 16 * le_value (((data.take size).drop 16).take 6) + 1))) ∧
    (2 ^ 16 * le_value (((data.take size).drop 16).take 6) + 1) % 2 ^ 16 = 1 ∧
    (2 ^ 16 * le_value (((data.take size).drop 16).take 6) + 1) / 2 ^ 16 =
      le_value (((data.take size).drop 16).take 6) ∧
    le_value (((data.take size).drop 16).take 6) < 2 ^ 48 ∧
    (∀ data2 size2, GUID_from_string data2 = GUID_from_string data →
      GUID_from_string data ≠ none → 17 ≤ size → 17 ≤ size2 →
      ((data2.take size2).drop 16).take 6 = ((data.take size).drop 16).take 6 →
      convertIdToFMID GUID_from_string replica_guid data2 size2 =
        convertIdToFMID GUID_from_string replica_guid data size) := by
  have hval : ∀ (d : List Nat) (s : Nat) (guid : GUID), GUID_from_string d = some guid →
      17 ≤ s →
      convertIdToFMID GUID_from_string replica_guid d s =
        if replica_guid ≠ guid then some none
        else some (some (2 ^ 16 * le_value (((d.take s).drop 16).take 6) + 1)) := by
    intro d s guid hd hs
    unfold convertIdToFMID
    rw [if_neg (by omega), hd]
    simp only
    by_cases hne : replica_guid ≠ guid
    · rw [if_pos hne, if_pos hne]
    · rw [if_neg hne, if_neg hne, source_key_accumulate_shift]
  have hshort : size < 17 →
      convertIdToFMID GUID_from_string replica_guid data size = some none := by
    intro hs
    unfold convertIdToFMID
    rw [if_pos hs]
  have hrefused : 17 ≤ size → GUID_from_string data = none →
      convertIdToFMID GUID_from_string replica_guid data size = none := by
    intro hs hd
    unfold convertIdToFMID
    rw [if_neg (by omega), hd]
  have hlen : ((((data.take size).drop 16).take 6)).length ≤ 6 := by
    rw [List.length_take]; exact Nat.min_le_left _ _
  have hlt := le_value_lt (((data.take size).drop 16).take 6)
  have hlt48 : le_value (((data.take size).drop 16).take 6) < 2 ^ 48 :=
    lt_of_lt_of_le hlt (Nat.pow_le_pow_right (by decide) (by omega))
  refine ⟨hshort, ?_, ?_, ?_, ?_, ?_, hlt48, ?_⟩
  · constructor
    · intro h
      by_cases hs : size < 17
      · rw [hshort hs] at h
        exact absurd h (by simp)
      · refine ⟨by omega, ?_⟩
        cases hd : GUID_from_string data with
        | none => rfl
        | some guid =>
          rw [hval data size guid hd (by omega)] at h
          by_cases hne : replica_guid ≠ guid
          · rw [if_pos hne] at h
            exact absurd h (by simp)
          · rw [if_neg hne] at h
            exact absurd h (by simp)
    · intro h
      exact hrefused h.1 h.2
  · constructor
    · intro h
      by_cases hs : size < 17
      · exact Or.inl hs
      · right
        cases hd : GUID_from_string data with
        | none =>
          rw [hrefused (by omega) hd] at h
          exact absurd h (by simp)
        | some guid =>
          refine ⟨guid, rfl, ?_⟩
          intro heq
          rw [hval data size guid hd (by omega), if_neg (by simpa using heq)] at h
          exact absurd h (by simp)
    · intro h
      cases h with
      | inl hs => exact hshort hs
      | inr h =>
        obtain ⟨guid, hd, hne⟩ := h
        by_cases hs : size < 17
        · exact hshort hs
        · rw [hval data size guid hd (by omega), if_pos hne]
  · intro hs hd
    rw [hval data size replica_guid hd hs, if_neg (by simp)]
  · generalize le_value (((data.take size).drop 16).take 6) = v
    omega
  · generalize le_value (((data.take size).drop 16).take 6) = v
    omega
  · intro data2 size2 h2 hsome hs hs2 heq
    cases hd : GUID_from_string data with
    | none => exact absurd hd hsome
    | some guid =>
      rw [hd] at h2
      rw [hval data size guid hd hs, hval data2 size2 guid h2 hs2, heq]

/-- The sample parser on `sample_id_blob`: the C string has 16 bytes, the octets of
`sample_replica_guid`. -/
theorem sample_GUID_from_string_id_blob :
    sample_GUID_from_string sample_id_blob = some sample_replica_guid := by
  rw [sample_GUID_from_string, if_pos (by decide), GUID.of_bytes, if_pos (by decide)]
  congr 2
  funext i
  fin_cases i <;> rfl

/-- C29, at concrete inputs, with `sample_GUID_from_string` for the parser and
`sample_replica_guid` for the local replica.  On `sample_source_key_blob` (22 bytes, of which
none is zero) the parser fails and the result is undefined.  On `sample_id_blob` (26 bytes)
the parser gives the GUID of the replica and the identifier is made of the six bytes
0, 2, 3, 4, 5, 6 at the offsets 16 to 21. -/
theorem C29_witness :
    convertIdToFMID sample_GUID_from_string sample_replica_guid sample_source_key_blob 22 =
      none ∧
    convertIdToFMID sample_GUID_from_string sample_replica_guid sample_id_blob 26 =
      some (some (2 ^ 16 * 0x060504030200 + 1)) :=
  ⟨(C29_convertIdToFMID_parser_status sample_GUID_from_string sample_replica_guid
      sample_source_key_blob 22).2.1.mpr ⟨by decide, by decide⟩,
    (C29_convertIdToFMID_parser_status sample_GUID_from_string sample_replica_guid
      sample_id_blob 26).2.2.2.1 (by decide) sample_GUID_from_string_id_blob⟩

/-! ## Where the cutmarks of the property encoder lie -/

/-- C22 (counterexample). For the one property `PR_MESSAGE_SIZE` (`0x0e080003`, of type
`PT_LONG`) with the value 7, the encoder pushes the 8 bytes `03 00 08 0e 07 00 00 00`, one
complete block from offset 0 to offset 8 whose value begins at offset 4, and records the
cutmarks 4 and 8: the cutmark 4 is not the end of a block, it lies between the tag and the
value. -/
theorem C22_counterexample :
    (oxcfxics_ndr_push_properties (fun _ => none) ndr_push_init_ctx [] [PR_MESSAGE_SIZE]
        [.uint32 7] [MAPI_E_SUCCESS]).map (fun r => (r.1.data, r.2)) =
      some ([0x03, 0x00, 0x08, 0x0e, 0x07, 0x00, 0x00, 0x00], [4, 8]) ∧
    property_blocks (fun _ => none) ndr_push_init_ctx [PR_MESSAGE_SIZE] [.uint32 7]
        [MAPI_E_SUCCESS] = some [{ start := 0, tag_end := 4, block_end := 8 }] ∧
    ¬ (∀ m ∈ [4, 8], ∃ b ∈ [({ start := 0, tag_end := 4, block_end := 8 } : property_block)],
        m = b.block_end) := by
  refine ⟨by decide, by decide, by decide⟩

/-- C22 (amended). Whenever `oxcfxics_ndr_push_properties` returns, the cutmarks it has
recorded are, for every complete block it has pushed and in the order of the blocks, two
offsets: the offset where the tag of the block (with the name of a named property) ends and
the value begins, and the offset where the block ends.  The blocks follow one another without
a gap from the offset at entry to the offset at exit, the tag of a block is not empty, and so
the first cutmark of a block lies strictly inside the block unless its value is empty. -/
theorem C22_cutmarks_after_tag_and_after_value (get_nameid : Nat → Option MAPINAMEID) :
    ∀ (properties : List Nat) (ndr : ndr_push) (cutmarks : List Nat)
      (data_pointers : List prop_data) (retvals : List MAPISTATUS)
      (ndr1 : ndr_push) (cutmarks1 : List Nat),
      oxcfxics_ndr_push_properties get_nameid ndr cutmarks properties data_pointers retvals =
        some (ndr1, cutmarks1) →
      ∃ blocks, property_blocks get_nameid ndr properties data_pointers retvals = some blocks ∧
        cutmarks1 = cutmarks ++ blocks.flatMap (fun b => [b.tag_end, b.block_end]) ∧
        (∀ b ∈ blocks, b.start < b.tag_end ∧ b.tag_end ≤ b.block_end) ∧
        List.Chain' (fun a b => a.block_end = b.start) blocks ∧
        (∀ b ∈ blocks.head?, b.start = ndr.offset) ∧
        (∀ b ∈ blocks.getLast?, b.block_end = ndr1.offset) ∧
        (blocks = [] → ndr1.offset = ndr.offset) := by
  intro properties
  induction properties with
  | nil =>
    intro ndr cutmarks data_pointers retvals ndr1 cutmarks1 h
    simp only [oxcfxics_ndr_push_properties, Option.some.injEq, Prod.mk.injEq] at h
    obtain ⟨rfl, rfl⟩ := h
    exact ⟨[], by simp [property_blocks], by simp, by simp, List.chain'_nil, by simp, by simp,
      fun _ => rfl⟩
  | cons p properties ih =>
    intro ndr cutmarks data_pointers retvals ndr1 cutmarks1 h
    cases retvals with
    | nil => simp [oxcfxics_ndr_push_properties] at h
    | cons rv retvals =>
      rw [oxcfxics_ndr_push_properties] at h
      rw [property_blocks]
      by_cases hrv : rv = MAPI_E_SUCCESS
      · rw [if_pos hrv] at h ⊢
        cases htag : push_property_tag get_nameid ndr p with
        | none =>
          rw [htag] at h
          exact ih _ _ _ _ _ _ h
        | some o =>
          cases o with
          | none => rw [htag] at h; simp at h
          | some ndr2 =>
            rw [htag] at h
            simp only at h ⊢
            have htago := push_property_tag_offset _ _ _ _ htag
            cases data_pointers with
            | nil => simp at h
            | cons v data_pointers =>
              simp only at h ⊢
              cases hval : push_property_value ndr2 p v with
              | none => rw [hval] at h; simp at h
              | some ndr3 =>
                rw [hval] at h
                simp only at h ⊢
                obtain ⟨hvle, _⟩ := push_property_value_offset _ _ _ _ hval
                obtain ⟨blocks, hb, hcm, hin, hchain, hhead, hlast, hnil⟩ := ih _ _ _ _ _ _ h
                rw [hb]
                refine ⟨_, rfl, ?_, ?_, ?_, ?_, ?_, ?_⟩
                · rw [hcm]; simp
                · intro b hmem
                  simp only [List.mem_cons] at hmem
                  rcases hmem with rfl | hmem
                  · exact ⟨htago, hvle⟩
                  · exact hin b hmem
                · cases blocks with
                  | nil => exact List.chain'_singleton _
                  | cons b0 rest =>
                    refine List.Chain'.cons ?_ hchain
                    exact (hhead b0 (by simp)).symm
                · intro b hmem
                  simp only [List.head?_cons, Option.mem_def, Option.some.injEq] at hmem
                  subst hmem
                  rfl
                · intro b hmem
                  cases blocks with
                  | nil =>
                    simp only [List.getLast?_singleton, Option.mem_def,
                      Option.some.injEq] at hmem
                    subst hmem
                    exact (hnil rfl).symm
                  | cons b0 rest =>
                    rw [List.getLast?_cons_cons] at hmem
                    exact hlast b hmem
                · intro hcontra
                  exact absurd hcontra (by simp)
      · rw [if_neg hrv] at h ⊢
        exact ih _ _ _ _ _ _ h

/-- C22 amended, at a concrete input: the named property `0x80010003` and the `PT_UNICODE`
property `0x1000001f`, pushed on a fresh context, give two blocks and four cutmarks. -/
theorem C22_witness :
    ∃ blocks, property_blocks sample_get_nameid ndr_push_init_ctx
        [sample_named_tag, sample_unicode_tag] [.uint32 7, .string "a"]
        [MAPI_E_SUCCESS, MAPI_E_SUCCESS] = some blocks ∧
      [27, 31, 35, 43] = [] ++ blocks.flatMap (fun b => [b.tag_end, b.block_end]) ∧
      (∀ b ∈ blocks, b.start < b.tag_end ∧ b.tag_end ≤ b.block_end) ∧
      List.Chain' (fun a b => a.block_end = b.start) blocks ∧
      (∀ b ∈ blocks.head?, b.start = ndr_push_init_ctx.offset) ∧
      (∀ b ∈ blocks.getLast?, b.block_end = 43) ∧
      (blocks = [] → 43 = ndr_push_init_ctx.offset) :=
  C22_cutmarks_after_tag_and_after_value sample_get_nameid
    [sample_named_tag, sample_unicode_tag] ndr_push_init_ctx []
    [.uint32 7, .string "a"] [MAPI_E_SUCCESS, MAPI_E_SUCCESS]
    (ndr_push.mk
      [3, 0, 1, 0x80, 0, 0, 0, 0, 0, 0, 0, 0, 0, 0, 0, 0, 0, 0, 0, 0,
        1, 0x61, 0, 0x62, 0, 0, 0, 7, 0, 0, 0,
        0x1f, 0, 0, 0x10, 4, 0, 0, 0, 0x61, 0, 0, 0]
      { LIBNDR_FLAG_NOALIGN := true, LIBNDR_FLAG_STR_NULLTERM := true,
        LIBNDR_FLAG_STR_ASCII := false })
    [27, 31, 35, 43] (by decide)

/-! ## Entries whose status is not success -/

/-- An entry whose status is not `MAPI_E_SUCCESS` is passed over: nothing is pushed, no
cutmark is recorded and the data pointer is not read. -/
theorem push_properties_skip (get_nameid : Nat → Option MAPINAMEID) (ndr : ndr_push)
    (cutmarks : List Nat) (property : Nat) (properties : List Nat)
    (data_pointers : List prop_data) (retval : MAPISTATUS) (retvals : List MAPISTATUS)
    (hrv : retval ≠ MAPI_E_SUCCESS) :
    oxcfxics_ndr_push_properties get_nameid ndr cutmarks (property :: properties)
        data_pointers (retval :: retvals) =
      oxcfxics_ndr_push_properties get_nameid ndr cutmarks properties data_pointers.tail
        retvals := by
  rw [oxcfxics_ndr_push_properties, if_neg hrv]

/-- The encoder on three arrays of one length gives what it gives on the entries whose status
is `MAPI_E_SUCCESS`. -/
theorem push_properties_filter (get_nameid : Nat → Option MAPINAMEID) :
    ∀ (properties : List Nat) (ndr : ndr_push) (cutmarks : List Nat)
      (data_pointers : List prop_data) (retvals : List MAPISTATUS),
      data_pointers.length = properties.length → retvals.length = properties.length →
      oxcfxics_ndr_push_properties get_nameid ndr cutmarks properties data_pointers retvals =
        oxcfxics_ndr_push_properties get_nameid ndr cutmarks
          (((properties.zip (data_pointers.zip retvals)).filter
            (fun e => e.2.2 = MAPI_E_SUCCESS)).map (fun e => e.1))
          (((properties.zip (data_pointers.zip retvals)).filter
            (fun e => e.2.2 = MAPI_E_SUCCESS)).map (fun e => e.2.1))
          (((properties.zip (data_pointers.zip retvals)).filter
            (fun e => e.2.2 = MAPI_E_SUCCESS)).map (fun e => e.2.2)) := by
  intro properties
  induction properties with
  | nil =>
    intro ndr cutmarks data_pointers retvals _ _
    simp [oxcfxics_ndr_push_properties]
  | cons p ps ih =>
    intro ndr cutmarks data_pointers retvals hd hr
    cases data_pointers with
    | nil => simp at hd
    | cons v vs =>
      cases retvals with
      | nil => simp at hr
      | cons rv rvs =>
        simp only [List.length_cons, Nat.add_right_cancel_iff] at hd hr
        simp only [List.zip_cons_cons]
        by_cases hrv : rv = MAPI_E_SUCCESS
        · rw [List.filter_cons_of_pos (by simpa using hrv)]
          simp only [List.map_cons]
          rw [oxcfxics_ndr_push_properties, oxcfxics_ndr_push_properties, if_pos hrv, if_pos hrv]
          cases htag : push_property_tag get_nameid ndr p with
          | none =>
            simp only [List.tail_cons]
            exact ih _ _ _ _ hd hr
          | some o =>
            cases o with
            | none => rfl
            | some ndr2 =>
              simp only
              cases hval : push_property_value ndr2 p v with
              | none => rfl
              | some ndr3 =>
                simp only
                exact ih _ _ _ _ hd hr
        · rw [List.filter_cons_of_neg (by simpa using hrv)]
          rw [push_properties_skip _ _ _ _ _ _ _ _ hrv, List.tail_cons]
          exact ih _ _ _ _ hd hr

/-- The encoder gives the same result when the value of every entry whose status is not
`MAPI_E_SUCCESS` is replaced by a marker that no branch of the encoder accepts. -/
theorem push_properties_unread (get_nameid : Nat → Option MAPINAMEID) :
    ∀ (properties : List Nat) (ndr : ndr_push) (cutmarks : List Nat)
      (data_pointers : List prop_data) (retvals : List MAPISTATUS),
      data_pointers.length = properties.length → retvals.length = properties.length →
      oxcfxics_ndr_push_properties get_nameid ndr cutmarks properties data_pointers retvals =
        oxcfxics_ndr_push_properties get_nameid ndr cutmarks properties
          (List.zipWith (fun v rv => if rv = MAPI_E_SUCCESS then v else prop_data.unread)
            data_pointers retvals) retvals := by
  intro properties
  induction properties with
  | nil =>
    intro ndr cutmarks data_pointers retvals _ _
    simp [oxcfxics_ndr_push_properties]
  | cons p ps ih =>
    intro ndr cutmarks data_pointers retvals hd hr
    cases data_pointers with
    | nil => simp at hd
    | cons v vs =>
      cases retvals with
      | nil => simp at hr
      | cons rv rvs =>
        simp only [List.length_cons, Nat.add_right_cancel_iff] at hd hr
        simp only [List.zipWith_cons_cons]
        by_cases hrv : rv = MAPI_E_SUCCESS
        · rw [if_pos hrv]
          rw [oxcfxics_ndr_push_properties, oxcfxics_ndr_push_properties, if_pos hrv, if_pos hrv]
          cases htag : push_property_tag get_nameid ndr p with
          | none =>
            simp only [List.tail_cons]
            exact ih _ _ _ _ hd hr
          | some o =>
            cases o with
            | none => rfl
            | some ndr2 =>
              simp only
              cases hval : push_property_value ndr2 p v with
              | none => rfl
              | some ndr3 =>
                simp only
                exact ih _ _ _ _ hd hr
        · rw [push_properties_skip _ _ _ _ _ _ _ _ hrv,
            push_properties_skip _ _ _ _ _ _ _ _ hrv, List.tail_cons, List.tail_cons]
          exact ih _ _ _ _ hd hr

/-- C23. The encoder skips the entries whose status is not `MAPI_E_SUCCESS`.  On a property
list, a value array and a status array of one length, `oxcfxics_ndr_push_properties` gives the
stream and the cutmarks that it gives on the sub-list of the entries whose status is
`MAPI_E_SUCCESS`; it gives the same result when the value of every other entry is replaced by
a marker that the encoder cannot read; and an entry whose status is not `MAPI_E_SUCCESS`,
placed in front of any list, leaves the stream and the cutmarks as they are. -/
theorem C23_unsuccessful_entries_skipped (get_nameid : Nat → Option MAPINAMEID)
    (properties : List Nat) (ndr : ndr_push) (cutmarks : List Nat)
    (data_pointers : List prop_data) (retvals : List MAPISTATUS)
    (hd : data_pointers.length = properties.length)
    (hr : retvals.length = properties.length) :
    oxcfxics_ndr_push_properties get_nameid ndr cutmarks properties data_pointers retvals =
      oxcfxics_ndr_push_properties get_nameid ndr cutmarks
        (((properties.zip (data_pointers.zip retvals)).filter
          (fun e => e.2.2 = MAPI_E_SUCCESS)).map (fun e => e.1))
        (((properties.zip (data_pointers.zip retvals)).filter
          (fun e => e.2.2 = MAPI_E_SUCCESS)).map (fun e => e.2.1))
        (((properties.zip (data_pointers.zip retvals)).filter
          (fun e => e.2.2 = MAPI_E_SUCCESS)).map (fun e => e.2.2)) ∧
    oxcfxics_ndr_push_properties get_nameid ndr cutmarks properties data_pointers retvals =
      oxcfxics_ndr_push_properties get_nameid ndr cutmarks properties
        (List.zipWith (fun v rv => if rv = MAPI_E_SUCCESS then v else prop_data.unread)
          data_pointers retvals) retvals ∧
    (∀ property value retval, retval ≠ MAPI_E_SUCCESS →
      oxcfxics_ndr_push_properties get_nameid ndr cutmarks (property :: properties)
          (value :: data_pointers) (retval :: retvals) =
        oxcfxics_ndr_push_properties get_nameid ndr cutmarks properties data_pointers
          retvals) :=
  ⟨push_properties_filter get_nameid properties ndr cutmarks data_pointers retvals hd hr,
    push_properties_unread get_nameid properties ndr cutmarks data_pointers retvals hd hr,
    fun property value retval hrv => by
      rw [push_properties_skip _ _ _ _ _ _ _ _ hrv, List.tail_cons]⟩

/-- C23, at a concrete input: of three entries the second has the status
`MAPI_E_NOT_FOUND`; the stream and the cutmarks are those of the first and the third. -/
theorem C23_witness :
    (oxcfxics_ndr_push_properties (fun _ => none) ndr_push_init_ctx []
        [PR_MESSAGE_SIZE, sample_unicode_tag, PR_MID]
        [.uint32 7, .unread, .uint64 0x10001]
        [MAPI_E_SUCCESS, MAPI_E_NOT_FOUND, MAPI_E_SUCCESS]).map (fun r => (r.1.data, r.2)) =
      some ([0x03, 0x00, 0x08, 0x0e, 7, 0, 0, 0,
             0x14, 0x00, 0x4a, 0x67, 1, 0, 1, 0, 0, 0, 0, 0], [4, 8, 12, 20]) ∧
    oxcfxics_ndr_push_properties (fun _ => none) ndr_push_init_ctx []
        [PR_MESSAGE_SIZE, sample_unicode_tag, PR_MID]
        [.uint32 7, .unread, .uint64 0x10001]
        [MAPI_E_SUCCESS, MAPI_E_NOT_FOUND, MAPI_E_SUCCESS] =
      oxcfxics_ndr_push_properties (fun _ => none) ndr_push_init_ctx []
        [PR_MESSAGE_SIZE, PR_MID] [.uint32 7, .uint64 0x10001]
        [MAPI_E_SUCCESS, MAPI_E_SUCCESS] :=
  ⟨by decide,
    (C23_unsuccessful_entries_skipped (fun _ => none)
      [PR_MESSAGE_SIZE, sample_unicode_tag, PR_MID] ndr_push_init_ctx []
      [.uint32 7, .unread, .uint64 0x10001]
      [MAPI_E_SUCCESS, MAPI_E_NOT_FOUND, MAPI_E_SUCCESS] rfl rfl).1⟩

/-! ## Repeated reads end -/

theorem mem_drop_of_getLast? (l : List Nat) (x p : Nat) (h : l.getLast? = some x)
    (hp : p < l.length) : x ∈ l.drop p := by
  have hd : (l.drop p).getLast? = some x := by
    rw [List.getLast?_drop, if_neg (by omega), h]
  exact List.mem_of_getLast?_eq_some hd

/-- C27. Repeated reads end.  Take a context object (an ftcontext, or a synccontext before or
after its first read) whose stream `buf` is shorter than `2^32` bytes (offsets are
`uint32_t`) and stands at a position inside it, whose cutmark array ends with `0xffffffff`
and whose cutmark pointer lies inside the array, and a buffer size that is not zero.  Then the
read returns a response: both cutmark scans stop inside the array; the position does not go
back and stays inside the stream, the cutmark pointer does not go back and stays inside the
array, the stream and the cutmark array are the same afterwards, so the next read starts under
the same conditions; the reply is `TransferStatus_Done`, or the position has advanced, or the
cutmark pointer has advanced; a read that starts before the end of the stream advances the
position or the pointer; and a client that repeats the read gets `TransferStatus_Done` within
`(len - position) + (cutmarks.length - next_cutmark_ptr) + 1` calls.  The order of the
cutmarks is not needed. -/
theorem C27_repeated_reads_reach_done
    (pm pf : emsmdbp_object_synccontext → emsmdbp_object_synccontext)
    (object : emsmdbp_object) (request : FastTransferSourceGetBuffer_req) (buf : List Nat)
    (hmax : 0 < effective_buffer_size request)
    (hdata : (object.materialize pm pf).stream.buffer.data = some buf)
    (hlen : buf.length < 2 ^ 32)
    (hpos : (object.materialize pm pf).stream.position ≤ buf.length)
    (hterm : (object.materialize pm pf).cutmarks.getLast? = some 0xffffffff)
    (hptr : (object.materialize pm pf).next_cutmark_ptr <
      (object.materialize pm pf).cutmarks.length) :
    (∃ r object1,
      EcDoRpc_RopFastTransferSourceGetBuffer pm pf (some (some object)) request =
        some (MAPI_E_SUCCESS, { error_code := MAPI_E_SUCCESS, u := some r },
          some (some object1)) ∧
      object1.materialize pm pf = object1 ∧
      object1.stream.buffer.data = some buf ∧
      object1.cutmarks = (object.materialize pm pf).cutmarks ∧
      (object.materialize pm pf).stream.position ≤ object1.stream.position ∧
      object1.stream.position ≤ buf.length ∧
      (object.materialize pm pf).next_cutmark_ptr ≤ object1.next_cutmark_ptr ∧
      object1.next_cutmark_ptr < object1.cutmarks.length ∧
      (r.TransferStatus = TransferStatus_Done ↔ object1.stream.position = buf.length) ∧
      (r.TransferStatus = TransferStatus_Done ∨
        (object.materialize pm pf).stream.position < object1.stream.position ∨
        (object.materialize pm pf).next_cutmark_ptr < object1.next_cutmark_ptr) ∧
      ((object.materialize pm pf).stream.position < buf.length →
        (object.materialize pm pf).stream.position < object1.stream.position ∨
        (object.materialize pm pf).next_cutmark_ptr < object1.next_cutmark_ptr)) ∧
    (∃ chunks,
      download_stream pm pf request
        ((buf.length - (object.materialize pm pf).stream.position) +
          ((object.materialize pm pf).cutmarks.length -
            (object.materialize pm pf).next_cutmark_ptr) + 1)
        (some (some object)) = some chunks) := by
  have hT := mem_drop_of_getLast? _ _ _ hterm hptr
  have hmax0 : effective_buffer_size request ≠ 0 := by omega
  constructor
  · have hctx := not_other_of_data pm pf object buf hdata
    have hpos32 : (object.materialize pm pf).stream.position ≤ 0xffffffff := by
      norm_num at hlen ⊢; omega
    obtain ⟨res, hres⟩ := get_buffer_total pm pf object request hmax0
      (cutmark_scan_total _ _ _ _ _ hT hpos32)
    obtain ⟨r, object1, bs1, q, rfl, hscan, hchunk, hbuf1, hpos1, hcm1, hptr1, hstatus, _, _,
      hmat1, _⟩ := get_buffer_some pm pf object request hctx res hres
    obtain ⟨hle, hTq, hcases⟩ := cutmark_scan_some _ _ _ _ _ _ _ hscan
    have hprogress : 0 < bs1 ∨ (object.materialize pm pf).next_cutmark_ptr < q := by
      rcases hcases with ⟨hb, _⟩ | ⟨hq, _⟩
      · left; omega
      · right; exact hq
    clear hcases
    have hbytes := DATA_BLOB.bytes_of_data hdata
    rw [hbytes] at hchunk
    obtain ⟨hc1, hc2, hc3⟩ := length_take_drop_le buf
      (object.materialize pm pf).stream.position bs1
    rw [← hchunk] at hc1 hc2 hc3
    have hdata1 : object1.stream.buffer.data = some buf := by rw [hbuf1]; exact hdata
    have hmat : object1.materialize pm pf = object1 := hmat1 (by rw [hdata1]; simp)
    have hblen1 : object1.stream.buffer.length = buf.length := DATA_BLOB.length_of_data hdata1
    rw [hblen1] at hstatus
    have hTq1 := hTq hT hpos32
    have hqlt : q < (object.materialize pm pf).cutmarks.length := by
      by_contra hge
      rw [List.drop_of_length_le (by omega)] at hTq1
      simp at hTq1
    have hdone : r.TransferStatus = TransferStatus_Done ↔
        object1.stream.position = buf.length := by
      by_cases hd : object1.stream.position = buf.length
      · rw [if_pos hd] at hstatus
        exact ⟨fun _ => hd, fun _ => hstatus⟩
      · rw [if_neg hd] at hstatus
        constructor
        · intro h; rw [hstatus] at h; exact absurd h (by simp)
        · intro h; exact absurd h hd
    have hadv : (object.materialize pm pf).stream.position < buf.length →
        (object.materialize pm pf).stream.position < object1.stream.position ∨
        (object.materialize pm pf).next_cutmark_ptr < object1.next_cutmark_ptr := by
      intro hbefore
      rcases hprogress with hb | hq
      · left; omega
      · right; omega
    refine ⟨r, object1, hres, hmat, hdata1, hcm1, by omega, by omega, by omega,
      by rw [hcm1, hptr1]; exact hqlt, hdone, ?_, hadv⟩
    by_cases hbefore : (object.materialize pm pf).stream.position < buf.length
    · exact Or.inr (hadv hbefore)
    · left
      rw [hdone]
      omega
  · obtain ⟨chunks, hdl, _⟩ := download_stream_rest pm pf request hmax0 buf hlen _ object
      hdata hpos hT (Nat.lt_succ_self _)
    exact ⟨chunks, hdl⟩

/-- C27, at a concrete input: the 20-byte sample stream with the cutmarks `4, 20, 0xffffffff`,
read from the start with a buffer size of 8, is at its end within 24 calls. -/
theorem C27_witness :
    ∃ chunks, download_stream id id (sample_request 8) (20 - 0 + (3 - 0) + 1)
        (some (some (EMSMDBP_OBJECT_FTCONTEXT (sample_ftcontext 0 0)))) = some chunks :=
  (C27_repeated_reads_reach_done id id (EMSMDBP_OBJECT_FTCONTEXT (sample_ftcontext 0 0))
    (sample_request 8) sample_stream (by decide) rfl (by decide) (by decide) rfl
    (by decide)).2

/-! ## The cutmarks of a materialized stream -/

theorem cutmarks_in_order_of_fields (a b : oxcfxics_sync_data) (hndr : b.ndr = a.ndr)
    (hcm : b.cutmarks_ndr = a.cutmarks_ndr) (h : cutmarks_in_order a) :
    cutmarks_in_order b := by
  unfold cutmarks_in_order at h ⊢
  rw [hndr, hcm]
  exact h

theorem cutmarks_in_order_bytes (sd : oxcfxics_sync_data) (ndr : ndr_push)
    (hle : sd.ndr.offset ≤ ndr.offset) (h : cutmarks_in_order sd) :
    cutmarks_in_order { sd with ndr := ndr } := by
  unfold cutmarks_in_order at h ⊢
  refine ⟨h.1, fun m hm => ?_⟩
  have := h.2 m hm
  simp only at hm ⊢
  omega

theorem cutmarks_in_order_uint32 (sd : oxcfxics_sync_data) (v : Nat)
    (h : cutmarks_in_order sd) : cutmarks_in_order (sync_push_uint32 sd v) := by
  unfold sync_push_uint32
  apply cutmarks_in_order_bytes _ _ _ h
  rw [ndr_push_uint32_offset]
  omega

theorem cutmarks_in_order_cutmark (sd : oxcfxics_sync_data) (h : cutmarks_in_order sd) :
    cutmarks_in_order (sync_push_cutmark sd) := by
  unfold cutmarks_in_order sync_push_cutmark at *
  simp only
  constructor
  · rw [List.pairwise_append]
    refine ⟨h.1, List.pairwise_singleton _ _, ?_⟩
    intro a ha b hb
    simp only [List.mem_singleton] at hb
    subst hb
    exact h.2 a ha
  · intro m hm
    simp only [List.mem_append, List.mem_singleton] at hm
    rcases hm with hm | rfl
    · exact h.2 m hm
    · exact Nat.le_refl _

theorem cutmarks_in_order_marker (sd : oxcfxics_sync_data) (v : Nat)
    (h : cutmarks_in_order sd) : cutmarks_in_order (sync_push_marker sd v) :=
  cutmarks_in_order_cutmark _ (cutmarks_in_order_uint32 _ _ h)

theorem cutmarks_in_order_idset (backend : sync_backend) (sd : oxcfxics_sync_data)
    (set : Option idset) (h : cutmarks_in_order sd) :
    cutmarks_in_order (sync_push_idset backend sd set) := by
  unfold sync_push_idset
  apply cutmarks_in_order_bytes _ _ _ h
  rw [ndr_push_bytes_offset]
  omega

theorem cutmarks_in_order_simple_data (sd sd1 : oxcfxics_sync_data) (data_type : Nat)
    (value : prop_data) (hpush : sync_push_simple_data sd data_type value = some sd1)
    (h : cutmarks_in_order sd) : cutmarks_in_order sd1 := by
  unfold sync_push_simple_data at hpush
  split at hpush
  · simp at hpush
  · rename_i ndr hndr
    simp only [Option.some.injEq] at hpush
    subst hpush
    exact cutmarks_in_order_bytes _ _ (push_simple_data_offset _ _ _ _ hndr).1 h

theorem cutmarks_in_order_properties (get_nameid : Nat → Option MAPINAMEID)
    (sd sd1 : oxcfxics_sync_data) (properties : List Nat) (data_pointers : List prop_data)
    (retvals : List MAPISTATUS)
    (hpush : sync_push_properties get_nameid sd properties data_pointers retvals = some sd1)
    (h : cutmarks_in_order sd) : cutmarks_in_order sd1 := by
  unfold sync_push_properties at hpush
  split at hpush
  · simp at hpush
  · rename_i ndr cm hp
    simp only [Option.some.injEq] at hpush
    subst hpush
    obtain ⟨added, hcm, hle, hmem, hs, _⟩ := push_properties_cutmarks _ _ _ _ _ _ _ _ hp
    unfold cutmarks_in_order at h ⊢
    simp only
    subst hcm
    constructor
    · rw [List.pairwise_append]
      refine ⟨h.1, hs, ?_⟩
      intro a ha b hb
      have := h.2 a ha
      have := hmem b hb
      omega
    · intro m hm
      simp only [List.mem_append] at hm
      rcases hm with hm | hm
      · have := h.2 m hm; omega
      · exact (hmem m hm).2

theorem push_recipient_email_in_order (email_idx : Option Nat)
    (recipient : mapistore_message_recipient) (sd sd1 : oxcfxics_sync_data)
    (hpush : push_recipient_email email_idx recipient sd = some sd1)
    (h : cutmarks_in_order sd) : cutmarks_in_order sd1 := by
  unfold push_recipient_email at hpush
  split at hpush
  · simp only [Option.some.injEq] at hpush; subst hpush; exact h
  · split at hpush
    · simp at hpush
    · simp only [Option.some.injEq] at hpush; subst hpush; exact h
    · split at hpush
      · simp at hpush
      · rename_i sd2 h2
        split at hpush
        · simp at hpush
        · rename_i sd3 h3
          simp only [Option.some.injEq] at hpush
          subst hpush
          have o2 := cutmarks_in_order_simple_data _ _ _ _ h2 (cutmarks_in_order_uint32 _ _ h)
          have o3 := cutmarks_in_order_simple_data _ _ _ _ h3
            (cutmarks_in_order_uint32 _ _ (cutmarks_in_order_cutmark _ o2))
          exact cutmarks_in_order_cutmark _ o3

theorem push_recipient_display_name_in_order (cn_idx : Option Nat)
    (recipient : mapistore_message_recipient) (sd sd1 : oxcfxics_sync_data)
    (hpush : push_recipient_display_name cn_idx recipient sd = some sd1)
    (h : cutmarks_in_order sd) : cutmarks_in_order sd1 := by
  unfold push_recipient_display_name at hpush
  split at hpush
  · simp only [Option.some.injEq] at hpush; subst hpush; exact h
  · split at hpush
    · simp at hpush
    · simp only [Option.some.injEq] at hpush; subst hpush; exact h
    · split at hpush
      · simp at hpush
      · rename_i sd2 h2
        simp only [Option.some.injEq] at hpush
        subst hpush
        exact cutmarks_in_order_cutmark _
          (cutmarks_in_order_simple_data _ _ _ _ h2 (cutmarks_in_order_uint32 _ _ h))

theorem push_recipient_in_order (backend : sync_backend) (columns : List Nat)
    (email_idx cn_idx : Option Nat) (i : Nat) (recipient : mapistore_message_recipient)
    (sd sd1 : oxcfxics_sync_data)
    (hpush : push_recipient backend columns email_idx cn_idx i recipient sd = some sd1)
    (h : cutmarks_in_order sd) : cutmarks_in_order sd1 := by
  unfold push_recipient at hpush
  simp only at hpush
  split at hpush
  · simp at hpush
  · rename_i sd2 h2
    split at hpush
    · simp at hpush
    · rename_i sd3 h3
      split at hpush
      · simp at hpush
      · split at hpush
        · simp at hpush
        · rename_i sd4 h4
          simp only [Option.some.injEq] at hpush
          subst hpush
          have o2 := push_recipient_email_in_order _ _ _ _ h2
            (cutmarks_in_order_cutmark _ (cutmarks_in_order_uint32 _ _
              (cutmarks_in_order_uint32 _ _ (cutmarks_in_order_marker _ _ h))))
          have o3 := push_recipient_display_name_in_order _ _ _ _ h3 o2
          have o4 := cutmarks_in_order_properties _ _ _ _ _ _ h4
            (cutmarks_in_order_cutmark _ (cutmarks_in_order_uint32 _ _
              (cutmarks_in_order_uint32 _ _ o3)))
          exact cutmarks_in_order_marker _ _ o4

theorem push_recipients_in_order (backend : sync_backend) (columns : List Nat)
    (email_idx cn_idx : Option Nat) :
    ∀ (recipients : List mapistore_message_recipient) (i : Nat) (sd sd1 : oxcfxics_sync_data),
      push_recipients backend columns email_idx cn_idx i recipients sd = some sd1 →
      cutmarks_in_order sd → cutmarks_in_order sd1 := by
  intro recipients
  induction recipients with
  | nil =>
    intro i sd sd1 hpush h
    simp only [push_recipients, Option.some.injEq] at hpush
    subst hpush
    exact h
  | cons r rs ih =>
    intro i sd sd1 hpush h
    rw [push_recipients] at hpush
    split at hpush
    · simp at hpush
    · rename_i sd2 h2
      exact ih _ _ _ hpush (push_recipient_in_order _ _ _ _ _ _ _ _ h2 h)

theorem push_messageChange_recipients_in_order (backend : sync_backend)
    (msg : Option mapistore_message) (sd sd1 : oxcfxics_sync_data)
    (hpush : oxcfxics_push_messageChange_recipients backend msg sd = some sd1)
    (h : cutmarks_in_order sd) : cutmarks_in_order sd1 := by
  unfold oxcfxics_push_messageChange_recipients at hpush
  simp only at hpush
  have o1 := cutmarks_in_order_cutmark _ (cutmarks_in_order_uint32 _ PR_MESSAGE_RECIPIENTS
    (cutmarks_in_order_uint32 _ PidTagFXDelProp h))
  split at hpush
  · simp only [Option.some.injEq] at hpush; subst hpush; exact o1
  · exact push_recipients_in_order _ _ _ _ _ _ _ _ hpush o1

theorem push_attachment_rows_in_order (backend : sync_backend) :
    ∀ (rows : List (Option table_row)) (i : Nat) (sd sd1 : oxcfxics_sync_data),
      push_attachment_rows backend i rows sd = some sd1 →
      cutmarks_in_order sd → cutmarks_in_order sd1 := by
  intro rows
  induction rows with
  | nil =>
    intro i sd sd1 hpush h
    simp only [push_attachment_rows, Option.some.injEq] at hpush
    subst hpush
    exact h
  | cons r rs ih =>
    intro i sd sd1 hpush h
    cases r with
    | none => simp [push_attachment_rows] at hpush
    | some row =>
      rw [push_attachment_rows] at hpush
      split at hpush
      · simp at hpush
      · rename_i sd2 h2
        have o2 := cutmarks_in_order_properties _ _ _ _ _ _ h2
          (cutmarks_in_order_cutmark _ (cutmarks_in_order_uint32 _ _
            (cutmarks_in_order_uint32 _ _ (cutmarks_in_order_marker _ _ h))))
        exact ih _ _ _ hpush (cutmarks_in_order_marker _ _ o2)

theorem push_messageChange_attachments_in_order (backend : sync_backend)
    (attachment_table : Option (List (Option table_row))) (sd sd1 : oxcfxics_sync_data)
    (hpush : oxcfxics_push_messageChange_attachments backend attachment_table sd = some sd1)
    (h : cutmarks_in_order sd) : cutmarks_in_order sd1 := by
  unfold oxcfxics_push_messageChange_attachments at hpush
  simp only at hpush
  have o1 := cutmarks_in_order_uint32 _ PR_MESSAGE_ATTACHMENTS
    (cutmarks_in_order_uint32 _ PidTagFXDelProp h)
  split at hpush
  · simp only [Option.some.injEq] at hpush; subst hpush; exact o1
  · exact push_attachment_rows_in_order _ _ _ _ _ hpush o1

/-- Before anything is pushed for a row of messages, the stream and the cutmarks are those at
the start of the row. -/
theorem messageChange_header_stream (backend : sync_backend) (folder : contents_folder)
    (request : synccontext_request) (original_cnset_seen : Option idset) (row : table_row)
    (sd sd1 : oxcfxics_sync_data)
    (r : Option (opened_message × List (Nat × prop_data)))
    (h : messageChange_header backend folder request original_cnset_seen row sd =
      some (sd1, r)) :
    sd1.ndr = sd.ndr ∧ sd1.cutmarks_ndr = sd.cutmarks_ndr := by
  unfold messageChange_header at h
  split at h
  · simp at h
  · split at h
    · simp only [Option.some.injEq, Prod.mk.injEq] at h
      obtain ⟨rfl, _⟩ := h
      exact ⟨rfl, rfl⟩
    · split at h
      · simp only [Option.some.injEq, Prod.mk.injEq] at h
        obtain ⟨rfl, _⟩ := h
        exact ⟨rfl, rfl⟩
      · split at h
        · simp at h
        · simp only at h
          split at h
          · simp at h
          · split at h
            · simp at h
            · split at h
              · simp at h
              · simp at h
              · split at h
                · simp at h
                · split at h
                  · simp only [Option.some.injEq, Prod.mk.injEq] at h
                    obtain ⟨rfl, _⟩ := h
                    exact ⟨rfl, rfl⟩
                  · split at h
                    · simp at h
                    · simp only [Option.some.injEq, Prod.mk.injEq] at h
                      obtain ⟨rfl, _⟩ := h
                      exact ⟨rfl, rfl⟩

theorem messageChange_remaining_in_order (backend : sync_backend) (properties : List Nat)
    (row : table_row) (sd sd1 : oxcfxics_sync_data)
    (hpush : messageChange_remaining backend properties row sd = some sd1)
    (h : cutmarks_in_order sd) : cutmarks_in_order sd1 := by
  unfold messageChange_remaining at hpush
  split at hpush
  · exact cutmarks_in_order_properties _ _ _ _ _ _ hpush h
  · simp only [Option.some.injEq] at hpush; subst hpush; exact h

theorem messageChange_push_in_order (backend : sync_backend) (properties : List Nat)
    (row : table_row) (message : opened_message) (header : List (Nat × prop_data))
    (sd sd1 : oxcfxics_sync_data)
    (hpush : messageChange_push backend properties row message header sd = some sd1)
    (h : cutmarks_in_order sd) : cutmarks_in_order sd1 := by
  unfold messageChange_push at hpush
  split at hpush
  · simp at hpush
  · rename_i sd2 h2
    split at hpush
    · simp at hpush
    · rename_i sd3 h3
      split at hpush
      · simp at hpush
      · rename_i sd4 h4
        have o2 := cutmarks_in_order_properties _ _ _ _ _ _ h2 (cutmarks_in_order_marker _ _ h)
        have o3 := messageChange_remaining_in_order _ _ _ _ _ h3
          (cutmarks_in_order_marker _ _ o2)
        have o4 := push_messageChange_recipients_in_order _ _ _ _ h4 o3
        exact push_messageChange_attachments_in_order _ _ _ _ hpush o4

theorem messageChange_row_in_order (backend : sync_backend) (folder : contents_folder)
    (request : synccontext_request) (original_cnset_seen : Option idset)
    (properties : List Nat) (row : table_row) (sd sd1 : oxcfxics_sync_data)
    (hpush : messageChange_row backend folder request original_cnset_seen properties row sd =
      some sd1)
    (h : cutmarks_in_order sd) : cutmarks_in_order sd1 := by
  unfold messageChange_row at hpush
  split at hpush
  · simp at hpush
  · rename_i sd2 hh
    simp only [Option.some.injEq] at hpush
    subst hpush
    obtain ⟨h1, h2⟩ := messageChange_header_stream _ _ _ _ _ _ _ _ hh
    exact cutmarks_in_order_of_fields _ _ h1 h2 h
  · rename_i sd2 message header hh
    obtain ⟨h1, h2⟩ := messageChange_header_stream _ _ _ _ _ _ _ _ hh
    exact messageChange_push_in_order _ _ _ _ _ _ _ hpush
      (cutmarks_in_order_of_fields _ _ h1 h2 h)

theorem messageChange_rows_in_order (backend : sync_backend) (folder : contents_folder)
    (request : synccontext_request) (original_cnset_seen : Option idset)
    (properties : List Nat) :
    ∀ (rows : List (Option table_row)) (sd sd1 : oxcfxics_sync_data),
      messageChange_rows backend folder request original_cnset_seen properties rows sd =
        some sd1 →
      cutmarks_in_order sd → cutmarks_in_order sd1 := by
  intro rows
  induction rows with
  | nil =>
    intro sd sd1 hpush h
    simp only [messageChange_rows, Option.some.injEq] at hpush
    subst hpush
    exact h
  | cons r rs ih =>
    intro sd sd1 hpush h
    cases r with
    | none =>
      rw [messageChange_rows] at hpush
      exact ih _ _ hpush h
    | some row =>
      rw [messageChange_rows] at hpush
      split at hpush
      · simp at hpush
      · rename_i sd2 h2
        exact ih _ _ hpush (messageChange_row_in_order _ _ _ _ _ _ _ _ h2 h)

theorem messageChange_deleted_stream (folder : contents_folder)
    (table_type : mapistore_table_type) (original_cnset_seen : Option idset)
    (sd : oxcfxics_sync_data) :
    (messageChange_deleted folder table_type original_cnset_seen sd).ndr = sd.ndr ∧
    (messageChange_deleted folder table_type original_cnset_seen sd).cutmarks_ndr =
      sd.cutmarks_ndr := by
  unfold messageChange_deleted
  by_cases hm : folder.emsmdbp_is_mapistore = true
  · rw [if_pos hm]
    cases hres : folder.mapistore_folder_get_deleted_fmids table_type
        (deleted_since_cn original_cnset_seen) with
    | none => exact ⟨rfl, rfl⟩
    | some p =>
      obtain ⟨deleted, cn⟩ := p
      simp only
      split <;> exact ⟨rfl, rfl⟩
  · rw [if_neg hm]
    exact ⟨rfl, rfl⟩

theorem push_messageChange_in_order (backend : sync_backend) (folder : contents_folder)
    (synccontext : emsmdbp_object_synccontext) (sd sd1 : oxcfxics_sync_data)
    (hpush : oxcfxics_push_messageChange backend folder synccontext sd = some sd1)
    (h : cutmarks_in_order sd) : cutmarks_in_order sd1 := by
  unfold oxcfxics_push_messageChange at hpush
  split at hpush
  · simp at hpush
  · split at hpush
    · simp at hpush
    · simp only at hpush
      split at hpush
      · simp at hpush
      · rename_i sd2 h2
        simp only [Option.some.injEq] at hpush
        subst hpush
        obtain ⟨h3, h4⟩ := messageChange_deleted_stream folder _ _ sd2
        exact cutmarks_in_order_of_fields _ _ h3 h4
          (messageChange_rows_in_order _ _ _ _ _ _ _ _ h2 h)

theorem prepare_messageChange_table_in_order (backend : sync_backend)
    (folder : contents_folder) (table_type : mapistore_table_type)
    (synccontext synccontext1 : emsmdbp_object_synccontext) (sd sd1 : oxcfxics_sync_data)
    (hpush : prepare_messageChange_table backend folder table_type synccontext sd =
      some (synccontext1, sd1))
    (h : cutmarks_in_order sd) :
    cutmarks_in_order sd1 ∧ synccontext1.stream = synccontext.stream := by
  unfold prepare_messageChange_table at hpush
  split at hpush
  · simp at hpush
  · rename_i sd2 h2
    have o2 := push_messageChange_in_order _ _ _ _ _ h2
      (cutmarks_in_order_of_fields sd _ rfl rfl h)
    simp only at hpush
    split at hpush
    all_goals
      simp only [Option.some.injEq, Prod.mk.injEq] at hpush
      obtain ⟨rfl, rfl⟩ := hpush
      exact ⟨o2, rfl⟩

theorem prepare_messageChange_deletions_in_order (backend : sync_backend)
    (synccontext synccontext1 : emsmdbp_object_synccontext) (sd sd1 : oxcfxics_sync_data)
    (hpush : prepare_messageChange_deletions backend synccontext sd = some (synccontext1, sd1))
    (h : cutmarks_in_order sd) :
    cutmarks_in_order sd1 ∧ synccontext1.stream = synccontext.stream := by
  unfold prepare_messageChange_deletions at hpush
  split at hpush
  · split at hpush
    · simp at hpush
    · simp only [Option.some.injEq, Prod.mk.injEq] at hpush
      obtain ⟨rfl, rfl⟩ := hpush
      exact ⟨cutmarks_in_order_cutmark _ (cutmarks_in_order_idset _ _ _
        (cutmarks_in_order_marker _ _ (cutmarks_in_order_marker _ _ h))), rfl⟩
  · simp only [Option.some.injEq, Prod.mk.injEq] at hpush
    obtain ⟨rfl, rfl⟩ := hpush
    exact ⟨h, rfl⟩

/-- What a stream that ends with a marker and its cutmark looks like once the terminator is
added to the cutmarks. -/
theorem cutmarks_of_final_marker (sd : oxcfxics_sync_data) (v : Nat)
    (h : cutmarks_in_order sd) :
    ∃ marks, (sync_push_marker sd v).cutmarks_ndr ++ [0xffffffff] = marks ++ [0xffffffff] ∧
      marks.Pairwise (fun a b => a ≤ b) ∧
      (∀ m ∈ marks, m ≤ (sync_push_marker sd v).ndr.data.length) ∧
      marks.getLast? = some (sync_push_marker sd v).ndr.data.length ∧
      ((sync_push_marker sd v).ndr.data.length < 0xffffffff → 0xffffffff ∉ marks) := by
  have o := cutmarks_in_order_marker sd v h
  refine ⟨(sync_push_marker sd v).cutmarks_ndr, rfl, o.1, o.2, ?_, ?_⟩
  · simp [sync_push_marker, sync_push_cutmark, ndr_push.offset]
  · intro hlt hmem
    have := o.2 _ hmem
    simp only [ndr_push.offset] at this
    omega

theorem cutmarks_in_order_ite (c : Prop) [Decidable c] (a b : oxcfxics_sync_data)
    (ha : cutmarks_in_order a) (hb : cutmarks_in_order b) :
    cutmarks_in_order (if c then a else b) := by
  split
  · exact ha
  · exact hb

theorem prepare_messageChange_state_final (backend : sync_backend)
    (synccontext : emsmdbp_object_synccontext) (sd : oxcfxics_sync_data)
    (h : cutmarks_in_order sd) :
    ∃ sdf, cutmarks_in_order sdf ∧
      (prepare_messageChange_state backend synccontext sd).cutmarks =
        (sync_push_marker sdf PR_INCR_SYNC_END).cutmarks_ndr ++ [0xffffffff] ∧
      (prepare_messageChange_state backend synccontext sd).stream.buffer.data =
        some (sync_push_marker sdf PR_INCR_SYNC_END).ndr.data := by
  unfold prepare_messageChange_state
  refine ⟨_, ?_, rfl, rfl⟩
  apply cutmarks_in_order_marker
  apply cutmarks_in_order_ite
  · apply cutmarks_in_order_idset
    apply cutmarks_in_order_uint32
    apply cutmarks_in_order_idset
    apply cutmarks_in_order_uint32
    apply cutmarks_in_order_ite
    · apply cutmarks_in_order_cutmark
      apply cutmarks_in_order_idset
      apply cutmarks_in_order_marker
      apply cutmarks_in_order_cutmark
      apply cutmarks_in_order_idset
      apply cutmarks_in_order_marker
      exact cutmarks_in_order_marker _ _ h
    · apply cutmarks_in_order_cutmark
      apply cutmarks_in_order_idset
      apply cutmarks_in_order_marker
      exact cutmarks_in_order_marker _ _ h
  · apply cutmarks_in_order_idset
    apply cutmarks_in_order_uint32
    apply cutmarks_in_order_ite
    · apply cutmarks_in_order_cutmark
      apply cutmarks_in_order_idset
      apply cutmarks_in_order_marker
      apply cutmarks_in_order_cutmark
      apply cutmarks_in_order_idset
      apply cutmarks_in_order_marker
      exact cutmarks_in_order_marker _ _ h
    · apply cutmarks_in_order_cutmark
      apply cutmarks_in_order_idset
      apply cutmarks_in_order_marker
      exact cutmarks_in_order_marker _ _ h

/-- Before anything is pushed for a row of folders, the stream and the cutmarks are those at
the start of the row. -/
theorem folderChange_header_stream (backend : sync_backend)
    (synccontext : emsmdbp_object_synccontext) (topmost : Bool) (row : table_row)
    (sd sd1 : oxcfxics_sync_data) (r : Option (List (Nat × prop_data)))
    (h : folderChange_header backend synccontext topmost row sd = some (some (sd1, r))) :
    sd1.ndr = sd.ndr ∧ sd1.cutmarks_ndr = sd.cutmarks_ndr := by
  unfold folderChange_header at h
  split at h
  · simp at h
  · split at h
    · simp at h
    · split at h
      · simp at h
      · split at h
        · simp at h
        · simp only at h
          split at h
          · simp at h
          · split at h
            · simp at h
            · split at h
              · simp at h
              · simp at h
              · split at h
                · simp at h
                · split at h
                  · simp only [Option.some.injEq, Prod.mk.injEq] at h
                    obtain ⟨rfl, _⟩ := h
                    exact ⟨rfl, rfl⟩
                  · split at h
                    · simp at h
                    · simp only [Option.some.injEq, Prod.mk.injEq] at h
                      obtain ⟨rfl, _⟩ := h
                      exact ⟨rfl, rfl⟩

theorem folderChange_remaining_in_order (backend : sync_backend) (properties : List Nat)
    (row : table_row) (sd sd1 : oxcfxics_sync_data)
    (hpush : folderChange_remaining backend properties row sd = some sd1)
    (h : cutmarks_in_order sd) : cutmarks_in_order sd1 := by
  unfold folderChange_remaining at hpush
  split at hpush
  · exact cutmarks_in_order_properties _ _ _ _ _ _ hpush h
  · simp only [Option.some.injEq] at hpush; subst hpush; exact h

theorem folderChange_push_in_order (backend : sync_backend) (properties : List Nat)
    (row : table_row) (header : List (Nat × prop_data)) (sd sd1 : oxcfxics_sync_data)
    (hpush : folderChange_push backend properties row header sd = some sd1)
    (h : cutmarks_in_order sd) : cutmarks_in_order sd1 := by
  unfold folderChange_push at hpush
  split at hpush
  · simp at hpush
  · rename_i sd2 h2
    exact folderChange_remaining_in_order _ _ _ _ _ hpush
      (cutmarks_in_order_properties _ _ _ _ _ _ h2 (cutmarks_in_order_marker _ _ h))

theorem folderChange_row_in_order (backend : sync_backend)
    (synccontext : emsmdbp_object_synccontext) (topmost : Bool) (row : table_row)
    (sd sd1 : oxcfxics_sync_data) (walk : Bool)
    (hpush : folderChange_row backend synccontext topmost row sd = some (sd1, walk))
    (h : cutmarks_in_order sd) : cutmarks_in_order sd1 := by
  unfold folderChange_row at hpush
  split at hpush
  · simp at hpush
  · simp only [Option.some.injEq, Prod.mk.injEq] at hpush
    obtain ⟨rfl, _⟩ := hpush
    exact h
  · rename_i sd2 hh
    simp only [Option.some.injEq, Prod.mk.injEq] at hpush
    obtain ⟨rfl, _⟩ := hpush
    obtain ⟨h1, h2⟩ := folderChange_header_stream _ _ _ _ _ _ _ hh
    exact cutmarks_in_order_of_fields _ _ h1 h2 h
  · rename_i sd2 header hh
    obtain ⟨h1, h2⟩ := folderChange_header_stream _ _ _ _ _ _ _ hh
    split at hpush
    · simp at hpush
    · rename_i sd3 h3
      simp only [Option.some.injEq, Prod.mk.injEq] at hpush
      obtain ⟨rfl, _⟩ := hpush
      exact folderChange_push_in_order _ _ _ _ _ _ h3
        (cutmarks_in_order_of_fields _ _ h1 h2 h)

theorem push_folderChange_in_order (backend : sync_backend)
    (synccontext : emsmdbp_object_synccontext) :
    ∀ (folder : hierarchy_folder) (topmost : Bool) (sd sd1 : oxcfxics_sync_data),
      oxcfxics_push_folderChange backend synccontext topmost folder sd = some sd1 →
      cutmarks_in_order sd → cutmarks_in_order sd1 := by
  intro folder
  induction folder with
  | unset =>
    intro topmost sd sd1 hpush _
    simp [oxcfxics_push_folderChange] at hpush
  | rows_end =>
    intro topmost sd sd1 hpush h
    simp only [oxcfxics_push_folderChange, Option.some.injEq] at hpush
    subst hpush
    exact h
  | row data subfolder rest ih_sub ih_rest =>
    intro topmost sd sd1 hpush h
    cases data with
    | none =>
      rw [oxcfxics_push_folderChange] at hpush
      exact ih_rest _ _ _ hpush h
    | some row =>
      rw [oxcfxics_push_folderChange] at hpush
      split at hpush
      · simp at hpush
      · rename_i sd2 h2
        exact ih_rest _ _ _ hpush (folderChange_row_in_order _ _ _ _ _ _ _ h2 h)
      · rename_i sd2 h2
        split at hpush
        · simp at hpush
        · rename_i sd3 h3
          exact ih_rest _ _ _ hpush
            (ih_sub _ _ _ h3 (folderChange_row_in_order _ _ _ _ _ _ _ h2 h))

theorem prepare_folderChange_state_final (backend : sync_backend)
    (synccontext : emsmdbp_object_synccontext) (sd : oxcfxics_sync_data)
    (h : cutmarks_in_order sd) :
    ∃ sdf, cutmarks_in_order sdf ∧
      (prepare_folderChange_state backend synccontext sd).cutmarks =
        (sync_push_marker sdf PR_INCR_SYNC_END).cutmarks_ndr ++ [0xffffffff] ∧
      (prepare_folderChange_state backend synccontext sd).stream.buffer.data =
        some (sync_push_marker sdf PR_INCR_SYNC_END).ndr.data := by
  unfold prepare_folderChange_state
  refine ⟨_, ?_, rfl, rfl⟩
  apply cutmarks_in_order_marker
  apply cutmarks_in_order_cutmark
  apply cutmarks_in_order_idset
  apply cutmarks_in_order_marker
  apply cutmarks_in_order_cutmark
  apply cutmarks_in_order_idset
  apply cutmarks_in_order_marker
  exact cutmarks_in_order_uint32 _ _ h

theorem cutmarks_in_order_init (sd : oxcfxics_sync_data) (hcm : sd.cutmarks_ndr = []) :
    cutmarks_in_order sd := by
  unfold cutmarks_in_order
  rw [hcm]
  exact ⟨List.Pairwise.nil, by simp⟩

/-- The cutmarks of a stream whose last push is the marker `IncrSyncEnd` with its cutmark. -/
theorem cutmarks_of_stream_end (sc1 : emsmdbp_object_synccontext)
    (hfinal : ∃ sdf, cutmarks_in_order sdf ∧
      sc1.cutmarks = (sync_push_marker sdf PR_INCR_SYNC_END).cutmarks_ndr ++ [0xffffffff] ∧
      sc1.stream.buffer.data = some (sync_push_marker sdf PR_INCR_SYNC_END).ndr.data) :
    ∃ stream marks, sc1.stream.buffer.data = some stream ∧
      sc1.cutmarks = marks ++ [0xffffffff] ∧
      marks.Pairwise (fun a b => a ≤ b) ∧ (∀ m ∈ marks, m ≤ stream.length) ∧
      marks.getLast? = some stream.length ∧
      (stream.length < 0xffffffff → 0xffffffff ∉ marks) := by
  obtain ⟨sdf, ho, hcm, hdata⟩ := hfinal
  obtain ⟨marks, h1, h2, h3, h4, h5⟩ := cutmarks_of_final_marker sdf PR_INCR_SYNC_END ho
  exact ⟨_, marks, hdata, by rw [hcm, h1], h2, h3, h4, h5⟩

theorem prepare_messageChange_final (backend : sync_backend) (folder : contents_folder)
    (sc sc1 : emsmdbp_object_synccontext)
    (h : oxcfxics_prepare_synccontext_with_messageChange backend folder sc = some sc1) :
    ∃ sdf, cutmarks_in_order sdf ∧
      sc1.cutmarks = (sync_push_marker sdf PR_INCR_SYNC_END).cutmarks_ndr ++ [0xffffffff] ∧
      sc1.stream.buffer.data = some (sync_push_marker sdf PR_INCR_SYNC_END).ndr.data := by
  unfold oxcfxics_prepare_synccontext_with_messageChange at h
  have o0 : cutmarks_in_order (messageChange_sync_data backend sc) :=
    cutmarks_in_order_init _ rfl
  split at h
  · simp at h
  · rename_i sca sda ha
    have oa : cutmarks_in_order sda := by
      split at ha
      · exact (prepare_messageChange_table_in_order _ _ _ _ _ _ _ ha o0).1
      · simp only [Option.some.injEq, Prod.mk.injEq] at ha
        obtain ⟨_, rfl⟩ := ha
        exact o0
    split at h
    · simp at h
    · rename_i scb sdb hb
      have ob : cutmarks_in_order sdb := by
        split at hb
        · exact (prepare_messageChange_table_in_order _ _ _ _ _ _ _ hb oa).1
        · simp only [Option.some.injEq, Prod.mk.injEq] at hb
          obtain ⟨_, rfl⟩ := hb
          exact oa
      split at h
      · simp at h
      · rename_i scc sdc hc
        have oc := (prepare_messageChange_deletions_in_order _ _ _ _ _ hc ob).1
        simp only [Option.some.injEq] at h
        subst h
        exact prepare_messageChange_state_final backend scc sdc oc

theorem prepare_folderChange_final (backend : sync_backend) (folder : hierarchy_folder)
    (sc sc1 : emsmdbp_object_synccontext)
    (h : oxcfxics_prepare_synccontext_with_folderChange backend folder sc = some sc1) :
    ∃ sdf, cutmarks_in_order sdf ∧
      sc1.cutmarks = (sync_push_marker sdf PR_INCR_SYNC_END).cutmarks_ndr ++ [0xffffffff] ∧
      sc1.stream.buffer.data = some (sync_push_marker sdf PR_INCR_SYNC_END).ndr.data := by
  unfold oxcfxics_prepare_synccontext_with_folderChange at h
  split at h
  · simp at h
  · rename_i sd1 h1
    simp only [Option.some.injEq] at h
    subst h
    exact prepare_folderChange_state_final backend sc sd1
      (push_folderChange_in_order _ _ _ _ _ _ h1 (cutmarks_in_order_init _ rfl))

/-! ## A download with nothing to send -/

/-- A folder that reports no deleted message leaves the sync data as it is. -/
theorem messageChange_deleted_none (folder : contents_folder)
    (table_type : mapistore_table_type) (original_cnset_seen : Option idset)
    (sd : oxcfxics_sync_data)
    (hdel : folder.emsmdbp_is_mapistore = true → ∀ deleted cn,
      folder.mapistore_folder_get_deleted_fmids table_type
        (deleted_since_cn original_cnset_seen) = some (deleted, cn) → deleted = []) :
    messageChange_deleted folder table_type original_cnset_seen sd = sd := by
  unfold messageChange_deleted
  by_cases hm : folder.emsmdbp_is_mapistore = true
  · rw [if_pos hm]
    cases hres : folder.mapistore_folder_get_deleted_fmids table_type
        (deleted_since_cn original_cnset_seen) with
    | none => rfl
    | some p =>
      obtain ⟨deleted, cn⟩ := p
      have := hdel hm deleted cn hres
      subst this
      rfl
  · rw [if_neg hm]

/-- The stream, the cutmarks and the sets of a contents synccontext (normal messages only, no
read state) whose table has no row and whose folder reports no deleted message. -/
theorem prepare_messageChange_empty (backend : sync_backend) (folder : contents_folder)
    (sc : emsmdbp_object_synccontext) (table_object : contents_table)
    (hnormal : sc.request.normal = true) (hfai : sc.request.fai = false)
    (hread : sc.request.read_state = false)
    (htable : folder.emsmdbp_folder_open_table .MAPISTORE_MESSAGE_TABLE = some table_object)
    (hrows : table_object.emsmdbp_is_mapistore = true → table_object.rows = [])
    (hdel : folder.emsmdbp_is_mapistore = true → ∀ deleted cn,
      folder.mapistore_folder_get_deleted_fmids .MAPISTORE_MESSAGE_TABLE
        (deleted_since_cn sc.cnset_seen) = some (deleted, cn) → deleted = [])
    (hseen : backend.IDSET_merge_idsets sc.cnset_seen (backend.RAWIDSET_convert_to_idset []) =
      sc.cnset_seen)
    (hgiven : backend.IDSET_merge_idsets sc.idset_given
      (backend.RAWIDSET_convert_to_idset []) = sc.idset_given) :
    oxcfxics_prepare_synccontext_with_messageChange backend folder sc =
      some { sc with
        cutmarks :=
          [4, 8, 8 + (backend.ndr_push_idset sc.cnset_seen).length,
            16 + (backend.ndr_push_idset sc.cnset_seen).length +
              (backend.ndr_push_idset sc.idset_given).length,
            20 + (backend.ndr_push_idset sc.cnset_seen).length +
              (backend.ndr_push_idset sc.idset_given).length,
            0xffffffff]
        stream :=
          { sc.stream with
            buffer :=
              { data := some (le_bytes 4 PR_INCR_SYNC_STATE_BEGIN ++ le_bytes 4 PidTagCnsetSeen ++
                  backend.ndr_push_idset sc.cnset_seen ++ le_bytes 4 PidTagIdsetGiven ++
                  backend.ndr_push_idset sc.idset_given ++ le_bytes 4 PR_INCR_SYNC_STATE_END ++
                  le_bytes 4 PR_INCR_SYNC_END) } } } := by
  have hrows2 : (if table_object.emsmdbp_is_mapistore = true then table_object.rows else []) =
      [] := by
    by_cases hm : table_object.emsmdbp_is_mapistore = true
    · rw [if_pos hm]; exact hrows hm
    · rw [if_neg hm]
  have hpush : oxcfxics_push_messageChange backend folder sc
      { messageChange_sync_data backend sc with
        cnset_seen := [], table_type := some .MAPISTORE_MESSAGE_TABLE } =
      some { messageChange_sync_data backend sc with
        cnset_seen := [], table_type := some .MAPISTORE_MESSAGE_TABLE } := by
    unfold oxcfxics_push_messageChange
    simp only [htable]
    rw [hrows2]
    simp only [messageChange_rows]
    rw [if_neg (by decide)]
    rw [messageChange_deleted_none folder _ _ _ hdel]
  unfold oxcfxics_prepare_synccontext_with_messageChange
  rw [if_pos hnormal]
  unfold prepare_messageChange_table
  rw [hpush]
  simp only
  rw [if_neg (by decide)]
  simp only [hfai, Bool.false_eq_true, if_false]
  unfold prepare_messageChange_deletions
  rw [if_neg (by simp [messageChange_sync_data])]
  simp only
  unfold prepare_messageChange_state
  simp only [hfai, hread, Bool.false_eq_true, if_false, hseen]
  simp [messageChange_sync_data, hgiven, sync_push_marker, sync_push_cutmark, sync_push_uint32,
    sync_push_idset, ndr_push_uint32, ndr_push_bytes, ndr_push.offset, ndr_push_init_ctx,
    le_bytes_length]
  refine ⟨by omega, by omega, by omega⟩

/-- C21. Empty sync.  A contents synccontext with the normal flag only (no FAI, no read
state), whose table of normal messages has no row and whose folder reports no deleted message,
and an idset library for which merging with the conversion of the empty raw set leaves the two
client sets as they are: `oxcfxics_prepare_synccontext_with_messageChange` returns, and the
stream it gives is exactly the marker `IncrSyncStateBegin`, `PidTagCnsetSeen` with the
serialized client `cnset_seen`, `PidTagIdsetGiven` with the serialized client `idset_given`,
and the markers `IncrSyncStateEnd` and `IncrSyncEnd`.  A first read of such a synccontext with
a buffer size larger than the stream returns the whole stream as one chunk, with the status
`TransferStatus_Done` and a total step count of 1. -/
theorem C21_empty_sync (backend : sync_backend) (folder : contents_folder)
    (sc : emsmdbp_object_synccontext) (table_object : contents_table)
    (pf : emsmdbp_object_synccontext → emsmdbp_object_synccontext)
    (request : FastTransferSourceGetBuffer_req)
    (hcontents : sc.request.contents_mode = true)
    (hnormal : sc.request.normal = true) (hfai : sc.request.fai = false)
    (hread : sc.request.read_state = false)
    (htable : folder.emsmdbp_folder_open_table .MAPISTORE_MESSAGE_TABLE = some table_object)
    (hrows : table_object.emsmdbp_is_mapistore = true → table_object.rows = [])
    (hdel : folder.emsmdbp_is_mapistore = true → ∀ deleted cn,
      folder.mapistore_folder_get_deleted_fmids .MAPISTORE_MESSAGE_TABLE
        (deleted_since_cn sc.cnset_seen) = some (deleted, cn) → deleted = [])
    (hseen : backend.IDSET_merge_idsets sc.cnset_seen (backend.RAWIDSET_convert_to_idset []) =
      sc.cnset_seen)
    (hgiven : backend.IDSET_merge_idsets sc.idset_given
      (backend.RAWIDSET_convert_to_idset []) = sc.idset_given)
    (hfirst : sc.stream.buffer.data = none) (hpos : sc.stream.position = 0)
    (hsize : (le_bytes 4 PR_INCR_SYNC_STATE_BEGIN ++ le_bytes 4 PidTagCnsetSeen ++
        backend.ndr_push_idset sc.cnset_seen ++ le_bytes 4 PidTagIdsetGiven ++
        backend.ndr_push_idset sc.idset_given ++ le_bytes 4 PR_INCR_SYNC_STATE_END ++
        le_bytes 4 PR_INCR_SYNC_END).length < effective_buffer_size request) :
    (∃ sc1, oxcfxics_prepare_synccontext_with_messageChange backend folder sc = some sc1 ∧
      sc1.stream.buffer.data =
        some (le_bytes 4 PR_INCR_SYNC_STATE_BEGIN ++ le_bytes 4 PidTagCnsetSeen ++
          backend.ndr_push_idset sc.cnset_seen ++ le_bytes 4 PidTagIdsetGiven ++
          backend.ndr_push_idset sc.idset_given ++ le_bytes 4 PR_INCR_SYNC_STATE_END ++
          le_bytes 4 PR_INCR_SYNC_END) ∧
      sc1.cnset_seen = sc.cnset_seen ∧ sc1.idset_given = sc.idset_given) ∧
    (∃ r handle1,
      EcDoRpc_RopFastTransferSourceGetBuffer
          (fun s => (oxcfxics_prepare_synccontext_with_messageChange backend folder s).getD s)
          pf (some (some (EMSMDBP_OBJECT_SYNCCONTEXT sc))) request =
        some (MAPI_E_SUCCESS, { error_code := MAPI_E_SUCCESS, u := some r }, handle1) ∧
      r.TransferBuffer =
        le_bytes 4 PR_INCR_SYNC_STATE_BEGIN ++ le_bytes 4 PidTagCnsetSeen ++
          backend.ndr_push_idset sc.cnset_seen ++ le_bytes 4 PidTagIdsetGiven ++
          backend.ndr_push_idset sc.idset_given ++ le_bytes 4 PR_INCR_SYNC_STATE_END ++
          le_bytes 4 PR_INCR_SYNC_END ∧
      r.TransferStatus = TransferStatus_Done ∧ r.TotalStepCount = 1) := by
  have hprep := prepare_messageChange_empty backend folder sc table_object hnormal hfai hread
    htable hrows hdel hseen hgiven
  constructor
  · exact ⟨_, hprep, rfl, rfl, rfl⟩
  · generalize hstream : le_bytes 4 PR_INCR_SYNC_STATE_BEGIN ++ le_bytes 4 PidTagCnsetSeen ++
        backend.ndr_push_idset sc.cnset_seen ++ le_bytes 4 PidTagIdsetGiven ++
        backend.ndr_push_idset sc.idset_given ++ le_bytes 4 PR_INCR_SYNC_STATE_END ++
        le_bytes 4 PR_INCR_SYNC_END = stream at hprep hsize ⊢
    generalize hpm : (fun s =>
      (oxcfxics_prepare_synccontext_with_messageChange backend folder s).getD s) = pm
    have hpmsc : (pm sc).stream.buffer.data = some stream ∧ (pm sc).stream.position = 0 := by
      rw [← hpm]
      simp only [hprep, Option.getD_some]
      exact ⟨trivial, hpos⟩
    have hmat : (EMSMDBP_OBJECT_SYNCCONTEXT sc).materialize pm pf =
        EMSMDBP_OBJECT_SYNCCONTEXT (pm sc) := by
      simp [emsmdbp_object.materialize, hfirst, hcontents]
    have hdata : ((EMSMDBP_OBJECT_SYNCCONTEXT sc).materialize pm pf).stream.buffer.data =
        some stream := by rw [hmat]; exact hpmsc.1
    have hposm : ((EMSMDBP_OBJECT_SYNCCONTEXT sc).materialize pm pf).stream.position = 0 := by
      rw [hmat]; exact hpmsc.2
    have hblen := DATA_BLOB.length_of_data hdata
    have hbytes := DATA_BLOB.bytes_of_data hdata
    have hscan : cutmark_scan ((EMSMDBP_OBJECT_SYNCCONTEXT sc).materialize pm pf).cutmarks
        ((EMSMDBP_OBJECT_SYNCCONTEXT sc).materialize pm pf).stream.position
        ((EMSMDBP_OBJECT_SYNCCONTEXT sc).materialize pm pf).stream.buffer.length
        (effective_buffer_size request)
        ((EMSMDBP_OBJECT_SYNCCONTEXT sc).materialize pm pf).next_cutmark_ptr =
        some (effective_buffer_size request,
          ((EMSMDBP_OBJECT_SYNCCONTEXT sc).materialize pm pf).next_cutmark_ptr) := by
      unfold cutmark_scan
      rw [if_neg (by rw [hposm, hblen]; omega)]
    obtain ⟨res, hres⟩ := get_buffer_total pm pf (EMSMDBP_OBJECT_SYNCCONTEXT sc) request
      (by omega) ⟨_, hscan⟩
    obtain ⟨r, object1, bs1, q, rfl, hscan1, hchunk, hbuf1, hpos1, _, _, hstatus, htsc, hts,
      _, _⟩ := get_buffer_some pm pf (EMSMDBP_OBJECT_SYNCCONTEXT sc) request
        (by intro t; simp) res hres
    rw [hscan] at hscan1
    simp only [Option.some.injEq, Prod.mk.injEq] at hscan1
    obtain ⟨hbs, _⟩ := hscan1
    subst hbs
    have hbuffer : r.TransferBuffer = stream := by
      rw [hchunk, hbytes, hposm, List.drop_zero]
      exact List.take_of_length_le (by omega)
    have hdata1 : object1.stream.buffer.data = some stream := by rw [hbuf1]; exact hdata
    have hblen1 := DATA_BLOB.length_of_data hdata1
    refine ⟨r, _, hres, hbuffer, ?_, ?_⟩
    · rw [hstatus, if_pos (by rw [hpos1, hposm, hbuffer, hblen1]; omega)]
    · rw [htsc, hts]
      have hfr : (EMSMDBP_OBJECT_SYNCCONTEXT sc).first_read = true := by
        simp [emsmdbp_object.first_read, hfirst]
      rw [if_pos hfr, hblen, Nat.div_eq_of_lt hsize]

/-- C21, at a concrete input: the sample contents synccontext on a folder without messages,
read with a buffer size of 8192. -/
theorem C21_witness :
    (∃ sc1, oxcfxics_prepare_synccontext_with_messageChange sample_backend
        (sample_contents_folder []) sample_contents_synccontext = some sc1 ∧
      sc1.stream.buffer.data =
        some (le_bytes 4 PR_INCR_SYNC_STATE_BEGIN ++ le_bytes 4 PidTagCnsetSeen ++
          [1, 1, 5] ++ le_bytes 4 PidTagIdsetGiven ++ [1, 1, 5] ++
          le_bytes 4 PR_INCR_SYNC_STATE_END ++ le_bytes 4 PR_INCR_SYNC_END) ∧
      sc1.cnset_seen = some sample_idset ∧ sc1.idset_given = some sample_idset) ∧
    (∃ r handle1,
      EcDoRpc_RopFastTransferSourceGetBuffer
          (fun s => (oxcfxics_prepare_synccontext_with_messageChange sample_backend
            (sample_contents_folder []) s).getD s)
          id (some (some (EMSMDBP_OBJECT_SYNCCONTEXT sample_contents_synccontext)))
          (sample_request 8192) =
        some (MAPI_E_SUCCESS, { error_code := MAPI_E_SUCCESS, u := some r }, handle1) ∧
      r.TransferBuffer =
        le_bytes 4 PR_INCR_SYNC_STATE_BEGIN ++ le_bytes 4 PidTagCnsetSeen ++
          [1, 1, 5] ++ le_bytes 4 PidTagIdsetGiven ++ [1, 1, 5] ++
          le_bytes 4 PR_INCR_SYNC_STATE_END ++ le_bytes 4 PR_INCR_SYNC_END ∧
      r.TransferStatus = TransferStatus_Done ∧ r.TotalStepCount = 1) :=
  C21_empty_sync sample_backend (sample_contents_folder []) sample_contents_synccontext
    { emsmdbp_is_mapistore := true, rows := [] } id (sample_request 8192) rfl rfl rfl rfl rfl
    (fun _ => rfl) (fun _ deleted cn h => by cases h; rfl) rfl rfl rfl rfl (by decide)

/-! ## A row whose change number the client has seen -/

/-- C26 (counterexample). The row of the message `0x10001` with the change number `0x20001`,
read for a client whose `cnset_seen` holds the range `[1, 5]`, is skipped: nothing is pushed on
the stream, no cutmark is recorded and nothing is added to the collected `cnset_seen`; but the
id 1 of the message has been added to the collected `eid_set`, from which the new
`idset_given` is made: with this row alone in the folder, the `idset_given` of the
synccontext after the materialization holds the id 1 beside the range `[1, 5]` of the
client, where it holds the range of the client alone when the folder has no row. -/
theorem C26_counterexample :
    (messageChange_row sample_backend (sample_contents_folder [])
        sample_contents_synccontext.request (some sample_idset) sample_contents_properties
        (sample_message_row 0x20001) sample_sync_data).map
      (fun sd => (sd.ndr.data, sd.cutmarks_ndr, sd.cnset_seen, sd.eid_set)) =
      some ([], [], [], [(sample_guid, 1)]) ∧
    sample_sync_data.eid_set = [] ∧
    (oxcfxics_prepare_synccontext_with_messageChange sample_backend
        (sample_contents_folder [some (sample_message_row 0x20001)])
        sample_contents_synccontext).map
      (fun sc => (sc.idset_given.map (fun s => s.head.ranges), sc.stream.buffer.data)) =
      some (some [(1, 5), (1, 1)],
        some [3, 0, 58, 64, 2, 1, 150, 103, 1, 1, 5, 3, 0, 23, 64, 2, 1, 5, 1, 1,
          3, 0, 59, 64, 3, 0, 20, 64]) ∧
    (oxcfxics_prepare_synccontext_with_messageChange sample_backend
        (sample_contents_folder []) sample_contents_synccontext).map
      (fun sc => (sc.idset_given.map (fun s => s.head.ranges), sc.stream.buffer.data)) =
      some (some [(1, 5)],
        some [3, 0, 58, 64, 2, 1, 150, 103, 1, 1, 5, 3, 0, 23, 64, 1, 1, 5,
          3, 0, 59, 64, 3, 0, 20, 64]) := by
  refine ⟨by decide, by decide, by decide, by decide⟩

/-- C26 (amended). A row of a contents table that reaches the test of its change number (its
id is valid, its message opens, the lookups of its replica and of its source key succeed, its
modification time and its change number can be read) and whose change number is included in
the `cnset_seen` of the client is skipped: `oxcfxics_push_messageChange` pushes no byte and no
cutmark for it and adds nothing to the collected `cnset_seen`, nor to the deleted ids; it has
added the id of the message to the collected `eid_set`, which is merged into the
`idset_given` at the end. -/
theorem C26_seen_row_adds_only_its_id (backend : sync_backend) (folder : contents_folder)
    (request : synccontext_request) (original_cnset_seen : Option idset)
    (properties : List Nat) (row : table_row) (sd : oxcfxics_sync_data)
    (eid change_number : Nat) (message : opened_message) (replica_guid : GUID)
    (source_key : Binary_r) (lm_time : FILETIME)
    (heid : read_uint64 row.data_pointers sd.prop_index.eid = some eid)
    (hvalid : eid ≠ 0x7fffffffffffffff)
    (hopen : folder.emsmdbp_object_message_open eid = some message)
    (hguid : backend.emsmdbp_replid_to_guid (eid % 2 ^ 16) = some replica_guid)
    (hkey : backend.emsmdbp_source_key_from_fmid eid = some source_key)
    (htime : header_last_modification_time backend row
      sd.prop_index.last_modification_time = some lm_time)
    (hstatus : retval_set row.retvals sd.prop_index.change_number = some false)
    (hcn : read_uint64 row.data_pointers sd.prop_index.change_number = some change_number)
    (hseen : backend.IDSET_includes_guid_glob original_cnset_seen sd.replica_guid
      (change_number / 2 ^ 16) = true) :
    ∃ sd1, messageChange_row backend folder request original_cnset_seen properties row sd =
        some sd1 ∧
      sd1.ndr = sd.ndr ∧ sd1.cutmarks_ndr = sd.cutmarks_ndr ∧
      sd1.cnset_seen = sd.cnset_seen ∧ sd1.deleted_eid_set = sd.deleted_eid_set ∧
      sd1.eid_set = sd.eid_set ++ [(replica_guid, eid / 2 ^ 16)] := by
  refine ⟨{ sd with
    eid_set := RAWIDSET_push_guid_glob sd.eid_set replica_guid (eid / 2 ^ 16) }, ?_, rfl, rfl,
    rfl, rfl, rfl⟩
  unfold messageChange_row messageChange_header
  simp only [heid, hopen, hguid, hkey, htime, hstatus, hcn]
  rw [if_neg hvalid]
  simp only [hseen, if_true]

/-- C26 amended, at a concrete input: the row of the message `0x10001` with the change
number `0x20001`, for a client that has seen the change numbers 1 to 5. -/
theorem C26_witness :
    ∃ sd1, messageChange_row sample_backend (sample_contents_folder [])
        sample_contents_synccontext.request (some sample_idset) sample_contents_properties
        (sample_message_row 0x20001) sample_sync_data = some sd1 ∧
      sd1.ndr = sample_sync_data.ndr ∧ sd1.cutmarks_ndr = sample_sync_data.cutmarks_ndr ∧
      sd1.cnset_seen = sample_sync_data.cnset_seen ∧
      sd1.deleted_eid_set = sample_sync_data.deleted_eid_set ∧
      sd1.eid_set = sample_sync_data.eid_set ++ [(sample_guid, 0x10001 / 2 ^ 16)] :=
  C26_seen_row_adds_only_its_id sample_backend (sample_contents_folder [])
    sample_contents_synccontext.request (some sample_idset) sample_contents_properties
    (sample_message_row 0x20001) sample_sync_data 0x10001 0x20001 sample_opened_message
    sample_guid
    { cb := 22, lpb := [0, 0, 0, 0, 0, 0, 0, 0, 0, 0, 0, 0, 0, 0, 0, 0, 1, 0, 0, 0, 0, 0] }
    { dwLowDateTime := 1, dwHighDateTime := 2 } (by decide) (by decide) rfl rfl (by decide)
    (by decide) (by decide) (by decide) (by decide)

/-! ## The properties that follow the header of a row -/

theorem sync_push_properties_nil (get_nameid : Nat → Option MAPINAMEID)
    (sd : oxcfxics_sync_data) (data_pointers : List prop_data) (retvals : List MAPISTATUS) :
    sync_push_properties get_nameid sd [] data_pointers retvals = some sd := by
  simp [sync_push_properties, oxcfxics_ndr_push_properties]

/-- C24. What `oxcfxics_push_messageChange` pushes after the marker `IncrSyncMsg`.  For a
property list made of the eight mandatory properties of the contents mode followed by further
entries, the entries pushed are those from index 9 on (lines 783-786): the first entry that
follows the mandatory ones, at index 8, is passed over whatever its value and its status.  On
the sample list (the mandatory properties followed by the subject and the importance) and a
row in which every property has a value, the bytes pushed after the marker are the block of
the importance alone, and the stream of the whole row has no block for the subject. -/
theorem C24_remaining_properties_from_index_nine (backend : sync_backend) (first : Nat)
    (rest : List Nat) (row : table_row) (sd : oxcfxics_sync_data) :
    messageChange_remaining backend (mandatory_properties true ++ first :: rest) row sd =
      sync_push_properties backend.mapistore_namedprops_get_nameid sd rest
        (row.data_pointers.drop 9) (row.retvals.drop 9) ∧
    (mandatory_properties true).length = 8 ∧
    sample_contents_properties =
      mandatory_properties true ++ sample_subject_tag :: [sample_importance_tag] ∧
    (messageChange_remaining sample_backend sample_contents_properties
        (sample_message_row 0x70001) sample_sync_data).map
      (fun sd => (sd.ndr.data, sd.cutmarks_ndr)) =
      some (le_bytes 4 sample_importance_tag ++ [1, 0, 0, 0], [4, 8]) ∧
    (messageChange_row sample_backend (sample_contents_folder [])
        sample_contents_synccontext.request (some sample_idset) sample_contents_properties
        (sample_message_row 0x70001) sample_sync_data).map (fun sd => sd.ndr.data) =
      some ([3, 0, 18, 64,
          2, 1, 224, 101, 22, 0, 0, 0, 0, 0, 0, 0, 0, 0, 0, 0, 0, 0, 0, 0, 0, 0, 0, 0,
            1, 0, 0, 0, 0, 0,
          64, 0, 8, 48, 1, 0, 0, 0, 2, 0, 0, 0,
          2, 1, 226, 101, 2, 0, 0, 0, 170, 187,
          2, 1, 227, 101, 3, 0, 0, 0, 2, 170, 187,
          11, 0, 170, 103, 0, 0,
          3, 0, 21, 64] ++
        (le_bytes 4 sample_importance_tag ++ [1, 0, 0, 0]) ++
        [3, 0, 22, 64, 13, 0, 18, 14,
          3, 0, 3, 64, 3, 0, 0, 48, 0, 0, 0, 0,
          31, 0, 1, 48, 4, 0, 0, 0, 114, 0, 0, 0,
          3, 0, 21, 12, 1, 0, 0, 0,
          31, 0, 1, 48, 4, 0, 0, 0, 114, 0, 0, 0,
          3, 0, 4, 64,
          3, 0, 22, 64, 13, 0, 19, 14,
          3, 0, 0, 64, 3, 0, 33, 14, 0, 0, 0, 0,
          3, 0, 5, 55, 1, 0, 0, 0,
          3, 0, 14, 64]) := by
  refine ⟨?_, by decide, by decide, by decide, rfl⟩
  unfold messageChange_remaining
  have hlen : (mandatory_properties true ++ first :: rest).length = 9 + rest.length := by
    simp [mandatory_properties]
    omega
  have hdrop : (mandatory_properties true ++ first :: rest).drop 9 = rest := by
    simp [mandatory_properties]
  rw [hlen, hdrop]
  cases rest with
  | nil =>
    rw [if_neg (by simp), sync_push_properties_nil]
  | cons r rs =>
    rw [if_pos (by simp)]

/-- C25. What `oxcfxics_push_folderChange` pushes after the header of a folder.  For a
property list made of the seven mandatory properties of the hierarchy mode followed by further
entries, the entries pushed after the header are those from index 5 on (lines 1110-1113): the
last modification time and the display name, which are mandatory and which the header has
pushed already, and then the further entries.  On the sample list (the mandatory properties
followed by the folder type) and a row in which every property has a value, the header has
the tags of the parent source key, the source key, the last modification time, the change
key, the predecessor change list and the display name, and the bytes pushed after it are the
blocks of the last modification time, of the display name and of the folder type. -/
theorem C25_remaining_properties_from_index_five (backend : sync_backend) (rest : List Nat)
    (row : table_row) (sd : oxcfxics_sync_data) :
    folderChange_remaining backend (mandatory_properties false ++ rest) row sd =
      sync_push_properties backend.mapistore_namedprops_get_nameid sd
        (PR_LAST_MODIFICATION_TIME :: PR_DISPLAY_NAME_UNICODE :: rest)
        (row.data_pointers.drop 5) (row.retvals.drop 5) ∧
    (mandatory_properties false).length = 7 ∧
    sample_hierarchy_properties = mandatory_properties false ++ [sample_folder_type_tag] ∧
    (folderChange_header sample_backend sample_hierarchy_synccontext true
        (sample_folder_row 0x20001)
        (folderChange_sync_data sample_backend sample_hierarchy_synccontext)).map
      (fun r => r.map (fun p => p.2.map (fun header => header.map (fun e => e.1)))) =
      some (some (some [PR_PARENT_SOURCE_KEY, PR_SOURCE_KEY, PR_LAST_MODIFICATION_TIME,
        PR_CHANGE_KEY, PR_PREDECESSOR_CHANGE_LIST, PR_DISPLAY_NAME_UNICODE])) ∧
    (folderChange_remaining sample_backend sample_hierarchy_properties
        (sample_folder_row 0x20001)
        (folderChange_sync_data sample_backend sample_hierarchy_synccontext)).map
      (fun sd => (sd.ndr.data, sd.cutmarks_ndr)) =
      some (le_bytes 4 PR_LAST_MODIFICATION_TIME ++ [1, 0, 0, 0, 2, 0, 0, 0] ++
          (le_bytes 4 PR_DISPLAY_NAME_UNICODE ++ [4, 0, 0, 0, 102, 0, 0, 0]) ++
          (le_bytes 4 sample_folder_type_tag ++ [1, 0, 0, 0]),
        [4, 12, 16, 24, 28, 32]) ∧
    (folderChange_row sample_backend sample_hierarchy_synccontext true
        (sample_folder_row 0x20001)
        (folderChange_sync_data sample_backend sample_hierarchy_synccontext)).map
      (fun r => r.1.ndr.data) =
      some ([3, 0, 18, 64,
          2, 1, 225, 101, 0, 0, 0, 0,
          2, 1, 224, 101, 22, 0, 0, 0, 0, 0, 0, 0, 0, 0, 0, 0, 0, 0, 0, 0, 0, 0, 0, 0,
            2, 0, 0, 0, 0, 0,
          64, 0, 8, 48, 1, 0, 0, 0, 2, 0, 0, 0,
          2, 1, 226, 101, 22, 0, 0, 0, 0, 0, 0, 0, 0, 0, 0, 0, 0, 0, 0, 0, 0, 0, 0, 0,
            7, 0, 0, 0, 0, 0,
          2, 1, 227, 101, 23, 0, 0, 0, 22, 0, 0, 0, 0, 0, 0, 0, 0, 0, 0, 0, 0, 0, 0, 0, 0,
            7, 0, 0, 0, 0, 0,
          31, 0, 1, 48, 4, 0, 0, 0, 102, 0, 0, 0] ++
        (le_bytes 4 PR_LAST_MODIFICATION_TIME ++ [1, 0, 0, 0, 2, 0, 0, 0] ++
          (le_bytes 4 PR_DISPLAY_NAME_UNICODE ++ [4, 0, 0, 0, 102, 0, 0, 0]) ++
          (le_bytes 4 sample_folder_type_tag ++ [1, 0, 0, 0]))) := by
  refine ⟨?_, by decide, by decide, by decide, by decide, rfl⟩
  unfold folderChange_remaining
  have hlen : (mandatory_properties false ++ rest).length = 7 + rest.length := by
    simp [mandatory_properties]
    omega
  have hdrop : (mandatory_properties false ++ rest).drop 5 =
      PR_LAST_MODIFICATION_TIME :: PR_DISPLAY_NAME_UNICODE :: rest := by
    simp [mandatory_properties]
  rw [hlen, hdrop, if_pos (by omega)]

/-- C28. The cutmarks of a materialized stream.  Whenever
`oxcfxics_prepare_synccontext_with_messageChange` or
`oxcfxics_prepare_synccontext_with_folderChange` returns, whatever the backend, the folder and
the synccontext, the synccontext holds a stream and a cutmark array that is a list of marks
followed by `0xffffffff`; the marks do not decrease, none is larger than the length of the
stream, and the last one is the length of the stream; and when the stream is shorter than
`0xffffffff` bytes (offsets are `uint32_t`), `0xffffffff` is not among the marks, so the
terminator occurs as the last element only. -/
theorem C28_cutmarks_of_materialized_stream (backend : sync_backend)
    (folder : contents_folder) (hierarchy : hierarchy_folder)
    (sc sc1 : emsmdbp_object_synccontext)
    (h : oxcfxics_prepare_synccontext_with_messageChange backend folder sc = some sc1 ∨
      oxcfxics_prepare_synccontext_with_folderChange backend hierarchy sc = some sc1) :
    ∃ stream marks, sc1.stream.buffer.data = some stream ∧
      sc1.cutmarks = marks ++ [0xffffffff] ∧
      marks.Pairwise (fun a b => a ≤ b) ∧ (∀ m ∈ marks, m ≤ stream.length) ∧
      marks.getLast? = some stream.length ∧
      (stream.length < 0xffffffff → 0xffffffff ∉ marks) := by
  rcases h with h | h
  · exact cutmarks_of_stream_end sc1 (prepare_messageChange_final backend folder sc sc1 h)
  · exact cutmarks_of_stream_end sc1 (prepare_folderChange_final backend hierarchy sc sc1 h)

/-- C28, at a concrete input: the sample contents synccontext materialized on a folder with
one message to emit (with a recipient and an attachment) and one row to skip. -/
theorem C28_witness :
    ∃ stream marks, sample_contents_materialized.stream.buffer.data = some stream ∧
      sample_contents_materialized.cutmarks = marks ++ [0xffffffff] ∧
      marks.Pairwise (fun a b => a ≤ b) ∧ (∀ m ∈ marks, m ≤ stream.length) ∧
      marks.getLast? = some stream.length ∧
      (stream.length < 0xffffffff → 0xffffffff ∉ marks) :=
  C28_cutmarks_of_materialized_stream sample_backend
    (sample_contents_folder [some (sample_message_row 0x70001),
      some (sample_message_row 0x20001)])
    sample_hierarchy sample_contents_synccontext sample_contents_materialized (Or.inl rfl)

end OpenChange
